import Mathlib

/-! # httpofo: a shallow embedding of the SLIP / IPv4 / ICMP / TCP stack (`network.c`)

Conventions of the embedding.

* Machine integers are natural numbers; every place where the C code can wrap
  carries an explicit `% 2 ^ w` (`unsigned char` 8 bits, `unsigned short` and
  `int` 16 bits, `unsigned long` 32 bits, as on the 16-bit DOS target).
* A buffer (`unsigned char *`) is a `List Nat`; `p[i]` is `p.getD i 0`,
  `&p[k]` is `p.drop k`, and a store `p[i] = v` is `p.set i v`.
* Global variables are fields of explicit state records (`Slip`, `Net`).
* Bytes written with `tx_putchar`, console lines written with `printf` and the
  calls of the three application callbacks are appended, in program order, to
  the trace `Net.out`. The answer of `app_tcp_accept` is a parameter.
* `app_tcp_accept` and `app_tcp_state_changed` make no call into the stack.
  `app_tcp_data_received` does: `http_process` calls `tcp_send` and `tcp_close`
  when a request is complete. The definitions `tcp_dispatch_app`,
  `tcp_input_app` and `tcp_receive_app` take what the data callback does to the
  globals as the parameter `on_data`; `tcp_dispatch`, `tcp_input` and
  `tcp_receive` are the case of a data callback that makes no call.
* `get_tick_count()` is the parameter `now` of every operation that reads it.
* `LOCAL_IP` is not defined in the sources at hand; it is the field
  `Net.LOCAL_IP`.
-/

namespace Httpofo

/-! ## Protocol constants (`network.h`) -/

abbrev IP_PROTO_ICMP : Nat := 1
abbrev IP_PROTO_TCP : Nat := 6
abbrev IP_PROTO_UDP : Nat := 17
abbrev IP_HEADER_LEN : Nat := 20

abbrev TCP_SRC_PORT : Nat := 0
abbrev TCP_DST_PORT : Nat := 2
abbrev TCP_SEQ_OFF : Nat := 4
abbrev TCP_ACK_OFF : Nat := 8
abbrev TCP_DATA_OFF : Nat := 12
abbrev TCP_FLAGS : Nat := 13
abbrev TCP_WINDOW : Nat := 14
abbrev TCP_CHECKSUM : Nat := 16
abbrev TCP_URGENT : Nat := 18
abbrev TCP_HEADER_LEN : Nat := 20

abbrev TCP_FIN : Nat := 0x01
abbrev TCP_SYN : Nat := 0x02
abbrev TCP_RST : Nat := 0x04
abbrev TCP_PSH : Nat := 0x08
abbrev TCP_ACK : Nat := 0x10
abbrev TCP_URG : Nat := 0x20

abbrev TCP_STATE_CLOSED : Nat := 0
abbrev TCP_STATE_LISTEN : Nat := 1
abbrev TCP_STATE_SYN_SENT : Nat := 2
abbrev TCP_STATE_SYN_RECEIVED : Nat := 3
abbrev TCP_STATE_ESTABLISHED : Nat := 4
abbrev TCP_STATE_FIN_WAIT_1 : Nat := 5
abbrev TCP_STATE_FIN_WAIT_2 : Nat := 6
abbrev TCP_STATE_CLOSING : Nat := 7
abbrev TCP_STATE_TIME_WAIT : Nat := 8

abbrev SLIP_END : Nat := 0xC0
abbrev SLIP_ESC : Nat := 0xDB
abbrev SLIP_ESC_END : Nat := 0xDC
abbrev SLIP_ESC_ESC : Nat := 0xDD

abbrev RX_BUF_SIZE : Nat := 256
abbrev PKT_BUF_SIZE : Nat := 576

/-! ## SLIP layer -/

/-- The globals of the SLIP receiver: `pkt_buf`, `pkt_len`, `slip_escaped`. -/
structure Slip where
  pkt_buf : List Nat
  pkt_len : Nat
  slip_escaped : Nat
deriving DecidableEq, Repr

/-- The receiver at program start: zeroed scratch, nothing received, no escape pending. -/
def Slip.init : Slip :=
  { pkt_buf := List.replicate PKT_BUF_SIZE 0, pkt_len := 0, slip_escaped := 0 }

/-- The guarded store `if (pkt_len < PKT_BUF_SIZE) pkt_buf[pkt_len++] = c;` of `slip_poll`. -/
def slip_store (c : Nat) (s : Slip) : Slip :=
  if s.pkt_len < PKT_BUF_SIZE then
    { s with pkt_buf := s.pkt_buf.set s.pkt_len c, pkt_len := s.pkt_len + 1 }
  else s

/-- The function `slip_poll`: the first argument is the content of the serial receive ring
(what successive `rx_getchar` calls return). The result is the return value, the bytes left
in the ring and the receiver globals. -/
def slip_poll : List Nat → Slip → Nat × List Nat × Slip
  | [], s => (0, [], s)
  | c :: rx, s =>
    if s.slip_escaped ≠ 0 then
      let c1 := if c = SLIP_ESC_END then SLIP_END else if c = SLIP_ESC_ESC then SLIP_ESC else c
      slip_poll rx (slip_store c1 { s with slip_escaped := 0 })
    else if c = SLIP_END then
      if s.pkt_len > 0 then (1, rx, s) else slip_poll rx s
    else if c = SLIP_ESC then
      slip_poll rx { s with slip_escaped := 1 }
    else
      slip_poll rx (slip_store c s)

/-- The bytes `slip_send` writes for one data byte. -/
def slip_send_byte (c : Nat) : List Nat :=
  if c = SLIP_END then [SLIP_ESC, SLIP_ESC_END]
  else if c = SLIP_ESC then [SLIP_ESC, SLIP_ESC_ESC]
  else [c]

/-- The loop `for (i = 0; i < len; i++)` of `slip_send`, started at index `i` with
`fuel` iterations allowed (the caller gives `len`, which is enough). -/
def slip_send_loop (data : List Nat) (len : Nat) : Nat → Nat → List Nat
  | 0, _ => []
  | fuel + 1, i =>
    if i < len then slip_send_byte (data.getD i 0) ++ slip_send_loop data len fuel (i + 1)
    else []

/-- The function `slip_send`; the result is the sequence of bytes handed to `tx_putchar`.
The parameter `len` is an `unsigned char`: the value a caller passes is reduced modulo 256. -/
def slip_send (data : List Nat) (len : Nat) : List Nat :=
  [SLIP_END] ++ slip_send_loop data (len % 256) (len % 256) 0 ++ [SLIP_END]

/-- The escaped form of a byte string: what `slip_send` puts between the two END bytes. -/
def slip_escape : List Nat → List Nat
  | [] => []
  | c :: cs => slip_send_byte c ++ slip_escape cs

/-! ## Helper functions -/

/-- The 16-bit word `((unsigned short)data[i] << 8) | data[i + 1]`. -/
def word_at (data : List Nat) (i : Nat) : Nat :=
  ((data.getD i 0) <<< 8) ||| data.getD (i + 1) 0

/-- The loop `for (i = 0; i + 1 < len; i += 2) sum += word` of `checksum` and `tcp_checksum`,
started at index `i` with accumulator `sum` (an `unsigned long`) and `fuel` iterations
allowed (the callers give `len`, which is enough). The 16-bit index cannot wrap: the test
fails at the latest for `i = 65534`. -/
def sum_words (data : List Nat) (len : Nat) : Nat → Nat → Nat → Nat
  | 0, _, sum => sum
  | fuel + 1, i, sum =>
    if i + 1 < len then sum_words data len fuel (i + 2) ((sum + word_at data i) % 2 ^ 32)
    else sum

/-- The sum of the `k` 16-bit words of `data` that start at index `i`, as a natural number
without truncation (what the accumulator of `sum_words` holds while it does not overflow). -/
def words_total (data : List Nat) : Nat → Nat → Nat
  | 0, _ => 0
  | k + 1, i => word_at data i + words_total data k (i + 2)

/-- The step `if (len & 1) sum += (unsigned short)data[len - 1] << 8;`. -/
def add_odd_byte (data : List Nat) (len : Nat) (sum : Nat) : Nat :=
  if len &&& 1 ≠ 0 then (sum + ((data.getD (len - 1) 0) <<< 8)) % 2 ^ 32 else sum

/-- The sum of the 16-bit words of the first `len` bytes of `data`, an odd last byte
counted as the high byte of a word, as a natural number without truncation. -/
def bytes_total (data : List Nat) (len : Nat) : Nat :=
  words_total data (len / 2) 0 + (if len % 2 = 1 then data.getD (len - 1) 0 * 256 else 0)

/-- The loop `while (sum >> 16) sum = (sum & 0xFFFF) + (sum >> 16);` with `fuel`
iterations allowed. Every iteration makes `sum` smaller, so `sum` itself is enough fuel. -/
def fold_carry : Nat → Nat → Nat
  | 0, sum => sum
  | fuel + 1, sum =>
    if sum >>> 16 ≠ 0 then fold_carry fuel ((sum &&& 0xFFFF) + (sum >>> 16)) else sum

/-- The value of `sum` in `checksum` when the end-around-carry loop has finished: the
one's-complement 16-bit sum of the buffer. -/
def checksum_sum (data : List Nat) (len : Nat) : Nat :=
  let sum := add_odd_byte data len (sum_words data len len 0 0)
  fold_carry sum sum

/-- The conversion `(unsigned short)(~sum)` of a 32-bit `sum`. -/
def complement16 (sum : Nat) : Nat := (0xFFFFFFFF - sum % 2 ^ 32) % 0x10000

/-- The function `checksum`. -/
def checksum (data : List Nat) (len : Nat) : Nat :=
  complement16 (checksum_sum data len)

/-- The function `get_u32`, reading at `&p[off]`. -/
def get_u32 (p : List Nat) (off : Nat) : Nat :=
  (((p.getD off 0) <<< 24) ||| ((p.getD (off + 1) 0) <<< 16) |||
    ((p.getD (off + 2) 0) <<< 8) ||| p.getD (off + 3) 0) % 2 ^ 32

/-- The function `put_u32`, writing at `&p[off]`. -/
def put_u32 (p : List Nat) (off : Nat) (val : Nat) : List Nat :=
  (((p.set off ((val >>> 24) % 256)).set (off + 1) ((val >>> 16) % 256)).set (off + 2)
    ((val >>> 8) % 256)).set (off + 3) (val % 256)

/-- The function `get_u16`, reading at `&p[off]`. -/
def get_u16 (p : List Nat) (off : Nat) : Nat :=
  (((p.getD off 0) <<< 8) ||| p.getD (off + 1) 0) % 2 ^ 16

/-- The function `put_u16`, writing at `&p[off]`. -/
def put_u16 (p : List Nat) (off : Nat) (val : Nat) : List Nat :=
  (p.set off ((val >>> 8) % 256)).set (off + 1) (val % 256)

/-- The library call `memcpy(&dst[off], src, n)`, for a copy that stays inside the
destination. A copy that runs past the end of the modelled destination makes the list
longer; what the C program overwrites behind the buffer in that case is not described by
this definition. -/
def memcpy (dst : List Nat) (off : Nat) (src : List Nat) (n : Nat) : List Nat :=
  dst.take off ++ (List.range n).map (fun i => src.getD i 0) ++ dst.drop (off + n)

/-! ## Observable effects and the global state -/

/-- What the stack does to its environment: a byte handed to `tx_putchar`, a console line
written with `printf`, or a call of an application callback. -/
inductive Event where
  | tx_putchar (c : Nat)
  | printf_ping (b0 b1 b2 b3 seq : Nat)
  | printf_queued (pending : Nat)
  | printf_dequeue (remaining : Nat)
  | printf_retransmit (attempt : Nat)
  | printf_retransmit_failed
  | app_tcp_accept (remote_ip remote_port : Nat)
  | app_tcp_state_changed (old_state new_state remote_ip remote_port : Nat)
  | app_tcp_data_received (data : List Nat) (len : Nat)
deriving DecidableEq, Repr

/-- The record `struct pending_conn`. -/
structure pending_conn where
  remote_ip : Nat
  remote_port : Nat
  their_seq : Nat
  timestamp : Nat
  valid : Nat
deriving DecidableEq, Repr, Inhabited

abbrev RETX_BUF_SIZE : Nat := 64
abbrev RETX_TIMEOUT : Nat := 2
abbrev RETX_MAX_ATTEMPTS : Nat := 3
abbrev CONN_QUEUE_SIZE : Nat := 16
abbrev CONN_QUEUE_TIMEOUT : Nat := 10

/-- The globals of the IP, ICMP and TCP layers, and the trace `out` of observable effects.
The scratch buffers `tx_buf`, `tcp_buf` and `pseudo_hdr` are not fields: every byte the code
reads from them is written earlier in the same call, so they are local values of the
functions that fill them. -/
structure Net where
  LOCAL_IP : Nat
  ip_id : Nat
  ping_replied : Nat
  tcp_state : Nat
  tcp_remote_ip : Nat
  tcp_local_port : Nat
  tcp_remote_port : Nat
  tcp_seq_num : Nat
  tcp_ack_num : Nat
  tcp_last_ack : Nat
  retx_buf : List Nat
  retx_len : Nat
  retx_seq : Nat
  retx_time : Nat
  retx_attempts : Nat
  conn_queue : List pending_conn
  conn_queue_count : Nat
  out : List Event
deriving DecidableEq, Repr

/-- The globals at program start (static initialisers of `network.c`), for a given local
address. -/
def Net.init (local_ip : Nat) : Net :=
  { LOCAL_IP := local_ip, ip_id := 1, ping_replied := 0,
    tcp_state := TCP_STATE_CLOSED, tcp_remote_ip := 0, tcp_local_port := 0,
    tcp_remote_port := 0, tcp_seq_num := 0, tcp_ack_num := 0, tcp_last_ack := 0,
    retx_buf := List.replicate RETX_BUF_SIZE 0, retx_len := 0, retx_seq := 0, retx_time := 0,
    retx_attempts := 0,
    conn_queue := List.replicate CONN_QUEUE_SIZE ⟨0, 0, 0, 0, 0⟩, conn_queue_count := 0,
    out := [] }

/-- Append events to the trace. -/
def Net.emit (s : Net) (es : List Event) : Net := { s with out := s.out ++ es }

/-! ## IP output -/

abbrev IP_VER_IHL : Nat := 0
abbrev IP_TOS : Nat := 1
abbrev IP_TOTAL_LEN : Nat := 2
abbrev IP_ID : Nat := 4
abbrev IP_FRAG : Nat := 6
abbrev IP_TTL : Nat := 8
abbrev IP_PROTO : Nat := 9
abbrev IP_CHECKSUM : Nat := 10
abbrev IP_SRC_IP : Nat := 12
abbrev IP_DST_IP : Nat := 16

/-- The content of `tx_buf` that `ip_send` builds before it calls `slip_send`.
`payload_len` is already the `unsigned char` value. -/
def ip_datagram (local_ip ip_id dst_ip protocol : Nat) (payload : List Nat)
    (payload_len : Nat) : List Nat :=
  let total_len := (IP_HEADER_LEN + payload_len) % 2 ^ 16
  let tx := List.replicate PKT_BUF_SIZE 0
  let tx := tx.set IP_VER_IHL 0x45
  let tx := tx.set IP_TOS 0
  let tx := put_u16 tx IP_TOTAL_LEN total_len
  let tx := put_u16 tx IP_ID ip_id
  let tx := put_u16 tx IP_FRAG 0
  let tx := tx.set IP_TTL 64
  let tx := tx.set IP_PROTO protocol
  let tx := put_u16 tx IP_CHECKSUM 0
  let tx := put_u32 tx IP_SRC_IP local_ip
  let tx := put_u32 tx IP_DST_IP dst_ip
  let cksum := checksum tx IP_HEADER_LEN
  let tx := put_u16 tx IP_CHECKSUM cksum
  memcpy tx IP_HEADER_LEN payload payload_len

/-- The function `ip_send`. The parameter `payload_len` is an `unsigned char` (reduced
modulo 256); `slip_send` receives `(unsigned char)total_len`. -/
def ip_send (dst_ip protocol : Nat) (payload : List Nat) (payload_len : Nat) (s : Net) : Net :=
  let payload_len := payload_len % 256
  let total_len := (IP_HEADER_LEN + payload_len) % 2 ^ 16
  let tx := ip_datagram s.LOCAL_IP s.ip_id dst_ip protocol payload payload_len
  { s with
    ip_id := (s.ip_id + 1) % 2 ^ 16
    out := s.out ++ (slip_send tx (total_len % 256)).map Event.tx_putchar }

/-! ## ICMP -/

abbrev ICMP_ECHO_REPLY : Nat := 0
abbrev ICMP_ECHO_REQUEST : Nat := 8
abbrev ICMP_TYPE : Nat := 0
abbrev ICMP_CODE : Nat := 1
abbrev ICMP_CHECKSUM : Nat := 2
abbrev ICMP_ID : Nat := 4
abbrev ICMP_SEQ : Nat := 6
abbrev ICMP_HEADER_LEN : Nat := 8

/-- The function `icmp_receive`. It writes into the message it is given, so the result
carries the message buffer after the call next to the globals. -/
def icmp_receive (pkt : List Nat) (len : Nat) (src_ip : Nat) (s : Net) : List Nat × Net :=
  if len < ICMP_HEADER_LEN then (pkt, s)
  else
    let cksum := get_u16 pkt ICMP_CHECKSUM
    let pkt := put_u16 pkt ICMP_CHECKSUM 0
    let calc_cksum := checksum pkt len
    let pkt := put_u16 pkt ICMP_CHECKSUM cksum
    if calc_cksum ≠ cksum then (pkt, s)
    else
      let type := pkt.getD ICMP_TYPE 0
      let seq := get_u16 pkt ICMP_SEQ
      if type = ICMP_ECHO_REQUEST then
        let s := s.emit [Event.printf_ping ((src_ip >>> 24) % 256) ((src_ip >>> 16) % 256)
          ((src_ip >>> 8) % 256) (src_ip % 256) seq]
        let pkt := pkt.set ICMP_TYPE ICMP_ECHO_REPLY
        let pkt := pkt.set ICMP_CODE 0
        let pkt := put_u16 pkt ICMP_CHECKSUM 0
        let cksum := checksum pkt len
        let pkt := put_u16 pkt ICMP_CHECKSUM cksum
        let s := ip_send src_ip IP_PROTO_ICMP pkt len s
        (pkt, { s with ping_replied := (s.ping_replied + 1) % 2 ^ 16 })
      else (pkt, s)

/-- The function `udp_receive`: a stub that does nothing. -/
def udp_receive (_pkt : List Nat) (_len : Nat) (_src_ip : Nat) (s : Net) : Net := s

/-! ## SYN backlog -/

/-- The loop of `conn_queue_add` from index `i` on, with `fuel` entries left to look at:
the first entry that is not valid takes the new connection. -/
def conn_queue_add_loop (ip port seq now : Nat) (s : Net) : Nat → Nat → Net
  | 0, _ => s
  | fuel + 1, i =>
    if (s.conn_queue.getD i default).valid = 0 then
      { s with
        conn_queue := s.conn_queue.set i
          { remote_ip := ip, remote_port := port, their_seq := seq, timestamp := now, valid := 1 }
        conn_queue_count := (s.conn_queue_count + 1) % 256 }
    else conn_queue_add_loop ip port seq now s fuel (i + 1)

/-- The function `conn_queue_add`; `now` is the value `get_tick_count()` returns. -/
def conn_queue_add (ip port seq now : Nat) (s : Net) : Net :=
  conn_queue_add_loop ip port seq now s CONN_QUEUE_SIZE 0

/-- The loop of `conn_queue_pop` from index `i` on, with `fuel` entries left to look at.
The result is the return value with the three out-parameters (when 1 is returned) and
the globals. -/
def conn_queue_pop_loop (now : Nat) : Nat → Nat → Net → Option (Nat × Nat × Nat) × Net
  | 0, _, s => (none, s)
  | fuel + 1, i, s =>
    let e := s.conn_queue.getD i default
    if e.valid ≠ 0 then
      if (now % 2 ^ 32 + 2 ^ 32 - e.timestamp % 2 ^ 32) % 2 ^ 32 > CONN_QUEUE_TIMEOUT then
        conn_queue_pop_loop now fuel (i + 1)
          { s with
            conn_queue := s.conn_queue.set i { e with valid := 0 }
            conn_queue_count := (s.conn_queue_count + 255) % 256 }
      else
        (some (e.remote_ip, e.remote_port, e.their_seq),
          { s with
            conn_queue := s.conn_queue.set i { e with valid := 0 }
            conn_queue_count := (s.conn_queue_count + 255) % 256 })
    else conn_queue_pop_loop now fuel (i + 1) s

/-- The function `conn_queue_pop`: `none` stands for the return value 0, `some (ip, port,
seq)` for the return value 1 with the out-parameters filled. -/
def conn_queue_pop (now : Nat) (s : Net) : Option (Nat × Nat × Nat) × Net :=
  conn_queue_pop_loop now CONN_QUEUE_SIZE 0 s

/-! ## TCP output -/

/-- The function `tcp_checksum`. -/
def tcp_checksum (tcp_pkt : List Nat) (tcp_len src_ip dst_ip : Nat) : Nat :=
  let pseudo_hdr := List.replicate 12 0
  let pseudo_hdr := put_u32 pseudo_hdr 0 src_ip
  let pseudo_hdr := put_u32 pseudo_hdr 4 dst_ip
  let pseudo_hdr := pseudo_hdr.set 8 0
  let pseudo_hdr := pseudo_hdr.set 9 IP_PROTO_TCP
  let pseudo_hdr := put_u16 pseudo_hdr 10 tcp_len
  let sum := [0, 2, 4, 6, 8, 10].foldl (fun sum i => (sum + word_at pseudo_hdr i) % 2 ^ 32) 0
  let sum := sum_words tcp_pkt tcp_len tcp_len 0 sum
  let sum := add_odd_byte tcp_pkt tcp_len sum
  complement16 (fold_carry sum sum)

/-- The value of `sum` in `tcp_checksum` after the loop over the pseudo-header. -/
def pseudo_header_sum (tcp_len src_ip dst_ip : Nat) : Nat :=
  let pseudo_hdr := List.replicate 12 0
  let pseudo_hdr := put_u32 pseudo_hdr 0 src_ip
  let pseudo_hdr := put_u32 pseudo_hdr 4 dst_ip
  let pseudo_hdr := pseudo_hdr.set 8 0
  let pseudo_hdr := pseudo_hdr.set 9 IP_PROTO_TCP
  let pseudo_hdr := put_u16 pseudo_hdr 10 tcp_len
  [0, 2, 4, 6, 8, 10].foldl (fun sum i => (sum + word_at pseudo_hdr i) % 2 ^ 32) 0

/-- The content of `tcp_buf` that `tcp_send_flags` builds before it calls `ip_send`.
`data_len` is already the `unsigned char` value. `tcp_buf` has room for 64 data bytes behind
the header: for `data_len ≤ 64` this is the content of the buffer; a longer copy runs past
the end of `tcp_buf` in C, and what it overwrites there is not described (see `memcpy`). -/
def tcp_segment (s : Net) (flags : Nat) (data : List Nat) (data_len : Nat) : List Nat :=
  let tcp_len := TCP_HEADER_LEN + data_len
  let b := List.replicate (TCP_HEADER_LEN + 64) 0
  let b := put_u16 b TCP_SRC_PORT s.tcp_local_port
  let b := put_u16 b TCP_DST_PORT s.tcp_remote_port
  let b := put_u32 b TCP_SEQ_OFF s.tcp_seq_num
  let b := put_u32 b TCP_ACK_OFF s.tcp_ack_num
  let b := b.set TCP_DATA_OFF 0x50
  let b := b.set TCP_FLAGS flags
  let b := put_u16 b TCP_WINDOW 2048
  let b := put_u16 b TCP_CHECKSUM 0
  let b := put_u16 b TCP_URGENT 0
  let b := if data_len > 0 then memcpy b TCP_HEADER_LEN data data_len else b
  let cksum := tcp_checksum b tcp_len s.LOCAL_IP s.tcp_remote_ip
  put_u16 b TCP_CHECKSUM cksum

/-- The function `tcp_send_flags`. The parameter `data_len` is an `unsigned char` (reduced
modulo 256); `ip_send` receives `(unsigned char)tcp_len`. -/
def tcp_send_flags (flags : Nat) (data : List Nat) (data_len : Nat) (s : Net) : Net :=
  let data_len := data_len % 256
  let tcp_len := TCP_HEADER_LEN + data_len
  let b := tcp_segment s flags data data_len
  let s := if flags &&& TCP_SYN ≠ 0 then { s with tcp_seq_num := (s.tcp_seq_num + 1) % 2 ^ 32 }
    else s
  let s := if flags &&& TCP_FIN ≠ 0 then { s with tcp_seq_num := (s.tcp_seq_num + 1) % 2 ^ 32 }
    else s
  let s := { s with tcp_seq_num := (s.tcp_seq_num + data_len) % 2 ^ 32 }
  ip_send s.tcp_remote_ip IP_PROTO_TCP b (tcp_len % 256) s

/-- The function `tcp_process_queue`; `accept` is the answer of `app_tcp_accept`. -/
def tcp_process_queue (accept : Nat → Nat → Nat) (now : Nat) (s : Net) : Net :=
  if s.tcp_state ≠ TCP_STATE_LISTEN then s
  else
    match conn_queue_pop now s with
    | (none, s) => s
    | (some (ip, port, seq), s) =>
      let s := s.emit [Event.printf_dequeue s.conn_queue_count]
      let s := s.emit [Event.app_tcp_accept ip port]
      if accept ip port ≠ 0 then
        let s := { s with tcp_remote_ip := ip, tcp_remote_port := port, tcp_seq_num := 1000,
                          tcp_ack_num := (seq + 1) % 2 ^ 32 }
        let s := tcp_send_flags (TCP_SYN ||| TCP_ACK) [] 0 s
        let s := { s with tcp_state := TCP_STATE_SYN_RECEIVED }
        s.emit [Event.app_tcp_state_changed TCP_STATE_LISTEN s.tcp_state ip port]
      else s

/-! ## TCP application calls -/

/-- The function `tcp_send`. The parameter `len` is an `unsigned char`. -/
def tcp_send (now : Nat) (data : List Nat) (len : Nat) (s : Net) : Net :=
  let len := len % 256
  if s.tcp_state ≠ TCP_STATE_ESTABLISHED then s
  else
    let s := if len ≤ RETX_BUF_SIZE then
        { s with retx_buf := memcpy s.retx_buf 0 data len, retx_len := len,
                 retx_seq := s.tcp_seq_num, retx_time := now, retx_attempts := 0 }
      else s
    tcp_send_flags (TCP_PSH ||| TCP_ACK) data len s

/-- The function `tcp_close`. -/
def tcp_close (s : Net) : Net :=
  let s := if s.tcp_state = TCP_STATE_ESTABLISHED then
      tcp_send_flags (TCP_FIN ||| TCP_ACK) [] 0 { s with tcp_state := TCP_STATE_FIN_WAIT_1 }
    else s
  { s with retx_len := 0 }

/-- The function `tcp_check_retransmit`. -/
def tcp_check_retransmit (now : Nat) (s : Net) : Net :=
  if s.tcp_state ≠ TCP_STATE_ESTABLISHED ∨ s.retx_len = 0 then s
  else if (now % 2 ^ 32 + 2 ^ 32 - s.retx_time % 2 ^ 32) % 2 ^ 32 ≥ RETX_TIMEOUT then
    let s := { s with retx_attempts := (s.retx_attempts + 1) % 256 }
    if s.retx_attempts > RETX_MAX_ATTEMPTS then
      let s := s.emit [Event.printf_retransmit_failed]
      { s with retx_len := 0 }
    else
      let s := s.emit [Event.printf_retransmit s.retx_attempts]
      let s := { s with tcp_seq_num := s.retx_seq }
      let s := tcp_send_flags (TCP_PSH ||| TCP_ACK) s.retx_buf s.retx_len s
      { s with retx_time := now }
  else s

/-- The function `tcp_connect`. -/
def tcp_connect (remote_ip remote_port : Nat) (s : Net) : Net :=
  let s := { s with tcp_remote_ip := remote_ip, tcp_remote_port := remote_port,
                    tcp_seq_num := 1000, tcp_ack_num := 0, tcp_state := TCP_STATE_SYN_SENT }
  tcp_send_flags TCP_SYN [] 0 s

/-- The function `tcp_listen`. -/
def tcp_listen (port : Nat) (s : Net) : Net :=
  { s with tcp_local_port := port, tcp_state := TCP_STATE_LISTEN }

/-! ## TCP input -/

/-- The step shared by the branches of `tcp_receive` that give the slot back:
`tcp_state = TCP_STATE_LISTEN; app_tcp_state_changed(old_state, tcp_state, tcp_remote_ip,
tcp_remote_port); tcp_process_queue();`. -/
def tcp_back_to_listen (accept : Nat → Nat → Nat) (now old_state : Nat) (s : Net) : Net :=
  let s := { s with tcp_state := TCP_STATE_LISTEN }
  let s := s.emit [Event.app_tcp_state_changed old_state s.tcp_state s.tcp_remote_ip
    s.tcp_remote_port]
  tcp_process_queue accept now s

/-- The `switch (tcp_state)` of `tcp_receive`: the per-state dispatch, with an application
whose `app_tcp_data_received` returns without a call into the stack (it only stores the
bytes, as `http_process` does while a request is incomplete): the call of the callback is
recorded in the trace and the globals stay as they are. `tcp_dispatch_app` is the dispatch
with the callback of the application as a parameter. -/
def tcp_dispatch (accept : Nat → Nat → Nat) (now : Nat) (pkt : List Nat)
    (src_ip src_port seq_num ack_num flags hdr_len data_len : Nat) (s : Net) : Net :=
  let old_state := s.tcp_state
  if s.tcp_state = TCP_STATE_LISTEN then
    if flags &&& TCP_SYN ≠ 0 then
      let s := s.emit [Event.app_tcp_accept src_ip src_port]
      if accept src_ip src_port ≠ 0 then
        let s := { s with tcp_remote_ip := src_ip, tcp_remote_port := src_port,
                          tcp_seq_num := 1000, tcp_ack_num := (seq_num + 1) % 2 ^ 32 }
        let s := tcp_send_flags (TCP_SYN ||| TCP_ACK) [] 0 s
        let s := { s with tcp_state := TCP_STATE_SYN_RECEIVED }
        s.emit [Event.app_tcp_state_changed old_state s.tcp_state src_ip src_port]
      else s
    else s
  else if s.tcp_state = TCP_STATE_SYN_SENT then
    if flags &&& (TCP_SYN ||| TCP_ACK) = (TCP_SYN ||| TCP_ACK) then
      let s := { s with tcp_ack_num := (seq_num + 1) % 2 ^ 32, tcp_last_ack := ack_num,
                        tcp_state := TCP_STATE_ESTABLISHED }
      let s := tcp_send_flags TCP_ACK [] 0 s
      s.emit [Event.app_tcp_state_changed old_state s.tcp_state s.tcp_remote_ip
        s.tcp_remote_port]
    else s
  else if s.tcp_state = TCP_STATE_SYN_RECEIVED then
    if flags &&& TCP_ACK ≠ 0 then
      let s := { s with tcp_last_ack := ack_num, tcp_state := TCP_STATE_ESTABLISHED }
      s.emit [Event.app_tcp_state_changed old_state s.tcp_state s.tcp_remote_ip
        s.tcp_remote_port]
    else s
  else if s.tcp_state = TCP_STATE_ESTABLISHED then
    let s := if flags &&& TCP_ACK ≠ 0 then
        let s := { s with tcp_last_ack := ack_num }
        if s.retx_len > 0 ∧ ack_num ≥ (s.retx_seq + s.retx_len) % 2 ^ 32 then
          { s with retx_len := 0 }
        else s
      else s
    let s := if data_len > 0 then
        let s := { s with tcp_ack_num := (seq_num + data_len) % 2 ^ 32 }
        let s := tcp_send_flags TCP_ACK [] 0 s
        s.emit [Event.app_tcp_data_received ((pkt.drop hdr_len).take data_len) data_len]
      else s
    if flags &&& TCP_FIN ≠ 0 then
      let s := { s with tcp_ack_num := (seq_num + data_len + 1) % 2 ^ 32 }
      let s := tcp_send_flags (TCP_FIN ||| TCP_ACK) [] 0 s
      tcp_back_to_listen accept now old_state s
    else s
  else if s.tcp_state = TCP_STATE_FIN_WAIT_1 then
    let s := if flags &&& TCP_ACK ≠ 0 then
        { s with tcp_last_ack := ack_num, tcp_state := TCP_STATE_FIN_WAIT_2 }
      else s
    if flags &&& TCP_FIN ≠ 0 then
      let s := { s with tcp_ack_num := (seq_num + 1) % 2 ^ 32 }
      let s := tcp_send_flags TCP_ACK [] 0 s
      tcp_back_to_listen accept now old_state s
    else s
  else if s.tcp_state = TCP_STATE_FIN_WAIT_2 then
    if flags &&& TCP_FIN ≠ 0 then
      let s := { s with tcp_ack_num := (seq_num + 1) % 2 ^ 32 }
      let s := tcp_send_flags TCP_ACK [] 0 s
      tcp_back_to_listen accept now old_state s
    else s
  else s

/-- The part of `tcp_receive` that follows the acceptance tests: the SYN backlog rule, the
reset rule and the per-state dispatch. -/
def tcp_input (accept : Nat → Nat → Nat) (now : Nat) (pkt : List Nat)
    (src_ip src_port seq_num ack_num flags hdr_len data_len : Nat) (s : Net) : Net :=
  if flags &&& TCP_SYN ≠ 0 ∧ flags &&& TCP_ACK = 0 ∧ s.tcp_state ≠ TCP_STATE_LISTEN then
    let s := conn_queue_add src_ip src_port seq_num now s
    s.emit [Event.printf_queued s.conn_queue_count]
  else if flags &&& TCP_RST ≠ 0 then
    if s.tcp_state ≠ TCP_STATE_CLOSED ∧ s.tcp_state ≠ TCP_STATE_LISTEN then
      tcp_back_to_listen accept now s.tcp_state s
    else s
  else tcp_dispatch accept now pkt src_ip src_port seq_num ack_num flags hdr_len data_len s

/-- The function `tcp_receive`. -/
def tcp_receive (accept : Nat → Nat → Nat) (now : Nat) (pkt : List Nat) (len src_ip : Nat)
    (s : Net) : Net :=
  if len < TCP_HEADER_LEN then s
  else
    let src_port := get_u16 pkt TCP_SRC_PORT
    let dst_port := get_u16 pkt TCP_DST_PORT
    let seq_num := get_u32 pkt TCP_SEQ_OFF
    let ack_num := get_u32 pkt TCP_ACK_OFF
    let data_off := pkt.getD TCP_DATA_OFF 0
    let flags := pkt.getD TCP_FLAGS 0
    let hdr_len := ((data_off >>> 4) * 4) % 256
    if hdr_len < TCP_HEADER_LEN ∨ hdr_len > len then s
    else
      let data_len := len - hdr_len
      if dst_port ≠ s.tcp_local_port then s
      else tcp_input accept now pkt src_ip src_port seq_num ack_num flags hdr_len data_len s

/-! ## TCP input with the data callback of the application

`app_tcp_data_received` is code of the application (`http_process` in `httpofo.c` and in
`webserver.c`): it stores the bytes and, when a request is complete, calls `tcp_send` and
`tcp_close` before it returns to `tcp_receive`. In this section what the callback does to
the globals of the stack before it returns is the parameter `on_data`: the function
`on_data data len` maps the globals at the call (the call already recorded in the trace) to
the globals at the return. The definitions `tcp_dispatch`, `tcp_input` and `tcp_receive`
above are the case of a callback that makes no call into the stack. -/

/-- The `switch (tcp_state)` of `tcp_receive` with the data callback of the application. -/
def tcp_dispatch_app (accept : Nat → Nat → Nat) (on_data : List Nat → Nat → Net → Net)
    (now : Nat) (pkt : List Nat)
    (src_ip src_port seq_num ack_num flags hdr_len data_len : Nat) (s : Net) : Net :=
  let old_state := s.tcp_state
  if s.tcp_state = TCP_STATE_LISTEN then
    if flags &&& TCP_SYN ≠ 0 then
      let s := s.emit [Event.app_tcp_accept src_ip src_port]
      if accept src_ip src_port ≠ 0 then
        let s := { s with tcp_remote_ip := src_ip, tcp_remote_port := src_port,
                          tcp_seq_num := 1000, tcp_ack_num := (seq_num + 1) % 2 ^ 32 }
        let s := tcp_send_flags (TCP_SYN ||| TCP_ACK) [] 0 s
        let s := { s with tcp_state := TCP_STATE_SYN_RECEIVED }
        s.emit [Event.app_tcp_state_changed old_state s.tcp_state src_ip src_port]
      else s
    else s
  else if s.tcp_state = TCP_STATE_SYN_SENT then
    if flags &&& (TCP_SYN ||| TCP_ACK) = (TCP_SYN ||| TCP_ACK) then
      let s := { s with tcp_ack_num := (seq_num + 1) % 2 ^ 32, tcp_last_ack := ack_num,
                        tcp_state := TCP_STATE_ESTABLISHED }
      let s := tcp_send_flags TCP_ACK [] 0 s
      s.emit [Event.app_tcp_state_changed old_state s.tcp_state s.tcp_remote_ip
        s.tcp_remote_port]
    else s
  else if s.tcp_state = TCP_STATE_SYN_RECEIVED then
    if flags &&& TCP_ACK ≠ 0 then
      let s := { s with tcp_last_ack := ack_num, tcp_state := TCP_STATE_ESTABLISHED }
      s.emit [Event.app_tcp_state_changed old_state s.tcp_state s.tcp_remote_ip
        s.tcp_remote_port]
    else s
  else if s.tcp_state = TCP_STATE_ESTABLISHED then
    let s := if flags &&& TCP_ACK ≠ 0 then
        let s := { s with tcp_last_ack := ack_num }
        if s.retx_len > 0 ∧ ack_num ≥ (s.retx_seq + s.retx_len) % 2 ^ 32 then
          { s with retx_len := 0 }
        else s
      else s
    let s := if data_len > 0 then
        let s := { s with tcp_ack_num := (seq_num + data_len) % 2 ^ 32 }
        let s := tcp_send_flags TCP_ACK [] 0 s
        let s := s.emit [Event.app_tcp_data_received ((pkt.drop hdr_len).take data_len)
          data_len]
        on_data ((pkt.drop hdr_len).take data_len) data_len s
      else s
    if flags &&& TCP_FIN ≠ 0 then
      let s := { s with tcp_ack_num := (seq_num + data_len + 1) % 2 ^ 32 }
      let s := tcp_send_flags (TCP_FIN ||| TCP_ACK) [] 0 s
      tcp_back_to_listen accept now old_state s
    else s
  else if s.tcp_state = TCP_STATE_FIN_WAIT_1 then
    let s := if flags &&& TCP_ACK ≠ 0 then
        { s with tcp_last_ack := ack_num, tcp_state := TCP_STATE_FIN_WAIT_2 }
      else s
    if flags &&& TCP_FIN ≠ 0 then
      let s := { s with tcp_ack_num := (seq_num + 1) % 2 ^ 32 }
      let s := tcp_send_flags TCP_ACK [] 0 s
      tcp_back_to_listen accept now old_state s
    else s
  else if s.tcp_state = TCP_STATE_FIN_WAIT_2 then
    if flags &&& TCP_FIN ≠ 0 then
      let s := { s with tcp_ack_num := (seq_num + 1) % 2 ^ 32 }
      let s := tcp_send_flags TCP_ACK [] 0 s
      tcp_back_to_listen accept now old_state s
    else s
  else s

/-- The part of `tcp_receive` that follows the acceptance tests, with the data callback of
the application: the SYN backlog rule, the reset rule and the per-state dispatch. -/
def tcp_input_app (accept : Nat → Nat → Nat) (on_data : List Nat → Nat → Net → Net)
    (now : Nat) (pkt : List Nat)
    (src_ip src_port seq_num ack_num flags hdr_len data_len : Nat) (s : Net) : Net :=
  if flags &&& TCP_SYN ≠ 0 ∧ flags &&& TCP_ACK = 0 ∧ s.tcp_state ≠ TCP_STATE_LISTEN then
    let s := conn_queue_add src_ip src_port seq_num now s
    s.emit [Event.printf_queued s.conn_queue_count]
  else if flags &&& TCP_RST ≠ 0 then
    if s.tcp_state ≠ TCP_STATE_CLOSED ∧ s.tcp_state ≠ TCP_STATE_LISTEN then
      tcp_back_to_listen accept now s.tcp_state s
    else s
  else tcp_dispatch_app accept on_data now pkt src_ip src_port seq_num ack_num flags hdr_len
    data_len s

/-- The function `tcp_receive` with the data callback of the application. -/
def tcp_receive_app (accept : Nat → Nat → Nat) (on_data : List Nat → Nat → Net → Net)
    (now : Nat) (pkt : List Nat) (len src_ip : Nat) (s : Net) : Net :=
  if len < TCP_HEADER_LEN then s
  else
    let src_port := get_u16 pkt TCP_SRC_PORT
    let dst_port := get_u16 pkt TCP_DST_PORT
    let seq_num := get_u32 pkt TCP_SEQ_OFF
    let ack_num := get_u32 pkt TCP_ACK_OFF
    let data_off := pkt.getD TCP_DATA_OFF 0
    let flags := pkt.getD TCP_FLAGS 0
    let hdr_len := ((data_off >>> 4) * 4) % 256
    if hdr_len < TCP_HEADER_LEN ∨ hdr_len > len then s
    else
      let data_len := len - hdr_len
      if dst_port ≠ s.tcp_local_port then s
      else tcp_input_app accept on_data now pkt src_ip src_port seq_num ack_num flags hdr_len
        data_len s

/-! ## IP input -/

/-- The protocol demultiplexer at the end of `ip_receive`. The handler gets `&pkt[ihl]` and
the 16-bit value `total_len - ihl`. -/
def ip_demux (accept : Nat → Nat → Nat) (now : Nat) (pkt : List Nat)
    (ihl total_len src_ip : Nat) (s : Net) : List Nat × Net :=
  let protocol := pkt.getD IP_PROTO 0
  let len := (total_len + 2 ^ 16 - ihl) % 2 ^ 16
  if protocol = IP_PROTO_ICMP then
    let r := icmp_receive (pkt.drop ihl) len src_ip s
    (pkt.take ihl ++ r.1, r.2)
  else if protocol = IP_PROTO_TCP then
    (pkt, tcp_receive accept now (pkt.drop ihl) len src_ip s)
  else if protocol = IP_PROTO_UDP then
    (pkt, udp_receive (pkt.drop ihl) len src_ip s)
  else (pkt, s)

/-- The function `ip_receive`. It writes into the datagram it is given (the checksum field
is zeroed and restored), so the result carries the buffer after the call next to the
globals. -/
def ip_receive (accept : Nat → Nat → Nat) (now : Nat) (pkt : List Nat) (len : Nat)
    (s : Net) : List Nat × Net :=
  if len < IP_HEADER_LEN then (pkt, s)
  else
    let ver_ihl := pkt.getD IP_VER_IHL 0
    if ver_ihl >>> 4 ≠ 4 then (pkt, s)
    else
      let ihl := ((ver_ihl &&& 0x0F) * 4) % 256
      if ihl < IP_HEADER_LEN ∨ ihl > len then (pkt, s)
      else
        let total_len := get_u16 pkt IP_TOTAL_LEN
        if total_len > len then (pkt, s)
        else
          let header_checksum := get_u16 pkt IP_CHECKSUM
          let pkt := put_u16 pkt IP_CHECKSUM 0
          let calc_checksum := checksum pkt ihl
          let pkt := put_u16 pkt IP_CHECKSUM header_checksum
          if calc_checksum ≠ header_checksum then (pkt, s)
          else
            let src_ip := get_u32 pkt IP_SRC_IP
            let dst_ip := get_u32 pkt IP_DST_IP
            if dst_ip ≠ s.LOCAL_IP then (pkt, s)
            else ip_demux accept now pkt ihl total_len src_ip s

/-- The IP acceptance predicate in the words of the specification, for a received buffer
`pkt` of `len` bytes: length at least 20, version 4, 20 ≤ IHL·4 ≤ len, total_len ≤ len,
header checksum valid (recomputed over the IHL·4 header bytes with the stored field zeroed,
it equals the stored field), destination equal to the local address. -/
def ip_accepts (local_ip : Nat) (pkt : List Nat) (len : Nat) : Prop :=
  20 ≤ len ∧ pkt.getD 0 0 / 16 = 4 ∧
  20 ≤ pkt.getD 0 0 % 16 * 4 ∧ pkt.getD 0 0 % 16 * 4 ≤ len ∧
  pkt.getD 2 0 * 256 + pkt.getD 3 0 ≤ len ∧
  checksum ((pkt.set 10 0).set 11 0) (pkt.getD 0 0 % 16 * 4)
    = pkt.getD 10 0 * 256 + pkt.getD 11 0 ∧
  pkt.getD 16 0 * 2 ^ 24 + pkt.getD 17 0 * 2 ^ 16 + pkt.getD 18 0 * 2 ^ 8 + pkt.getD 19 0
    = local_ip

instance (local_ip : Nat) (pkt : List Nat) (len : Nat) : Decidable (ip_accepts local_ip pkt len) := by
  unfold ip_accepts
  infer_instance

/-- The TCP acceptance predicate in the words of the specification, for a segment `pkt` of
`len` bytes: length at least 20, 20 ≤ data_offset·4 ≤ length, destination port equal to
the local port. -/
def tcp_accepts (local_port : Nat) (pkt : List Nat) (len : Nat) : Prop :=
  20 ≤ len ∧ 20 ≤ pkt.getD 12 0 / 16 * 4 ∧ pkt.getD 12 0 / 16 * 4 ≤ len ∧
  pkt.getD 2 0 * 256 + pkt.getD 3 0 = local_port

instance (local_port : Nat) (pkt : List Nat) (len : Nat) :
    Decidable (tcp_accepts local_port pkt len) := by
  unfold tcp_accepts
  infer_instance

/-! ## Main loop -/

/-- The state of the program in its main loop: the bytes waiting in the serial receive
ring, the SLIP receiver, the stack, and a count of the datagrams `slip_poll` has delivered
(the number of times the loop has called `ip_receive`). -/
structure Machine where
  rx : List Nat
  slip : Slip
  net : Net
  delivered : Nat
deriving DecidableEq, Repr

/-- One pass of the `for (;;)` loop of `main` with no key pressed:
`if (slip_poll()) { ip_receive(pkt_buf, pkt_len); pkt_len = 0; } tcp_check_retransmit();`. -/
def main_loop_pass (accept : Nat → Nat → Nat) (now : Nat) (m : Machine) : Machine :=
  let r := slip_poll m.rx m.slip
  let m := { m with rx := r.2.1, slip := r.2.2 }
  let m := if r.1 ≠ 0 then
      let q := ip_receive accept now m.slip.pkt_buf m.slip.pkt_len m.net
      { m with slip := { m.slip with pkt_buf := q.1, pkt_len := 0 }, net := q.2,
               delivered := m.delivered + 1 }
    else m
  { m with net := tcp_check_retransmit now m.net }

/-- The first `n` passes of the main loop, the pass number `j` reading the tick `ticks j`. -/
def main_loop (accept : Nat → Nat → Nat) (ticks : Nat → Nat) : Nat → Nat → Machine → Machine
  | 0, _, m => m
  | n + 1, j, m => main_loop accept ticks n (j + 1) (main_loop_pass accept (ticks j) m)

/-- The number of non-empty runs of bytes that lie between END bytes, as the framing
property counts them: the stream is cut at every `0xC0`; a run counts when it is not empty
and an END byte closes it (`cur` is the length of the run being read). -/
def inter_END_runs : List Nat → Nat → Nat
  | [], _ => 0
  | c :: rx, cur =>
    if c = SLIP_END then (if cur > 0 then 1 else 0) + inter_END_runs rx 0
    else inter_END_runs rx (cur + 1)

/-- No ESC byte of the stream is directly followed by an END byte. -/
def no_ESC_END : List Nat → Bool
  | [] => true
  | [_] => true
  | a :: b :: rx => !(a = SLIP_ESC && b = SLIP_END) && no_ESC_END (b :: rx)


/-! ## Runs of events and what is observed of them -/

/-- The ACK step of the ESTABLISHED case of `tcp_receive`:
`if (flags & TCP_ACK) { tcp_last_ack = ack_num; if (retx_len > 0 && ack_num >= retx_seq +
retx_len) retx_len = 0; }`. -/
def established_ack (flags ack_num : Nat) (s : Net) : Net :=
  if flags &&& TCP_ACK ≠ 0 then
    let s := { s with tcp_last_ack := ack_num }
    if s.retx_len > 0 ∧ ack_num ≥ (s.retx_seq + s.retx_len) % 2 ^ 32 then
      { s with retx_len := 0 }
    else s
  else s

/-- The data step of the ESTABLISHED case of `tcp_receive` up to and including the call of
the application:
`if (data_len > 0) { tcp_ack_num = seq_num + data_len; tcp_send_flags(TCP_ACK, 0, 0);
app_tcp_data_received(&pkt[hdr_len], data_len); }`, the call being recorded in the trace.
What the application does to the globals inside the call is added by
`established_data_app`. -/
def established_data (pkt : List Nat) (seq_num hdr_len data_len : Nat) (s : Net) : Net :=
  if data_len > 0 then
    let s := { s with tcp_ack_num := (seq_num + data_len) % 2 ^ 32 }
    let s := tcp_send_flags TCP_ACK [] 0 s
    s.emit [Event.app_tcp_data_received ((pkt.drop hdr_len).take data_len) data_len]
  else s

/-- The data step of the ESTABLISHED case of `tcp_receive` with the callback of the
application: the engine's part (`established_data`), then what the callback does. -/
def established_data_app (on_data : List Nat → Nat → Net → Net) (pkt : List Nat)
    (seq_num hdr_len data_len : Nat) (s : Net) : Net :=
  if data_len > 0 then
    on_data ((pkt.drop hdr_len).take data_len) data_len
      (established_data pkt seq_num hdr_len data_len s)
  else s

/-- An inbound segment as `tcp_receive` gets it from the IP layer, with the tick at which it
arrives: the buffer, its length, the source address, the tick. -/
structure Inbound where
  pkt : List Nat
  len : Nat
  src_ip : Nat
  now : Nat
deriving DecidableEq, Repr

/-- A sequence of calls of `tcp_receive`, one for each inbound segment, in order of
arrival. -/
def tcp_receive_all (accept : Nat → Nat → Nat) : List Inbound → Net → Net
  | [], s => s
  | i :: rest, s => tcp_receive_all accept rest (tcp_receive accept i.now i.pkt i.len i.src_ip s)

/-- A sequence of calls of `tcp_receive` with the data callback of the application, one
for each inbound segment, in order of arrival. -/
def tcp_receive_all_app (accept : Nat → Nat → Nat) (on_data : List Nat → Nat → Net → Net) :
    List Inbound → Net → Net
  | [], s => s
  | i :: rest, s =>
    tcp_receive_all_app accept on_data rest
      (tcp_receive_app accept on_data i.now i.pkt i.len i.src_ip s)

/-- A sequence of calls of `tcp_check_retransmit` (main-loop passes without input), one for
each tick reading. -/
def tcp_check_retransmit_all : List Nat → Net → Net
  | [], s => s
  | t :: rest, s => tcp_check_retransmit_all rest (tcp_check_retransmit t s)

/-- The bytes put on the wire, in order: the arguments of the `tx_putchar` calls of a
trace. -/
def wire_bytes : List Event → List Nat
  | [] => []
  | Event.tx_putchar c :: es => c :: wire_bytes es
  | _ :: es => wire_bytes es

/-- The payloads handed to `app_tcp_data_received`, in order of the calls. -/
def data_events : List Event → List (List Nat)
  | [] => []
  | Event.app_tcp_data_received d _ :: es => d :: data_events es
  | _ :: es => data_events es

/-- The peers offered to `app_tcp_accept`, in order of the calls. -/
def accept_events : List Event → List (Nat × Nat)
  | [] => []
  | Event.app_tcp_accept ip port :: es => (ip, port) :: accept_events es
  | _ :: es => accept_events es

/-- The backlog entry `conn_queue_add` writes for an inbound SYN: source address, source
port, sequence number of the peer, tick of arrival, valid. -/
def backlog_entry (i : Inbound) : pending_conn :=
  { remote_ip := i.src_ip, remote_port := get_u16 i.pkt TCP_SRC_PORT,
    their_seq := get_u32 i.pkt TCP_SEQ_OFF, timestamp := i.now, valid := 1 }

/-- The header length `(data_off >> 4) * 4` of a segment of bytes. -/
def tcp_hdr_len (pkt : List Nat) : Nat := pkt.getD 12 0 / 16 * 4

/-- A data segment for the ESTABLISHED case: bytes, held by the buffer, accepted by
`tcp_receive`, without FIN and RST, not a SYN without ACK (which the backlog rule takes),
with at least one payload byte. -/
def is_data_segment (local_port : Nat) (i : Inbound) : Prop :=
  (∀ b ∈ i.pkt, b < 256) ∧ i.len ≤ i.pkt.length ∧ tcp_accepts local_port i.pkt i.len ∧
  i.pkt.getD TCP_FLAGS 0 &&& TCP_FIN = 0 ∧ i.pkt.getD TCP_FLAGS 0 &&& TCP_RST = 0 ∧
  ¬(i.pkt.getD TCP_FLAGS 0 &&& TCP_SYN ≠ 0 ∧ i.pkt.getD TCP_FLAGS 0 &&& TCP_ACK = 0) ∧
  0 < i.len - tcp_hdr_len i.pkt

instance (local_port : Nat) (i : Inbound) : Decidable (is_data_segment local_port i) := by
  unfold is_data_segment
  infer_instance

/-- The payload of a segment: the bytes between the header and the end of the segment. -/
def tcp_payload (i : Inbound) : List Nat :=
  (i.pkt.drop (tcp_hdr_len i.pkt)).take (i.len - tcp_hdr_len i.pkt)

/-- The SLIP frames of the datagrams that carry one and the same TCP segment `seg` of
`tcp_len` bytes to `dst_ip`, one datagram for each identification value of the list. -/
def frames_of_segment (local_ip dst_ip : Nat) (seg : List Nat) (tcp_len : Nat) :
    List Nat → List Nat
  | [] => []
  | id :: ids =>
    slip_send (ip_datagram local_ip id dst_ip IP_PROTO_TCP seg tcp_len) (20 + tcp_len) ++
      frames_of_segment local_ip dst_ip seg tcp_len ids

/-- The 12-byte pseudo-header in the words of the specification: source address (4 bytes,
big-endian), destination address (4 bytes), a zero byte, the protocol number 6, and the TCP
length (2 bytes, big-endian). -/
def pseudo_header (src_ip dst_ip n : Nat) : List Nat :=
  [(src_ip >>> 24) % 256, (src_ip >>> 16) % 256, (src_ip >>> 8) % 256, src_ip % 256,
   (dst_ip >>> 24) % 256, (dst_ip >>> 16) % 256, (dst_ip >>> 8) % 256, dst_ip % 256,
   0, 6, (n >>> 8) % 256, n % 256]

/-- The number of valid entries of a backlog table. -/
def valid_count (q : List pending_conn) : Nat := q.countP (fun e => e.valid ≠ 0)

/-- The expiry test of `conn_queue_pop` for an entry at tick `now`:
`(now - timestamp) > CONN_QUEUE_TIMEOUT` in 32-bit arithmetic. -/
def conn_expired (now : Nat) (e : pending_conn) : Prop :=
  (now % 2 ^ 32 + 2 ^ 32 - e.timestamp % 2 ^ 32) % 2 ^ 32 > CONN_QUEUE_TIMEOUT

instance (now : Nat) (e : pending_conn) : Decidable (conn_expired now e) := by
  unfold conn_expired
  infer_instance

/-- The accounting of the backlog: the counter `conn_queue_count` is the number of valid
entries of the table, and the table has its 16 entries. -/
def backlog_counted (s : Net) : Prop :=
  s.conn_queue_count = valid_count s.conn_queue ∧ s.conn_queue.length = CONN_QUEUE_SIZE

instance (s : Net) : Decidable (backlog_counted s) := by
  unfold backlog_counted
  infer_instance

/-- The retransmit cell: the globals `retx_buf`, `retx_len`, `retx_seq`, `retx_time` and
`retx_attempts`. -/
def retx_cell (s : Net) : List Nat × Nat × Nat × Nat × Nat :=
  (s.retx_buf, s.retx_len, s.retx_seq, s.retx_time, s.retx_attempts)

/-- What can happen to the stack between two looks at its state: a call of the
application (`tcp_listen`, `tcp_connect`, `tcp_send`, `tcp_close`), a retransmit check of
the main loop at some tick, or an inbound segment handed to `tcp_receive`. -/
inductive Action where
  | listen (port : Nat)
  | connect (remote_ip remote_port : Nat)
  | send (now : Nat) (data : List Nat) (len : Nat)
  | close
  | tick (now : Nat)
  | segment (i : Inbound)
deriving DecidableEq, Repr

/-- One action applied to the globals. -/
def apply_action (accept : Nat → Nat → Nat) : Action → Net → Net
  | Action.listen port, s => tcp_listen port s
  | Action.connect ip port, s => tcp_connect ip port s
  | Action.send now data len, s => tcp_send now data len s
  | Action.close, s => tcp_close s
  | Action.tick now, s => tcp_check_retransmit now s
  | Action.segment i, s => tcp_receive accept i.now i.pkt i.len i.src_ip s

/-- A sequence of actions, applied in order. -/
def run_actions (accept : Nat → Nat → Nat) : List Action → Net → Net
  | [], s => s
  | a :: rest, s => run_actions accept rest (apply_action accept a s)

/-- The states the transitions of the stack use: all of `network.h` except CLOSING and
TIME_WAIT. -/
def used_states : List Nat :=
  [TCP_STATE_CLOSED, TCP_STATE_LISTEN, TCP_STATE_SYN_SENT, TCP_STATE_SYN_RECEIVED,
   TCP_STATE_ESTABLISHED, TCP_STATE_FIN_WAIT_1, TCP_STATE_FIN_WAIT_2]

/-! ## Sample inputs

The three-way handshake of the specification's scenario 2, seen from the server
192.168.1.2:80 with the peer 192.168.1.10:1234. -/

/-- The server after `tcp_listen(80)` on a fresh stack with local address 192.168.1.2. -/
def sample_listen : Net := tcp_listen 80 (Net.init 0xC0A80102)

/-- A SYN segment: port 1234 to port 80, sequence number 100, no options. -/
def sample_syn : List Nat :=
  [0x04, 0xD2, 0x00, 0x50, 0, 0, 0, 100, 0, 0, 0, 0, 0x50, 0x02, 0x08, 0x00, 0, 0, 0, 0]

/-- The SYN segment in an IPv4 datagram from 192.168.1.10 to 192.168.1.2 (identification
1, TTL 64, header checksum 0xF772). -/
def sample_syn_datagram : List Nat :=
  [0x45, 0, 0, 40, 0, 1, 0, 0, 64, 6, 0xF7, 0x72, 192, 168, 1, 10, 192, 168, 1, 2] ++ sample_syn

/-- The ACK that completes the handshake: sequence number 101, acknowledgement 1001. -/
def sample_ack : List Nat :=
  [0x04, 0xD2, 0x00, 0x50, 0, 0, 0, 101, 0, 0, 0x03, 0xE9, 0x50, 0x10, 0x08, 0x00, 0, 0, 0, 0]

/-- The server after the SYN of the peer (tick 5, the application admits everyone). -/
def sample_syn_received : Net :=
  tcp_receive (fun _ _ => 1) 5 sample_syn 20 0xC0A8010A sample_listen

/-- The server after the handshake. -/
def sample_established : Net :=
  tcp_receive (fun _ _ => 1) 5 sample_ack 20 0xC0A8010A sample_syn_received

/-- A segment with PSH|ACK and the 8 payload bytes of a short GET: sequence number 101. -/
def sample_get : List Nat :=
  [0x04, 0xD2, 0x00, 0x50, 0, 0, 0, 101, 0, 0, 0x03, 0xE9, 0x50, 0x18, 0x08, 0x00, 0, 0, 0, 0,
   0x47, 0x45, 0x54, 0x20, 0x2F, 0x0D, 0x0A, 0x0A]

/-- The FIN|ACK of the peer: sequence number 101. -/
def sample_fin : List Nat :=
  [0x04, 0xD2, 0x00, 0x50, 0, 0, 0, 101, 0, 0, 0x03, 0xE9, 0x50, 0x11, 0x08, 0x00, 0, 0, 0, 0]

/-- An RST|ACK of the peer. -/
def sample_rst : List Nat :=
  [0x04, 0xD2, 0x00, 0x50, 0, 0, 0, 101, 0, 0, 0x03, 0xE9, 0x50, 0x14, 0x08, 0x00, 0, 0, 0, 0]

/-- A SYN of a second peer, 192.168.1.11:1235, sequence number 7. -/
def sample_syn2 : List Nat :=
  [0x04, 0xD3, 0x00, 0x50, 0, 0, 0, 7, 0, 0, 0, 0, 0x50, 0x02, 0x08, 0x00, 0, 0, 0, 0]

/-- The ACK of the second peer that completes its handshake. -/
def sample_ack2 : List Nat :=
  [0x04, 0xD3, 0x00, 0x50, 0, 0, 0, 8, 0, 0, 0x03, 0xE9, 0x50, 0x10, 0x08, 0x00, 0, 0, 0, 0]

/-- A SYN of a third peer, 192.168.1.12:1236, sequence number 9. -/
def sample_syn3 : List Nat :=
  [0x04, 0xD4, 0x00, 0x50, 0, 0, 0, 9, 0, 0, 0, 0, 0x50, 0x02, 0x08, 0x00, 0, 0, 0, 0]

/-- An ICMP echo request: identifier 0x1234, sequence number 1, payload "abcd", checksum
0x2104. -/
def sample_echo : List Nat := [8, 0, 0x21, 0x04, 0x12, 0x34, 0, 1, 0x61, 0x62, 0x63, 0x64]

/-- An ICMP echo request of 236 bytes: identifier 0x1234, sequence number 1, 228 payload
bytes 0x61, checksum 0x886D. -/
def sample_echo_long : List Nat :=
  [8, 0, 0x88, 0x6D, 0x12, 0x34, 0, 1] ++ List.replicate 228 0x61

/-- A segment of the peer with SYN and ACK both set: sequence number 100. -/
def sample_synack : List Nat :=
  [0x04, 0xD2, 0x00, 0x50, 0, 0, 0, 100, 0, 0, 0, 0, 0x50, 0x12, 0x08, 0x00, 0, 0, 0, 0]

/-- A datagram of 48 bytes from 192.168.1.10 to 192.168.1.2 whose total-length field is 0:
a 20-byte header (protocol 6, valid header checksum 0xF79A) followed by the segment
`sample_get`. -/
def sample_short_total : List Nat :=
  [0x45, 0, 0, 0, 0, 1, 0, 0, 64, 6, 0xF7, 0x9A, 192, 168, 1, 10, 192, 168, 1, 2] ++ sample_get

/-- A backlog table with an invalid entry, an entry queued at tick 1, and an entry queued
at tick 20, followed by 13 invalid entries. -/
def sample_backlog : List pending_conn :=
  [⟨0, 0, 0, 0, 0⟩, ⟨0xC0A8010B, 1235, 7, 1, 1⟩, ⟨0xC0A8010C, 1236, 9, 20, 1⟩] ++
    List.replicate 13 ⟨0, 0, 0, 0, 0⟩

/-- The response `http_405` of `httpofo.c`: "HTTP/1.0 405 Method Not Allowed" and two line
ends, 35 bytes. -/
def sample_405 : List Nat :=
  [0x48, 0x54, 0x54, 0x50, 0x2F, 0x31, 0x2E, 0x30, 0x20, 0x34, 0x30, 0x35, 0x20,
   0x4D, 0x65, 0x74, 0x68, 0x6F, 0x64, 0x20, 0x4E, 0x6F, 0x74, 0x20,
   0x41, 0x6C, 0x6C, 0x6F, 0x77, 0x65, 0x64, 0x0D, 0x0A, 0x0D, 0x0A]

/-- A segment with PSH|ACK and the 19 payload bytes of the complete request
"PUT /x HTTP/1.0" with its blank line: sequence number 101. -/
def sample_put : List Nat :=
  [0x04, 0xD2, 0x00, 0x50, 0, 0, 0, 101, 0, 0, 0x03, 0xE9, 0x50, 0x18, 0x08, 0x00, 0, 0, 0, 0,
   0x50, 0x55, 0x54, 0x20, 0x2F, 0x78, 0x20, 0x48, 0x54, 0x54, 0x50, 0x2F, 0x31, 0x2E, 0x30,
   0x0D, 0x0A, 0x0D, 0x0A]

/-- A data callback that makes no call into the stack: what `http_process` does with the
stack while the request it collects is incomplete. -/
def sample_store : List Nat → Nat → Net → Net := fun _ _ t => t

/-- A data callback that answers with the 35 bytes of `sample_405` (tick 6) and closes:
what `http_process` of `httpofo.c` does with the stack for a complete PUT request while
uploads are not allowed, `tcp_send(http_405, 35); tcp_close();`. -/
def sample_refuse : List Nat → Nat → Net → Net :=
  fun _ _ t => tcp_close (tcp_send 6 sample_405 35 t)

/-- A data callback that sends the bytes it is given back to the peer (tick 6) and makes no
other call. -/
def sample_echo_back : List Nat → Nat → Net → Net :=
  fun data len t => tcp_send 6 data len t

/-! # Theorems -/

set_option maxRecDepth 100000

/-! ## SLIP framing -/

theorem take_succ_set {α : Type} (l : List α) (a : α) :
    ∀ n, n < l.length → (l.set n a).take (n + 1) = l.take n ++ [a] := by
  induction l with
  | nil => intro n h; simp at h
  | cons x xs ih =>
    intro n h
    cases n with
    | zero => simp
    | succ n =>
      have := ih n (by simpa using h)
      simp only [List.set_cons_succ, List.take_succ_cons, List.cons_append, this]

theorem slip_send_loop_eq (pre post : List Nat) :
    ∀ fuel, post.length ≤ fuel →
      slip_send_loop (pre ++ post) (pre ++ post).length fuel pre.length = slip_escape post := by
  induction post generalizing pre with
  | nil =>
    intro fuel _
    cases fuel <;> simp [slip_send_loop, slip_escape]
  | cons c cs ih =>
    intro fuel hf
    cases fuel with
    | zero => simp at hf
    | succ fuel =>
      have h := ih (pre ++ [c]) fuel (by simpa using hf)
      simp only [List.append_assoc, List.singleton_append, List.length_append,
        List.length_singleton] at h
      have hg : (pre ++ c :: cs).getD pre.length 0 = c := by
        rw [List.getD_append_right _ _ _ _ (le_refl _)]; simp
      simp only [slip_send_loop, slip_escape, List.length_append, List.length_cons]
      rw [if_pos (by omega), hg]
      congr 1

theorem slip_send_eq (B : List Nat) (h : B.length ≤ 255) :
    slip_send B B.length = SLIP_END :: (slip_escape B ++ [SLIP_END]) := by
  have h1 : B.length % 256 = B.length := Nat.mod_eq_of_lt (by omega)
  have h2 := slip_send_loop_eq [] B B.length (le_refl _)
  simp only [List.nil_append, List.length_nil] at h2
  simp [slip_send, h1, h2]

theorem slip_store_spec (c : Nat) (s : Slip) (h : s.pkt_len < s.pkt_buf.length)
    (hb : s.pkt_buf.length = PKT_BUF_SIZE) :
    (slip_store c s).slip_escaped = s.slip_escaped ∧
    (slip_store c s).pkt_len = s.pkt_len + 1 ∧
    (slip_store c s).pkt_buf.length = s.pkt_buf.length ∧
    (slip_store c s).pkt_buf.take (s.pkt_len + 1) = s.pkt_buf.take s.pkt_len ++ [c] := by
  have h1 : s.pkt_len < PKT_BUF_SIZE := by omega
  simp only [slip_store, if_pos h1, List.length_set, true_and]
  exact take_succ_set _ _ _ h

/-- Receiving one escaped data byte stores that byte. -/
theorem slip_poll_send_byte (c : Nat) (rest : List Nat) (s : Slip) (he : s.slip_escaped = 0) :
    slip_poll (slip_send_byte c ++ rest) s = slip_poll rest (slip_store c s) := by
  have hs : ({ s with slip_escaped := 0 } : Slip) = s := by cases s; simp_all
  unfold slip_send_byte
  by_cases h1 : c = SLIP_END
  · subst h1
    simp [slip_poll, he, hs]
  · by_cases h2 : c = SLIP_ESC
    · subst h2
      simp [slip_poll, he, hs]
    · simp [slip_poll, he, h1, h2]

theorem slip_poll_escape (B : List Nat) :
    ∀ (rest : List Nat) (s : Slip), s.slip_escaped = 0 → s.pkt_buf.length = PKT_BUF_SIZE →
      s.pkt_len + B.length ≤ PKT_BUF_SIZE →
      ∃ s1, slip_poll (slip_escape B ++ rest) s = slip_poll rest s1 ∧
        s1.slip_escaped = 0 ∧ s1.pkt_len = s.pkt_len + B.length ∧
        s1.pkt_buf.length = PKT_BUF_SIZE ∧
        s1.pkt_buf.take s1.pkt_len = s.pkt_buf.take s.pkt_len ++ B := by
  induction B with
  | nil =>
    intro rest s he hb _
    exact ⟨s, by simp [slip_escape], he, by simp, hb, by simp⟩
  | cons c cs ih =>
    intro rest s he hb hl
    simp only [List.length_cons] at hl
    obtain ⟨e1, e2, e3, e4⟩ := slip_store_spec c s (by omega) hb
    obtain ⟨s1, p1, p2, p3, p4, p5⟩ := ih rest (slip_store c s) (by rw [e1, he])
      (by rw [e3, hb]) (by rw [e2]; omega)
    refine ⟨s1, ?_, p2, ?_, p4, ?_⟩
    · simp only [slip_escape, List.append_assoc]
      rw [slip_poll_send_byte c _ s he, p1]
    · rw [p3, e2, List.length_cons]; omega
    · rw [p5, e2, e4]; simp


theorem no_ESC_END_tail (a : Nat) (rx : List Nat) (h : no_ESC_END (a :: rx) = true) :
    no_ESC_END rx = true := by
  cases rx with
  | nil => rfl
  | cons b rx => simp [no_ESC_END] at h; exact h.2

theorem no_ESC_END_head (rx : List Nat) (h : no_ESC_END (SLIP_ESC :: rx) = true) :
    rx.head? ≠ some SLIP_END := by
  cases rx with
  | nil => simp
  | cons b rx => simp [no_ESC_END] at h; simpa using h.1

theorem slip_store_pos (c : Nat) (s : Slip) : 0 < (slip_store c s).pkt_len := by
  unfold slip_store
  split
  · simp
  · simp only [PKT_BUF_SIZE] at *; omega

theorem slip_store_escaped (c : Nat) (s : Slip) :
    (slip_store c s).slip_escaped = s.slip_escaped := by
  unfold slip_store
  split <;> rfl

/-- What one call of `slip_poll` does to the count of END-closed runs: either it empties
the ring without a delivery and no run was closed, or it delivers at the END byte that
closes the first non-empty run. -/
theorem slip_poll_runs : ∀ (rx : List Nat) (s : Slip) (cur : Nat),
    no_ESC_END rx = true →
    ((s.slip_escaped = 0 ∧ (0 < cur ↔ 0 < s.pkt_len)) ∨
      (s.slip_escaped ≠ 0 ∧ 0 < cur ∧ rx.head? ≠ some SLIP_END)) →
    ((slip_poll rx s).1 = 0 ∧ (slip_poll rx s).2.1 = [] ∧ inter_END_runs rx cur = 0) ∨
    ((slip_poll rx s).1 = 1 ∧ (slip_poll rx s).2.1.length < rx.length ∧
      no_ESC_END (slip_poll rx s).2.1 = true ∧ (slip_poll rx s).2.2.slip_escaped = 0 ∧
      0 < (slip_poll rx s).2.2.pkt_len ∧
      inter_END_runs rx cur = 1 + inter_END_runs (slip_poll rx s).2.1 0) := by
  intro rx
  induction rx with
  | nil =>
    intro s cur _ _
    left
    simp [slip_poll, inter_END_runs]
  | cons c rx ih =>
    intro s cur hn hs
    have hn1 := no_ESC_END_tail c rx hn
    have lift : ∀ (s1 : Slip) (cur1 : Nat), slip_poll (c :: rx) s = slip_poll rx s1 →
        inter_END_runs (c :: rx) cur = inter_END_runs rx cur1 →
        ((s1.slip_escaped = 0 ∧ (0 < cur1 ↔ 0 < s1.pkt_len)) ∨
          (s1.slip_escaped ≠ 0 ∧ 0 < cur1 ∧ rx.head? ≠ some SLIP_END)) →
        ((slip_poll (c :: rx) s).1 = 0 ∧ (slip_poll (c :: rx) s).2.1 = [] ∧
            inter_END_runs (c :: rx) cur = 0) ∨
          ((slip_poll (c :: rx) s).1 = 1 ∧ (slip_poll (c :: rx) s).2.1.length < (c :: rx).length ∧
            no_ESC_END (slip_poll (c :: rx) s).2.1 = true ∧
            (slip_poll (c :: rx) s).2.2.slip_escaped = 0 ∧
            0 < (slip_poll (c :: rx) s).2.2.pkt_len ∧
            inter_END_runs (c :: rx) cur = 1 + inter_END_runs (slip_poll (c :: rx) s).2.1 0) := by
      intro s1 cur1 e1 e2 h1
      rw [e1, e2]
      rcases ih s1 cur1 hn1 h1 with h | ⟨a, b, c1, d, e, f⟩
      · exact Or.inl h
      · exact Or.inr ⟨a, by simp only [List.length_cons]; omega, c1, d, e, f⟩
    rcases hs with ⟨he, hc⟩ | ⟨he, hc, hh⟩
    · by_cases h1 : c = SLIP_END
      · subst h1
        by_cases hp : 0 < s.pkt_len
        · right
          have : slip_poll (SLIP_END :: rx) s = (1, rx, s) := by
            simp [slip_poll, he, hp]
          rw [this]
          refine ⟨rfl, by simp, hn1, he, hp, ?_⟩
          simp [inter_END_runs, hc.mpr hp]
        · have hc0 : cur = 0 := by
            by_contra h
            exact hp (hc.mp (Nat.pos_of_ne_zero h))
          apply lift s 0
          · simp [slip_poll, he, hp]
          · simp [inter_END_runs, hc0]
          · left; exact ⟨he, by simpa using hp⟩
      · by_cases h2 : c = SLIP_ESC
        · subst h2
          apply lift { s with slip_escaped := 1 } (cur + 1)
          · simp [slip_poll, he]
          · simp [inter_END_runs]
          · right
            exact ⟨by simp, by omega, no_ESC_END_head rx hn⟩
        · apply lift (slip_store c s) (cur + 1)
          · simp [slip_poll, he, h1, h2]
          · simp [inter_END_runs, h1]
          · left
            exact ⟨by rw [slip_store_escaped, he],
              ⟨fun _ => slip_store_pos c s, fun _ => by omega⟩⟩
    · have h1 : c ≠ SLIP_END := by
        intro h; apply hh; simp [h]
      apply lift (slip_store (if c = SLIP_ESC_END then SLIP_END
          else if c = SLIP_ESC_ESC then SLIP_ESC else c) { s with slip_escaped := 0 }) (cur + 1)
      · simp [slip_poll, he]
      · simp [inter_END_runs, h1]
      · left
        exact ⟨by rw [slip_store_escaped],
          ⟨fun _ => slip_store_pos _ _, fun _ => by omega⟩⟩

theorem main_loop_empty_ring (accept : Nat → Nat → Nat) (ticks : Nat → Nat) :
    ∀ (n j : Nat) (m : Machine), m.rx = [] →
      (main_loop accept ticks n j m).delivered = m.delivered := by
  intro n
  induction n with
  | zero => intro j m _; rfl
  | succ n ih =>
    intro j m h
    simp only [main_loop]
    rw [ih]
    · simp [main_loop_pass, h, slip_poll]
    · simp [main_loop_pass, h, slip_poll]

theorem main_loop_delivered (accept : Nat → Nat → Nat) (ticks : Nat → Nat) :
    ∀ (n j : Nat) (m : Machine), m.rx.length ≤ n → no_ESC_END m.rx = true →
      m.slip.pkt_len = 0 → m.slip.slip_escaped = 0 →
      (main_loop accept ticks n j m).delivered = m.delivered + inter_END_runs m.rx 0 := by
  intro n
  induction n with
  | zero =>
    intro j m hl _ _ _
    have : m.rx = [] := List.eq_nil_of_length_eq_zero (by omega)
    simp [main_loop, this, inter_END_runs]
  | succ n ih =>
    intro j m hl hn hp he
    simp only [main_loop]
    rcases slip_poll_runs m.rx m.slip 0 hn (Or.inl ⟨he, by simp [hp]⟩) with
      ⟨a, b, c⟩ | ⟨a, b, c, d, e, f⟩
    · rw [main_loop_empty_ring]
      · simp [main_loop_pass, a, c]
      · simp [main_loop_pass, a, b]
    · rw [ih]
      · simp [main_loop_pass, a, f]; omega
      · simp [main_loop_pass, a]; omega
      · simpa [main_loop_pass, a] using c
      · simp [main_loop_pass, a]
      · simpa [main_loop_pass, a] using d

theorem shl8_or (a b : Nat) (hb : b < 256) : (a <<< 8) ||| b = a * 256 + b := by
  have h := Nat.mul_add_lt_is_or (i := 8) (b := b) (by simpa using hb) a
  rw [Nat.shiftLeft_eq, ← Nat.mul_comm, ← h]

theorem word_at_eq (data : List Nat) (i : Nat) (h : data.getD (i + 1) 0 < 256) :
    word_at data i = data.getD i 0 * 256 + data.getD (i + 1) 0 := by
  unfold word_at
  exact shl8_or _ _ h

theorem getD_lt_of_bytes (data : List Nat) (hb : ∀ b ∈ data, b < 256) (i : Nat) :
    data.getD i 0 < 256 := by
  by_cases h : i < data.length
  · rw [List.getD_eq_getElem _ _ h]
    exact hb _ (List.getElem_mem _)
  · rw [List.getD_eq_default _ _ (by omega)]
    decide

theorem word_at_le (data : List Nat) (hb : ∀ b ∈ data, b < 256) (i : Nat) :
    word_at data i ≤ 65535 := by
  rw [word_at_eq data i (getD_lt_of_bytes data hb _)]
  have h1 := getD_lt_of_bytes data hb i
  have h2 := getD_lt_of_bytes data hb (i + 1)
  omega

theorem words_total_le (data : List Nat) (hb : ∀ b ∈ data, b < 256) :
    ∀ k i, words_total data k i ≤ 65535 * k := by
  intro k
  induction k with
  | zero => intro i; simp [words_total]
  | succ k ih =>
    intro i
    have h1 := word_at_le data hb i
    have h2 := ih (i + 2)
    simp only [words_total]
    omega

theorem sum_words_eq (data : List Nat) (len : Nat) :
    ∀ k fuel i acc, k ≤ fuel → i + 2 * k ≤ len → len ≤ i + 2 * k + 1 →
      acc + words_total data k i < 2 ^ 32 →
      sum_words data len fuel i acc = acc + words_total data k i := by
  intro k
  induction k with
  | zero =>
    intro fuel i acc _ _ h2 _
    cases fuel with
    | zero => simp [sum_words, words_total]
    | succ fuel =>
      simp only [sum_words, words_total]
      rw [if_neg (by omega)]; rfl
  | succ k ih =>
    intro fuel i acc hf h1 h2 h3
    cases fuel with
    | zero => omega
    | succ fuel =>
      simp only [words_total] at h3
      simp only [sum_words, words_total]
      rw [if_pos (by omega), Nat.mod_eq_of_lt (by omega),
        ih fuel (i + 2) (acc + word_at data i) (by omega) (by omega) (by omega) (by omega)]
      omega

theorem fold_carry_spec : ∀ fuel sum, sum ≤ fuel →
    fold_carry fuel sum < 65536 ∧ fold_carry fuel sum % 65535 = sum % 65535 ∧
    (fold_carry fuel sum = 0 ↔ sum = 0) ∧ fold_carry fuel sum ≤ sum := by
  intro fuel
  induction fuel with
  | zero =>
    intro sum h
    have : sum = 0 := by omega
    subst this
    simp [fold_carry]
  | succ fuel ih =>
    intro sum h
    have e1 : sum >>> 16 = sum / 65536 := by rw [Nat.shiftRight_eq_div_pow]
    have e2 : sum &&& 0xFFFF = sum % 65536 := Nat.and_pow_two_sub_one_eq_mod sum 16
    simp only [fold_carry, e1, e2]
    by_cases hq : sum / 65536 = 0
    · rw [if_neg (by simpa using hq)]
      refine ⟨by omega, rfl, Iff.rfl, le_refl _⟩
    · rw [if_pos hq]
      obtain ⟨a, b, c, d⟩ := ih (sum % 65536 + sum / 65536) (by omega)
      refine ⟨a, by omega, by omega, by omega⟩


theorem getD_set_ne {α : Type} (l : List α) (i j : Nat) (a d : α) (h : i ≠ j) :
    (l.set i a).getD j d = l.getD j d := by
  simp [List.getElem?_set_ne h]

theorem getD_set_eq {α : Type} (l : List α) (i : Nat) (a d : α) (h : i < l.length) :
    (l.set i a).getD i d = a := by
  simp [List.getElem?_set_self h]

theorem length_put_u16 (p : List Nat) (off v : Nat) : (put_u16 p off v).length = p.length := by
  simp [put_u16]

theorem length_put_u32 (p : List Nat) (off v : Nat) : (put_u32 p off v).length = p.length := by
  simp [put_u32]

theorem getD_put_u16_ne (p : List Nat) (off v i : Nat) (h1 : i ≠ off) (h2 : i ≠ off + 1) :
    (put_u16 p off v).getD i 0 = p.getD i 0 := by
  unfold put_u16
  rw [getD_set_ne _ _ _ _ _ (Ne.symm h2), getD_set_ne _ _ _ _ _ (Ne.symm h1)]

theorem getD_put_u16_hi (p : List Nat) (off v : Nat) (h : off < p.length) :
    (put_u16 p off v).getD off 0 = (v >>> 8) % 256 := by
  unfold put_u16
  rw [getD_set_ne _ _ _ _ _ (by omega), getD_set_eq _ _ _ _ h]

theorem getD_put_u16_lo (p : List Nat) (off v : Nat) (h : off + 1 < p.length) :
    (put_u16 p off v).getD (off + 1) 0 = v % 256 := by
  unfold put_u16
  rw [getD_set_eq _ _ _ _ (by simpa using h)]

theorem word_at_put_u16_self (p : List Nat) (off v : Nat) (h : off + 1 < p.length)
    (hv : v < 65536) : word_at (put_u16 p off v) off = v := by
  unfold word_at
  rw [getD_put_u16_hi p off v (by omega), getD_put_u16_lo p off v h,
    shl8_or _ _ (Nat.mod_lt _ (by decide)), Nat.shiftRight_eq_div_pow]
  omega

theorem word_at_put_u16_other (p : List Nat) (off v i : Nat) (h : i + 1 < off ∨ off + 1 < i) :
    word_at (put_u16 p off v) i = word_at p i := by
  unfold word_at
  rw [getD_put_u16_ne p off v i (by omega) (by omega),
    getD_put_u16_ne p off v (i + 1) (by omega) (by omega)]

theorem words_total_put_u16_before (p : List Nat) (off v : Nat) :
    ∀ k i, off + 1 < i → words_total (put_u16 p off v) k i = words_total p k i := by
  intro k
  induction k with
  | zero => intro i _; rfl
  | succ k ih =>
    intro i h
    simp only [words_total]
    rw [word_at_put_u16_other p off v i (Or.inr h), ih (i + 2) (by omega)]

/-- Storing a 16-bit value into a zero word of the summed range adds that value to the
word total. -/
theorem words_total_put_u16 (p : List Nat) (off v : Nat) (hin : off + 1 < p.length)
    (hv : v < 65536) (hz : word_at p off = 0) :
    ∀ k i j, off = i + 2 * j → j < k →
      words_total (put_u16 p off v) k i = words_total p k i + v := by
  intro k
  induction k with
  | zero => intro i j _ h; omega
  | succ k ih =>
    intro i j hoff hj
    simp only [words_total]
    cases j with
    | zero =>
      have e : off = i := by omega
      subst e
      rw [word_at_put_u16_self p off v hin hv, hz,
        words_total_put_u16_before p off v k (off + 2) (by omega)]
      omega
    | succ j =>
      rw [word_at_put_u16_other p off v i (Or.inl (by omega)),
        ih (i + 2) j (by omega) (by omega)]
      omega

theorem mem_put_u16 (p : List Nat) (off v : Nat) (hb : ∀ b ∈ p, b < 256) :
    ∀ b ∈ put_u16 p off v, b < 256 := by
  intro b hmem
  unfold put_u16 at hmem
  rcases List.mem_or_eq_of_mem_set hmem with h | h
  · rcases List.mem_or_eq_of_mem_set h with h | h
    · exact hb b h
    · rw [h]; exact Nat.mod_lt _ (by decide)
  · rw [h]; exact Nat.mod_lt _ (by decide)

theorem checksum_sum_even (H : List Nat) (hb : ∀ b ∈ H, b < 256) (heven : H.length % 2 = 0)
    (hlen : H.length < 65536) :
    checksum_sum H H.length =
      fold_carry (words_total H (H.length / 2) 0) (words_total H (H.length / 2) 0) := by
  have hw := words_total_le H hb (H.length / 2) 0
  have hs := sum_words_eq H H.length (H.length / 2) H.length 0 0 (by omega) (by omega)
    (by omega) (by omega)
  simp only [checksum_sum, add_odd_byte, Nat.and_one_is_mod, heven, hs]
  simp

theorem complement16_eq (x : Nat) (h : x < 65536) : complement16 x = 65535 - x := by
  unfold complement16
  omega

theorem slip_poll_pos : ∀ (rx : List Nat) (s : Slip),
    (slip_poll rx s).1 = 1 → 0 < (slip_poll rx s).2.2.pkt_len := by
  intro rx
  induction rx with
  | nil => intro s h; simp [slip_poll] at h
  | cons c rx ih =>
    intro s
    simp only [slip_poll]
    split
    · exact ih _
    · split
      · split
        · intro _; assumption
        · exact ih _
      · split
        · exact ih _
        · exact ih _

/-- C1 (amended): for every byte string B with 1 ≤ length ≤ 255 and every receiver with an
empty scratch and no escape pending, polling the bytes `slip_send` emits for B returns 1
with the ring consumed, `pkt_len` equal to the length of B and `pkt_buf[0..pkt_len)` equal
to B; the main loop delivers exactly one datagram for that stream. -/
theorem slip_round_trip (B : List Nat) (s : Slip) (hpos : 0 < B.length)
    (hlen : B.length ≤ 255) (hl : s.pkt_len = 0) (he : s.slip_escaped = 0)
    (hb : s.pkt_buf.length = PKT_BUF_SIZE) :
    (slip_poll (slip_send B B.length) s).1 = 1 ∧
    (slip_poll (slip_send B B.length) s).2.1 = [] ∧
    (slip_poll (slip_send B B.length) s).2.2.pkt_len = B.length ∧
    (slip_poll (slip_send B B.length) s).2.2.pkt_buf.take
      (slip_poll (slip_send B B.length) s).2.2.pkt_len = B ∧
    ∀ (accept : Nat → Nat → Nat) (ticks : Nat → Nat) (net : Net) (n j : Nat), 0 < n →
      (main_loop accept ticks n j ⟨slip_send B B.length, s, net, 0⟩).delivered = 1 := by
  obtain ⟨s1, p1, p2, p3, _, p5⟩ := slip_poll_escape B [SLIP_END] s he hb
    (by rw [hl]; simp only [PKT_BUF_SIZE]; omega)
  have hp : slip_poll (slip_send B B.length) s = (1, [], s1) := by
    rw [slip_send_eq B hlen]
    have h0 : slip_poll (SLIP_END :: (slip_escape B ++ [SLIP_END])) s
        = slip_poll (slip_escape B ++ [SLIP_END]) s := by
      simp [slip_poll, he, hl]
    rw [h0, p1]
    have h1 : 0 < s1.pkt_len := by omega
    simp [slip_poll, p2, h1]
  rw [hl] at p3 p5
  refine ⟨by rw [hp], by rw [hp], by rw [hp]; simpa using p3, by rw [hp]; simpa using p5, ?_⟩
  intro accept ticks net n j hn
  cases n with
  | zero => omega
  | succ n =>
    simp only [main_loop]
    rw [main_loop_empty_ring]
    · simp [main_loop_pass, hp]
    · simp [main_loop_pass, hp]

/-- C1 witness: the round trip at B = [0xC0, 0x41, 0xDB], received from the start state. -/
theorem slip_round_trip_witness :
    (0 < [0xC0, 0x41, 0xDB].length ∧ [0xC0, 0x41, 0xDB].length ≤ 255) ∧
    (slip_poll (slip_send [0xC0, 0x41, 0xDB] 3) Slip.init).1 = 1 ∧
    (slip_poll (slip_send [0xC0, 0x41, 0xDB] 3) Slip.init).2.2.pkt_buf.take
      (slip_poll (slip_send [0xC0, 0x41, 0xDB] 3) Slip.init).2.2.pkt_len = [0xC0, 0x41, 0xDB] ∧
    (main_loop (fun _ _ => 1) (fun _ => 0) 4 0
      ⟨slip_send [0xC0, 0x41, 0xDB] 3, Slip.init, Net.init 0, 0⟩).delivered = 1 :=
  have h := slip_round_trip [0xC0, 0x41, 0xDB] Slip.init (by decide) (by decide) rfl rfl
    (by simp [Slip.init])
  ⟨⟨by decide, by decide⟩, h.1, h.2.2.2.1,
    h.2.2.2.2 (fun _ _ => 1) (fun _ => 0) (Net.init 0) 4 0 (by decide)⟩

/-- C1 counterexample: the claim as stated fails for the empty string (no datagram is
delivered) and for a string of 300 ≤ 576 bytes (`slip_send` takes an `unsigned char`
length, so a datagram of 300 mod 256 = 44 bytes is delivered). -/
theorem slip_round_trip_fails :
    (slip_poll (slip_send [] ([] : List Nat).length) Slip.init).1 = 0 ∧
    (List.replicate 300 0x41).length ≤ PKT_BUF_SIZE ∧
    (slip_poll (slip_send (List.replicate 300 0x41) (List.replicate 300 0x41).length)
      Slip.init).2.2.pkt_len = 44 := by
  decide

/-- C3: for every byte string H of even length (below 65536, the range of the length
parameter) whose 16-bit field at an even offset is zero, storing `checksum(H)` big-endian
into that field gives a string whose one's-complement sum is 0xFFFF and whose checksum
is 0. -/
theorem checksum_self_verifies (H : List Nat) (off : Nat) (hb : ∀ b ∈ H, b < 256)
    (heven : H.length % 2 = 0) (hlen : H.length < 65536) (hoff : off % 2 = 0)
    (hin : off + 1 < H.length) (h0 : H.getD off 0 = 0) (h1 : H.getD (off + 1) 0 = 0) :
    checksum_sum (put_u16 H off (checksum H H.length)) H.length = 0xFFFF ∧
    checksum (put_u16 H off (checksum H H.length)) H.length = 0 := by
  have hw := words_total_le H hb (H.length / 2) 0
  obtain ⟨f1, f2, f3, f4⟩ := fold_carry_spec (words_total H (H.length / 2) 0)
    (words_total H (H.length / 2) 0) (le_refl _)
  have hc : checksum H H.length = 65535 - fold_carry (words_total H (H.length / 2) 0)
      (words_total H (H.length / 2) 0) := by
    rw [checksum, checksum_sum_even H hb heven hlen, complement16_eq _ f1]
  have hz : word_at H off = 0 := by
    rw [word_at_eq H off (by rw [h1]; decide), h0, h1]
  have hb2 := mem_put_u16 H off (checksum H H.length) hb
  have hl2 := length_put_u16 H off (checksum H H.length)
  have ht := words_total_put_u16 H off (checksum H H.length) hin (by rw [hc]; omega) hz
    (H.length / 2) 0 (off / 2) (by omega) (by omega)
  have hs := checksum_sum_even (put_u16 H off (checksum H H.length)) hb2
    (by rw [hl2]; exact heven) (by rw [hl2]; exact hlen)
  rw [hl2, ht] at hs
  obtain ⟨g1, g2, g3, g4⟩ := fold_carry_spec (words_total H (H.length / 2) 0 + checksum H H.length)
    (words_total H (H.length / 2) 0 + checksum H H.length) (le_refl _)
  have key : checksum_sum (put_u16 H off (checksum H H.length)) H.length = 65535 := by
    rw [hs]
    rw [hc] at g1 g2 g3 g4 ⊢
    omega
  refine ⟨key, ?_⟩
  rw [checksum, key]
  decide

/-- C3 witness: an IPv4 header with a zero checksum field at offset 10. -/
theorem checksum_self_verifies_witness :
    checksum (put_u16 [0x45, 0, 0, 40, 0, 1, 0, 0, 64, 6, 0, 0, 192, 168, 1, 2, 192, 168, 1, 10]
      10 (checksum [0x45, 0, 0, 40, 0, 1, 0, 0, 64, 6, 0, 0, 192, 168, 1, 2, 192, 168, 1, 10] 20))
      20 = 0 :=
  (checksum_self_verifies [0x45, 0, 0, 40, 0, 1, 0, 0, 64, 6, 0, 0, 192, 168, 1, 2, 192, 168, 1, 10]
    10 (by decide) (by decide) (by decide) (by decide) (by decide) (by decide) (by decide)).2
/-! ## IP input -/

theorem set_getD_self {α : Type} (l : List α) (d : α) :
    ∀ i, i < l.length → l.set i (l.getD i d) = l := by
  induction l with
  | nil => intro i h; simp at h
  | cons x xs ih =>
    intro i h
    cases i with
    | zero => simp
    | succ i =>
      simp only [List.set_cons_succ, List.getD_cons_succ]
      rw [ih i (by simpa using h)]

theorem get_u16_eq (p : List Nat) (off : Nat) (hb : ∀ b ∈ p, b < 256) :
    get_u16 p off = p.getD off 0 * 256 + p.getD (off + 1) 0 := by
  have h1 := getD_lt_of_bytes p hb off
  have h2 := getD_lt_of_bytes p hb (off + 1)
  unfold get_u16
  rw [shl8_or _ _ h2]
  omega

theorem shl_or_bytes (a b c d : Nat) (hb : b < 256) (hc : c < 256) (hd : d < 256) :
    (a <<< 24) ||| (b <<< 16) ||| (c <<< 8) ||| d = a * 2 ^ 24 + b * 2 ^ 16 + c * 2 ^ 8 + d := by
  simp only [Nat.shiftLeft_eq]
  have e1 := Nat.mul_add_lt_is_or (i := 24) (b := b * 2 ^ 16) (by omega) a
  have e2 := Nat.mul_add_lt_is_or (i := 16) (b := c * 2 ^ 8) (by omega) (a * 2 ^ 8 + b)
  have e3 := Nat.mul_add_lt_is_or (i := 8) (b := d) (by omega) (a * 2 ^ 16 + b * 2 ^ 8 + c)
  have f1 : a * 2 ^ 24 ||| b * 2 ^ 16 = a * 2 ^ 24 + b * 2 ^ 16 := by
    rw [Nat.mul_comm a, ← e1]
  have f2 : (a * 2 ^ 24 + b * 2 ^ 16) ||| c * 2 ^ 8 = a * 2 ^ 24 + b * 2 ^ 16 + c * 2 ^ 8 := by
    have : a * 2 ^ 24 + b * 2 ^ 16 = 2 ^ 16 * (a * 2 ^ 8 + b) := by ring
    rw [this, ← e2]
  have f3 : (a * 2 ^ 24 + b * 2 ^ 16 + c * 2 ^ 8) ||| d
      = a * 2 ^ 24 + b * 2 ^ 16 + c * 2 ^ 8 + d := by
    have : a * 2 ^ 24 + b * 2 ^ 16 + c * 2 ^ 8 = 2 ^ 8 * (a * 2 ^ 16 + b * 2 ^ 8 + c) := by ring
    rw [this, ← e3]
  rw [f1, f2, f3]

theorem get_u32_eq (p : List Nat) (off : Nat) (hb : ∀ b ∈ p, b < 256) :
    get_u32 p off = p.getD off 0 * 2 ^ 24 + p.getD (off + 1) 0 * 2 ^ 16
      + p.getD (off + 2) 0 * 2 ^ 8 + p.getD (off + 3) 0 := by
  have h0 := getD_lt_of_bytes p hb off
  have h1 := getD_lt_of_bytes p hb (off + 1)
  have h2 := getD_lt_of_bytes p hb (off + 2)
  have h3 := getD_lt_of_bytes p hb (off + 3)
  unfold get_u32
  rw [shl_or_bytes _ _ _ _ h1 h2 h3]
  omega

theorem put_u16_put_u16 (p : List Nat) (off v w : Nat) :
    put_u16 (put_u16 p off v) off w = put_u16 p off w := by
  unfold put_u16
  rw [List.set_comm _ _ _ (by omega : off + 1 ≠ off), List.set_set, List.set_set]

theorem put_u16_get_u16 (p : List Nat) (off : Nat) (hb : ∀ b ∈ p, b < 256)
    (h : off + 1 < p.length) : put_u16 p off (get_u16 p off) = p := by
  have h1 := getD_lt_of_bytes p hb off
  have h2 := getD_lt_of_bytes p hb (off + 1)
  rw [get_u16_eq p off hb]
  unfold put_u16
  have e1 : ((p.getD off 0 * 256 + p.getD (off + 1) 0) >>> 8) % 256 = p.getD off 0 := by
    rw [Nat.shiftRight_eq_div_pow]; omega
  have e2 : (p.getD off 0 * 256 + p.getD (off + 1) 0) % 256 = p.getD (off + 1) 0 := by omega
  rw [e1, e2, set_getD_self p 0 off (by omega), set_getD_self p 0 (off + 1) h]

/-- C4: a received buffer of bytes is handed to the protocol demultiplexer exactly when
it satisfies the acceptance predicate (length ≥ 20, version 4, 20 ≤ IHL·4 ≤ len,
total_len ≤ len, valid header checksum, destination = local address); a datagram that
fails a clause leaves the buffer and all globals as they were, so there is no handler
call, no emitted byte and no state change. -/
theorem ip_receive_accepts_iff (accept : Nat → Nat → Nat) (now : Nat) (pkt : List Nat)
    (len : Nat) (s : Net) (hb : ∀ b ∈ pkt, b < 256) (hlen : len ≤ pkt.length) :
    (ip_accepts s.LOCAL_IP pkt len →
      ip_receive accept now pkt len s =
        ip_demux accept now pkt (pkt.getD 0 0 % 16 * 4) (pkt.getD 2 0 * 256 + pkt.getD 3 0)
          (pkt.getD 12 0 * 2 ^ 24 + pkt.getD 13 0 * 2 ^ 16 + pkt.getD 14 0 * 2 ^ 8
            + pkt.getD 15 0) s) ∧
    (¬ ip_accepts s.LOCAL_IP pkt len → ip_receive accept now pkt len s = (pkt, s)) := by
  have hv := getD_lt_of_bytes pkt hb 0
  have e_ver : pkt.getD 0 0 >>> 4 = pkt.getD 0 0 / 16 := by rw [Nat.shiftRight_eq_div_pow]
  have e_and : pkt.getD 0 0 &&& 0x0F = pkt.getD 0 0 % 16 :=
    Nat.and_pow_two_sub_one_eq_mod _ 4
  have e_ihl : ((pkt.getD 0 0 &&& 0x0F) * 4) % 256 = pkt.getD 0 0 % 16 * 4 := by
    rw [e_and]; omega
  have e_zero : put_u16 pkt 10 0 = (pkt.set 10 0).set 11 0 := by simp [put_u16]
  by_cases h20 : len < 20
  · constructor
    · intro ha; exact absurd ha.1 (by omega)
    · intro _; simp [ip_receive, h20]
  · have e_back : put_u16 ((pkt.set 10 0).set 11 0) 10 (pkt.getD 10 0 * 256 + pkt.getD 11 0)
        = pkt := by
      rw [← e_zero, ← get_u16_eq pkt 10 hb, put_u16_put_u16,
        put_u16_get_u16 pkt 10 hb (by omega)]
    unfold ip_receive ip_accepts
    simp only [IP_HEADER_LEN, IP_VER_IHL, IP_TOTAL_LEN, IP_CHECKSUM, IP_SRC_IP, IP_DST_IP,
      e_back, e_ver, e_ihl, get_u16_eq pkt _ hb, get_u32_eq pkt _ hb, e_zero, if_neg h20, Nat.reduceAdd]
    constructor
    · rintro ⟨_, a2, a3, a4, a5, a6, a7⟩
      rw [if_neg (not_not.mpr a2), if_neg (by omega), if_neg (by omega),
        if_neg (not_not.mpr a6), if_neg (not_not.mpr a7)]
    · intro hna
      split_ifs with h1 h2 h3 h4 h5
      · rfl
      · rfl
      · rfl
      · rfl
      · rfl
      · exact absurd ⟨by omega, not_not.mp h1, by omega, by omega, by omega, not_not.mp h4,
          not_not.mp h5⟩ hna

/-- C4 witness: the sample SYN datagram is accepted and handed to the demultiplexer; the
same datagram received by a host with another address is dropped without any effect. -/
theorem ip_receive_accepts_iff_witness :
    ip_accepts sample_listen.LOCAL_IP sample_syn_datagram 40 ∧
    ip_receive (fun _ _ => 1) 5 sample_syn_datagram 40 sample_listen =
      ip_demux (fun _ _ => 1) 5 sample_syn_datagram 20 40 0xC0A8010A sample_listen ∧
    ip_receive (fun _ _ => 1) 5 sample_syn_datagram 40 (Net.init 0xC0A80103) =
      (sample_syn_datagram, Net.init 0xC0A80103) :=
  ⟨by decide,
    (ip_receive_accepts_iff (fun _ _ => 1) 5 sample_syn_datagram 40 sample_listen (by decide)
      (by decide)).1 (by decide),
    (ip_receive_accepts_iff (fun _ _ => 1) 5 sample_syn_datagram 40 (Net.init 0xC0A80103)
      (by decide) (by decide)).2 (by decide)⟩

/-! ## TCP input -/

theorem tcp_hdr_len_eq (pkt : List Nat) (hb : ∀ b ∈ pkt, b < 256) :
    ((pkt.getD TCP_DATA_OFF 0 >>> 4) * 4) % 256 = pkt.getD 12 0 / 16 * 4 := by
  have h := getD_lt_of_bytes pkt hb 12
  rw [Nat.shiftRight_eq_div_pow]
  simp only [TCP_DATA_OFF]
  omega

/-- An accepted segment goes on to the backlog rule, the reset rule and the dispatch. -/
theorem tcp_receive_of_accepts (accept : Nat → Nat → Nat) (now : Nat) (pkt : List Nat)
    (len src_ip : Nat) (s : Net) (hb : ∀ b ∈ pkt, b < 256)
    (ha : tcp_accepts s.tcp_local_port pkt len) :
    tcp_receive accept now pkt len src_ip s =
      tcp_input accept now pkt src_ip (get_u16 pkt TCP_SRC_PORT) (get_u32 pkt TCP_SEQ_OFF)
        (get_u32 pkt TCP_ACK_OFF) (pkt.getD TCP_FLAGS 0) (pkt.getD 12 0 / 16 * 4)
        (len - pkt.getD 12 0 / 16 * 4) s := by
  obtain ⟨a1, a2, a3, a4⟩ := ha
  unfold tcp_receive
  simp only [tcp_hdr_len_eq pkt hb, get_u16_eq pkt TCP_DST_PORT hb, TCP_HEADER_LEN,
    TCP_DST_PORT, Nat.reduceAdd]
  rw [if_neg (by omega), if_neg (by omega), if_neg (not_not.mpr a4)]

/-- A segment that fails the acceptance predicate changes nothing. -/
theorem tcp_receive_of_not_accepts (accept : Nat → Nat → Nat) (now : Nat) (pkt : List Nat)
    (len src_ip : Nat) (s : Net) (hb : ∀ b ∈ pkt, b < 256)
    (hna : ¬ tcp_accepts s.tcp_local_port pkt len) :
    tcp_receive accept now pkt len src_ip s = s := by
  unfold tcp_receive
  simp only [tcp_hdr_len_eq pkt hb, get_u16_eq pkt TCP_DST_PORT hb, TCP_HEADER_LEN,
    TCP_DST_PORT, Nat.reduceAdd]
  split_ifs with h1 h2 h3
  · rfl
  · rfl
  · rfl
  · exact absurd ⟨by omega, by omega, by omega, not_not.mp h3⟩ hna

/-- C5: a segment with length < 20, or with data_offset·4 < 20 or > length, or with a
destination port other than the local port leaves every global as it was (connection
slot, retransmit cell, backlog, trace: nothing is emitted and no callback is invoked);
a segment that satisfies the three clauses goes on to the backlog rule, the reset rule
and the per-state dispatch. -/
theorem tcp_receive_rejects (accept : Nat → Nat → Nat) (now : Nat) (pkt : List Nat)
    (len src_ip : Nat) (s : Net) (hb : ∀ b ∈ pkt, b < 256) :
    ((len < 20 ∨ (pkt.getD 12 0 / 16 * 4 < 20 ∨ pkt.getD 12 0 / 16 * 4 > len) ∨
        pkt.getD 2 0 * 256 + pkt.getD 3 0 ≠ s.tcp_local_port) →
      tcp_receive accept now pkt len src_ip s = s) ∧
    (tcp_accepts s.tcp_local_port pkt len →
      tcp_receive accept now pkt len src_ip s =
        tcp_input accept now pkt src_ip (get_u16 pkt TCP_SRC_PORT) (get_u32 pkt TCP_SEQ_OFF)
          (get_u32 pkt TCP_ACK_OFF) (pkt.getD TCP_FLAGS 0) (pkt.getD 12 0 / 16 * 4)
          (len - pkt.getD 12 0 / 16 * 4) s) := by
  constructor
  · intro h
    apply tcp_receive_of_not_accepts accept now pkt len src_ip s hb
    rintro ⟨a1, a2, a3, a4⟩
    omega
  · exact tcp_receive_of_accepts accept now pkt len src_ip s hb

/-- C5 witness: the sample SYN sent to port 81 is dropped by the server on port 80, and
the sample SYN to port 80 goes on to `tcp_input`. -/
theorem tcp_receive_rejects_witness :
    tcp_receive (fun _ _ => 1) 5
      [0x04, 0xD2, 0x00, 0x51, 0, 0, 0, 100, 0, 0, 0, 0, 0x50, 0x02, 0x08, 0x00, 0, 0, 0, 0]
      20 0xC0A8010A sample_listen = sample_listen ∧
    tcp_receive (fun _ _ => 1) 5 sample_syn 20 0xC0A8010A sample_listen =
      tcp_input (fun _ _ => 1) 5 sample_syn 0xC0A8010A 1234 100 0 TCP_SYN 20 0 sample_listen :=
  ⟨(tcp_receive_rejects (fun _ _ => 1) 5
      [0x04, 0xD2, 0x00, 0x51, 0, 0, 0, 100, 0, 0, 0, 0, 0x50, 0x02, 0x08, 0x00, 0, 0, 0, 0]
      20 0xC0A8010A sample_listen (by decide)).1 (by decide),
    (tcp_receive_rejects (fun _ _ => 1) 5 sample_syn 20 0xC0A8010A sample_listen
      (by decide)).2 (by decide)⟩


/-! ## SYN backlog -/

theorem conn_queue_add_loop_frame (ip port seq now : Nat) (s : Net) :
    ∀ fuel i, conn_queue_add_loop ip port seq now s fuel i =
      { s with conn_queue := (conn_queue_add_loop ip port seq now s fuel i).conn_queue
               conn_queue_count := (conn_queue_add_loop ip port seq now s fuel i).conn_queue_count } := by
  intro fuel
  induction fuel with
  | zero => intro i; rfl
  | succ fuel ih =>
    intro i
    simp only [conn_queue_add_loop]
    split
    · rfl
    · exact ih (i + 1)

theorem conn_queue_add_loop_first_free (ip port seq now : Nat) (s : Net) :
    ∀ fuel i0 i, i0 ≤ i → i < i0 + fuel →
      (∀ j, i0 ≤ j → j < i → (s.conn_queue.getD j default).valid ≠ 0) →
      (s.conn_queue.getD i default).valid = 0 →
      conn_queue_add_loop ip port seq now s fuel i0 =
        { s with
          conn_queue := s.conn_queue.set i
            { remote_ip := ip, remote_port := port, their_seq := seq, timestamp := now,
              valid := 1 }
          conn_queue_count := (s.conn_queue_count + 1) % 256 } := by
  intro fuel
  induction fuel with
  | zero => intro i0 i h1 h2; omega
  | succ fuel ih =>
    intro i0 i h1 h2 hv hf
    simp only [conn_queue_add_loop]
    by_cases e : i0 = i
    · subst e
      rw [if_pos hf]
    · rw [if_neg (hv i0 (le_refl _) (by omega))]
      exact ih (i0 + 1) i (by omega) (by omega) (fun j hj1 hj2 => hv j (by omega) hj2) hf

theorem conn_queue_add_loop_full (ip port seq now : Nat) (s : Net) :
    ∀ fuel i0, (∀ j, i0 ≤ j → j < i0 + fuel → (s.conn_queue.getD j default).valid ≠ 0) →
      conn_queue_add_loop ip port seq now s fuel i0 = s := by
  intro fuel
  induction fuel with
  | zero => intro i0 _; rfl
  | succ fuel ih =>
    intro i0 hv
    simp only [conn_queue_add_loop]
    rw [if_neg (hv i0 (le_refl _) (by omega))]
    exact ih (i0 + 1) (fun j hj1 hj2 => hv j (by omega) (by omega))

/-- C6: an accepted segment with SYN and without ACK that arrives while the slot is not in
LISTEN only touches the backlog and the console: the connection state, the sequence
numbers, the remote endpoint and the retransmit cell are unchanged, the only new trace
entry is the console line (no byte is emitted, no callback is called), and when the
table has a free entry the first free one receives (source IP, source port, peer
sequence number, current tick) and the pending count grows by one. -/
theorem tcp_receive_queues_syn (accept : Nat → Nat → Nat) (now : Nat) (pkt : List Nat)
    (len src_ip : Nat) (s : Net) (hb : ∀ b ∈ pkt, b < 256)
    (ha : tcp_accepts s.tcp_local_port pkt len)
    (hsyn : pkt.getD TCP_FLAGS 0 &&& TCP_SYN ≠ 0) (hack : pkt.getD TCP_FLAGS 0 &&& TCP_ACK = 0)
    (hst : s.tcp_state ≠ TCP_STATE_LISTEN) :
    tcp_receive accept now pkt len src_ip s =
      { s with
        conn_queue := (tcp_receive accept now pkt len src_ip s).conn_queue
        conn_queue_count := (tcp_receive accept now pkt len src_ip s).conn_queue_count
        out := s.out ++
          [Event.printf_queued (tcp_receive accept now pkt len src_ip s).conn_queue_count] } ∧
    (∀ i, i < CONN_QUEUE_SIZE →
      (∀ j, j < i → (s.conn_queue.getD j default).valid ≠ 0) →
      (s.conn_queue.getD i default).valid = 0 →
      (tcp_receive accept now pkt len src_ip s).conn_queue =
        s.conn_queue.set i
          { remote_ip := src_ip, remote_port := get_u16 pkt TCP_SRC_PORT,
            their_seq := get_u32 pkt TCP_SEQ_OFF, timestamp := now, valid := 1 } ∧
      (tcp_receive accept now pkt len src_ip s).conn_queue_count =
        (s.conn_queue_count + 1) % 256) := by
  have e : tcp_receive accept now pkt len src_ip s =
      (conn_queue_add src_ip (get_u16 pkt TCP_SRC_PORT) (get_u32 pkt TCP_SEQ_OFF) now s).emit
        [Event.printf_queued (conn_queue_add src_ip (get_u16 pkt TCP_SRC_PORT)
          (get_u32 pkt TCP_SEQ_OFF) now s).conn_queue_count] := by
    rw [tcp_receive_of_accepts accept now pkt len src_ip s hb ha]
    unfold tcp_input
    rw [if_pos ⟨hsyn, hack, hst⟩]
  constructor
  · rw [e]
    unfold conn_queue_add
    rw [conn_queue_add_loop_frame]
    rfl
  · intro i hi hv hf
    rw [e]
    unfold conn_queue_add
    rw [conn_queue_add_loop_first_free src_ip _ _ now s CONN_QUEUE_SIZE 0 i (Nat.zero_le _)
      (by omega) (fun j _ hj => hv j hj) hf]
    exact ⟨rfl, rfl⟩

/-- C6 witness: a second SYN (from 192.168.1.11:1235, sequence number 7, tick 9) arriving at
the established sample server is stored in backlog entry 0. -/
theorem tcp_receive_queues_syn_witness :
    (tcp_receive (fun _ _ => 1) 9
      [0x04, 0xD3, 0x00, 0x50, 0, 0, 0, 7, 0, 0, 0, 0, 0x50, 0x02, 0x08, 0x00, 0, 0, 0, 0]
      20 0xC0A8010B sample_established).conn_queue =
      sample_established.conn_queue.set 0
        { remote_ip := 0xC0A8010B, remote_port := 1235, their_seq := 7, timestamp := 9,
          valid := 1 } ∧
    (tcp_receive (fun _ _ => 1) 9
      [0x04, 0xD3, 0x00, 0x50, 0, 0, 0, 7, 0, 0, 0, 0, 0x50, 0x02, 0x08, 0x00, 0, 0, 0, 0]
      20 0xC0A8010B sample_established).conn_queue_count = 1 :=
  (tcp_receive_queues_syn (fun _ _ => 1) 9
    [0x04, 0xD3, 0x00, 0x50, 0, 0, 0, 7, 0, 0, 0, 0, 0x50, 0x02, 0x08, 0x00, 0, 0, 0, 0]
    20 0xC0A8010B sample_established (by decide) (by decide) (by decide) (by decide)
    (by decide)).2 0 (by decide) (by decide) (by decide)

/-! ## TCP output -/

/-- What `tcp_send_flags` does with no payload: one IP datagram holding the 20-byte segment
goes to the SLIP framer, the identification counter advances, and the send sequence number
advances by one for SYN and by one for FIN. -/
theorem tcp_send_flags_nodata (flags : Nat) (s : Net) :
    tcp_send_flags flags [] 0 s =
      { s with
        tcp_seq_num :=
          ((if flags &&& TCP_FIN ≠ 0 then
              ((if flags &&& TCP_SYN ≠ 0 then (s.tcp_seq_num + 1) % 2 ^ 32 else s.tcp_seq_num)
                + 1) % 2 ^ 32
            else (if flags &&& TCP_SYN ≠ 0 then (s.tcp_seq_num + 1) % 2 ^ 32
              else s.tcp_seq_num)) + 0) % 2 ^ 32
        ip_id := (s.ip_id + 1) % 2 ^ 16
        out := s.out ++ (slip_send (ip_datagram s.LOCAL_IP s.ip_id s.tcp_remote_ip IP_PROTO_TCP
          (tcp_segment s flags [] 0) 20) 40).map Event.tx_putchar } := by
  unfold tcp_send_flags ip_send
  by_cases h1 : flags &&& TCP_SYN = 0 <;> by_cases h2 : flags &&& TCP_FIN = 0 <;>
    simp only [h1, h2, ne_eq, not_false_eq_true, not_true_eq_false, if_true, if_false] <;> rfl

theorem conn_queue_pop_loop_out (now : Nat) :
    ∀ fuel i s, (conn_queue_pop_loop now fuel i s).2.out = s.out ∧
      (conn_queue_pop_loop now fuel i s).2.tcp_state = s.tcp_state := by
  intro fuel
  induction fuel with
  | zero => intro i s; exact ⟨rfl, rfl⟩
  | succ fuel ih =>
    intro i s
    simp only [conn_queue_pop_loop]
    split
    · split
      · exact ih _ _
      · exact ⟨rfl, rfl⟩
    · exact ih _ _

/-- The backlog drain only appends to the trace, and never a notification of a return
to LISTEN. -/
theorem tcp_process_queue_out (accept : Nat → Nat → Nat) (now : Nat) (s : Net) :
    ∃ es, (tcp_process_queue accept now s).out = s.out ++ es ∧
      ∀ e ∈ es, ∀ o ip port, e ≠ Event.app_tcp_state_changed o TCP_STATE_LISTEN ip port := by
  unfold tcp_process_queue
  split
  · exact ⟨[], by simp, by simp⟩
  · have ho := (conn_queue_pop_loop_out now CONN_QUEUE_SIZE 0 s).1
    split
    · rename_i s1 heq
      have : s1.out = s.out := by
        have := congrArg (fun r => r.2.out) heq
        simp only [conn_queue_pop] at this
        rw [← this]; exact ho
      exact ⟨[], by simp [this], by simp⟩
    · rename_i ip port seq s1 heq
      have h1 : s1.out = s.out := by
        have := congrArg (fun r => r.2.out) heq
        simp only [conn_queue_pop] at this
        rw [← this]; exact ho
      split
      · simp only [tcp_send_flags_nodata, Net.emit, h1, List.append_assoc]
        refine ⟨_, rfl, ?_⟩
        · intro e he o ip1 port1
          simp only [List.mem_append, List.mem_cons, List.mem_map, List.not_mem_nil,
            or_false] at he
          rcases he with he | he | ⟨c, _, he⟩ | he
          · rw [he]; simp
          · rw [he]; simp
          · rw [← he]; simp
          · rw [he]; simp
      · simp only [Net.emit, h1, List.append_assoc]
        refine ⟨_, rfl, ?_⟩
        · intro e he o ip1 port1
          simp only [List.mem_append, List.mem_cons, List.not_mem_nil, or_false] at he
          rcases he with he | he
          · rw [he]; simp
          · rw [he]; simp

theorem u16_bytes (v : Nat) :
    (((v >>> 8) % 256) <<< 8 ||| v % 256) % 2 ^ 16 = v % 2 ^ 16 := by
  rw [shl8_or _ _ (Nat.mod_lt _ (by decide)), Nat.shiftRight_eq_div_pow]
  omega

theorem u32_bytes (v : Nat) :
    ((((v >>> 24) % 256) <<< 24) ||| (((v >>> 16) % 256) <<< 16) |||
      (((v >>> 8) % 256) <<< 8) ||| v % 256) % 2 ^ 32 = v % 2 ^ 32 := by
  rw [shl_or_bytes _ _ _ _ (Nat.mod_lt _ (by decide)) (Nat.mod_lt _ (by decide))
    (Nat.mod_lt _ (by decide))]
  simp only [Nat.shiftRight_eq_div_pow]
  omega

/-- The header `tcp_send_flags` writes for a segment without payload, byte by byte. -/
theorem tcp_segment_nodata (s : Net) (flags : Nat) :
    ∃ (c1 c2 : Nat) (tail : List Nat), tcp_segment s flags [] 0 =
      [(s.tcp_local_port >>> 8) % 256, s.tcp_local_port % 256,
       (s.tcp_remote_port >>> 8) % 256, s.tcp_remote_port % 256,
       (s.tcp_seq_num >>> 24) % 256, (s.tcp_seq_num >>> 16) % 256,
       (s.tcp_seq_num >>> 8) % 256, s.tcp_seq_num % 256,
       (s.tcp_ack_num >>> 24) % 256, (s.tcp_ack_num >>> 16) % 256,
       (s.tcp_ack_num >>> 8) % 256, s.tcp_ack_num % 256,
       0x50, flags, 8, 0, c1, c2, 0, 0] ++ tail := by
  apply Exists.intro
  apply Exists.intro
  apply Exists.intro
  · simp only [tcp_segment, put_u16, put_u32, TCP_HEADER_LEN, TCP_SRC_PORT, TCP_DST_PORT,
      TCP_SEQ_OFF, TCP_ACK_OFF, TCP_DATA_OFF, TCP_FLAGS, TCP_WINDOW, TCP_CHECKSUM, TCP_URGENT,
      Nat.reduceAdd, lt_self_iff_false, if_false, gt_iff_lt]
    rw [show (84 : Nat) = 20 + 64 from rfl, List.replicate_add]
    simp only [List.replicate, List.cons_append, List.set_cons_zero, List.set_cons_succ,
      List.nil_append, Nat.reduceShiftRight, Nat.reduceMod]
    rfl

theorem tcp_segment_nodata_fields (s : Net) (flags : Nat) :
    (tcp_segment s flags [] 0).getD TCP_FLAGS 0 = flags ∧
    (tcp_segment s flags [] 0).getD TCP_DATA_OFF 0 = 0x50 ∧
    get_u16 (tcp_segment s flags [] 0) TCP_SRC_PORT = s.tcp_local_port % 2 ^ 16 ∧
    get_u16 (tcp_segment s flags [] 0) TCP_DST_PORT = s.tcp_remote_port % 2 ^ 16 ∧
    get_u32 (tcp_segment s flags [] 0) TCP_SEQ_OFF = s.tcp_seq_num % 2 ^ 32 ∧
    get_u32 (tcp_segment s flags [] 0) TCP_ACK_OFF = s.tcp_ack_num % 2 ^ 32 := by
  obtain ⟨c1, c2, tail, e⟩ := tcp_segment_nodata s flags
  rw [e]
  refine ⟨rfl, rfl, ?_, ?_, ?_, ?_⟩
  · exact u16_bytes _
  · exact u16_bytes _
  · exact u32_bytes _
  · exact u32_bytes _

/-- C7 (amended): an accepted segment with RST set to which the SYN backlog rule does not
apply (it is not a SYN without ACK arriving outside LISTEN) does this: in a state other
than CLOSED and LISTEN the slot returns to LISTEN, `app_tcp_state_changed(old state,
LISTEN, remote IP, remote port)` is called, and then the backlog is drained by
`tcp_process_queue`, which adds no second notification of a return to LISTEN; in CLOSED
or LISTEN nothing changes. -/
theorem tcp_receive_reset (accept : Nat → Nat → Nat) (now : Nat) (pkt : List Nat)
    (len src_ip : Nat) (s : Net) (hb : ∀ b ∈ pkt, b < 256)
    (ha : tcp_accepts s.tcp_local_port pkt len)
    (hrst : pkt.getD TCP_FLAGS 0 &&& TCP_RST ≠ 0)
    (hnq : ¬(pkt.getD TCP_FLAGS 0 &&& TCP_SYN ≠ 0 ∧ pkt.getD TCP_FLAGS 0 &&& TCP_ACK = 0 ∧
      s.tcp_state ≠ TCP_STATE_LISTEN)) :
    (s.tcp_state ≠ TCP_STATE_CLOSED → s.tcp_state ≠ TCP_STATE_LISTEN →
      tcp_receive accept now pkt len src_ip s =
        tcp_process_queue accept now
          { s with
            tcp_state := TCP_STATE_LISTEN
            out := s.out ++ [Event.app_tcp_state_changed s.tcp_state TCP_STATE_LISTEN
              s.tcp_remote_ip s.tcp_remote_port] } ∧
      ∃ es, (tcp_receive accept now pkt len src_ip s).out =
          s.out ++ Event.app_tcp_state_changed s.tcp_state TCP_STATE_LISTEN
            s.tcp_remote_ip s.tcp_remote_port :: es ∧
        ∀ e ∈ es, ∀ o ip port, e ≠ Event.app_tcp_state_changed o TCP_STATE_LISTEN ip port) ∧
    (s.tcp_state = TCP_STATE_CLOSED ∨ s.tcp_state = TCP_STATE_LISTEN →
      tcp_receive accept now pkt len src_ip s = s) := by
  rw [tcp_receive_of_accepts accept now pkt len src_ip s hb ha]
  unfold tcp_input
  rw [if_neg hnq, if_pos hrst]
  constructor
  · intro h1 h2
    rw [if_pos ⟨h1, h2⟩]
    refine ⟨rfl, ?_⟩
    obtain ⟨es, e1, e2⟩ := tcp_process_queue_out accept now
      { s with
        tcp_state := TCP_STATE_LISTEN
        out := s.out ++ [Event.app_tcp_state_changed s.tcp_state TCP_STATE_LISTEN
          s.tcp_remote_ip s.tcp_remote_port] }
    refine ⟨es, ?_, e2⟩
    unfold tcp_back_to_listen
    simp only [Net.emit]
    rw [e1]
    simp
  · intro h
    rw [if_neg (by
      rintro ⟨h1, h2⟩
      rcases h with h | h
      · exact h1 h
      · exact h2 h)]

/-- C7 witness: an RST|ACK segment from the peer brings the established sample server back
to LISTEN and notifies the application once. -/
theorem tcp_receive_reset_witness :
    (tcp_receive (fun _ _ => 1) 9
      [0x04, 0xD2, 0x00, 0x50, 0, 0, 0, 101, 0, 0, 0x03, 0xE9, 0x50, 0x14, 0x08, 0x00, 0, 0, 0, 0]
      20 0xC0A8010A sample_established).tcp_state = TCP_STATE_LISTEN ∧
    (tcp_receive (fun _ _ => 1) 9
      [0x04, 0xD2, 0x00, 0x50, 0, 0, 0, 101, 0, 0, 0x03, 0xE9, 0x50, 0x14, 0x08, 0x00, 0, 0, 0, 0]
      20 0xC0A8010A sample_established).out =
      sample_established.out ++
        [Event.app_tcp_state_changed TCP_STATE_ESTABLISHED TCP_STATE_LISTEN 0xC0A8010A 1234] :=
  have h := (tcp_receive_reset (fun _ _ => 1) 9
    [0x04, 0xD2, 0x00, 0x50, 0, 0, 0, 101, 0, 0, 0x03, 0xE9, 0x50, 0x14, 0x08, 0x00, 0, 0, 0, 0]
    20 0xC0A8010A sample_established (by decide) (by decide) (by decide) (by decide)).1
    (by decide) (by decide)
  ⟨h.1 ▸ by decide, h.1 ▸ by decide⟩

/-- C7 counterexample: a segment with RST and SYN (no ACK) that arrives in ESTABLISHED is
put into the backlog: the slot stays ESTABLISHED and the application is not notified;
the same flags arriving in CLOSED also change the backlog. -/
theorem tcp_receive_reset_fails :
    ([0x04, 0xD3, 0x00, 0x50, 0, 0, 0, 7, 0, 0, 0, 0, 0x50, 0x06, 0x08, 0x00, 0, 0, 0, 0].getD
        TCP_FLAGS 0 &&& TCP_RST ≠ 0) ∧
    sample_established.tcp_state = TCP_STATE_ESTABLISHED ∧
    (tcp_receive (fun _ _ => 1) 9
      [0x04, 0xD3, 0x00, 0x50, 0, 0, 0, 7, 0, 0, 0, 0, 0x50, 0x06, 0x08, 0x00, 0, 0, 0, 0]
      20 0xC0A8010B sample_established).tcp_state = TCP_STATE_ESTABLISHED ∧
    (tcp_receive (fun _ _ => 1) 9
      [0x04, 0xD3, 0x00, 0x50, 0, 0, 0, 7, 0, 0, 0, 0, 0x50, 0x06, 0x08, 0x00, 0, 0, 0, 0]
      20 0xC0A8010B sample_established).out =
      sample_established.out ++ [Event.printf_queued 1] ∧
    (Net.init 0xC0A80102).tcp_state = TCP_STATE_CLOSED ∧
    (tcp_receive (fun _ _ => 1) 9
      [0x04, 0xD3, 0x00, 0x00, 0, 0, 0, 7, 0, 0, 0, 0, 0x50, 0x06, 0x08, 0x00, 0, 0, 0, 0]
      20 0xC0A8010B (Net.init 0xC0A80102)).conn_queue_count = 1 := by
  decide
/-! ## TCP handshake -/

/-- C8 (amended): an accepted segment with SYN set and RST clear (with or without ACK) that
arrives in LISTEN and is admitted by `app_tcp_accept` makes the engine set the remote endpoint to the sender, emit
exactly one datagram whose TCP segment has flags SYN|ACK, sequence number 1000 and
acknowledgement number peer sequence + 1 (mod 2^32), end in SYN_RECEIVED with next send
sequence 1001, and call `app_tcp_state_changed(LISTEN, SYN_RECEIVED, ip, port)`. -/
theorem tcp_receive_listen_syn (accept : Nat → Nat → Nat) (now : Nat) (pkt : List Nat)
    (len src_ip : Nat) (s : Net) (hb : ∀ b ∈ pkt, b < 256)
    (ha : tcp_accepts s.tcp_local_port pkt len) (hst : s.tcp_state = TCP_STATE_LISTEN)
    (hsyn : pkt.getD TCP_FLAGS 0 &&& TCP_SYN ≠ 0) (hrst : pkt.getD TCP_FLAGS 0 &&& TCP_RST = 0)
    (hacc : accept src_ip (get_u16 pkt TCP_SRC_PORT) ≠ 0) :
    tcp_receive accept now pkt len src_ip s =
      { s with
        tcp_remote_ip := src_ip
        tcp_remote_port := get_u16 pkt TCP_SRC_PORT
        tcp_seq_num := 1001
        tcp_ack_num := (get_u32 pkt TCP_SEQ_OFF + 1) % 2 ^ 32
        tcp_state := TCP_STATE_SYN_RECEIVED
        ip_id := (s.ip_id + 1) % 2 ^ 16
        out := s.out ++ [Event.app_tcp_accept src_ip (get_u16 pkt TCP_SRC_PORT)] ++
          (slip_send (ip_datagram s.LOCAL_IP s.ip_id src_ip IP_PROTO_TCP
            (tcp_segment
              { s with
                tcp_remote_ip := src_ip
                tcp_remote_port := get_u16 pkt TCP_SRC_PORT
                tcp_seq_num := 1000
                tcp_ack_num := (get_u32 pkt TCP_SEQ_OFF + 1) % 2 ^ 32 }
              (TCP_SYN ||| TCP_ACK) [] 0) 20) 40).map Event.tx_putchar ++
          [Event.app_tcp_state_changed TCP_STATE_LISTEN TCP_STATE_SYN_RECEIVED src_ip
            (get_u16 pkt TCP_SRC_PORT)] } ∧
    (tcp_segment
        { s with
          tcp_remote_ip := src_ip
          tcp_remote_port := get_u16 pkt TCP_SRC_PORT
          tcp_seq_num := 1000
          tcp_ack_num := (get_u32 pkt TCP_SEQ_OFF + 1) % 2 ^ 32 }
        (TCP_SYN ||| TCP_ACK) [] 0).getD TCP_FLAGS 0 = TCP_SYN ||| TCP_ACK ∧
    get_u32 (tcp_segment
        { s with
          tcp_remote_ip := src_ip
          tcp_remote_port := get_u16 pkt TCP_SRC_PORT
          tcp_seq_num := 1000
          tcp_ack_num := (get_u32 pkt TCP_SEQ_OFF + 1) % 2 ^ 32 }
        (TCP_SYN ||| TCP_ACK) [] 0) TCP_SEQ_OFF = 1000 ∧
    get_u32 (tcp_segment
        { s with
          tcp_remote_ip := src_ip
          tcp_remote_port := get_u16 pkt TCP_SRC_PORT
          tcp_seq_num := 1000
          tcp_ack_num := (get_u32 pkt TCP_SEQ_OFF + 1) % 2 ^ 32 }
        (TCP_SYN ||| TCP_ACK) [] 0) TCP_ACK_OFF = (get_u32 pkt TCP_SEQ_OFF + 1) % 2 ^ 32 := by
  have hf := tcp_segment_nodata_fields
    { s with
      tcp_remote_ip := src_ip
      tcp_remote_port := get_u16 pkt TCP_SRC_PORT
      tcp_seq_num := 1000
      tcp_ack_num := (get_u32 pkt TCP_SEQ_OFF + 1) % 2 ^ 32 } (TCP_SYN ||| TCP_ACK)
  refine ⟨?_, hf.1, hf.2.2.2.2.1, ?_⟩
  · rw [tcp_receive_of_accepts accept now pkt len src_ip s hb ha]
    unfold tcp_input
    rw [if_neg (by rintro ⟨_, _, h⟩; exact h hst), if_neg (not_not.mpr hrst)]
    unfold tcp_dispatch
    simp only [hst, if_true, hsyn, ne_eq, not_false_eq_true, hacc, Net.emit,
      tcp_send_flags_nodata, List.append_assoc]
    rfl
  · rw [hf.2.2.2.2.2]
    exact Nat.mod_mod _ _

/-- C8 witness: the sample SYN (sequence number 100, to port 80) is answered with SYN|ACK,
sequence number 1000, acknowledgement number 101, and the server ends in SYN_RECEIVED. -/
theorem tcp_receive_listen_syn_witness :
    (tcp_receive (fun _ _ => 1) 5 sample_syn 20 0xC0A8010A sample_listen).tcp_state
      = TCP_STATE_SYN_RECEIVED ∧
    (tcp_receive (fun _ _ => 1) 5 sample_syn 20 0xC0A8010A sample_listen).tcp_seq_num = 1001 ∧
    (tcp_receive (fun _ _ => 1) 5 sample_syn 20 0xC0A8010A sample_listen).out =
      [Event.app_tcp_accept 0xC0A8010A 1234] ++
      ([0xC0, 0x45, 0, 0, 40, 0, 1, 0, 0, 64, 6, 0xF7, 0x72, 0xDB, 0xDC, 168, 1, 2,
        0xDB, 0xDC, 168, 1, 10,
        0, 80, 0x04, 0xD2, 0, 0, 0x03, 0xE8, 0, 0, 0, 101, 0x50, 0x12, 0x08, 0, 27, 7, 0, 0,
        0xC0].map Event.tx_putchar) ++
      [Event.app_tcp_state_changed TCP_STATE_LISTEN TCP_STATE_SYN_RECEIVED 0xC0A8010A 1234] := by
  have h := tcp_receive_listen_syn (fun _ _ => 1) 5 sample_syn 20 0xC0A8010A sample_listen
    (by decide) (by decide) (by decide) (by decide) (by decide) (by decide)
  refine ⟨?_, ?_, ?_⟩
  · rw [h.1]
  · rw [h.1]
  · rw [h.1]; decide

/-- C9: a segment with SYN that arrives in LISTEN while `app_tcp_accept` answers 0 for
its sender is ignored: every global keeps its value (state LISTEN, remote endpoint,
sequence numbers), nothing is emitted and `app_tcp_state_changed` is not called; the
only trace entry is the call of `app_tcp_accept` itself (absent when the segment also
carries RST). -/
theorem tcp_receive_listen_refused (accept : Nat → Nat → Nat) (now : Nat) (pkt : List Nat)
    (len src_ip : Nat) (s : Net) (hb : ∀ b ∈ pkt, b < 256)
    (ha : tcp_accepts s.tcp_local_port pkt len) (hst : s.tcp_state = TCP_STATE_LISTEN)
    (hsyn : pkt.getD TCP_FLAGS 0 &&& TCP_SYN ≠ 0)
    (hacc : accept src_ip (get_u16 pkt TCP_SRC_PORT) = 0) :
    tcp_receive accept now pkt len src_ip s =
      { s with
        out := s.out ++ (if pkt.getD TCP_FLAGS 0 &&& TCP_RST ≠ 0 then []
          else [Event.app_tcp_accept src_ip (get_u16 pkt TCP_SRC_PORT)]) } := by
  rw [tcp_receive_of_accepts accept now pkt len src_ip s hb ha]
  unfold tcp_input
  rw [if_neg (by rintro ⟨_, _, h⟩; exact h hst)]
  by_cases hrst : pkt.getD TCP_FLAGS 0 &&& TCP_RST ≠ 0
  · rw [if_pos hrst, if_neg (by rintro ⟨_, h⟩; exact h hst), if_pos hrst]
    simp
  · rw [if_neg hrst, if_neg hrst]
    unfold tcp_dispatch
    simp only [hst, if_true, hsyn, ne_eq, not_false_eq_true, hacc, not_true_eq_false,
      if_false, Net.emit]

/-- C9 witness: the sample SYN is ignored by a server whose application refuses
everyone. -/
theorem tcp_receive_listen_refused_witness :
    tcp_receive (fun _ _ => 0) 5 sample_syn 20 0xC0A8010A sample_listen =
      { sample_listen with out := [Event.app_tcp_accept 0xC0A8010A 1234] } :=
  tcp_receive_listen_refused (fun _ _ => 0) 5 sample_syn 20 0xC0A8010A sample_listen
    (by decide) (by decide) (by decide) (by decide) (by decide)

theorem conn_queue_add_tcp_state (ip port seq now : Nat) (s : Net) :
    (conn_queue_add ip port seq now s).tcp_state = s.tcp_state := by
  unfold conn_queue_add
  rw [conn_queue_add_loop_frame]

/-- C8 counterexample: a segment with SYN and RST (no ACK) that arrives in LISTEN at a
server whose application admits everyone is dropped by the reset rule: nothing is
emitted and the slot stays in LISTEN. -/
theorem tcp_receive_listen_syn_fails :
    ([0x04, 0xD2, 0x00, 0x50, 0, 0, 0, 100, 0, 0, 0, 0, 0x50, 0x06, 0x08, 0x00, 0, 0, 0, 0].getD
        TCP_FLAGS 0 &&& TCP_SYN ≠ 0) ∧
    ([0x04, 0xD2, 0x00, 0x50, 0, 0, 0, 100, 0, 0, 0, 0, 0x50, 0x06, 0x08, 0x00, 0, 0, 0, 0].getD
        TCP_FLAGS 0 &&& TCP_ACK = 0) ∧
    tcp_accepts sample_listen.tcp_local_port
      [0x04, 0xD2, 0x00, 0x50, 0, 0, 0, 100, 0, 0, 0, 0, 0x50, 0x06, 0x08, 0x00, 0, 0, 0, 0] 20 ∧
    sample_listen.tcp_state = TCP_STATE_LISTEN ∧
    tcp_receive (fun _ _ => 1) 5
      [0x04, 0xD2, 0x00, 0x50, 0, 0, 0, 100, 0, 0, 0, 0, 0x50, 0x06, 0x08, 0x00, 0, 0, 0, 0]
      20 0xC0A8010A sample_listen = sample_listen := by
  decide

/-! ## Segments with payload -/

theorem tcp_segment_congr (s t : Net) (flags : Nat) (data : List Nat) (n : Nat)
    (h1 : t.tcp_local_port = s.tcp_local_port) (h2 : t.tcp_remote_port = s.tcp_remote_port)
    (h3 : t.tcp_seq_num = s.tcp_seq_num) (h4 : t.tcp_ack_num = s.tcp_ack_num)
    (h5 : t.LOCAL_IP = s.LOCAL_IP) (h6 : t.tcp_remote_ip = s.tcp_remote_ip) :
    tcp_segment t flags data n = tcp_segment s flags data n := by
  unfold tcp_segment
  simp only [h1, h2, h3, h4, h5, h6]

/-- What `tcp_send_flags` does for a payload of at most 64 bytes (the size of `tcp_buf`
behind the header): one IP datagram holding the segment goes to the SLIP framer, the
identification counter advances, and the send sequence number advances by the payload
length plus one for SYN and one for FIN. -/
theorem tcp_send_flags_small (flags : Nat) (data : List Nat) (n k : Nat) (s : Net)
    (hn : n ≤ 64)
    (hk : k = (if flags &&& TCP_SYN ≠ 0 then 1 else 0) + (if flags &&& TCP_FIN ≠ 0 then 1 else 0)) :
    tcp_send_flags flags data n s =
      { s with
        tcp_seq_num := (s.tcp_seq_num + k + n) % 2 ^ 32
        ip_id := (s.ip_id + 1) % 2 ^ 16
        out := s.out ++ (slip_send (ip_datagram s.LOCAL_IP s.ip_id s.tcp_remote_ip IP_PROTO_TCP
          (tcp_segment s flags data n) (20 + n)) (40 + n)).map Event.tx_putchar } := by
  have e1 : n % 256 = n := Nat.mod_eq_of_lt (by omega)
  have e2 : (TCP_HEADER_LEN + n) % 256 = 20 + n := by simp only [TCP_HEADER_LEN]; omega
  have e3 : (IP_HEADER_LEN + (20 + n)) % 2 ^ 16 % 256 = 40 + n := by
    simp only [IP_HEADER_LEN]; omega
  have e4 : (20 + n) % 256 = 20 + n := by omega
  unfold tcp_send_flags ip_send
  by_cases h1 : flags &&& TCP_SYN = 0 <;> by_cases h2 : flags &&& TCP_FIN = 0 <;>
    simp only [h1, h2, ne_eq, not_false_eq_true, not_true_eq_false, if_true, if_false, e1,
      e2, e3, e4] at hk ⊢ <;> subst hk <;> congr 1 <;> omega

/-- The segment `tcp_send_flags` builds: a 20-byte header, the payload, and what is left of
`tcp_buf`. -/
theorem tcp_segment_bytes (s : Net) (flags : Nat) (data : List Nat) (n : Nat) :
    ∃ (c1 c2 : Nat) (tail : List Nat), tcp_segment s flags data n =
      [(s.tcp_local_port >>> 8) % 256, s.tcp_local_port % 256,
       (s.tcp_remote_port >>> 8) % 256, s.tcp_remote_port % 256,
       (s.tcp_seq_num >>> 24) % 256, (s.tcp_seq_num >>> 16) % 256,
       (s.tcp_seq_num >>> 8) % 256, s.tcp_seq_num % 256,
       (s.tcp_ack_num >>> 24) % 256, (s.tcp_ack_num >>> 16) % 256,
       (s.tcp_ack_num >>> 8) % 256, s.tcp_ack_num % 256,
       0x50, flags, 8, 0, c1, c2, 0, 0] ++
      ((List.range n).map (fun i => data.getD i 0) ++ tail) := by
  by_cases hn : n = 0
  · subst hn
    obtain ⟨c1, c2, tail, e⟩ := tcp_segment_nodata s flags
    have e0 : tcp_segment s flags data 0 = tcp_segment s flags [] 0 := by
      simp [tcp_segment]
    exact ⟨c1, c2, tail, by rw [e0, e]; simp⟩
  · obtain ⟨tail, htail⟩ : ∃ t : List Nat, List.replicate 64 0 = t := ⟨_, rfl⟩
    apply Exists.intro
    apply Exists.intro
    apply Exists.intro
    · simp only [tcp_segment, put_u16, put_u32, TCP_HEADER_LEN, TCP_SRC_PORT, TCP_DST_PORT,
        TCP_SEQ_OFF, TCP_ACK_OFF, TCP_DATA_OFF, TCP_FLAGS, TCP_WINDOW, TCP_CHECKSUM,
        TCP_URGENT, Nat.reduceAdd, gt_iff_lt, Nat.pos_of_ne_zero hn, if_true, memcpy]
      rw [show (84 : Nat) = 20 + 64 from rfl, List.replicate_add]
      rw [htail]
      simp only [List.replicate, List.cons_append, List.set_cons_zero, List.set_cons_succ,
        List.nil_append, Nat.reduceShiftRight, Nat.reduceMod, List.take_succ_cons,
        List.take_zero, List.append_assoc]
      rw [show ∀ (a0 a1 a2 a3 a4 a5 a6 a7 a8 a9 a10 a11 a12 a13 a14 a15 a16 a17 a18 a19 : Nat),
        List.drop (20 + n) (a0 :: a1 :: a2 :: a3 :: a4 :: a5 :: a6 :: a7 :: a8 :: a9 :: a10 ::
          a11 :: a12 :: a13 :: a14 :: a15 :: a16 :: a17 :: a18 :: a19 :: tail) = List.drop n tail
        from fun _ _ _ _ _ _ _ _ _ _ _ _ _ _ _ _ _ _ _ _ => by
          rw [Nat.add_comm]; rfl]

theorem range_map_getD (l : List Nat) : ∀ n, n ≤ l.length →
    (List.range n).map (fun i => l.getD i 0) = l.take n := by
  intro n hn
  apply List.ext_getElem
  · simp [hn]
  · intro i h1 h2
    simp only [List.length_map, List.length_range] at h1
    have hi : i < l.length := by omega
    simp [List.getElem_take, List.getElem?_eq_getElem hi]

/-- The fields of the segment `tcp_send_flags` builds, and its payload. -/
theorem tcp_segment_fields (s : Net) (flags : Nat) (data : List Nat) (n : Nat) :
    (tcp_segment s flags data n).getD TCP_FLAGS 0 = flags ∧
    (tcp_segment s flags data n).getD TCP_DATA_OFF 0 = 0x50 ∧
    get_u16 (tcp_segment s flags data n) TCP_SRC_PORT = s.tcp_local_port % 2 ^ 16 ∧
    get_u16 (tcp_segment s flags data n) TCP_DST_PORT = s.tcp_remote_port % 2 ^ 16 ∧
    get_u32 (tcp_segment s flags data n) TCP_SEQ_OFF = s.tcp_seq_num % 2 ^ 32 ∧
    get_u32 (tcp_segment s flags data n) TCP_ACK_OFF = s.tcp_ack_num % 2 ^ 32 ∧
    ((tcp_segment s flags data n).drop TCP_HEADER_LEN).take n
      = (List.range n).map (fun i => data.getD i 0) := by
  obtain ⟨c1, c2, tail, e⟩ := tcp_segment_bytes s flags data n
  rw [e]
  refine ⟨rfl, rfl, ?_, ?_, ?_, ?_, ?_⟩
  · exact u16_bytes _
  · exact u16_bytes _
  · exact u32_bytes _
  · exact u32_bytes _
  · simp only [TCP_HEADER_LEN, List.cons_append, List.nil_append, List.drop_succ_cons,
      List.drop_zero]
    rw [List.take_left' (by simp)]

/-- The datagram `ip_send` builds carries the first `n` payload bytes behind its 20-byte
header. -/
theorem ip_datagram_payload (local_ip ip_id dst_ip protocol : Nat) (payload : List Nat)
    (n : Nat) :
    ((ip_datagram local_ip ip_id dst_ip protocol payload n).drop IP_HEADER_LEN).take n
      = (List.range n).map (fun i => payload.getD i 0) := by
  unfold ip_datagram memcpy
  simp only [IP_HEADER_LEN, List.append_assoc]
  rw [List.drop_left' (by
    simp only [List.length_take, length_put_u16, length_put_u32, List.length_set,
      List.length_replicate, PKT_BUF_SIZE]
    omega), List.take_left' (by simp)]

/-! ## ESTABLISHED -/

theorem established_ack_frame (flags ack_num : Nat) (s : Net) :
    established_ack flags ack_num s =
      { s with
        tcp_last_ack := (established_ack flags ack_num s).tcp_last_ack
        retx_len := (established_ack flags ack_num s).retx_len } := by
  unfold established_ack
  split
  · simp only []
    split <;> rfl
  · rfl

theorem established_ack_fields (flags ack_num : Nat) (s : Net) :
    (established_ack flags ack_num s).tcp_state = s.tcp_state ∧
    (established_ack flags ack_num s).tcp_local_port = s.tcp_local_port ∧
    (established_ack flags ack_num s).tcp_remote_port = s.tcp_remote_port ∧
    (established_ack flags ack_num s).tcp_remote_ip = s.tcp_remote_ip ∧
    (established_ack flags ack_num s).tcp_seq_num = s.tcp_seq_num ∧
    (established_ack flags ack_num s).tcp_ack_num = s.tcp_ack_num ∧
    (established_ack flags ack_num s).LOCAL_IP = s.LOCAL_IP ∧
    (established_ack flags ack_num s).ip_id = s.ip_id ∧
    (established_ack flags ack_num s).out = s.out ∧
    (established_ack flags ack_num s).conn_queue = s.conn_queue ∧
    (established_ack flags ack_num s).conn_queue_count = s.conn_queue_count := by
  rw [established_ack_frame]
  exact ⟨rfl, rfl, rfl, rfl, rfl, rfl, rfl, rfl, rfl, rfl, rfl⟩

/-- The ESTABLISHED case of the dispatch is the ACK step, then the data step, then the FIN
step. -/
theorem tcp_dispatch_established (accept : Nat → Nat → Nat) (now : Nat) (pkt : List Nat)
    (src_ip src_port seq_num ack_num flags hdr_len data_len : Nat) (s : Net)
    (hst : s.tcp_state = TCP_STATE_ESTABLISHED) :
    tcp_dispatch accept now pkt src_ip src_port seq_num ack_num flags hdr_len data_len s =
      if flags &&& TCP_FIN ≠ 0 then
        tcp_back_to_listen accept now TCP_STATE_ESTABLISHED
          (tcp_send_flags (TCP_FIN ||| TCP_ACK) [] 0
            { established_data pkt seq_num hdr_len data_len (established_ack flags ack_num s)
              with tcp_ack_num := (seq_num + data_len + 1) % 2 ^ 32 })
      else established_data pkt seq_num hdr_len data_len (established_ack flags ack_num s) := by
  have h1 : ¬ (TCP_STATE_ESTABLISHED = TCP_STATE_LISTEN) := by decide
  have h2 : ¬ (TCP_STATE_ESTABLISHED = TCP_STATE_SYN_SENT) := by decide
  have h3 : ¬ (TCP_STATE_ESTABLISHED = TCP_STATE_SYN_RECEIVED) := by decide
  unfold tcp_dispatch established_data established_ack
  simp only [hst, h1, h2, h3, if_false, if_true]

/-- An accepted segment without RST that the backlog rule does not take, arriving in
ESTABLISHED, runs the ESTABLISHED case. -/
theorem tcp_receive_established (accept : Nat → Nat → Nat) (now : Nat) (pkt : List Nat)
    (len src_ip : Nat) (s : Net) (hb : ∀ b ∈ pkt, b < 256)
    (ha : tcp_accepts s.tcp_local_port pkt len) (hst : s.tcp_state = TCP_STATE_ESTABLISHED)
    (hrst : pkt.getD TCP_FLAGS 0 &&& TCP_RST = 0)
    (hnq : ¬(pkt.getD TCP_FLAGS 0 &&& TCP_SYN ≠ 0 ∧ pkt.getD TCP_FLAGS 0 &&& TCP_ACK = 0)) :
    tcp_receive accept now pkt len src_ip s =
      if pkt.getD TCP_FLAGS 0 &&& TCP_FIN ≠ 0 then
        tcp_back_to_listen accept now TCP_STATE_ESTABLISHED
          (tcp_send_flags (TCP_FIN ||| TCP_ACK) [] 0
            { established_data pkt (get_u32 pkt TCP_SEQ_OFF) (tcp_hdr_len pkt)
                (len - tcp_hdr_len pkt)
                (established_ack (pkt.getD TCP_FLAGS 0) (get_u32 pkt TCP_ACK_OFF) s)
              with tcp_ack_num := (get_u32 pkt TCP_SEQ_OFF + (len - tcp_hdr_len pkt) + 1) % 2 ^ 32 })
      else established_data pkt (get_u32 pkt TCP_SEQ_OFF) (tcp_hdr_len pkt)
        (len - tcp_hdr_len pkt)
        (established_ack (pkt.getD TCP_FLAGS 0) (get_u32 pkt TCP_ACK_OFF) s) := by
  rw [tcp_receive_of_accepts accept now pkt len src_ip s hb ha]
  unfold tcp_input
  rw [if_neg (by rintro ⟨h1, h2, _⟩; exact hnq ⟨h1, h2⟩), if_neg (not_not.mpr hrst),
    tcp_dispatch_established _ _ _ _ _ _ _ _ _ _ _ hst]
  rfl

/-- The data step with a non-empty payload: the receive sequence number becomes sequence
number + length, one datagram with a pure ACK goes out, the payload goes to
`app_tcp_data_received`. -/
theorem established_data_pos (pkt : List Nat) (seq_num hdr_len data_len : Nat) (s : Net)
    (h : 0 < data_len) :
    established_data pkt seq_num hdr_len data_len s =
      { s with
        tcp_ack_num := (seq_num + data_len) % 2 ^ 32
        tcp_seq_num := s.tcp_seq_num % 2 ^ 32
        ip_id := (s.ip_id + 1) % 2 ^ 16
        out := s.out ++ (slip_send (ip_datagram s.LOCAL_IP s.ip_id s.tcp_remote_ip IP_PROTO_TCP
            (tcp_segment { s with tcp_ack_num := (seq_num + data_len) % 2 ^ 32 } TCP_ACK [] 0)
            20) 40).map Event.tx_putchar ++
          [Event.app_tcp_data_received ((pkt.drop hdr_len).take data_len) data_len] } := by
  unfold established_data
  rw [if_pos h]
  simp only [Net.emit]
  rw [tcp_send_flags_small TCP_ACK [] 0 0 _ (by decide) (by decide)]
  simp only [List.append_assoc]
  rfl


/-- The ESTABLISHED case for a data segment without FIN: the ACK step, then the receive
sequence number, one datagram with a pure ACK, and the payload for the application. -/
theorem established_data_segment (accept : Nat → Nat → Nat) (now : Nat) (pkt : List Nat)
    (len src_ip : Nat) (s : Net) (hb : ∀ b ∈ pkt, b < 256)
    (ha : tcp_accepts s.tcp_local_port pkt len) (hst : s.tcp_state = TCP_STATE_ESTABLISHED)
    (hfin : pkt.getD TCP_FLAGS 0 &&& TCP_FIN = 0) (hrst : pkt.getD TCP_FLAGS 0 &&& TCP_RST = 0)
    (hnq : ¬(pkt.getD TCP_FLAGS 0 &&& TCP_SYN ≠ 0 ∧ pkt.getD TCP_FLAGS 0 &&& TCP_ACK = 0))
    (hn : 0 < len - tcp_hdr_len pkt) :
    tcp_receive accept now pkt len src_ip s =
      { established_ack (pkt.getD TCP_FLAGS 0) (get_u32 pkt TCP_ACK_OFF) s with
        tcp_ack_num := (get_u32 pkt TCP_SEQ_OFF + (len - tcp_hdr_len pkt)) % 2 ^ 32
        tcp_seq_num := s.tcp_seq_num % 2 ^ 32
        ip_id := (s.ip_id + 1) % 2 ^ 16
        out := s.out ++ (slip_send (ip_datagram s.LOCAL_IP s.ip_id s.tcp_remote_ip IP_PROTO_TCP
            (tcp_segment
              { s with
                tcp_ack_num := (get_u32 pkt TCP_SEQ_OFF + (len - tcp_hdr_len pkt)) % 2 ^ 32 }
              TCP_ACK [] 0) 20) 40).map Event.tx_putchar ++
          [Event.app_tcp_data_received
            ((pkt.drop (tcp_hdr_len pkt)).take (len - tcp_hdr_len pkt))
            (len - tcp_hdr_len pkt)] } := by
  obtain ⟨f1, f2, f3, f4, f5, f6, f7, f8, f9, f10, f11⟩ :=
    established_ack_fields (pkt.getD TCP_FLAGS 0) (get_u32 pkt TCP_ACK_OFF) s
  have e : tcp_receive accept now pkt len src_ip s = _ :=
    tcp_receive_established accept now pkt len src_ip s hb ha hst hrst hnq
  rw [if_neg (not_not.mpr hfin), established_data_pos _ _ _ _ _ hn] at e
  rw [e]
  generalize established_ack (pkt.getD TCP_FLAGS 0) (get_u32 pkt TCP_ACK_OFF) s = ea
    at f1 f2 f3 f4 f5 f6 f7 f8 f9 f10 f11
  cases ea
  simp only at f1 f2 f3 f4 f5 f6 f7 f8 f9 f10 f11
  subst f1 f2 f3 f4 f5 f6 f7 f8 f9 f10 f11
  rfl

theorem data_events_append (a b : List Event) :
    data_events (a ++ b) = data_events a ++ data_events b := by
  induction a with
  | nil => rfl
  | cons e a ih => cases e <;> simp [data_events, ih]

theorem data_events_tx (l : List Nat) : data_events (l.map Event.tx_putchar) = [] := by
  induction l with
  | nil => rfl
  | cons c l ih => simpa [data_events] using ih

/-- The data step keeps the peer, the ports and the state, advances the send sequence
number by nothing (it is reduced mod 2^32 when an ACK goes out) and only appends to the
trace. -/
theorem established_data_fields (pkt : List Nat) (seq_num hdr_len data_len : Nat) (s : Net) :
    (established_data pkt seq_num hdr_len data_len s).tcp_state = s.tcp_state ∧
    (established_data pkt seq_num hdr_len data_len s).tcp_remote_ip = s.tcp_remote_ip ∧
    (established_data pkt seq_num hdr_len data_len s).tcp_remote_port = s.tcp_remote_port ∧
    (established_data pkt seq_num hdr_len data_len s).tcp_seq_num % 2 ^ 32
      = s.tcp_seq_num % 2 ^ 32 ∧
    ∃ es, (established_data pkt seq_num hdr_len data_len s).out = s.out ++ es := by
  by_cases h : 0 < data_len
  · rw [established_data_pos _ _ _ _ _ h]
    exact ⟨rfl, rfl, rfl, Nat.mod_mod _ _, ⟨_, List.append_assoc _ _ _⟩⟩
  · unfold established_data
    rw [if_neg h]
    exact ⟨rfl, rfl, rfl, rfl, ⟨[], (List.append_nil _).symm⟩⟩

/-! ## Application calls -/

/-- C14: in every state other than ESTABLISHED `tcp_send` returns the globals as they were,
for every buffer and length: nothing is emitted and the connection slot and the
retransmit cell are unchanged; the retransmit check, the only other sender of payload,
is a no-op there too. -/
theorem tcp_send_not_established (now : Nat) (data : List Nat) (len : Nat) (s : Net)
    (hst : s.tcp_state ≠ TCP_STATE_ESTABLISHED) :
    tcp_send now data len s = s ∧ tcp_check_retransmit now s = s := by
  constructor
  · unfold tcp_send
    simp only [hst, ne_eq, not_false_eq_true, if_true]
  · unfold tcp_check_retransmit
    rw [if_pos (Or.inl hst)]

/-- C14 witness: a send on the listening sample server changes nothing. -/
theorem tcp_send_not_established_witness :
    tcp_send 7 [72, 69, 76, 76, 79] 5 sample_listen = sample_listen ∧
    tcp_check_retransmit 7 sample_listen = sample_listen :=
  tcp_send_not_established 7 [72, 69, 76, 76, 79] 5 sample_listen (by decide)

/-- C16: `tcp_close` in ESTABLISHED emits exactly one datagram whose segment has flags
FIN|ACK and the current send sequence number, advances the send sequence number by one
and moves the slot to FIN_WAIT_1; in any other state it emits nothing and leaves the
state unchanged; in every case the retransmit cell is empty afterwards and nothing else
changes. -/
theorem tcp_close_spec (s : Net) :
    (s.tcp_state = TCP_STATE_ESTABLISHED →
      tcp_close s =
        { s with
          tcp_state := TCP_STATE_FIN_WAIT_1
          tcp_seq_num := (s.tcp_seq_num + 1) % 2 ^ 32
          retx_len := 0
          ip_id := (s.ip_id + 1) % 2 ^ 16
          out := s.out ++ (slip_send (ip_datagram s.LOCAL_IP s.ip_id s.tcp_remote_ip
            IP_PROTO_TCP (tcp_segment s (TCP_FIN ||| TCP_ACK) [] 0) 20) 40).map
              Event.tx_putchar } ∧
      (tcp_segment s (TCP_FIN ||| TCP_ACK) [] 0).getD TCP_FLAGS 0 = TCP_FIN ||| TCP_ACK ∧
      get_u32 (tcp_segment s (TCP_FIN ||| TCP_ACK) [] 0) TCP_SEQ_OFF = s.tcp_seq_num % 2 ^ 32) ∧
    (s.tcp_state ≠ TCP_STATE_ESTABLISHED → tcp_close s = { s with retx_len := 0 }) ∧
    (tcp_close s).retx_len = 0 := by
  have hf := tcp_segment_fields s (TCP_FIN ||| TCP_ACK) [] 0
  refine ⟨?_, ?_, ?_⟩
  · intro hst
    refine ⟨?_, hf.1, hf.2.2.2.2.1⟩
    unfold tcp_close
    simp only [hst, if_true]
    rw [tcp_send_flags_small (TCP_FIN ||| TCP_ACK) [] 0 1 _ (by decide) (by decide)]
    rw [tcp_segment_congr s _ _ _ _ rfl rfl rfl rfl rfl rfl]
    rfl
  · intro hst
    unfold tcp_close
    simp only [hst, if_false]
  · unfold tcp_close
    rfl

/-- C16 witness: closing the established sample server sends FIN|ACK and gives
FIN_WAIT_1 with send sequence 1002; closing the listening server leaves LISTEN. -/
theorem tcp_close_spec_witness :
    (tcp_close sample_established).tcp_state = TCP_STATE_FIN_WAIT_1 ∧
    (tcp_close sample_established).tcp_seq_num = 1002 ∧
    tcp_close sample_listen = sample_listen := by
  have h := (tcp_close_spec sample_established).1 (by decide)
  have h2 := (tcp_close_spec sample_listen).2.1 (by decide)
  refine ⟨by rw [h.1], by rw [h.1]; decide, by rw [h2]; decide⟩

/-- The function `tcp_send_flags` changes the send sequence number, the identification
counter and the trace, and nothing else. -/
theorem tcp_send_flags_frame (flags : Nat) (data : List Nat) (n : Nat) (s : Net) :
    tcp_send_flags flags data n s =
      { s with
        tcp_seq_num := (tcp_send_flags flags data n s).tcp_seq_num
        ip_id := (tcp_send_flags flags data n s).ip_id
        out := (tcp_send_flags flags data n s).out } := by
  unfold tcp_send_flags ip_send
  by_cases h1 : flags &&& TCP_SYN = 0 <;> by_cases h2 : flags &&& TCP_FIN = 0 <;>
    simp only [h1, h2, ne_eq, not_false_eq_true, not_true_eq_false, if_true, if_false]

theorem memcpy_zero_take (dst src : List Nat) (n : Nat) (h : n ≤ src.length) :
    (memcpy dst 0 src n).take n = src.take n := by
  unfold memcpy
  simp only [List.take_zero, List.nil_append, Nat.zero_add]
  rw [List.take_left' (by simp), range_map_getD src n h]

/-! ## Retransmission -/

theorem wire_bytes_append (a b : List Event) :
    wire_bytes (a ++ b) = wire_bytes a ++ wire_bytes b := by
  induction a with
  | nil => rfl
  | cons e a ih => cases e <;> simp [wire_bytes, ih]

theorem wire_bytes_tx (l : List Nat) : wire_bytes (l.map Event.tx_putchar) = l := by
  induction l with
  | nil => rfl
  | cons c l ih => simpa [wire_bytes] using ih

/-- The segment depends on the payload buffer only through its first `n` bytes. -/
theorem tcp_segment_data_congr (s : Net) (flags : Nat) (d1 d2 : List Nat) (n : Nat)
    (h : (List.range n).map (fun i => d1.getD i 0) = (List.range n).map (fun i => d2.getD i 0)) :
    tcp_segment s flags d1 n = tcp_segment s flags d2 n := by
  unfold tcp_segment memcpy
  simp only [h]

/-- The function `tcp_send` in ESTABLISHED with at most 64 bytes. -/
theorem tcp_send_small (now : Nat) (data : List Nat) (len : Nat) (s : Net)
    (hst : s.tcp_state = TCP_STATE_ESTABLISHED) (hlen : len ≤ 64) :
    tcp_send now data len s =
      { s with
        retx_buf := memcpy s.retx_buf 0 data len
        retx_len := len
        retx_seq := s.tcp_seq_num
        retx_time := now
        retx_attempts := 0
        tcp_seq_num := (s.tcp_seq_num + len) % 2 ^ 32
        ip_id := (s.ip_id + 1) % 2 ^ 16
        out := s.out ++ (slip_send (ip_datagram s.LOCAL_IP s.ip_id s.tcp_remote_ip
          IP_PROTO_TCP (tcp_segment s (TCP_PSH ||| TCP_ACK) data len) (20 + len))
            (40 + len)).map Event.tx_putchar } := by
  unfold tcp_send
  have e1 : len % 256 = len := Nat.mod_eq_of_lt (by omega)
  simp only [e1, hst, ne_eq, not_true_eq_false, if_false, RETX_BUF_SIZE, hlen, if_true]
  rw [tcp_send_flags_small (TCP_PSH ||| TCP_ACK) data len 0 _ hlen (by decide)]
  rw [tcp_segment_congr s _ _ _ _ rfl rfl rfl rfl rfl rfl]
  rfl

/-- The retransmit check does nothing while the cell is empty or the timeout has not
passed. -/
theorem tcp_check_retransmit_idle (now : Nat) (s : Net)
    (h : s.retx_len = 0 ∨
      (now % 2 ^ 32 + 2 ^ 32 - s.retx_time % 2 ^ 32) % 2 ^ 32 < RETX_TIMEOUT) :
    tcp_check_retransmit now s = s := by
  unfold tcp_check_retransmit
  rcases h with h | h
  · rw [if_pos (Or.inr h)]
  · split
    · rfl
    · rw [if_neg (by omega)]

/-- The retransmit check after a timeout with fewer than 3 retries made: the segment of
the cell goes out again, the attempt counter and the send time are updated. -/
theorem tcp_check_retransmit_retry (now : Nat) (s : Net)
    (hst : s.tcp_state = TCP_STATE_ESTABLISHED) (hlen0 : s.retx_len ≠ 0)
    (hlen : s.retx_len ≤ 64)
    (ht : RETX_TIMEOUT ≤ (now % 2 ^ 32 + 2 ^ 32 - s.retx_time % 2 ^ 32) % 2 ^ 32)
    (ha : s.retx_attempts < RETX_MAX_ATTEMPTS) :
    tcp_check_retransmit now s =
      { s with
        retx_attempts := s.retx_attempts + 1
        retx_time := now
        tcp_seq_num := (s.retx_seq + s.retx_len) % 2 ^ 32
        ip_id := (s.ip_id + 1) % 2 ^ 16
        out := s.out ++ [Event.printf_retransmit (s.retx_attempts + 1)] ++
          (slip_send (ip_datagram s.LOCAL_IP s.ip_id s.tcp_remote_ip IP_PROTO_TCP
            (tcp_segment { s with tcp_seq_num := s.retx_seq } (TCP_PSH ||| TCP_ACK)
              s.retx_buf s.retx_len) (20 + s.retx_len))
            (40 + s.retx_len)).map Event.tx_putchar } := by
  simp only [RETX_MAX_ATTEMPTS] at ha
  have e1 : (s.retx_attempts + 1) % 256 = s.retx_attempts + 1 := Nat.mod_eq_of_lt (by omega)
  have e2 : ¬ (s.retx_attempts + 1 > RETX_MAX_ATTEMPTS) := by
    simp only [RETX_MAX_ATTEMPTS]; omega
  unfold tcp_check_retransmit
  rw [if_neg (by rintro (h | h); exact h hst; exact hlen0 h), if_pos ht]
  simp only [e1, e2, if_false, Net.emit]
  rw [tcp_send_flags_small (TCP_PSH ||| TCP_ACK) _ _ 0 _ hlen (by decide)]
  rw [tcp_segment_congr { s with tcp_seq_num := s.retx_seq } _ _ _ _ rfl rfl rfl rfl rfl rfl]
  rfl

/-- The retransmit check after a timeout with 3 retries made: nothing goes out, a notice
is printed and the cell is cleared. -/
theorem tcp_check_retransmit_give_up (now : Nat) (s : Net)
    (hst : s.tcp_state = TCP_STATE_ESTABLISHED) (hlen0 : s.retx_len ≠ 0)
    (ht : RETX_TIMEOUT ≤ (now % 2 ^ 32 + 2 ^ 32 - s.retx_time % 2 ^ 32) % 2 ^ 32)
    (ha : s.retx_attempts = RETX_MAX_ATTEMPTS) :
    tcp_check_retransmit now s =
      { s with
        retx_attempts := 4
        retx_len := 0
        out := s.out ++ [Event.printf_retransmit_failed] } := by
  unfold tcp_check_retransmit
  rw [if_neg (by rintro (h | h); exact h hst; exact hlen0 h), if_pos ht]
  simp only [ha, Net.emit]
  rfl

theorem tcp_check_retransmit_all_empty (ts : List Nat) (s : Net) (h : s.retx_len = 0) :
    tcp_check_retransmit_all ts s = s := by
  induction ts with
  | nil => rfl
  | cons t ts ih =>
    show tcp_check_retransmit_all ts (tcp_check_retransmit t s) = s
    rw [tcp_check_retransmit_idle t s (Or.inl h), ih]

theorem frames_of_segment_append (l r : Nat) (seg : List Nat) (m : Nat) (a b : List Nat) :
    frames_of_segment l r seg m (a ++ b)
      = frames_of_segment l r seg m a ++ frames_of_segment l r seg m b := by
  induction a with
  | nil => rfl
  | cons x a ih => simp [frames_of_segment, ih]

/-- The invariant of a run of retransmit checks after one send: the wire holds the same
segment once for each identification value of `ids`, sent at the ticks `times`, two
consecutive of which are at least `RETX_TIMEOUT` apart in unsigned 32-bit arithmetic;
while the cell is full the number of copies is the attempt counter plus one. -/
theorem tcp_check_retransmit_all_inv (l r n : Nat) (seg W : List Nat) (hn0 : n ≠ 0)
    (hn : n ≤ 64) : ∀ (ts : List Nat) (u : Net) (ids times : List Nat),
    u.tcp_state = TCP_STATE_ESTABLISHED → u.LOCAL_IP = l → u.tcp_remote_ip = r →
    wire_bytes u.out = W ++ frames_of_segment l r seg (20 + n) ids →
    List.Chain' (fun a b => RETX_TIMEOUT ≤ (b % 2 ^ 32 + 2 ^ 32 - a % 2 ^ 32) % 2 ^ 32) times →
    ids.length = times.length →
    (u.retx_len = 0 ∧ ids.length ≤ RETX_MAX_ATTEMPTS + 1 ∨
      u.retx_len = n ∧
        tcp_segment { u with tcp_seq_num := u.retx_seq } (TCP_PSH ||| TCP_ACK) u.retx_buf n
          = seg ∧
        ids.length = u.retx_attempts + 1 ∧ u.retx_attempts ≤ RETX_MAX_ATTEMPTS ∧
        times.getLast? = some u.retx_time) →
    ∃ ids2 times2,
      (tcp_check_retransmit_all ts u).tcp_state = TCP_STATE_ESTABLISHED ∧
      wire_bytes (tcp_check_retransmit_all ts u).out
        = W ++ frames_of_segment l r seg (20 + n) (ids ++ ids2) ∧
      List.Chain' (fun a b => RETX_TIMEOUT ≤ (b % 2 ^ 32 + 2 ^ 32 - a % 2 ^ 32) % 2 ^ 32)
        (times ++ times2) ∧
      times2.Sublist ts ∧ ids2.length = times2.length ∧
      ((tcp_check_retransmit_all ts u).retx_len = 0 ∧
          (ids ++ ids2).length ≤ RETX_MAX_ATTEMPTS + 1 ∨
        (tcp_check_retransmit_all ts u).retx_len = n ∧
          (ids ++ ids2).length = (tcp_check_retransmit_all ts u).retx_attempts + 1 ∧
          (tcp_check_retransmit_all ts u).retx_attempts ≤ RETX_MAX_ATTEMPTS ∧
          (times ++ times2).getLast? = some (tcp_check_retransmit_all ts u).retx_time) := by
  intro ts
  induction ts with
  | nil =>
    intro u ids times hst _ _ hw hc hl hcell
    refine ⟨[], [], hst, by simpa using hw, by simpa using hc, by simp, rfl, ?_⟩
    rcases hcell with ⟨h1, h2⟩ | ⟨h1, _, h3, h4, h5⟩
    · exact Or.inl ⟨h1, by simpa using h2⟩
    · exact Or.inr ⟨h1, by simpa using h3, h4, by simpa using h5⟩
  | cons t ts ih =>
    intro u ids times hst hl0 hr0 hw hc hl hcell
    show ∃ ids2 times2,
      (tcp_check_retransmit_all ts (tcp_check_retransmit t u)).tcp_state = _ ∧
      wire_bytes (tcp_check_retransmit_all ts (tcp_check_retransmit t u)).out = _ ∧ _ ∧ _ ∧
      _ ∧
      ((tcp_check_retransmit_all ts (tcp_check_retransmit t u)).retx_len = 0 ∧ _ ∨
        (tcp_check_retransmit_all ts (tcp_check_retransmit t u)).retx_len = n ∧
          _ = (tcp_check_retransmit_all ts (tcp_check_retransmit t u)).retx_attempts + 1 ∧
          (tcp_check_retransmit_all ts (tcp_check_retransmit t u)).retx_attempts ≤ _ ∧
          _ = some (tcp_check_retransmit_all ts (tcp_check_retransmit t u)).retx_time)
    have idle : tcp_check_retransmit t u = u →
        ∃ ids2 times2,
      (tcp_check_retransmit_all ts (tcp_check_retransmit t u)).tcp_state
        = TCP_STATE_ESTABLISHED ∧
      wire_bytes (tcp_check_retransmit_all ts (tcp_check_retransmit t u)).out
        = W ++ frames_of_segment l r seg (20 + n) (ids ++ ids2) ∧
      List.Chain' (fun a b => RETX_TIMEOUT ≤ (b % 2 ^ 32 + 2 ^ 32 - a % 2 ^ 32) % 2 ^ 32)
        (times ++ times2) ∧
      times2.Sublist (t :: ts) ∧ ids2.length = times2.length ∧
      ((tcp_check_retransmit_all ts (tcp_check_retransmit t u)).retx_len = 0 ∧
          (ids ++ ids2).length ≤ RETX_MAX_ATTEMPTS + 1 ∨
        (tcp_check_retransmit_all ts (tcp_check_retransmit t u)).retx_len = n ∧
          (ids ++ ids2).length
            = (tcp_check_retransmit_all ts (tcp_check_retransmit t u)).retx_attempts + 1 ∧
          (tcp_check_retransmit_all ts (tcp_check_retransmit t u)).retx_attempts
            ≤ RETX_MAX_ATTEMPTS ∧
          (times ++ times2).getLast?
            = some (tcp_check_retransmit_all ts (tcp_check_retransmit t u)).retx_time) := by
      intro e
      rw [e]
      obtain ⟨ids2, times2, a1, a2, a3, a4, a5, a6⟩ := ih u ids times hst hl0 hr0 hw hc hl hcell
      exact ⟨ids2, times2, a1, a2, a3, a4.cons _, a5, a6⟩
    rcases hcell with ⟨h1, h2⟩ | ⟨h1, h2, h3, h4, h5⟩
    · exact idle (tcp_check_retransmit_idle t u (Or.inl h1))
    · by_cases ht : RETX_TIMEOUT ≤ (t % 2 ^ 32 + 2 ^ 32 - u.retx_time % 2 ^ 32) % 2 ^ 32
      · by_cases ha : u.retx_attempts < RETX_MAX_ATTEMPTS
        · have e := tcp_check_retransmit_retry t u hst (by omega) (by omega) ht ha
          have h2a : tcp_segment { u with tcp_seq_num := u.retx_seq } (TCP_PSH ||| TCP_ACK)
              u.retx_buf u.retx_len = seg := by
            have h := h2
            rwa [← h1] at h
          have hw2 : wire_bytes (tcp_check_retransmit t u).out
              = W ++ frames_of_segment l r seg (20 + n) (ids ++ [u.ip_id]) := by
            rw [e]
            show wire_bytes (_ ++ _ ++ _) = _
            rw [wire_bytes_append, wire_bytes_append, wire_bytes_tx, hw,
              frames_of_segment_append, h2a, h1, hl0, hr0,
              show 40 + n = 20 + (20 + n) by omega]
            simp [frames_of_segment, wire_bytes]
          have hc2 : List.Chain'
              (fun a b => RETX_TIMEOUT ≤ (b % 2 ^ 32 + 2 ^ 32 - a % 2 ^ 32) % 2 ^ 32)
              (times ++ [t]) := by
            refine List.Chain'.append hc (List.chain'_singleton t) ?_
            intro x hx y hy
            rw [h5] at hx
            simp only [Option.mem_def, Option.some.injEq, List.head?_cons] at hx hy
            subst hx hy
            exact ht
          obtain ⟨ids2, times2, a1, a2, a3, a4, a5, a6⟩ := ih (tcp_check_retransmit t u)
            (ids ++ [u.ip_id]) (times ++ [t]) (by rw [e]; exact hst) (by rw [e]; exact hl0)
            (by rw [e]; exact hr0) hw2 hc2 (by simp [hl])
            (Or.inr ⟨by rw [e]; exact h1, by rw [e]; exact h2, by rw [e]; simp [h3], by
              rw [e]
              show u.retx_attempts + 1 ≤ RETX_MAX_ATTEMPTS
              omega, by rw [e]; simp⟩)
          refine ⟨u.ip_id :: ids2, t :: times2, a1, ?_, ?_, a4.cons₂ _, by simp [a5], ?_⟩
          · simpa using a2
          · simpa using a3
          · simpa using a6
        · have ha3 : u.retx_attempts = RETX_MAX_ATTEMPTS := by omega
          have e := tcp_check_retransmit_give_up t u hst (by omega) ht ha3
          have hw2 : wire_bytes (tcp_check_retransmit t u).out
              = W ++ frames_of_segment l r seg (20 + n) ids := by
            rw [e]
            show wire_bytes (_ ++ _) = _
            rw [wire_bytes_append, hw]
            simp [wire_bytes]
          obtain ⟨ids2, times2, a1, a2, a3, a4, a5, a6⟩ := ih (tcp_check_retransmit t u) ids
            times (by rw [e]; exact hst) (by rw [e]; exact hl0) (by rw [e]; exact hr0) hw2 hc hl
            (Or.inl ⟨by rw [e], by omega⟩)
          exact ⟨ids2, times2, a1, a2, a3, a4.cons _, a5, a6⟩
      · exact idle (tcp_check_retransmit_idle t u (Or.inr (by omega)))

/-- With tick readings below 2^32 that do not decrease, the unsigned 32-bit difference is
the plain difference. -/
theorem chain_plain_of_unsigned : ∀ (l : List Nat), (∀ t ∈ l, t < 2 ^ 32) →
    l.Pairwise (fun a b => a ≤ b) →
    List.Chain' (fun a b => RETX_TIMEOUT ≤ (b % 2 ^ 32 + 2 ^ 32 - a % 2 ^ 32) % 2 ^ 32) l →
    List.Chain' (fun a b => a + RETX_TIMEOUT ≤ b) l := by
  intro l
  induction l with
  | nil => intro _ _ _; exact List.chain'_nil
  | cons a l ih =>
    intro hb hp hc
    cases l with
    | nil => exact List.chain'_singleton a
    | cons b l =>
      rw [List.chain'_cons] at hc ⊢
      have hab : a ≤ b := List.rel_of_pairwise_cons hp (List.mem_cons_self _ _)
      have ha : a < 2 ^ 32 := hb a (List.mem_cons_self _ _)
      have hb2 : b < 2 ^ 32 := hb b (List.mem_cons_of_mem _ (List.mem_cons_self _ _))
      refine ⟨?_, ih (fun t ht => hb t (List.mem_cons_of_mem _ ht)) (List.Pairwise.of_cons hp)
        hc.2⟩
      have h1 := hc.1
      simp only [RETX_TIMEOUT, Nat.reducePow] at h1 ha hb2 ⊢
      omega

/-- C17: after a `tcp_send` of n bytes B (0 < n ≤ 64) at tick t0 in ESTABLISHED, followed
only by calls of `tcp_check_retransmit` at any tick readings ts: the slot is still
ESTABLISHED; the wire holds, after what was there before, nothing but copies of the one
segment that carries B, at most 4 of them (the original and at most `RETX_MAX_ATTEMPTS`
retries), each retry sent at a tick of ts that is at least `RETX_TIMEOUT` after the
previous transmission in unsigned 32-bit tick arithmetic, which for readings below 2^32
that do not decrease is the plain difference; while the cell is full the number of copies
is the attempt counter plus one. The timeout that comes after the third
retry emits nothing on the wire, prints the notice and empties the cell; and once the
cell is empty every further run of checks leaves the state as it is. -/
theorem tcp_check_retransmit_bound (t0 : Nat) (B : List Nat) (n : Nat) (ts : List Nat)
    (s : Net) (hst : s.tcp_state = TCP_STATE_ESTABLISHED) (hn0 : 0 < n)
    (hn : n ≤ RETX_BUF_SIZE) (hB : n ≤ B.length) :
    (tcp_check_retransmit_all ts (tcp_send t0 B n s)).tcp_state = TCP_STATE_ESTABLISHED ∧
    ((tcp_segment s (TCP_PSH ||| TCP_ACK) B n).drop TCP_HEADER_LEN).take n = B.take n ∧
    (∃ ids times, ids.length = times.length ∧ ids.length ≤ RETX_MAX_ATTEMPTS + 1 ∧
      ids.head? = some s.ip_id ∧ times.head? = some t0 ∧ times.Sublist (t0 :: ts) ∧
      List.Chain' (fun a b => RETX_TIMEOUT ≤ (b % 2 ^ 32 + 2 ^ 32 - a % 2 ^ 32) % 2 ^ 32)
        times ∧
      ((∀ t ∈ t0 :: ts, t < 2 ^ 32) → (t0 :: ts).Pairwise (fun a b => a ≤ b) →
        List.Chain' (fun a b => a + RETX_TIMEOUT ≤ b) times) ∧
      wire_bytes (tcp_check_retransmit_all ts (tcp_send t0 B n s)).out
        = wire_bytes s.out ++ frames_of_segment s.LOCAL_IP s.tcp_remote_ip
            (tcp_segment s (TCP_PSH ||| TCP_ACK) B n) (20 + n) ids ∧
      ((tcp_check_retransmit_all ts (tcp_send t0 B n s)).retx_len = 0 ∨
        (tcp_check_retransmit_all ts (tcp_send t0 B n s)).retx_len = n ∧
        ids.length = (tcp_check_retransmit_all ts (tcp_send t0 B n s)).retx_attempts + 1)) ∧
    (∀ t, (tcp_check_retransmit_all ts (tcp_send t0 B n s)).retx_len ≠ 0 →
      (tcp_check_retransmit_all ts (tcp_send t0 B n s)).retx_attempts = RETX_MAX_ATTEMPTS →
      RETX_TIMEOUT ≤ (t % 2 ^ 32 + 2 ^ 32 -
        (tcp_check_retransmit_all ts (tcp_send t0 B n s)).retx_time % 2 ^ 32) % 2 ^ 32 →
      tcp_check_retransmit t (tcp_check_retransmit_all ts (tcp_send t0 B n s)) =
        { tcp_check_retransmit_all ts (tcp_send t0 B n s) with
          retx_attempts := 4
          retx_len := 0
          out := (tcp_check_retransmit_all ts (tcp_send t0 B n s)).out ++
            [Event.printf_retransmit_failed] }) ∧
    ((tcp_check_retransmit_all ts (tcp_send t0 B n s)).retx_len = 0 →
      ∀ ts2, tcp_check_retransmit_all ts2 (tcp_check_retransmit_all ts (tcp_send t0 B n s))
        = tcp_check_retransmit_all ts (tcp_send t0 B n s)) := by
  simp only [RETX_BUF_SIZE] at hn
  have e := tcp_send_small t0 B n s hst hn
  have hseg : tcp_segment { tcp_send t0 B n s with tcp_seq_num := (tcp_send t0 B n s).retx_seq }
      (TCP_PSH ||| TCP_ACK) (tcp_send t0 B n s).retx_buf n
      = tcp_segment s (TCP_PSH ||| TCP_ACK) B n := by
    rw [e]
    show tcp_segment _ _ (memcpy s.retx_buf 0 B n) n = _
    rw [tcp_segment_congr s _ _ _ _ rfl rfl rfl rfl rfl rfl]
    apply tcp_segment_data_congr
    have hl : n ≤ (memcpy s.retx_buf 0 B n).length := by
      unfold memcpy
      simp only [List.length_append, List.length_map, List.length_range]
      omega
    rw [range_map_getD _ n hl, range_map_getD _ n hB, memcpy_zero_take _ _ _ hB]
  have hw : wire_bytes (tcp_send t0 B n s).out
      = wire_bytes s.out ++ frames_of_segment s.LOCAL_IP s.tcp_remote_ip
          (tcp_segment s (TCP_PSH ||| TCP_ACK) B n) (20 + n) ([] ++ [s.ip_id]) := by
    rw [e]
    show wire_bytes (_ ++ _) = _
    rw [wire_bytes_append, wire_bytes_tx, show 40 + n = 20 + (20 + n) by omega]
    simp [frames_of_segment]
  obtain ⟨ids2, times2, a1, a2, a3, a4, a5, a6⟩ :=
    tcp_check_retransmit_all_inv s.LOCAL_IP s.tcp_remote_ip n
      (tcp_segment s (TCP_PSH ||| TCP_ACK) B n) (wire_bytes s.out) (by omega) hn ts
      (tcp_send t0 B n s) ([] ++ [s.ip_id]) ([] ++ [t0]) (by rw [e]; exact hst) (by rw [e])
      (by rw [e]) hw (List.chain'_singleton t0) rfl
      (Or.inr ⟨by rw [e], hseg, by rw [e]; rfl, by rw [e]; exact Nat.zero_le _, by rw [e]; rfl⟩)
  have a3b : List.Chain'
      (fun a b => RETX_TIMEOUT ≤ (b % 2 ^ 32 + 2 ^ 32 - a % 2 ^ 32) % 2 ^ 32)
      (t0 :: times2) := by simpa using a3
  refine ⟨a1, ?_, ⟨s.ip_id :: ids2, t0 :: times2, by simp [a5], ?_, rfl, rfl, a4.cons₂ t0,
    a3b, ?_, ?_, ?_⟩, ?_, ?_⟩
  · rw [(tcp_segment_fields s (TCP_PSH ||| TCP_ACK) B n).2.2.2.2.2.2, range_map_getD B n hB]
  · rcases a6 with ⟨_, h⟩ | ⟨_, h, h2, _⟩
    · simpa using h
    · simp only [List.nil_append, List.singleton_append] at h
      rw [h]
      omega
  · intro hlt hsorted
    exact chain_plain_of_unsigned _ (fun t ht => hlt t ((a4.cons₂ t0).subset ht))
      (hsorted.sublist (a4.cons₂ t0)) a3b
  · simpa using a2
  · rcases a6 with ⟨h, _⟩ | ⟨h, h2, _⟩
    · exact Or.inl h
    · exact Or.inr ⟨h, by simpa using h2⟩
  · intro t h1 h2 h3
    exact tcp_check_retransmit_give_up t _ a1 h1 h3 h2
  · intro h ts2
    exact tcp_check_retransmit_all_empty ts2 _ h

/-- C17 witness: five bytes sent at tick 7 after the handshake, then checks at the ticks
8, 9, 11, 13, 20 and 30: retries at 9, 11 and 13, nothing more at 20 and 30; the cell
ends empty in ESTABLISHED with four copies on the wire. -/
theorem tcp_check_retransmit_bound_witness :
    (tcp_check_retransmit_all [8, 9, 11, 13, 20, 30]
      (tcp_send 7 [72, 69, 76, 76, 79] 5 sample_established)).tcp_state
        = TCP_STATE_ESTABLISHED ∧
    (tcp_check_retransmit_all [8, 9, 11, 13, 20, 30]
      (tcp_send 7 [72, 69, 76, 76, 79] 5 sample_established)).retx_len = 0 ∧
    wire_bytes (tcp_check_retransmit_all [8, 9, 11, 13, 20, 30]
      (tcp_send 7 [72, 69, 76, 76, 79] 5 sample_established)).out
      = wire_bytes sample_established.out ++
        frames_of_segment sample_established.LOCAL_IP sample_established.tcp_remote_ip
          (tcp_segment sample_established (TCP_PSH ||| TCP_ACK) [72, 69, 76, 76, 79] 5) 25
          [2, 3, 4, 5] := by
  have h := tcp_check_retransmit_bound 7 [72, 69, 76, 76, 79] 5 [8, 9, 11, 13, 20, 30]
    sample_established (by decide) (by decide) (by decide) (by decide)
  exact ⟨h.1, by decide, by decide⟩

/-- C18: the retransmit cell is not cleared when the peer closes or resets. From the initial
state: listen on port 80, handshake with 192.168.1.10:1234, `tcp_send` of five bytes at
tick 7 (cell holds 5 bytes). An RST of the peer, or its FIN, takes the slot to LISTEN with
the cell still holding the 5 bytes, whereas `tcp_close` empties it. After the RST a second
peer 192.168.1.11:1235 completes a handshake (send sequence number 1001); the retransmit
check at tick 10 then sends the five stale bytes to the second peer with the old sequence
number 1001 and moves the send sequence number to 1006. -/
theorem retx_cell_survives_listen :
    (tcp_send 7 [72, 69, 76, 76, 79] 5 sample_established).retx_len = 5 ∧
    (tcp_receive (fun _ _ => 1) 8 sample_rst 20 0xC0A8010A
      (tcp_send 7 [72, 69, 76, 76, 79] 5 sample_established)).tcp_state = TCP_STATE_LISTEN ∧
    (tcp_receive (fun _ _ => 1) 8 sample_rst 20 0xC0A8010A
      (tcp_send 7 [72, 69, 76, 76, 79] 5 sample_established)).retx_len = 5 ∧
    (tcp_receive (fun _ _ => 1) 8 sample_fin 20 0xC0A8010A
      (tcp_send 7 [72, 69, 76, 76, 79] 5 sample_established)).tcp_state = TCP_STATE_LISTEN ∧
    (tcp_receive (fun _ _ => 1) 8 sample_fin 20 0xC0A8010A
      (tcp_send 7 [72, 69, 76, 76, 79] 5 sample_established)).retx_len = 5 ∧
    (tcp_close (tcp_send 7 [72, 69, 76, 76, 79] 5 sample_established)).retx_len = 0 ∧
    (tcp_receive_all (fun _ _ => 1)
      [⟨sample_rst, 20, 0xC0A8010A, 8⟩, ⟨sample_syn2, 20, 0xC0A8010B, 9⟩,
       ⟨sample_ack2, 20, 0xC0A8010B, 9⟩]
      (tcp_send 7 [72, 69, 76, 76, 79] 5 sample_established)).tcp_state
        = TCP_STATE_ESTABLISHED ∧
    (tcp_receive_all (fun _ _ => 1)
      [⟨sample_rst, 20, 0xC0A8010A, 8⟩, ⟨sample_syn2, 20, 0xC0A8010B, 9⟩,
       ⟨sample_ack2, 20, 0xC0A8010B, 9⟩]
      (tcp_send 7 [72, 69, 76, 76, 79] 5 sample_established)).tcp_seq_num = 1001 ∧
    wire_bytes (tcp_check_retransmit 10 (tcp_receive_all (fun _ _ => 1)
      [⟨sample_rst, 20, 0xC0A8010A, 8⟩, ⟨sample_syn2, 20, 0xC0A8010B, 9⟩,
       ⟨sample_ack2, 20, 0xC0A8010B, 9⟩]
      (tcp_send 7 [72, 69, 76, 76, 79] 5 sample_established))).out
      = wire_bytes (tcp_receive_all (fun _ _ => 1)
          [⟨sample_rst, 20, 0xC0A8010A, 8⟩, ⟨sample_syn2, 20, 0xC0A8010B, 9⟩,
           ⟨sample_ack2, 20, 0xC0A8010B, 9⟩]
          (tcp_send 7 [72, 69, 76, 76, 79] 5 sample_established)).out ++
        [192, 69, 0, 0, 45, 0, 4, 0, 0, 64, 6, 247, 105, 219, 220, 168, 1, 2, 219, 220,
         168, 1, 11, 0, 80, 4, 211, 0, 0, 3, 233, 0, 0, 0, 8, 80, 24, 8, 0, 55, 196, 0, 0,
         72, 69, 76, 76, 79, 192] ∧
    (tcp_check_retransmit 10 (tcp_receive_all (fun _ _ => 1)
      [⟨sample_rst, 20, 0xC0A8010A, 8⟩, ⟨sample_syn2, 20, 0xC0A8010B, 9⟩,
       ⟨sample_ack2, 20, 0xC0A8010B, 9⟩]
      (tcp_send 7 [72, 69, 76, 76, 79] 5 sample_established))).tcp_seq_num = 1006 := by
  decide

/-! ## Draining the backlog -/

theorem accept_events_append (a b : List Event) :
    accept_events (a ++ b) = accept_events a ++ accept_events b := by
  induction a with
  | nil => rfl
  | cons e a ih => cases e <;> simp [accept_events, ih]

theorem accept_events_tx (l : List Nat) : accept_events (l.map Event.tx_putchar) = [] := by
  induction l with
  | nil => rfl
  | cons c l ih => simpa [accept_events] using ih

/-- An entry that is valid lies inside the table. -/
theorem valid_lt_length (q : List pending_conn) (i : Nat)
    (h : (q.getD i default).valid ≠ 0) : i < q.length := by
  by_contra hlt
  apply h
  rw [List.getD_eq_default _ _ (by omega)]
  rfl

/-- The loop of `conn_queue_pop` from index `i` on leaves the entries before `i` alone. -/
theorem conn_queue_pop_loop_frame (now : Nat) :
    ∀ fuel i s m, m < i →
      (conn_queue_pop_loop now fuel i s).2.conn_queue.getD m default
        = s.conn_queue.getD m default := by
  intro fuel
  induction fuel with
  | zero => intro i s m _; rfl
  | succ fuel ih =>
    intro i s m hm
    simp only [conn_queue_pop_loop]
    split
    · split
      · rw [ih _ _ m (by omega)]
        exact getD_set_ne _ _ _ _ _ (by omega)
      · exact getD_set_ne _ _ _ _ _ (by omega)
    · exact ih _ _ m (by omega)

/-- What the loop of `conn_queue_pop` returns: the first valid entry from `i` on that is
not expired; the valid entries it passed were expired and are invalid afterwards. -/
theorem conn_queue_pop_loop_some (now : Nat) :
    ∀ fuel i s r s2, conn_queue_pop_loop now fuel i s = (some r, s2) →
      ∃ j, i ≤ j ∧ j < i + fuel ∧ (s.conn_queue.getD j default).valid ≠ 0 ∧
        r = ((s.conn_queue.getD j default).remote_ip,
          (s.conn_queue.getD j default).remote_port,
          (s.conn_queue.getD j default).their_seq) ∧
        (now % 2 ^ 32 + 2 ^ 32 - (s.conn_queue.getD j default).timestamp % 2 ^ 32) % 2 ^ 32
          ≤ CONN_QUEUE_TIMEOUT ∧
        (s2.conn_queue.getD j default).valid = 0 ∧
        ∀ m, i ≤ m → m < j → (s.conn_queue.getD m default).valid ≠ 0 →
          (now % 2 ^ 32 + 2 ^ 32 - (s.conn_queue.getD m default).timestamp % 2 ^ 32) % 2 ^ 32
            > CONN_QUEUE_TIMEOUT ∧
          (s2.conn_queue.getD m default).valid = 0 := by
  intro fuel
  induction fuel with
  | zero =>
    intro i s r s2 h
    simp [conn_queue_pop_loop] at h
  | succ fuel ih =>
    intro i s r s2 h
    simp only [conn_queue_pop_loop] at h
    by_cases hv : (s.conn_queue.getD i default).valid = 0
    · rw [if_neg (not_not.mpr hv)] at h
      obtain ⟨j, h1, h2, h3, h4, h5, h6, h7⟩ := ih _ _ _ _ h
      refine ⟨j, by omega, by omega, h3, h4, h5, h6, ?_⟩
      intro m hm1 hm2 hm3
      by_cases hmi : m = i
      · subst hmi; exact absurd hv hm3
      · exact h7 m (by omega) hm2 hm3
    · rw [if_pos hv] at h
      have hil := valid_lt_length _ _ hv
      by_cases hx : (now % 2 ^ 32 + 2 ^ 32 - (s.conn_queue.getD i default).timestamp % 2 ^ 32)
          % 2 ^ 32 > CONN_QUEUE_TIMEOUT
      · rw [if_pos hx] at h
        obtain ⟨j, h1, h2, h3, h4, h5, h6, h7⟩ := ih _ _ _ _ h
        have hj : i ≠ j := by omega
        simp only [getD_set_ne _ _ _ _ _ hj] at h3 h4 h5
        refine ⟨j, by omega, by omega, h3, h4, h5, h6, ?_⟩
        intro m hm1 hm2 hm3
        by_cases hmi : m = i
        · subst hmi
          refine ⟨hx, ?_⟩
          have e := congrArg (fun x : Option (Nat × Nat × Nat) × Net => x.2.conn_queue.getD m default) h
          simp only at e
          rw [conn_queue_pop_loop_frame now fuel (m + 1) _ m (by omega)] at e
          rw [← e]
          simp only [getD_set_eq _ _ _ _ hil]
        · have hne : i ≠ m := fun h => hmi h.symm
          have := h7 m (by omega) hm2
          simp only [getD_set_ne _ _ _ _ _ hne] at this
          exact this hm3
      · rw [if_neg hx] at h
        simp only [Prod.mk.injEq, Option.some.injEq] at h
        obtain ⟨hr, hs⟩ := h
        refine ⟨i, le_refl _, by omega, hv, hr.symm, by omega, ?_, ?_⟩
        · rw [← hs]
          simp only [getD_set_eq _ _ _ _ hil]
        · intro m hm1 hm2; omega

/-- The calls of `app_tcp_accept` that `tcp_process_queue` makes in LISTEN: one, for the
entry `conn_queue_pop` returns, or none when it returns 0. -/
theorem tcp_process_queue_accepts (accept : Nat → Nat → Nat) (now : Nat) (s : Net)
    (hst : s.tcp_state = TCP_STATE_LISTEN) :
    accept_events (tcp_process_queue accept now s).out
      = accept_events s.out ++
        (match (conn_queue_pop now s).1 with
          | some (ip, port, _) => [(ip, port)]
          | none => []) := by
  have ho : (conn_queue_pop now s).2.out = s.out :=
    (conn_queue_pop_loop_out now CONN_QUEUE_SIZE 0 s).1
  unfold tcp_process_queue
  rw [if_neg (not_not.mpr hst)]
  split
  · rename_i s1 heq
    rw [heq] at ho
    rw [heq]
    show accept_events s1.out = accept_events s.out ++ []
    rw [List.append_nil]
    exact congrArg accept_events ho
  · rename_i ip port seq s1 heq
    rw [heq] at ho
    rw [heq]
    show _ = accept_events s.out ++ [(ip, port)]
    have ho2 : s1.out = s.out := ho
    split
    · have key := fun u =>
        tcp_send_flags_small (TCP_SYN ||| TCP_ACK) [] 0 1 u (by decide) (by decide)
      simp only [key, Net.emit]
      rw [accept_events_append, accept_events_append, accept_events_append,
        accept_events_append, accept_events_tx, ho2]
      simp [accept_events]
    · show accept_events (s1.out ++ [Event.printf_dequeue s1.conn_queue_count] ++
        [Event.app_tcp_accept ip port]) = _
      rw [accept_events_append, accept_events_append, ho2]
      simp [accept_events]

/-- C19: whenever `conn_queue_pop` returns an entry at tick `now`, that entry is a valid
entry j of the table whose age, the unsigned 32-bit difference now − timestamp, is at most
`CONN_QUEUE_TIMEOUT`; it is invalid afterwards, and every valid entry before j was older
than `CONN_QUEUE_TIMEOUT` and is invalid afterwards. In LISTEN `tcp_process_queue` calls
`app_tcp_accept` for the returned entry only (for nothing when no entry is returned), so
no expired entry is offered to the application. -/
theorem conn_queue_pop_fresh (accept : Nat → Nat → Nat) (now : Nat) (s : Net) :
    (∀ ip port seq s2, conn_queue_pop now s = (some (ip, port, seq), s2) →
      ∃ j, j < CONN_QUEUE_SIZE ∧ (s.conn_queue.getD j default).valid ≠ 0 ∧
        ip = (s.conn_queue.getD j default).remote_ip ∧
        port = (s.conn_queue.getD j default).remote_port ∧
        seq = (s.conn_queue.getD j default).their_seq ∧
        (now % 2 ^ 32 + 2 ^ 32 - (s.conn_queue.getD j default).timestamp % 2 ^ 32) % 2 ^ 32
          ≤ CONN_QUEUE_TIMEOUT ∧
        (s2.conn_queue.getD j default).valid = 0 ∧
        ∀ m, m < j → (s.conn_queue.getD m default).valid ≠ 0 →
          (now % 2 ^ 32 + 2 ^ 32 - (s.conn_queue.getD m default).timestamp % 2 ^ 32) % 2 ^ 32
            > CONN_QUEUE_TIMEOUT ∧
          (s2.conn_queue.getD m default).valid = 0) ∧
    (s.tcp_state = TCP_STATE_LISTEN →
      accept_events (tcp_process_queue accept now s).out
        = accept_events s.out ++
          (match (conn_queue_pop now s).1 with
            | some (ip, port, _) => [(ip, port)]
            | none => [])) := by
  constructor
  · intro ip port seq s2 h
    obtain ⟨j, _, h2, h3, h4, h5, h6, h7⟩ :=
      conn_queue_pop_loop_some now CONN_QUEUE_SIZE 0 s _ _ h
    simp only [Prod.mk.injEq] at h4
    exact ⟨j, by omega, h3, h4.1, h4.2.1, h4.2.2, h5, h6,
      fun m hm hv => h7 m (Nat.zero_le _) hm hv⟩
  · exact tcp_process_queue_accepts accept now s

/-- C19 witness: two SYNs wait in the backlog, one queued at tick 6 and one at tick 20,
when the application listens again at tick 25: the first is 19 ticks old and is dropped,
the second is returned and offered to the application. -/
theorem conn_queue_pop_fresh_witness :
    (conn_queue_pop 25 (tcp_listen 80 (tcp_receive_all (fun _ _ => 1)
      [⟨sample_syn2, 20, 0xC0A8010B, 6⟩, ⟨sample_syn3, 20, 0xC0A8010C, 20⟩]
      sample_established))).1 = some (0xC0A8010C, 1236, 9) ∧
    ((tcp_listen 80 (tcp_receive_all (fun _ _ => 1)
      [⟨sample_syn2, 20, 0xC0A8010B, 6⟩, ⟨sample_syn3, 20, 0xC0A8010C, 20⟩]
      sample_established)).conn_queue.getD 0 default).valid ≠ 0 ∧
    ((conn_queue_pop 25 (tcp_listen 80 (tcp_receive_all (fun _ _ => 1)
      [⟨sample_syn2, 20, 0xC0A8010B, 6⟩, ⟨sample_syn3, 20, 0xC0A8010C, 20⟩]
      sample_established))).2.conn_queue.getD 0 default).valid = 0 ∧
    accept_events (tcp_process_queue (fun _ _ => 1) 25 (tcp_listen 80
      (tcp_receive_all (fun _ _ => 1)
        [⟨sample_syn2, 20, 0xC0A8010B, 6⟩, ⟨sample_syn3, 20, 0xC0A8010C, 20⟩]
        sample_established))).out
      = [(0xC0A8010A, 1234), (0xC0A8010C, 1236)] := by
  have h := conn_queue_pop_fresh (fun _ _ => 1) 25 (tcp_listen 80
    (tcp_receive_all (fun _ _ => 1)
      [⟨sample_syn2, 20, 0xC0A8010B, 6⟩, ⟨sample_syn3, 20, 0xC0A8010C, 20⟩]
      sample_established))
  obtain ⟨j, _, _, _, _, _, _, _, _⟩ := h.1 0xC0A8010C 1236 9 _ (Prod.ext (by decide) rfl)
  refine ⟨by decide, by decide, by decide, ?_⟩
  rw [h.2 (by decide)]
  decide

/-- A SYN without ACK that arrives while the slot is busy and the table has a free entry:
the first free entry takes it. -/
theorem tcp_receive_syn_enqueue (accept : Nat → Nat → Nat) (now : Nat) (pkt : List Nat)
    (len src_ip : Nat) (s : Net) (i : Nat) (hb : ∀ b ∈ pkt, b < 256)
    (ha : tcp_accepts s.tcp_local_port pkt len)
    (hsyn : pkt.getD TCP_FLAGS 0 &&& TCP_SYN ≠ 0) (hack : pkt.getD TCP_FLAGS 0 &&& TCP_ACK = 0)
    (hst : s.tcp_state ≠ TCP_STATE_LISTEN) (hi : i < CONN_QUEUE_SIZE)
    (hv : ∀ j, j < i → (s.conn_queue.getD j default).valid ≠ 0)
    (hf : (s.conn_queue.getD i default).valid = 0) :
    tcp_receive accept now pkt len src_ip s =
      { s with
        conn_queue := s.conn_queue.set i
          { remote_ip := src_ip, remote_port := get_u16 pkt TCP_SRC_PORT,
            their_seq := get_u32 pkt TCP_SEQ_OFF, timestamp := now, valid := 1 }
        conn_queue_count := (s.conn_queue_count + 1) % 256
        out := s.out ++ [Event.printf_queued ((s.conn_queue_count + 1) % 256)] } := by
  rw [tcp_receive_of_accepts accept now pkt len src_ip s hb ha]
  unfold tcp_input
  rw [if_pos ⟨hsyn, hack, hst⟩]
  unfold conn_queue_add
  rw [conn_queue_add_loop_first_free src_ip _ _ now s CONN_QUEUE_SIZE 0 i (Nat.zero_le _)
    (by omega) (fun j _ hj => hv j hj) hf]
  rfl

theorem getD_append_valid (pre free : List pending_conn) (hpre : ∀ e ∈ pre, e.valid ≠ 0) :
    ∀ j, j < pre.length → ((pre ++ free).getD j default).valid ≠ 0 := by
  intro j hj
  rw [List.getD_eq_getElem _ _ (by simp; omega), List.getElem_append_left hj]
  exact hpre _ (List.getElem_mem _)

/-- A run of SYNs without ACK that arrive while the slot is busy fills the free entries of
the table in order of arrival. -/
theorem tcp_receive_all_enqueue (accept : Nat → Nat → Nat) :
    ∀ (syns : List Inbound) (pre free : List pending_conn) (u : Net),
    u.conn_queue = pre ++ free → (∀ e ∈ pre, e.valid ≠ 0) → (∀ e ∈ free, e.valid = 0) →
    syns.length ≤ free.length → pre.length + free.length = CONN_QUEUE_SIZE →
    u.tcp_state ≠ TCP_STATE_LISTEN → u.conn_queue_count < 256 →
    (∀ i ∈ syns, (∀ b ∈ i.pkt, b < 256) ∧ tcp_accepts u.tcp_local_port i.pkt i.len ∧
      i.pkt.getD TCP_FLAGS 0 &&& TCP_SYN ≠ 0 ∧ i.pkt.getD TCP_FLAGS 0 &&& TCP_ACK = 0) →
    (tcp_receive_all accept syns u).conn_queue
      = pre ++ syns.map backlog_entry ++ free.drop syns.length ∧
    (tcp_receive_all accept syns u).conn_queue_count
      = (u.conn_queue_count + syns.length) % 256 ∧
    (tcp_receive_all accept syns u).tcp_state = u.tcp_state ∧
    wire_bytes (tcp_receive_all accept syns u).out = wire_bytes u.out := by
  intro syns
  induction syns with
  | nil =>
    intro pre free u hq _ _ _ _ _ hc _
    refine ⟨by simpa [tcp_receive_all] using hq, ?_, rfl, rfl⟩
    show u.conn_queue_count = _
    rw [List.length_nil, Nat.add_zero, Nat.mod_eq_of_lt hc]
  | cons i rest ih =>
    intro pre free u hq hpre hfree hlen hsize hst hc hsyn
    obtain ⟨hb, ha, h1, h2⟩ := hsyn i (List.mem_cons_self _ _)
    rcases free with _ | ⟨f, free2⟩
    · simp at hlen
    have hf0 : f.valid = 0 := hfree f (List.mem_cons_self _ _)
    have e := tcp_receive_syn_enqueue accept i.now i.pkt i.len i.src_ip u pre.length hb ha h1 h2
      hst (by simp only [List.length_cons] at hsize; omega)
      (fun j hj => by rw [hq]; exact getD_append_valid pre _ hpre j hj)
      (by
        rw [hq, List.getD_eq_getElem _ _ (by simp), List.getElem_append_right (le_refl _)]
        simpa using hf0)
    have hset : (pre ++ f :: free2).set pre.length (backlog_entry i)
        = (pre ++ [backlog_entry i]) ++ free2 := by
      rw [List.set_append_right _ _ (le_refl _)]
      simp
    rw [hq] at e
    have e2 : tcp_receive accept i.now i.pkt i.len i.src_ip u =
        { u with
          conn_queue := (pre ++ [backlog_entry i]) ++ free2
          conn_queue_count := (u.conn_queue_count + 1) % 256
          out := u.out ++ [Event.printf_queued ((u.conn_queue_count + 1) % 256)] } := by
      rw [e, ← hset]
      rfl
    obtain ⟨r1, r2, r3, r4⟩ := ih (pre ++ [backlog_entry i]) free2
      (tcp_receive accept i.now i.pkt i.len i.src_ip u) (by rw [e2])
      (by
        intro x hx
        rcases List.mem_append.mp hx with hx | hx
        · exact hpre x hx
        · simp only [List.mem_singleton] at hx
          subst hx
          show (1 : Nat) ≠ 0
          decide)
      (fun x hx => hfree x (List.mem_cons_of_mem _ hx))
      (by simp only [List.length_cons] at hlen; omega)
      (by simp only [List.length_cons, List.length_append, List.length_nil] at hsize ⊢; omega)
      (by rw [e2]; exact hst) (by rw [e2]; exact Nat.mod_lt _ (by decide))
      (by
        intro j hj
        rw [e2]
        exact hsyn j (List.mem_cons_of_mem _ hj))
    refine ⟨?_, ?_, ?_, ?_⟩
    · show (tcp_receive_all accept rest _).conn_queue = _
      rw [r1]
      simp
    · show (tcp_receive_all accept rest _).conn_queue_count = _
      rw [r2, e2]
      show ((u.conn_queue_count + 1) % 256 + rest.length) % 256 = _
      simp only [List.length_cons]
      omega
    · show (tcp_receive_all accept rest _).tcp_state = _
      rw [r3, e2]
    · show wire_bytes (tcp_receive_all accept rest _).out = _
      rw [r4, e2]
      show wire_bytes (u.out ++ _) = _
      rw [wire_bytes_append]
      simp [wire_bytes]

/-- The function `conn_queue_pop` when entry 0 is valid and not expired: entry 0 is
returned and marked invalid. -/
theorem conn_queue_pop_first (now : Nat) (t : Net)
    (hv : (t.conn_queue.getD 0 default).valid ≠ 0)
    (hx : (now % 2 ^ 32 + 2 ^ 32 - (t.conn_queue.getD 0 default).timestamp % 2 ^ 32) % 2 ^ 32
      ≤ CONN_QUEUE_TIMEOUT) :
    conn_queue_pop now t =
      (some ((t.conn_queue.getD 0 default).remote_ip, (t.conn_queue.getD 0 default).remote_port,
          (t.conn_queue.getD 0 default).their_seq),
        { t with
          conn_queue := t.conn_queue.set 0 { t.conn_queue.getD 0 default with valid := 0 }
          conn_queue_count := (t.conn_queue_count + 255) % 256 }) := by
  show conn_queue_pop_loop now (15 + 1) 0 t = _
  rw [conn_queue_pop_loop.eq_2]
  simp only []
  rw [if_pos hv, if_neg (by omega)]

/-- The function `tcp_process_queue` in LISTEN when entry 0 of the backlog is valid and not
expired and the application admits the peer: the entry is taken out, the peer gets a
SYN|ACK with sequence number 1000, and the slot is in SYN_RECEIVED for that peer. -/
theorem tcp_process_queue_first (accept : Nat → Nat → Nat) (now : Nat) (t : Net)
    (hst : t.tcp_state = TCP_STATE_LISTEN)
    (hv : (t.conn_queue.getD 0 default).valid ≠ 0)
    (hx : (now % 2 ^ 32 + 2 ^ 32 - (t.conn_queue.getD 0 default).timestamp % 2 ^ 32) % 2 ^ 32
      ≤ CONN_QUEUE_TIMEOUT)
    (hadm : accept (t.conn_queue.getD 0 default).remote_ip
      (t.conn_queue.getD 0 default).remote_port ≠ 0) :
    tcp_process_queue accept now t =
      { t with
        conn_queue := t.conn_queue.set 0 { t.conn_queue.getD 0 default with valid := 0 }
        conn_queue_count := (t.conn_queue_count + 255) % 256
        tcp_remote_ip := (t.conn_queue.getD 0 default).remote_ip
        tcp_remote_port := (t.conn_queue.getD 0 default).remote_port
        tcp_seq_num := 1001
        tcp_ack_num := ((t.conn_queue.getD 0 default).their_seq + 1) % 2 ^ 32
        ip_id := (t.ip_id + 1) % 2 ^ 16
        tcp_state := TCP_STATE_SYN_RECEIVED
        out := t.out ++ [Event.printf_dequeue ((t.conn_queue_count + 255) % 256),
            Event.app_tcp_accept (t.conn_queue.getD 0 default).remote_ip
              (t.conn_queue.getD 0 default).remote_port] ++
          (slip_send (ip_datagram t.LOCAL_IP t.ip_id (t.conn_queue.getD 0 default).remote_ip
            IP_PROTO_TCP
            (tcp_segment
              { t with
                tcp_remote_ip := (t.conn_queue.getD 0 default).remote_ip
                tcp_remote_port := (t.conn_queue.getD 0 default).remote_port
                tcp_seq_num := 1000
                tcp_ack_num := ((t.conn_queue.getD 0 default).their_seq + 1) % 2 ^ 32 }
              (TCP_SYN ||| TCP_ACK) [] 0) 20) 40).map Event.tx_putchar ++
          [Event.app_tcp_state_changed TCP_STATE_LISTEN TCP_STATE_SYN_RECEIVED
            (t.conn_queue.getD 0 default).remote_ip
            (t.conn_queue.getD 0 default).remote_port] } := by
  have key := fun u =>
    tcp_send_flags_small (TCP_SYN ||| TCP_ACK) [] 0 1 u (by decide) (by decide)
  unfold tcp_process_queue
  rw [if_neg (not_not.mpr hst), conn_queue_pop_first now t hv hx]
  simp only [key, Net.emit, hadm, ne_eq, not_false_eq_true, if_true, List.append_assoc,
    List.cons_append, List.nil_append]
  rw [tcp_segment_congr
    { t with
      tcp_remote_ip := (t.conn_queue.getD 0 default).remote_ip
      tcp_remote_port := (t.conn_queue.getD 0 default).remote_port
      tcp_seq_num := 1000
      tcp_ack_num := ((t.conn_queue.getD 0 default).their_seq + 1) % 2 ^ 32 }
    _ _ _ _ rfl rfl rfl rfl rfl rfl]
  rfl

/-- C20: the backlog of a busy slot is empty; N = 1 + |rest| SYNs without ACK (N ≤ 16)
are accepted one after the other: they fill the entries 0 .. N−1 in order of arrival and
nothing is emitted. When the slot then gives itself back (`tcp_back_to_listen`, from any
state t that holds this backlog) at a tick at which the first SYN is not expired, and the
application admits its peer: exactly that one entry is taken out and offered to
`app_tcp_accept`, one datagram goes to that peer whose segment has the flags SYN|ACK,
sequence number 1000 and acknowledgement number (its sequence number + 1), the slot is in
SYN_RECEIVED for that peer, and the other N−1 entries are still queued. -/
theorem backlog_drain_first (accept : Nat → Nat → Nat) (now old : Nat) (i0 : Inbound)
    (rest : List Inbound) (s t : Net)
    (hlen : s.conn_queue.length = CONN_QUEUE_SIZE)
    (hempty : ∀ e ∈ s.conn_queue, e.valid = 0) (hcount : s.conn_queue_count = 0)
    (hbusy : s.tcp_state ≠ TCP_STATE_LISTEN) (hN : rest.length < CONN_QUEUE_SIZE)
    (hsyn : ∀ i ∈ i0 :: rest, (∀ b ∈ i.pkt, b < 256) ∧
      tcp_accepts s.tcp_local_port i.pkt i.len ∧
      i.pkt.getD TCP_FLAGS 0 &&& TCP_SYN ≠ 0 ∧ i.pkt.getD TCP_FLAGS 0 &&& TCP_ACK = 0)
    (hq : t.conn_queue = (tcp_receive_all accept (i0 :: rest) s).conn_queue)
    (hc : t.conn_queue_count = (tcp_receive_all accept (i0 :: rest) s).conn_queue_count)
    (hfresh : (now % 2 ^ 32 + 2 ^ 32 - i0.now % 2 ^ 32) % 2 ^ 32 ≤ CONN_QUEUE_TIMEOUT)
    (hadm : accept i0.src_ip (get_u16 i0.pkt TCP_SRC_PORT) ≠ 0) :
    (tcp_receive_all accept (i0 :: rest) s).conn_queue.take (rest.length + 1)
      = (i0 :: rest).map backlog_entry ∧
    (tcp_receive_all accept (i0 :: rest) s).conn_queue_count = rest.length + 1 ∧
    (tcp_receive_all accept (i0 :: rest) s).tcp_state = s.tcp_state ∧
    wire_bytes (tcp_receive_all accept (i0 :: rest) s).out = wire_bytes s.out ∧
    (tcp_back_to_listen accept now old t).tcp_state = TCP_STATE_SYN_RECEIVED ∧
    (tcp_back_to_listen accept now old t).tcp_remote_ip = i0.src_ip ∧
    (tcp_back_to_listen accept now old t).tcp_remote_port = get_u16 i0.pkt TCP_SRC_PORT ∧
    (tcp_back_to_listen accept now old t).tcp_seq_num = 1001 ∧
    (tcp_back_to_listen accept now old t).tcp_ack_num
      = (get_u32 i0.pkt TCP_SEQ_OFF + 1) % 2 ^ 32 ∧
    wire_bytes (tcp_back_to_listen accept now old t).out
      = wire_bytes t.out ++ slip_send (ip_datagram t.LOCAL_IP t.ip_id i0.src_ip IP_PROTO_TCP
          (tcp_segment
            { t with
              tcp_remote_ip := i0.src_ip
              tcp_remote_port := get_u16 i0.pkt TCP_SRC_PORT
              tcp_seq_num := 1000
              tcp_ack_num := (get_u32 i0.pkt TCP_SEQ_OFF + 1) % 2 ^ 32 }
            (TCP_SYN ||| TCP_ACK) [] 0) 20) 40 ∧
    (tcp_segment
        { t with
          tcp_remote_ip := i0.src_ip
          tcp_remote_port := get_u16 i0.pkt TCP_SRC_PORT
          tcp_seq_num := 1000
          tcp_ack_num := (get_u32 i0.pkt TCP_SEQ_OFF + 1) % 2 ^ 32 }
        (TCP_SYN ||| TCP_ACK) [] 0).getD TCP_FLAGS 0 = TCP_SYN ||| TCP_ACK ∧
    get_u32 (tcp_segment
        { t with
          tcp_remote_ip := i0.src_ip
          tcp_remote_port := get_u16 i0.pkt TCP_SRC_PORT
          tcp_seq_num := 1000
          tcp_ack_num := (get_u32 i0.pkt TCP_SEQ_OFF + 1) % 2 ^ 32 }
        (TCP_SYN ||| TCP_ACK) [] 0) TCP_SEQ_OFF = 1000 ∧
    get_u32 (tcp_segment
        { t with
          tcp_remote_ip := i0.src_ip
          tcp_remote_port := get_u16 i0.pkt TCP_SRC_PORT
          tcp_seq_num := 1000
          tcp_ack_num := (get_u32 i0.pkt TCP_SEQ_OFF + 1) % 2 ^ 32 }
        (TCP_SYN ||| TCP_ACK) [] 0) TCP_ACK_OFF = (get_u32 i0.pkt TCP_SEQ_OFF + 1) % 2 ^ 32 ∧
    accept_events (tcp_back_to_listen accept now old t).out
      = accept_events t.out ++ [(i0.src_ip, get_u16 i0.pkt TCP_SRC_PORT)] ∧
    (tcp_back_to_listen accept now old t).conn_queue_count = rest.length ∧
    ((tcp_back_to_listen accept now old t).conn_queue.getD 0 default).valid = 0 ∧
    ((tcp_back_to_listen accept now old t).conn_queue.drop 1).take rest.length
      = rest.map backlog_entry ∧
    ∀ e ∈ (tcp_back_to_listen accept now old t).conn_queue.drop (rest.length + 1),
      e.valid = 0 := by
  simp only [CONN_QUEUE_SIZE] at hlen hN
  obtain ⟨r1, r2, r3, r4⟩ := tcp_receive_all_enqueue accept (i0 :: rest) [] s.conn_queue s rfl
    (by simp) hempty (by simp only [List.length_cons]; omega) (by simpa using hlen) hbusy
    (by omega) hsyn
  rw [List.nil_append] at r1
  rw [hcount, Nat.zero_add, List.length_cons, Nat.mod_eq_of_lt (by omega)] at r2
  rw [r1] at hq
  rw [r2] at hc
  have hq0 : t.conn_queue.getD 0 default = backlog_entry i0 := by rw [hq]; rfl
  have e := tcp_process_queue_first accept now
    { t with
      tcp_state := TCP_STATE_LISTEN
      out := t.out ++ [Event.app_tcp_state_changed old TCP_STATE_LISTEN t.tcp_remote_ip
        t.tcp_remote_port] } rfl
    (by show (t.conn_queue.getD 0 default).valid ≠ 0; rw [hq0]; exact Nat.one_ne_zero)
    (by
      show (now % 2 ^ 32 + 2 ^ 32 - (t.conn_queue.getD 0 default).timestamp % 2 ^ 32) % 2 ^ 32
        ≤ CONN_QUEUE_TIMEOUT
      rw [hq0]; exact hfresh)
    (by
      show accept (t.conn_queue.getD 0 default).remote_ip
        (t.conn_queue.getD 0 default).remote_port ≠ 0
      rw [hq0]; exact hadm)
  have e2 : tcp_back_to_listen accept now old t = _ := e
  have hf := tcp_segment_fields
    { t with
      tcp_remote_ip := i0.src_ip
      tcp_remote_port := get_u16 i0.pkt TCP_SRC_PORT
      tcp_seq_num := 1000
      tcp_ack_num := (get_u32 i0.pkt TCP_SEQ_OFF + 1) % 2 ^ 32 }
    (TCP_SYN ||| TCP_ACK) [] 0
  refine ⟨?_, r2, r3, r4, ?_, ?_, ?_, ?_, ?_, ?_, hf.1, hf.2.2.2.2.1, ?_, ?_, ?_, ?_, ?_, ?_⟩
  · rw [r1]
    simp
  · rw [e2]
  · rw [e2]; show (t.conn_queue.getD 0 default).remote_ip = _; rw [hq0]; rfl
  · rw [e2]; show (t.conn_queue.getD 0 default).remote_port = _; rw [hq0]; rfl
  · rw [e2]
  · rw [e2]; show ((t.conn_queue.getD 0 default).their_seq + 1) % 2 ^ 32 = _; rw [hq0]; rfl
  · rw [e2]
    show wire_bytes (t.out ++ [_] ++ [_, _] ++ List.map Event.tx_putchar _ ++ [_]) = _
    rw [wire_bytes_append, wire_bytes_append, wire_bytes_append, wire_bytes_append,
      wire_bytes_tx]
    simp only [wire_bytes, List.append_nil]
    have hip : (t.conn_queue.getD 0 default).remote_ip = i0.src_ip := by rw [hq0]; rfl
    have hport : (t.conn_queue.getD 0 default).remote_port = get_u16 i0.pkt TCP_SRC_PORT := by
      rw [hq0]; rfl
    have hseq : (t.conn_queue.getD 0 default).their_seq = get_u32 i0.pkt TCP_SEQ_OFF := by
      rw [hq0]; rfl
    refine congrArg (fun x => wire_bytes t.out ++ x) ?_
    refine congrArg (fun x => slip_send x 40) ?_
    refine congrArg₂ (fun a b => ip_datagram t.LOCAL_IP t.ip_id a IP_PROTO_TCP b 20) hip ?_
    exact tcp_segment_congr _ _ _ _ _ rfl hport rfl (by
      show ((t.conn_queue.getD 0 default).their_seq + 1) % 2 ^ 32
        = (get_u32 i0.pkt TCP_SEQ_OFF + 1) % 2 ^ 32
      rw [hseq]) rfl hip
  · rw [hf.2.2.2.2.2.1]; exact Nat.mod_mod _ _
  · rw [e2]
    show accept_events (t.out ++ [_] ++ [_, _] ++ List.map Event.tx_putchar _ ++ [_]) = _
    rw [accept_events_append, accept_events_append, accept_events_append,
      accept_events_append, accept_events_tx, hq0]
    simp only [accept_events, List.append_nil]
    rfl
  · rw [e2]
    show (t.conn_queue_count + 255) % 256 = _
    rw [hc]; omega
  · rw [e2]
    show ((t.conn_queue.set 0 _).getD 0 default).valid = 0
    rw [getD_set_eq _ _ _ _ (by rw [hq]; simp)]
  · rw [e2]
    show ((t.conn_queue.set 0 _).drop 1).take rest.length = _
    rw [hq]
    simp
  · rw [e2]
    show ∀ e ∈ (t.conn_queue.set 0 _).drop (rest.length + 1), e.valid = 0
    rw [hq]
    intro x hx
    simp only [List.map_cons, List.cons_append, List.set_cons_zero, List.drop_succ_cons,
      List.length_cons] at hx
    rw [List.drop_append_of_le_length (by simp)] at hx
    rcases List.mem_append.mp hx with hx | hx
    · rw [List.drop_of_length_le (by simp)] at hx
      simp at hx
    · exact hempty x (List.mem_of_mem_drop hx)

/-- C20 witness: two SYNs from distinct peers (192.168.1.11:1235 at tick 6 and
192.168.1.12:1236 at tick 7) reach the established sample server, then the peer sends
its FIN at tick 8: the first SYN is answered (SYN_RECEIVED for 192.168.1.11:1235, send
sequence number 1001, receive sequence number 8) and the second is still queued. -/
theorem backlog_drain_first_witness :
    (tcp_receive_all (fun _ _ => 1)
      [⟨sample_syn2, 20, 0xC0A8010B, 6⟩, ⟨sample_syn3, 20, 0xC0A8010C, 7⟩,
       ⟨sample_fin, 20, 0xC0A8010A, 8⟩] sample_established).tcp_state
        = TCP_STATE_SYN_RECEIVED ∧
    (tcp_receive_all (fun _ _ => 1)
      [⟨sample_syn2, 20, 0xC0A8010B, 6⟩, ⟨sample_syn3, 20, 0xC0A8010C, 7⟩,
       ⟨sample_fin, 20, 0xC0A8010A, 8⟩] sample_established).tcp_remote_ip = 0xC0A8010B ∧
    (tcp_receive_all (fun _ _ => 1)
      [⟨sample_syn2, 20, 0xC0A8010B, 6⟩, ⟨sample_syn3, 20, 0xC0A8010C, 7⟩,
       ⟨sample_fin, 20, 0xC0A8010A, 8⟩] sample_established).tcp_remote_port = 1235 ∧
    (tcp_receive_all (fun _ _ => 1)
      [⟨sample_syn2, 20, 0xC0A8010B, 6⟩, ⟨sample_syn3, 20, 0xC0A8010C, 7⟩,
       ⟨sample_fin, 20, 0xC0A8010A, 8⟩] sample_established).tcp_seq_num = 1001 ∧
    (tcp_receive_all (fun _ _ => 1)
      [⟨sample_syn2, 20, 0xC0A8010B, 6⟩, ⟨sample_syn3, 20, 0xC0A8010C, 7⟩,
       ⟨sample_fin, 20, 0xC0A8010A, 8⟩] sample_established).tcp_ack_num = 8 ∧
    (tcp_receive_all (fun _ _ => 1)
      [⟨sample_syn2, 20, 0xC0A8010B, 6⟩, ⟨sample_syn3, 20, 0xC0A8010C, 7⟩,
       ⟨sample_fin, 20, 0xC0A8010A, 8⟩] sample_established).conn_queue_count = 1 ∧
    (tcp_receive_all (fun _ _ => 1)
      [⟨sample_syn2, 20, 0xC0A8010B, 6⟩, ⟨sample_syn3, 20, 0xC0A8010C, 7⟩,
       ⟨sample_fin, 20, 0xC0A8010A, 8⟩] sample_established).conn_queue.getD 1 default
      = ⟨0xC0A8010C, 1236, 9, 7, 1⟩ := by
  have h := backlog_drain_first (fun _ _ => 1) 8 TCP_STATE_ESTABLISHED
    ⟨sample_syn2, 20, 0xC0A8010B, 6⟩ [⟨sample_syn3, 20, 0xC0A8010C, 7⟩] sample_established
    (tcp_send_flags (TCP_FIN ||| TCP_ACK) [] 0
      { established_data sample_fin 101 20 0 (established_ack 0x11 1001
          (tcp_receive_all (fun _ _ => 1)
            [⟨sample_syn2, 20, 0xC0A8010B, 6⟩, ⟨sample_syn3, 20, 0xC0A8010C, 7⟩]
            sample_established))
        with tcp_ack_num := 102 })
    (by decide) (by decide) (by decide) (by decide) (by decide) (by decide) (by decide)
    (by decide) (by decide) (by decide)
  have e : tcp_receive_all (fun _ _ => 1)
      [⟨sample_syn2, 20, 0xC0A8010B, 6⟩, ⟨sample_syn3, 20, 0xC0A8010C, 7⟩,
       ⟨sample_fin, 20, 0xC0A8010A, 8⟩] sample_established
      = tcp_back_to_listen (fun _ _ => 1) 8 TCP_STATE_ESTABLISHED
        (tcp_send_flags (TCP_FIN ||| TCP_ACK) [] 0
          { established_data sample_fin 101 20 0 (established_ack 0x11 1001
              (tcp_receive_all (fun _ _ => 1)
                [⟨sample_syn2, 20, 0xC0A8010B, 6⟩, ⟨sample_syn3, 20, 0xC0A8010C, 7⟩]
                sample_established))
            with tcp_ack_num := 102 }) := by
    decide
  rw [e]
  obtain ⟨_, _, _, _, h5, h6, h7, h8, h9, _, _, _, _, _, h15, _, h17, _⟩ := h
  refine ⟨h5, h6, h7, h8, h9, h15, ?_⟩
  have h17b := congrArg (fun l => l.getD 0 default) h17
  simp only [List.length_singleton, List.map_cons, List.map_nil] at h17b
  rw [List.getD_eq_getElem?_getD, List.getElem?_take_of_lt (by decide),
    List.getElem?_drop] at h17b
  rw [List.getD_eq_getElem?_getD]
  exact h17b

/-! ## Checksums of messages of any length -/

/-- The two summing steps of `checksum` and `tcp_checksum`, started with a small
accumulator, do not overflow: they add `bytes_total`. -/
theorem add_odd_byte_sum_words (data : List Nat) (len acc : Nat) (hb : ∀ b ∈ data, b < 256)
    (hlen : len < 65536) (hacc : acc ≤ 6 * 65535) :
    add_odd_byte data len (sum_words data len len 0 acc) = acc + bytes_total data len := by
  have hw := words_total_le data hb (len / 2) 0
  have hs := sum_words_eq data len (len / 2) len 0 acc (by omega) (by omega) (by omega)
    (by omega)
  have hg := getD_lt_of_bytes data hb (len - 1)
  unfold add_odd_byte bytes_total
  rw [hs, Nat.and_one_is_mod, Nat.shiftLeft_eq]
  by_cases h : len % 2 = 1
  · rw [if_pos (by omega), if_pos h]
    simp only [Nat.reducePow]
    omega
  · rw [if_neg (by omega), if_neg h]
    omega

theorem bytes_total_le (data : List Nat) (len : Nat) (hb : ∀ b ∈ data, b < 256)
    (hlen : len < 65536) : bytes_total data len ≤ 65535 * 32768 := by
  have hw := words_total_le data hb (len / 2) 0
  have hg := getD_lt_of_bytes data hb (len - 1)
  unfold bytes_total
  split <;> omega

/-- The function `checksum` is the complement of the folded byte total. -/
theorem checksum_eq_total (data : List Nat) (len : Nat) (hb : ∀ b ∈ data, b < 256)
    (hlen : len < 65536) :
    checksum data len
      = 65535 - fold_carry (bytes_total data len) (bytes_total data len) := by
  have h := add_odd_byte_sum_words data len 0 hb hlen (by omega)
  rw [Nat.zero_add] at h
  unfold checksum checksum_sum
  simp only [h]
  exact complement16_eq _ (fold_carry_spec _ _ (le_refl _)).1

/-- Storing the complement of the folded total of `W` next to `W` gives a total that folds
to 0xFFFF. -/
theorem fold_carry_insert (W : Nat) :
    fold_carry (W + (65535 - fold_carry W W)) (W + (65535 - fold_carry W W)) = 65535 := by
  obtain ⟨f1, f2, f3, f4⟩ := fold_carry_spec W W (le_refl _)
  obtain ⟨g1, g2, g3, g4⟩ := fold_carry_spec (W + (65535 - fold_carry W W))
    (W + (65535 - fold_carry W W)) (le_refl _)
  omega

/-- Storing a 16-bit value into a zero word at an even offset inside the summed range
adds that value to the byte total. -/
theorem bytes_total_put_u16 (p : List Nat) (len off v : Nat) (hoff : off % 2 = 0)
    (hin : off + 1 < len) (hl : len ≤ p.length) (hv : v < 65536)
    (h0 : p.getD off 0 = 0) (h1 : p.getD (off + 1) 0 = 0) :
    bytes_total (put_u16 p off v) len = bytes_total p len + v := by
  have hz : word_at p off = 0 := by
    rw [word_at_eq p off (by rw [h1]; decide), h0, h1]
  unfold bytes_total
  rw [words_total_put_u16 p off v (by omega) hv hz (len / 2) 0 (off / 2) (by omega) (by omega)]
  by_cases h : len % 2 = 1
  · rw [if_pos h, if_pos h, getD_put_u16_ne p off v (len - 1) (by omega) (by omega)]
    omega
  · rw [if_neg h, if_neg h]
    omega

/-- A message whose checksum field (a zero word at an even offset inside the message) is
filled with `checksum` of the message verifies: its checksum is 0. -/
theorem checksum_insert_zero (p : List Nat) (len off : Nat) (hb : ∀ b ∈ p, b < 256)
    (hlen : len < 65536) (hoff : off % 2 = 0) (hin : off + 1 < len) (hl : len ≤ p.length)
    (h0 : p.getD off 0 = 0) (h1 : p.getD (off + 1) 0 = 0) :
    checksum (put_u16 p off (checksum p len)) len = 0 := by
  have hc := checksum_eq_total p len hb hlen
  rw [checksum_eq_total _ len (mem_put_u16 p off _ hb) hlen,
    bytes_total_put_u16 p len off _ hoff hin hl (by rw [hc]; omega) h0 h1, hc,
    fold_carry_insert]

theorem mem_put_u32 (p : List Nat) (off v : Nat) (hb : ∀ b ∈ p, b < 256) :
    ∀ b ∈ put_u32 p off v, b < 256 := by
  intro b hmem
  unfold put_u32 at hmem
  rcases List.mem_or_eq_of_mem_set hmem with h | h
  · rcases List.mem_or_eq_of_mem_set h with h | h
    · rcases List.mem_or_eq_of_mem_set h with h | h
      · rcases List.mem_or_eq_of_mem_set h with h | h
        · exact hb b h
        · rw [h]; exact Nat.mod_lt _ (by decide)
      · rw [h]; exact Nat.mod_lt _ (by decide)
    · rw [h]; exact Nat.mod_lt _ (by decide)
  · rw [h]; exact Nat.mod_lt _ (by decide)

theorem mem_set_byte (p : List Nat) (i v : Nat) (hv : v < 256) (hb : ∀ b ∈ p, b < 256) :
    ∀ b ∈ p.set i v, b < 256 := by
  intro b hmem
  rcases List.mem_or_eq_of_mem_set hmem with h | h
  · exact hb b h
  · rw [h]; exact hv

theorem foldl_words_le (q : List Nat) (hb : ∀ b ∈ q, b < 256) :
    ∀ (l : List Nat) (acc : Nat),
      l.foldl (fun sum i => (sum + word_at q i) % 2 ^ 32) acc ≤ acc + 65535 * l.length := by
  intro l
  induction l with
  | nil => intro acc; simp
  | cons i l ih =>
    intro acc
    have h1 := ih ((acc + word_at q i) % 2 ^ 32)
    have h2 := word_at_le q hb i
    have h3 : (acc + word_at q i) % 2 ^ 32 ≤ acc + word_at q i := Nat.mod_le _ _
    simp only [List.foldl_cons, List.length_cons]
    omega

/-- The sum over the pseudo-header is at most six words. -/
theorem pseudo_header_sum_le (tcp_len src_ip dst_ip : Nat) :
    pseudo_header_sum tcp_len src_ip dst_ip ≤ 6 * 65535 := by
  unfold pseudo_header_sum
  have hb : ∀ b ∈ put_u16 (((put_u32 (put_u32 (List.replicate 12 0) 0 src_ip) 4 dst_ip).set 8
      0).set 9 IP_PROTO_TCP) 10 tcp_len, b < 256 := by
    apply mem_put_u16
    apply mem_set_byte _ _ _ (by decide)
    apply mem_set_byte _ _ _ (by decide)
    apply mem_put_u32
    apply mem_put_u32
    intro b hb
    rw [List.eq_of_mem_replicate hb]
    decide
  have h := foldl_words_le _ hb [0, 2, 4, 6, 8, 10] 0
  simpa using h

/-- The function `tcp_checksum` is the complement of the folded sum of the pseudo-header
and the segment. -/
theorem tcp_checksum_eq_total (pkt : List Nat) (len src_ip dst_ip : Nat)
    (hb : ∀ b ∈ pkt, b < 256) (hlen : len < 65536) :
    tcp_checksum pkt len src_ip dst_ip
      = 65535 - fold_carry (pseudo_header_sum len src_ip dst_ip + bytes_total pkt len)
          (pseudo_header_sum len src_ip dst_ip + bytes_total pkt len) := by
  have h := add_odd_byte_sum_words pkt len (pseudo_header_sum len src_ip dst_ip) hb hlen
    (pseudo_header_sum_le len src_ip dst_ip)
  have e : tcp_checksum pkt len src_ip dst_ip
      = complement16 (fold_carry
          (add_odd_byte pkt len (sum_words pkt len len 0 (pseudo_header_sum len src_ip dst_ip)))
          (add_odd_byte pkt len (sum_words pkt len len 0 (pseudo_header_sum len src_ip dst_ip))))
      := rfl
  rw [e, h]
  exact complement16_eq _ (fold_carry_spec _ _ (le_refl _)).1

/-- A segment whose checksum field (a zero word at an even offset inside the segment) is
filled with `tcp_checksum` of the segment verifies: its `tcp_checksum` is 0. -/
theorem tcp_checksum_insert_zero (p : List Nat) (len off src_ip dst_ip : Nat)
    (hb : ∀ b ∈ p, b < 256) (hlen : len < 65536) (hoff : off % 2 = 0) (hin : off + 1 < len)
    (hl : len ≤ p.length) (h0 : p.getD off 0 = 0) (h1 : p.getD (off + 1) 0 = 0) :
    tcp_checksum (put_u16 p off (tcp_checksum p len src_ip dst_ip)) len src_ip dst_ip = 0 := by
  have hc := tcp_checksum_eq_total p len src_ip dst_ip hb hlen
  rw [tcp_checksum_eq_total _ len _ _ (mem_put_u16 p off _ hb) hlen,
    bytes_total_put_u16 p len off _ hoff hin hl (by rw [hc]; omega) h0 h1, hc, ← Nat.add_assoc,
    fold_carry_insert]

/-! ## TCP header emission -/

/-- The segment `tcp_send_flags` builds is the buffer with a zero checksum field, with
`tcp_checksum` of that buffer stored into the field. -/
theorem tcp_segment_checksum (s : Net) (flags : Nat) (data : List Nat) (n : Nat) :
    tcp_segment s flags data n =
      put_u16
        ([(s.tcp_local_port >>> 8) % 256, s.tcp_local_port % 256,
          (s.tcp_remote_port >>> 8) % 256, s.tcp_remote_port % 256,
          (s.tcp_seq_num >>> 24) % 256, (s.tcp_seq_num >>> 16) % 256,
          (s.tcp_seq_num >>> 8) % 256, s.tcp_seq_num % 256,
          (s.tcp_ack_num >>> 24) % 256, (s.tcp_ack_num >>> 16) % 256,
          (s.tcp_ack_num >>> 8) % 256, s.tcp_ack_num % 256,
          0x50, flags, 8, 0, 0, 0, 0, 0] ++
          ((List.range n).map (fun i => data.getD i 0) ++ (List.replicate 64 0).drop n))
        TCP_CHECKSUM
        (tcp_checksum
          ([(s.tcp_local_port >>> 8) % 256, s.tcp_local_port % 256,
            (s.tcp_remote_port >>> 8) % 256, s.tcp_remote_port % 256,
            (s.tcp_seq_num >>> 24) % 256, (s.tcp_seq_num >>> 16) % 256,
            (s.tcp_seq_num >>> 8) % 256, s.tcp_seq_num % 256,
            (s.tcp_ack_num >>> 24) % 256, (s.tcp_ack_num >>> 16) % 256,
            (s.tcp_ack_num >>> 8) % 256, s.tcp_ack_num % 256,
            0x50, flags, 8, 0, 0, 0, 0, 0] ++
            ((List.range n).map (fun i => data.getD i 0) ++ (List.replicate 64 0).drop n))
          (TCP_HEADER_LEN + n) s.LOCAL_IP s.tcp_remote_ip) := by
  have hb : (if n > 0 then
        memcpy ([(s.tcp_local_port >>> 8) % 256, s.tcp_local_port % 256,
          (s.tcp_remote_port >>> 8) % 256, s.tcp_remote_port % 256,
          (s.tcp_seq_num >>> 24) % 256, (s.tcp_seq_num >>> 16) % 256,
          (s.tcp_seq_num >>> 8) % 256, s.tcp_seq_num % 256,
          (s.tcp_ack_num >>> 24) % 256, (s.tcp_ack_num >>> 16) % 256,
          (s.tcp_ack_num >>> 8) % 256, s.tcp_ack_num % 256,
          0x50, flags, 8, 0, 0, 0, 0, 0] ++ List.replicate 64 0) TCP_HEADER_LEN data n
      else [(s.tcp_local_port >>> 8) % 256, s.tcp_local_port % 256,
          (s.tcp_remote_port >>> 8) % 256, s.tcp_remote_port % 256,
          (s.tcp_seq_num >>> 24) % 256, (s.tcp_seq_num >>> 16) % 256,
          (s.tcp_seq_num >>> 8) % 256, s.tcp_seq_num % 256,
          (s.tcp_ack_num >>> 24) % 256, (s.tcp_ack_num >>> 16) % 256,
          (s.tcp_ack_num >>> 8) % 256, s.tcp_ack_num % 256,
          0x50, flags, 8, 0, 0, 0, 0, 0] ++ List.replicate 64 0)
      = [(s.tcp_local_port >>> 8) % 256, s.tcp_local_port % 256,
          (s.tcp_remote_port >>> 8) % 256, s.tcp_remote_port % 256,
          (s.tcp_seq_num >>> 24) % 256, (s.tcp_seq_num >>> 16) % 256,
          (s.tcp_seq_num >>> 8) % 256, s.tcp_seq_num % 256,
          (s.tcp_ack_num >>> 24) % 256, (s.tcp_ack_num >>> 16) % 256,
          (s.tcp_ack_num >>> 8) % 256, s.tcp_ack_num % 256,
          0x50, flags, 8, 0, 0, 0, 0, 0] ++
          ((List.range n).map (fun i => data.getD i 0) ++ (List.replicate 64 0).drop n) := by
    by_cases hn : n > 0
    · rw [if_pos hn]
      unfold memcpy
      rw [List.take_left' (by rfl), List.append_assoc, List.drop_append_eq_append_drop]
      simp [TCP_HEADER_LEN]
    · have : n = 0 := by omega
      subst this
      simp
  have hh : put_u16 (put_u16 (put_u16 (((put_u32 (put_u32 (put_u16 (put_u16
      (List.replicate (TCP_HEADER_LEN + 64) 0) TCP_SRC_PORT s.tcp_local_port)
      TCP_DST_PORT s.tcp_remote_port) TCP_SEQ_OFF s.tcp_seq_num) TCP_ACK_OFF
      s.tcp_ack_num).set TCP_DATA_OFF 0x50).set TCP_FLAGS flags) TCP_WINDOW 2048)
      TCP_CHECKSUM 0) TCP_URGENT 0
      = [(s.tcp_local_port >>> 8) % 256, s.tcp_local_port % 256,
          (s.tcp_remote_port >>> 8) % 256, s.tcp_remote_port % 256,
          (s.tcp_seq_num >>> 24) % 256, (s.tcp_seq_num >>> 16) % 256,
          (s.tcp_seq_num >>> 8) % 256, s.tcp_seq_num % 256,
          (s.tcp_ack_num >>> 24) % 256, (s.tcp_ack_num >>> 16) % 256,
          (s.tcp_ack_num >>> 8) % 256, s.tcp_ack_num % 256,
          0x50, flags, 8, 0, 0, 0, 0, 0] ++ List.replicate 64 0 := by
    simp only [put_u16, put_u32, TCP_HEADER_LEN, TCP_SRC_PORT, TCP_DST_PORT,
      TCP_SEQ_OFF, TCP_ACK_OFF, TCP_DATA_OFF, TCP_FLAGS, TCP_WINDOW, TCP_CHECKSUM,
      TCP_URGENT, Nat.reduceAdd]
    rw [show (84 : Nat) = 20 + 64 from rfl, List.replicate_add]
    simp only [List.replicate, List.cons_append, List.set_cons_zero, List.set_cons_succ,
      List.nil_append, Nat.reduceShiftRight, Nat.reduceMod]
  rw [← hb, ← hh]
  rfl

/-- C30 (amended): for flags and data that are bytes and n ≤ 64 (the room `tcp_buf` has
behind the header), the segment built by `tcp_send_flags(flags, data, n)` has a 20-byte
header with source port = local port, destination port = remote port, sequence number =
the send sequence number before the call, acknowledgement number = the receive sequence
number, data-offset byte 0x50, the given flags, window 2048 and urgent pointer 0,
followed by the n data bytes; `tcp_checksum` recomputed over the 20 + n bytes of the
segment with the checksum in place and the pseudo-header (local IP, remote IP, 0, 6,
20 + n) is 0; exactly one datagram is emitted, whose payload is that segment; afterwards
the send sequence number has advanced by [SYN set] + [FIN set] + n modulo 2^32 and
nothing else but the identification counter has changed. -/
theorem tcp_send_flags_header (flags : Nat) (data : List Nat) (n : Nat) (s : Net)
    (hflags : flags < 256) (hb : ∀ b ∈ data, b < 256) (hn : n ≤ 64) (hd : n ≤ data.length) :
    (tcp_segment s flags data n).length = TCP_HEADER_LEN + 64 ∧
    get_u16 (tcp_segment s flags data n) TCP_SRC_PORT = s.tcp_local_port % 2 ^ 16 ∧
    get_u16 (tcp_segment s flags data n) TCP_DST_PORT = s.tcp_remote_port % 2 ^ 16 ∧
    get_u32 (tcp_segment s flags data n) TCP_SEQ_OFF = s.tcp_seq_num % 2 ^ 32 ∧
    get_u32 (tcp_segment s flags data n) TCP_ACK_OFF = s.tcp_ack_num % 2 ^ 32 ∧
    (tcp_segment s flags data n).getD TCP_DATA_OFF 0 = 0x50 ∧
    (tcp_segment s flags data n).getD TCP_FLAGS 0 = flags ∧
    get_u16 (tcp_segment s flags data n) TCP_WINDOW = 2048 ∧
    get_u16 (tcp_segment s flags data n) TCP_URGENT = 0 ∧
    ((tcp_segment s flags data n).drop TCP_HEADER_LEN).take n = data.take n ∧
    tcp_checksum (tcp_segment s flags data n) (TCP_HEADER_LEN + n) s.LOCAL_IP s.tcp_remote_ip
      = 0 ∧
    tcp_send_flags flags data n s =
      { s with
        tcp_seq_num := (s.tcp_seq_num + ((if flags &&& TCP_SYN ≠ 0 then 1 else 0) +
          (if flags &&& TCP_FIN ≠ 0 then 1 else 0)) + n) % 2 ^ 32
        ip_id := (s.ip_id + 1) % 2 ^ 16
        out := s.out ++ (slip_send (ip_datagram s.LOCAL_IP s.ip_id s.tcp_remote_ip IP_PROTO_TCP
          (tcp_segment s flags data n) (20 + n)) (40 + n)).map Event.tx_putchar } ∧
    ((ip_datagram s.LOCAL_IP s.ip_id s.tcp_remote_ip IP_PROTO_TCP
        (tcp_segment s flags data n) (20 + n)).drop IP_HEADER_LEN).take (20 + n)
      = (tcp_segment s flags data n).take (20 + n) := by
  obtain ⟨f1, f2, f3, f4, f5, f6, f7⟩ := tcp_segment_fields s flags data n
  obtain ⟨c1, c2, tail, e⟩ := tcp_segment_bytes s flags data n
  have hlen : (tcp_segment s flags data n).length = TCP_HEADER_LEN + 64 := by
    rw [tcp_segment_checksum, length_put_u16]
    simp only [List.length_append, List.length_cons, List.length_nil, List.length_map,
      List.length_range, List.length_drop, List.length_replicate, TCP_HEADER_LEN]
    omega
  have hbB : ∀ b ∈ [(s.tcp_local_port >>> 8) % 256, s.tcp_local_port % 256,
          (s.tcp_remote_port >>> 8) % 256, s.tcp_remote_port % 256,
          (s.tcp_seq_num >>> 24) % 256, (s.tcp_seq_num >>> 16) % 256,
          (s.tcp_seq_num >>> 8) % 256, s.tcp_seq_num % 256,
          (s.tcp_ack_num >>> 24) % 256, (s.tcp_ack_num >>> 16) % 256,
          (s.tcp_ack_num >>> 8) % 256, s.tcp_ack_num % 256,
          0x50, flags, 8, 0, 0, 0, 0, 0] ++
          ((List.range n).map (fun i => data.getD i 0) ++ (List.replicate 64 0).drop n),
      b < 256 := by
    intro b hmem
    rcases List.mem_append.mp hmem with h | h
    · simp only [List.mem_cons, List.not_mem_nil, or_false] at h
      rcases h with rfl | rfl | rfl | rfl | rfl | rfl | rfl | rfl | rfl | rfl | rfl | rfl |
        rfl | rfl | rfl | rfl | rfl | rfl | rfl | rfl <;>
        first
        | exact Nat.mod_lt _ (by decide)
        | exact hflags
        | decide
    · rcases List.mem_append.mp h with h | h
      · obtain ⟨i, _, rfl⟩ := List.mem_map.mp h
        exact getD_lt_of_bytes data hb i
      · rw [List.eq_of_mem_replicate (List.mem_of_mem_drop h)]
        decide
  refine ⟨hlen, f3, f4, f5, f6, f2, f1, ?_, ?_, ?_, ?_, ?_, ?_⟩
  · rw [e]
    show (8 <<< 8 ||| 0) % 2 ^ 16 = 2048
    decide
  · rw [e]
    show (0 <<< 8 ||| 0) % 2 ^ 16 = 0
    decide
  · rw [f7, range_map_getD data n hd]
  · rw [tcp_segment_checksum]
    exact tcp_checksum_insert_zero _ (TCP_HEADER_LEN + n) TCP_CHECKSUM _ _ hbB
      (by simp only [TCP_HEADER_LEN]; omega) (by decide)
      (by simp only [TCP_HEADER_LEN, TCP_CHECKSUM]; omega)
      (by
        simp only [List.length_append, List.length_cons, List.length_nil, List.length_map,
          List.length_range, List.length_drop, List.length_replicate, TCP_HEADER_LEN]
        omega)
      rfl rfl
  · exact tcp_send_flags_small flags data n _ s hn rfl
  · rw [ip_datagram_payload, range_map_getD _ _ (by rw [hlen]; simp only [TCP_HEADER_LEN]; omega)]

/-- C30 witness: the data segment that carries five bytes after the handshake. -/
theorem tcp_send_flags_header_witness :
    tcp_checksum (tcp_segment sample_established (TCP_PSH ||| TCP_ACK) [72, 69, 76, 76, 79] 5)
      25 sample_established.LOCAL_IP sample_established.tcp_remote_ip = 0 ∧
    (tcp_send_flags (TCP_PSH ||| TCP_ACK) [72, 69, 76, 76, 79] 5
      sample_established).tcp_seq_num = 1006 ∧
    ((tcp_segment sample_established (TCP_PSH ||| TCP_ACK) [72, 69, 76, 76, 79] 5).drop
      TCP_HEADER_LEN).take 5 = [72, 69, 76, 76, 79] := by
  have h := tcp_send_flags_header (TCP_PSH ||| TCP_ACK) [72, 69, 76, 76, 79] 5
    sample_established (by decide) (by decide) (by decide) (by decide)
  obtain ⟨_, _, _, _, _, _, _, _, _, h10, h11, h12, _⟩ := h
  exact ⟨h11, by rw [h12]; decide, h10⟩

/-- C30 counterexample: a call with 236 data bytes in ESTABLISHED. The length handed to
`ip_send` is `(unsigned char)(20 + 236)` = 0: the one datagram that goes out is a bare
IP header of 20 bytes (with a total length field of 20), so what is emitted holds no TCP
header at all. -/
theorem tcp_send_flags_header_fails :
    wire_bytes (tcp_send_flags (TCP_PSH ||| TCP_ACK) (List.replicate 236 0x41) 236
      sample_established).out
      = wire_bytes sample_established.out ++
        [192, 69, 0, 0, 20, 0, 2, 0, 0, 64, 6, 247, 133, 219, 220, 168, 1, 2, 219, 220, 168,
         1, 10, 192] ∧
    (tcp_send_flags (TCP_PSH ||| TCP_ACK) (List.replicate 236 0x41) 236
      sample_established).tcp_seq_num = 1237 := by
  decide

/-! ## IP header emission and ICMP echo -/

/-- The datagram `ip_send` builds, byte by byte: the 20-byte header (with the two bytes
of the header checksum) and what follows it. -/
theorem ip_datagram_bytes (local_ip ip_id dst_ip protocol : Nat) (payload : List Nat)
    (n : Nat) :
    ∃ (c1 c2 : Nat) (rest : List Nat),
      ip_datagram local_ip ip_id dst_ip protocol payload n =
        [0x45, 0, (((IP_HEADER_LEN + n) % 2 ^ 16) >>> 8) % 256,
         ((IP_HEADER_LEN + n) % 2 ^ 16) % 256, (ip_id >>> 8) % 256, ip_id % 256, 0, 0, 64,
         protocol, c1, c2,
         (local_ip >>> 24) % 256, (local_ip >>> 16) % 256, (local_ip >>> 8) % 256,
         local_ip % 256,
         (dst_ip >>> 24) % 256, (dst_ip >>> 16) % 256, (dst_ip >>> 8) % 256,
         dst_ip % 256] ++ rest := by
  obtain ⟨tail, htail⟩ : ∃ t : List Nat, List.replicate 556 0 = t := ⟨_, rfl⟩
  apply Exists.intro
  apply Exists.intro
  apply Exists.intro
  · simp only [ip_datagram, put_u16, put_u32, IP_HEADER_LEN, IP_VER_IHL, IP_TOS, IP_TOTAL_LEN,
      IP_ID, IP_FRAG, IP_TTL, IP_PROTO, IP_CHECKSUM, IP_SRC_IP, IP_DST_IP, PKT_BUF_SIZE,
      Nat.reduceAdd, memcpy]
    rw [show (576 : Nat) = 20 + 556 from rfl, List.replicate_add]
    rw [htail]
    simp only [List.replicate, List.cons_append, List.set_cons_zero, List.set_cons_succ,
      List.nil_append, Nat.reduceShiftRight, Nat.reduceMod, List.take_succ_cons,
      List.take_zero, List.append_assoc]
    rfl

/-- The header fields of the datagram `ip_send` builds. -/
theorem ip_datagram_fields (local_ip ip_id dst_ip protocol : Nat) (payload : List Nat)
    (n : Nat) :
    (ip_datagram local_ip ip_id dst_ip protocol payload n).getD IP_VER_IHL 0 = 0x45 ∧
    get_u16 (ip_datagram local_ip ip_id dst_ip protocol payload n) IP_TOTAL_LEN
      = (IP_HEADER_LEN + n) % 2 ^ 16 ∧
    get_u16 (ip_datagram local_ip ip_id dst_ip protocol payload n) IP_ID = ip_id % 2 ^ 16 ∧
    (ip_datagram local_ip ip_id dst_ip protocol payload n).getD IP_PROTO 0 = protocol ∧
    get_u32 (ip_datagram local_ip ip_id dst_ip protocol payload n) IP_SRC_IP
      = local_ip % 2 ^ 32 ∧
    get_u32 (ip_datagram local_ip ip_id dst_ip protocol payload n) IP_DST_IP
      = dst_ip % 2 ^ 32 := by
  obtain ⟨c1, c2, rest, e⟩ := ip_datagram_bytes local_ip ip_id dst_ip protocol payload n
  rw [e]
  refine ⟨rfl, ?_, ?_, rfl, ?_, ?_⟩
  · exact (u16_bytes _).trans (Nat.mod_mod _ _)
  · exact u16_bytes _
  · exact u32_bytes _
  · exact u32_bytes _

/-- The function `icmp_receive` on an echo request with a valid checksum: the message is
turned into the reply in place (type 0, code 0, checksum recomputed), a console line is
written, the reply goes to `ip_send`, and the reply counter is incremented. -/
theorem icmp_receive_echo_eq (pkt : List Nat) (len src_ip : Nat) (s : Net)
    (hb : ∀ b ∈ pkt, b < 256) (h8 : ICMP_HEADER_LEN ≤ len) (hl : len ≤ pkt.length)
    (hck : checksum (put_u16 pkt ICMP_CHECKSUM 0) len = get_u16 pkt ICMP_CHECKSUM)
    (hty : pkt.getD ICMP_TYPE 0 = ICMP_ECHO_REQUEST) :
    icmp_receive pkt len src_ip s =
      (put_u16 (put_u16 ((pkt.set ICMP_TYPE ICMP_ECHO_REPLY).set ICMP_CODE 0) ICMP_CHECKSUM 0)
          ICMP_CHECKSUM
          (checksum (put_u16 ((pkt.set ICMP_TYPE ICMP_ECHO_REPLY).set ICMP_CODE 0)
            ICMP_CHECKSUM 0) len),
        { s with
          ip_id := (s.ip_id + 1) % 2 ^ 16
          ping_replied := (s.ping_replied + 1) % 2 ^ 16
          out := s.out ++ [Event.printf_ping ((src_ip >>> 24) % 256) ((src_ip >>> 16) % 256)
              ((src_ip >>> 8) % 256) (src_ip % 256) (get_u16 pkt ICMP_SEQ)] ++
            (slip_send (ip_datagram s.LOCAL_IP s.ip_id src_ip IP_PROTO_ICMP
              (put_u16 (put_u16 ((pkt.set ICMP_TYPE ICMP_ECHO_REPLY).set ICMP_CODE 0)
                  ICMP_CHECKSUM 0) ICMP_CHECKSUM
                (checksum (put_u16 ((pkt.set ICMP_TYPE ICMP_ECHO_REPLY).set ICMP_CODE 0)
                  ICMP_CHECKSUM 0) len))
              (len % 256))
              ((IP_HEADER_LEN + len % 256) % 2 ^ 16 % 256)).map Event.tx_putchar }) := by
  simp only [ICMP_HEADER_LEN, ICMP_CHECKSUM] at h8 hck
  have e1 : put_u16 (put_u16 pkt ICMP_CHECKSUM 0) ICMP_CHECKSUM (get_u16 pkt ICMP_CHECKSUM)
      = pkt := by
    rw [put_u16_put_u16, put_u16_get_u16 pkt _ hb (by simp only [ICMP_CHECKSUM]; omega)]
  unfold icmp_receive
  rw [if_neg (by simp only [ICMP_HEADER_LEN]; omega)]
  simp only [e1, hck, ne_eq, not_true_eq_false, if_false, hty, if_true, Net.emit, ip_send]

/-- The reply `icmp_receive` builds from a request: type 0, the bytes from offset 4 on
(identifier, sequence number, payload) as in the request, and a checksum that verifies
over the `len` bytes of the message. -/
theorem icmp_reply_fields (pkt : List Nat) (len : Nat) (hb : ∀ b ∈ pkt, b < 256)
    (h8 : ICMP_HEADER_LEN ≤ len) (hl : len ≤ pkt.length) (hlen : len < 65536) :
    (put_u16 (put_u16 ((pkt.set ICMP_TYPE ICMP_ECHO_REPLY).set ICMP_CODE 0) ICMP_CHECKSUM 0)
      ICMP_CHECKSUM (checksum (put_u16 ((pkt.set ICMP_TYPE ICMP_ECHO_REPLY).set ICMP_CODE 0)
        ICMP_CHECKSUM 0) len)).getD ICMP_TYPE 0 = ICMP_ECHO_REPLY ∧
    (∀ i, 4 ≤ i →
      (put_u16 (put_u16 ((pkt.set ICMP_TYPE ICMP_ECHO_REPLY).set ICMP_CODE 0) ICMP_CHECKSUM 0)
        ICMP_CHECKSUM (checksum (put_u16 ((pkt.set ICMP_TYPE ICMP_ECHO_REPLY).set ICMP_CODE 0)
          ICMP_CHECKSUM 0) len)).getD i 0 = pkt.getD i 0) ∧
    (put_u16 (put_u16 ((pkt.set ICMP_TYPE ICMP_ECHO_REPLY).set ICMP_CODE 0) ICMP_CHECKSUM 0)
      ICMP_CHECKSUM (checksum (put_u16 ((pkt.set ICMP_TYPE ICMP_ECHO_REPLY).set ICMP_CODE 0)
        ICMP_CHECKSUM 0) len)).drop 4 = pkt.drop 4 ∧
    checksum (put_u16 (put_u16 ((pkt.set ICMP_TYPE ICMP_ECHO_REPLY).set ICMP_CODE 0)
      ICMP_CHECKSUM 0) ICMP_CHECKSUM
      (checksum (put_u16 ((pkt.set ICMP_TYPE ICMP_ECHO_REPLY).set ICMP_CODE 0)
        ICMP_CHECKSUM 0) len)) len = 0 := by
  simp only [ICMP_HEADER_LEN] at h8
  have hbP : ∀ b ∈ put_u16 ((pkt.set ICMP_TYPE ICMP_ECHO_REPLY).set ICMP_CODE 0)
      ICMP_CHECKSUM 0, b < 256 := by
    apply mem_put_u16
    apply mem_set_byte _ _ _ (by decide)
    apply mem_set_byte _ _ _ (by decide)
    exact hb
  have hlP : (put_u16 ((pkt.set ICMP_TYPE ICMP_ECHO_REPLY).set ICMP_CODE 0)
      ICMP_CHECKSUM 0).length = pkt.length := by
    rw [length_put_u16, List.length_set, List.length_set]
  refine ⟨?_, ?_, ?_, ?_⟩
  · simp only [ICMP_CHECKSUM, ICMP_TYPE, ICMP_CODE, ICMP_ECHO_REPLY]
    rw [getD_put_u16_ne _ _ _ _ (by omega) (by omega),
      getD_put_u16_ne _ _ _ _ (by omega) (by omega),
      getD_set_ne _ _ _ _ _ (by omega), getD_set_eq pkt 0 0 0 (by omega)]
  · intro i hi
    simp only [ICMP_CHECKSUM, ICMP_TYPE, ICMP_CODE]
    rw [getD_put_u16_ne _ _ _ _ (by omega) (by omega),
      getD_put_u16_ne _ _ _ _ (by omega) (by omega),
      getD_set_ne _ _ _ _ _ (by omega), getD_set_ne _ _ _ _ _ (by omega)]
  · simp only [put_u16, ICMP_CHECKSUM, ICMP_TYPE, ICMP_CODE, Nat.reduceAdd]
    rw [List.drop_set_of_lt _ _ (by decide), List.drop_set_of_lt _ _ (by decide),
      List.drop_set_of_lt _ _ (by decide), List.drop_set_of_lt _ _ (by decide),
      List.drop_set_of_lt _ _ (by decide), List.drop_set_of_lt _ _ (by decide)]
  · exact checksum_insert_zero _ len ICMP_CHECKSUM hbP hlen (by decide)
      (by simp only [ICMP_CHECKSUM]; omega) (by rw [hlP]; exact hl)
      (by
        rw [getD_put_u16_hi _ _ _ (by rw [List.length_set, List.length_set]; simp only [ICMP_CHECKSUM]; omega)]
        rfl)
      (by
        rw [getD_put_u16_lo _ _ _ (by rw [List.length_set, List.length_set]; simp only [ICMP_CHECKSUM]; omega)])

/-- C21 (amended): for every ICMP echo request (type 8) of at most 235 bytes with a valid
ICMP checksum that the IP layer hands over with source S, exactly one datagram is emitted
(after the console line): IP source = local IP, IP destination = S, protocol 1, total
length 20 + len, and as payload the reply message: ICMP type 0, the same identifier, the
same sequence number and the same payload bytes as the request, and an ICMP checksum
that verifies over the whole reply message (`checksum` of it is 0). -/
theorem icmp_receive_echo_reply (pkt : List Nat) (len src_ip : Nat) (s : Net)
    (hb : ∀ b ∈ pkt, b < 256) (h8 : ICMP_HEADER_LEN ≤ len) (hl : len ≤ pkt.length)
    (hmax : len ≤ 235)
    (hck : checksum (put_u16 pkt ICMP_CHECKSUM 0) len = get_u16 pkt ICMP_CHECKSUM)
    (hty : pkt.getD ICMP_TYPE 0 = ICMP_ECHO_REQUEST) :
    (icmp_receive pkt len src_ip s).2 =
      { s with
        ip_id := (s.ip_id + 1) % 2 ^ 16
        ping_replied := (s.ping_replied + 1) % 2 ^ 16
        out := s.out ++ [Event.printf_ping ((src_ip >>> 24) % 256) ((src_ip >>> 16) % 256)
            ((src_ip >>> 8) % 256) (src_ip % 256) (get_u16 pkt ICMP_SEQ)] ++
          (slip_send (ip_datagram s.LOCAL_IP s.ip_id src_ip IP_PROTO_ICMP
            (icmp_receive pkt len src_ip s).1 len) (IP_HEADER_LEN + len)).map
              Event.tx_putchar } ∧
    get_u32 (ip_datagram s.LOCAL_IP s.ip_id src_ip IP_PROTO_ICMP
      (icmp_receive pkt len src_ip s).1 len) IP_SRC_IP = s.LOCAL_IP % 2 ^ 32 ∧
    get_u32 (ip_datagram s.LOCAL_IP s.ip_id src_ip IP_PROTO_ICMP
      (icmp_receive pkt len src_ip s).1 len) IP_DST_IP = src_ip % 2 ^ 32 ∧
    (ip_datagram s.LOCAL_IP s.ip_id src_ip IP_PROTO_ICMP
      (icmp_receive pkt len src_ip s).1 len).getD IP_PROTO 0 = IP_PROTO_ICMP ∧
    get_u16 (ip_datagram s.LOCAL_IP s.ip_id src_ip IP_PROTO_ICMP
      (icmp_receive pkt len src_ip s).1 len) IP_TOTAL_LEN = IP_HEADER_LEN + len ∧
    ((ip_datagram s.LOCAL_IP s.ip_id src_ip IP_PROTO_ICMP
      (icmp_receive pkt len src_ip s).1 len).drop IP_HEADER_LEN).take len
      = (icmp_receive pkt len src_ip s).1.take len ∧
    (icmp_receive pkt len src_ip s).1.getD ICMP_TYPE 0 = ICMP_ECHO_REPLY ∧
    get_u16 (icmp_receive pkt len src_ip s).1 ICMP_ID = get_u16 pkt ICMP_ID ∧
    get_u16 (icmp_receive pkt len src_ip s).1 ICMP_SEQ = get_u16 pkt ICMP_SEQ ∧
    ((icmp_receive pkt len src_ip s).1.drop ICMP_HEADER_LEN).take (len - ICMP_HEADER_LEN)
      = (pkt.drop ICMP_HEADER_LEN).take (len - ICMP_HEADER_LEN) ∧
    checksum (icmp_receive pkt len src_ip s).1 len = 0 := by
  have e := icmp_receive_echo_eq pkt len src_ip s hb h8 hl hck hty
  obtain ⟨r1, r2, r3, r4⟩ := icmp_reply_fields pkt len hb h8 hl (by omega)
  obtain ⟨d1, d2, d3, d4, d5, d6⟩ := ip_datagram_fields s.LOCAL_IP s.ip_id src_ip IP_PROTO_ICMP
    (icmp_receive pkt len src_ip s).1 len
  have e1 : len % 256 = len := Nat.mod_eq_of_lt (by omega)
  have e2 : (IP_HEADER_LEN + len) % 2 ^ 16 % 256 = IP_HEADER_LEN + len := by
    simp only [IP_HEADER_LEN]; omega
  have e3 : (IP_HEADER_LEN + len) % 2 ^ 16 = IP_HEADER_LEN + len := by
    simp only [IP_HEADER_LEN]; omega
  have hR : (icmp_receive pkt len src_ip s).1
      = put_u16 (put_u16 ((pkt.set ICMP_TYPE ICMP_ECHO_REPLY).set ICMP_CODE 0) ICMP_CHECKSUM 0)
        ICMP_CHECKSUM (checksum (put_u16 ((pkt.set ICMP_TYPE ICMP_ECHO_REPLY).set ICMP_CODE 0)
          ICMP_CHECKSUM 0) len) := by rw [e]
  have hlR : len ≤ (icmp_receive pkt len src_ip s).1.length := by
    rw [hR, length_put_u16, length_put_u16, List.length_set, List.length_set]
    exact hl
  refine ⟨?_, d5, d6, d4, d2.trans e3, ?_, ?_, ?_, ?_, ?_, ?_⟩
  · rw [hR, e]
    simp only [e1, e2]
  · rw [ip_datagram_payload, range_map_getD _ _ hlR]
  · rw [hR]; exact r1
  · rw [hR]
    unfold get_u16
    rw [r2 _ (by decide), r2 _ (by decide)]
  · rw [hR]
    unfold get_u16
    rw [r2 _ (by decide), r2 _ (by decide)]
  · rw [hR]
    have h := congrArg (List.drop 4) r3
    rw [List.drop_drop, List.drop_drop] at h
    exact congrArg (List.take (len - ICMP_HEADER_LEN)) h
  · rw [hR]; exact r4

/-- C21 witness: payload "abcd", identifier 0x1234, sequence number 1, from 192.168.1.10
to the local address 192.168.1.2: the reply message and the one frame on the wire. -/
theorem icmp_receive_echo_reply_witness :
    (icmp_receive sample_echo 12 0xC0A8010A (Net.init 0xC0A80102)).1
      = [0, 0, 0x29, 0x04, 0x12, 0x34, 0, 1, 0x61, 0x62, 0x63, 0x64] ∧
    checksum (icmp_receive sample_echo 12 0xC0A8010A (Net.init 0xC0A80102)).1 12 = 0 ∧
    wire_bytes (icmp_receive sample_echo 12 0xC0A8010A (Net.init 0xC0A80102)).2.out
      = [0xC0, 0x45, 0, 0, 32, 0, 1, 0, 0, 64, 1, 0xF7, 0x7F, 0xDB, 0xDC, 168, 1, 2,
         0xDB, 0xDC, 168, 1, 10, 0, 0, 0x29, 0x04, 0x12, 0x34, 0, 1, 0x61, 0x62, 0x63, 0x64,
         0xC0] := by
  have h := icmp_receive_echo_reply sample_echo 12 0xC0A8010A (Net.init 0xC0A80102)
    (by decide) (by decide) (by decide) (by decide) (by decide) (by decide)
  exact ⟨by decide, h.2.2.2.2.2.2.2.2.2.2, by decide⟩

/-- C21 counterexample: an echo request of 236 bytes with a valid checksum. The length
`slip_send` gets is `(unsigned char)(20 + 236)` = 0: the console line is written and the
reply counter goes up, but the wire gets two END bytes and no datagram. -/
theorem icmp_receive_echo_reply_fails :
    checksum (put_u16 sample_echo_long ICMP_CHECKSUM 0) 236
      = get_u16 sample_echo_long ICMP_CHECKSUM ∧
    sample_echo_long.getD ICMP_TYPE 0 = ICMP_ECHO_REQUEST ∧
    (icmp_receive sample_echo_long 236 0xC0A8010A (Net.init 0xC0A80102)).2.out
      = [Event.printf_ping 192 168 1 10 1, Event.tx_putchar 0xC0, Event.tx_putchar 0xC0] ∧
    (icmp_receive sample_echo_long 236 0xC0A8010A (Net.init 0xC0A80102)).2.ping_replied
      = 1 := by
  decide

/-- C22 (amended): for every valid echo request of at most 235 bytes, receiving the same
request twice in succession puts two datagrams on the wire (each after its console
line) that carry the same reply message, bit for bit and so with equal ICMP checksums,
and whose IP identification fields differ by exactly one modulo 2^16. -/
theorem icmp_receive_twice (pkt : List Nat) (len src_ip : Nat) (s : Net)
    (hb : ∀ b ∈ pkt, b < 256) (h8 : ICMP_HEADER_LEN ≤ len) (hl : len ≤ pkt.length)
    (hmax : len ≤ 235)
    (hck : checksum (put_u16 pkt ICMP_CHECKSUM 0) len = get_u16 pkt ICMP_CHECKSUM)
    (hty : pkt.getD ICMP_TYPE 0 = ICMP_ECHO_REQUEST) :
    (icmp_receive pkt len src_ip (icmp_receive pkt len src_ip s).2).1
      = (icmp_receive pkt len src_ip s).1 ∧
    get_u16 (icmp_receive pkt len src_ip (icmp_receive pkt len src_ip s).2).1 ICMP_CHECKSUM
      = get_u16 (icmp_receive pkt len src_ip s).1 ICMP_CHECKSUM ∧
    wire_bytes (icmp_receive pkt len src_ip s).2.out
      = wire_bytes s.out ++
        slip_send (ip_datagram s.LOCAL_IP s.ip_id src_ip IP_PROTO_ICMP
          (icmp_receive pkt len src_ip s).1 len) (IP_HEADER_LEN + len) ∧
    wire_bytes (icmp_receive pkt len src_ip (icmp_receive pkt len src_ip s).2).2.out
      = wire_bytes (icmp_receive pkt len src_ip s).2.out ++
        slip_send (ip_datagram s.LOCAL_IP ((s.ip_id + 1) % 2 ^ 16) src_ip IP_PROTO_ICMP
          (icmp_receive pkt len src_ip s).1 len) (IP_HEADER_LEN + len) ∧
    ((ip_datagram s.LOCAL_IP s.ip_id src_ip IP_PROTO_ICMP
      (icmp_receive pkt len src_ip s).1 len).drop IP_HEADER_LEN).take len
      = ((ip_datagram s.LOCAL_IP ((s.ip_id + 1) % 2 ^ 16) src_ip IP_PROTO_ICMP
        (icmp_receive pkt len src_ip s).1 len).drop IP_HEADER_LEN).take len ∧
    get_u16 (ip_datagram s.LOCAL_IP ((s.ip_id + 1) % 2 ^ 16) src_ip IP_PROTO_ICMP
      (icmp_receive pkt len src_ip s).1 len) IP_ID
      = (get_u16 (ip_datagram s.LOCAL_IP s.ip_id src_ip IP_PROTO_ICMP
          (icmp_receive pkt len src_ip s).1 len) IP_ID + 1) % 2 ^ 16 := by
  have e := icmp_receive_echo_eq pkt len src_ip s hb h8 hl hck hty
  have e' := icmp_receive_echo_eq pkt len src_ip (icmp_receive pkt len src_ip s).2 hb h8 hl
    hck hty
  have e1 : len % 256 = len := Nat.mod_eq_of_lt (by omega)
  have e2 : (IP_HEADER_LEN + len) % 2 ^ 16 % 256 = IP_HEADER_LEN + len := by
    simp only [IP_HEADER_LEN]; omega
  have h1 : (icmp_receive pkt len src_ip (icmp_receive pkt len src_ip s).2).1
      = (icmp_receive pkt len src_ip s).1 := by rw [e', e]
  have hw : ∀ (t : Net), wire_bytes (icmp_receive pkt len src_ip t).2.out
      = wire_bytes t.out ++
        slip_send (ip_datagram t.LOCAL_IP t.ip_id src_ip IP_PROTO_ICMP
          (icmp_receive pkt len src_ip s).1 len) (IP_HEADER_LEN + len) := by
    intro t
    rw [icmp_receive_echo_eq pkt len src_ip t hb h8 hl hck hty, e]
    show wire_bytes (t.out ++ [_] ++ List.map Event.tx_putchar _) = _
    rw [wire_bytes_append, wire_bytes_append, wire_bytes_tx, e1, e2]
    simp [wire_bytes]
  have hs1 : (icmp_receive pkt len src_ip s).2.LOCAL_IP = s.LOCAL_IP := by rw [e]
  have hs2 : (icmp_receive pkt len src_ip s).2.ip_id = (s.ip_id + 1) % 2 ^ 16 := by rw [e]
  refine ⟨h1, by rw [h1], hw s, ?_, ?_, ?_⟩
  · rw [hw (icmp_receive pkt len src_ip s).2, hs1, hs2]
  · rw [ip_datagram_payload, ip_datagram_payload]
  · rw [(ip_datagram_fields _ _ _ _ _ _).2.2.1, (ip_datagram_fields _ _ _ _ _ _).2.2.1]
    simp only [Nat.reducePow]
    omega

/-- C22 witness: the sample echo request received twice by a fresh stack: the second
frame differs from the first in the identification field (1, then 2) and, with it, in
the IP header checksum; the ICMP message in both is the same. -/
theorem icmp_receive_twice_witness :
    wire_bytes (icmp_receive sample_echo 12 0xC0A8010A
      (icmp_receive sample_echo 12 0xC0A8010A (Net.init 0xC0A80102)).2).2.out
      = [0xC0, 0x45, 0, 0, 32, 0, 1, 0, 0, 64, 1, 0xF7, 0x7F, 0xDB, 0xDC, 168, 1, 2,
         0xDB, 0xDC, 168, 1, 10, 0, 0, 0x29, 0x04, 0x12, 0x34, 0, 1, 0x61, 0x62, 0x63, 0x64,
         0xC0,
         0xC0, 0x45, 0, 0, 32, 0, 2, 0, 0, 64, 1, 0xF7, 0x7E, 0xDB, 0xDC, 168, 1, 2,
         0xDB, 0xDC, 168, 1, 10, 0, 0, 0x29, 0x04, 0x12, 0x34, 0, 1, 0x61, 0x62, 0x63, 0x64,
         0xC0] := by
  have h := icmp_receive_twice sample_echo 12 0xC0A8010A (Net.init 0xC0A80102)
    (by decide) (by decide) (by decide) (by decide) (by decide) (by decide)
  rw [h.2.2.2.1, h.2.2.1]
  decide

/-- C22 counterexample: the echo request of 236 bytes received twice: each time the wire
gets two END bytes only, so the two answers are the same empty frame and hold no
identification field. -/
theorem icmp_receive_twice_fails :
    checksum (put_u16 sample_echo_long ICMP_CHECKSUM 0) 236
      = get_u16 sample_echo_long ICMP_CHECKSUM ∧
    sample_echo_long.getD ICMP_TYPE 0 = ICMP_ECHO_REQUEST ∧
    wire_bytes (icmp_receive sample_echo_long 236 0xC0A8010A
      (icmp_receive sample_echo_long 236 0xC0A8010A (Net.init 0xC0A80102)).2).2.out
      = [0xC0, 0xC0, 0xC0, 0xC0] := by
  decide

/-! ## TCP input without checksum verification, and the active open -/

/-- C24: `tcp_connect(ip, port)`, in whatever state the slot is (CLOSED and LISTEN
included), sets the remote endpoint to (ip, port), emits exactly one datagram whose
segment has the flags SYN, sequence number 1000 and acknowledgement number 0, and leaves
the slot in SYN_SENT with send sequence number 1001; the local port and everything else
but the identification counter stay as they were. -/
theorem tcp_connect_spec (remote_ip remote_port : Nat) (s : Net) :
    tcp_connect remote_ip remote_port s =
      { s with
        tcp_remote_ip := remote_ip
        tcp_remote_port := remote_port
        tcp_seq_num := 1001
        tcp_ack_num := 0
        tcp_state := TCP_STATE_SYN_SENT
        ip_id := (s.ip_id + 1) % 2 ^ 16
        out := s.out ++ (slip_send (ip_datagram s.LOCAL_IP s.ip_id remote_ip IP_PROTO_TCP
          (tcp_segment
            { s with
              tcp_remote_ip := remote_ip
              tcp_remote_port := remote_port
              tcp_seq_num := 1000
              tcp_ack_num := 0 }
            TCP_SYN [] 0) 20) 40).map Event.tx_putchar } ∧
    (tcp_connect remote_ip remote_port s).tcp_local_port = s.tcp_local_port ∧
    (tcp_segment
      { s with
        tcp_remote_ip := remote_ip
        tcp_remote_port := remote_port
        tcp_seq_num := 1000
        tcp_ack_num := 0 }
      TCP_SYN [] 0).getD TCP_FLAGS 0 = TCP_SYN ∧
    get_u32 (tcp_segment
      { s with
        tcp_remote_ip := remote_ip
        tcp_remote_port := remote_port
        tcp_seq_num := 1000
        tcp_ack_num := 0 }
      TCP_SYN [] 0) TCP_SEQ_OFF = 1000 ∧
    get_u32 (tcp_segment
      { s with
        tcp_remote_ip := remote_ip
        tcp_remote_port := remote_port
        tcp_seq_num := 1000
        tcp_ack_num := 0 }
      TCP_SYN [] 0) TCP_ACK_OFF = 0 ∧
    get_u16 (tcp_segment
      { s with
        tcp_remote_ip := remote_ip
        tcp_remote_port := remote_port
        tcp_seq_num := 1000
        tcp_ack_num := 0 }
      TCP_SYN [] 0) TCP_DST_PORT = remote_port % 2 ^ 16 ∧
    get_u16 (tcp_segment
      { s with
        tcp_remote_ip := remote_ip
        tcp_remote_port := remote_port
        tcp_seq_num := 1000
        tcp_ack_num := 0 }
      TCP_SYN [] 0) TCP_SRC_PORT = s.tcp_local_port % 2 ^ 16 := by
  obtain ⟨f1, _, f3, f4, f5, f6, _⟩ := tcp_segment_fields
    { s with
      tcp_remote_ip := remote_ip
      tcp_remote_port := remote_port
      tcp_seq_num := 1000
      tcp_ack_num := 0 }
    TCP_SYN [] 0
  have e : tcp_connect remote_ip remote_port s = _ :=
    tcp_send_flags_small TCP_SYN [] 0 1
      { s with
        tcp_remote_ip := remote_ip
        tcp_remote_port := remote_port
        tcp_seq_num := 1000
        tcp_ack_num := 0
        tcp_state := TCP_STATE_SYN_SENT } (by decide) (by decide)
  refine ⟨?_, ?_, f1, f5, f6, f4, f3⟩
  · rw [e, tcp_segment_congr
      { s with
        tcp_remote_ip := remote_ip
        tcp_remote_port := remote_port
        tcp_seq_num := 1000
        tcp_ack_num := 0 } _ _ _ _ rfl rfl rfl rfl rfl rfl]
    rfl
  · rw [e]

/-! ## The states the slot can be in -/

theorem tcp_send_flags_state (flags : Nat) (data : List Nat) (n : Nat) (s : Net) :
    (tcp_send_flags flags data n s).tcp_state = s.tcp_state := by
  rw [tcp_send_flags_frame]

theorem tcp_process_queue_state (accept : Nat → Nat → Nat) (now : Nat) (s : Net) :
    (tcp_process_queue accept now s).tcp_state = s.tcp_state ∨
    (tcp_process_queue accept now s).tcp_state = TCP_STATE_SYN_RECEIVED := by
  unfold tcp_process_queue
  split
  · exact Or.inl rfl
  · have hs := (conn_queue_pop_loop_out now CONN_QUEUE_SIZE 0 s).2
    split
    · rename_i s1 heq
      left
      have := congrArg (fun r : Option (Nat × Nat × Nat) × Net => r.2.tcp_state) heq
      simp only [conn_queue_pop] at this
      rw [← this]; exact hs
    · rename_i ip port seq s1 heq
      have h1 : s1.tcp_state = s.tcp_state := by
        have := congrArg (fun r : Option (Nat × Nat × Nat) × Net => r.2.tcp_state) heq
        simp only [conn_queue_pop] at this
        rw [← this]; exact hs
      split
      · exact Or.inr rfl
      · exact Or.inl h1

theorem tcp_back_to_listen_state (accept : Nat → Nat → Nat) (now old : Nat) (s : Net) :
    (tcp_back_to_listen accept now old s).tcp_state = TCP_STATE_LISTEN ∨
    (tcp_back_to_listen accept now old s).tcp_state = TCP_STATE_SYN_RECEIVED :=
  tcp_process_queue_state accept now _

/-- After the per-state dispatch the state is the one before or one of LISTEN,
SYN_RECEIVED, ESTABLISHED, FIN_WAIT_2. -/
theorem tcp_dispatch_state (accept : Nat → Nat → Nat) (now : Nat) (pkt : List Nat)
    (src_ip src_port seq_num ack_num flags hdr_len data_len : Nat) (s : Net) :
    (tcp_dispatch accept now pkt src_ip src_port seq_num ack_num flags hdr_len data_len
      s).tcp_state = s.tcp_state ∨
    (tcp_dispatch accept now pkt src_ip src_port seq_num ack_num flags hdr_len data_len
      s).tcp_state ∈ [TCP_STATE_LISTEN, TCP_STATE_SYN_RECEIVED, TCP_STATE_ESTABLISHED,
        TCP_STATE_FIN_WAIT_2] := by
  have hb : ∀ old t, (tcp_back_to_listen accept now old t).tcp_state ∈
      [TCP_STATE_LISTEN, TCP_STATE_SYN_RECEIVED, TCP_STATE_ESTABLISHED,
        TCP_STATE_FIN_WAIT_2] := by
    intro old t
    rcases tcp_back_to_listen_state accept now old t with h | h <;> rw [h] <;> decide
  by_cases h1 : s.tcp_state = TCP_STATE_LISTEN
  · unfold tcp_dispatch
    simp only [if_pos h1]
    split
    · split
      · right
        show TCP_STATE_SYN_RECEIVED ∈ _
        decide
      · exact Or.inl rfl
    · exact Or.inl rfl
  by_cases h2 : s.tcp_state = TCP_STATE_SYN_SENT
  · unfold tcp_dispatch
    simp only [if_neg h1, if_pos h2]
    split
    · right
      show (tcp_send_flags TCP_ACK [] 0 _).tcp_state ∈ _
      rw [tcp_send_flags_state]
      show TCP_STATE_ESTABLISHED ∈ _
      decide
    · exact Or.inl rfl
  by_cases h3 : s.tcp_state = TCP_STATE_SYN_RECEIVED
  · unfold tcp_dispatch
    simp only [if_neg h1, if_neg h2, if_pos h3]
    split
    · right
      show TCP_STATE_ESTABLISHED ∈ _
      decide
    · exact Or.inl rfl
  by_cases h4 : s.tcp_state = TCP_STATE_ESTABLISHED
  · rw [tcp_dispatch_established _ _ _ _ _ _ _ _ _ _ _ h4]
    split
    · exact Or.inr (hb _ _)
    · left
      rw [(established_data_fields _ _ _ _ _).1, (established_ack_fields _ _ _).1]
  by_cases h5 : s.tcp_state = TCP_STATE_FIN_WAIT_1
  · unfold tcp_dispatch
    simp only [if_neg h1, if_neg h2, if_neg h3, if_neg h4, if_pos h5]
    split
    · exact Or.inr (hb _ _)
    · split
      · right
        show TCP_STATE_FIN_WAIT_2 ∈ _
        decide
      · exact Or.inl rfl
  by_cases h6 : s.tcp_state = TCP_STATE_FIN_WAIT_2
  · unfold tcp_dispatch
    simp only [if_neg h1, if_neg h2, if_neg h3, if_neg h4, if_neg h5, if_pos h6]
    split
    · exact Or.inr (hb _ _)
    · exact Or.inl rfl
  · unfold tcp_dispatch
    simp only [if_neg h1, if_neg h2, if_neg h3, if_neg h4, if_neg h5, if_neg h6]
    exact Or.inl trivial

theorem tcp_input_state (accept : Nat → Nat → Nat) (now : Nat) (pkt : List Nat)
    (src_ip src_port seq_num ack_num flags hdr_len data_len : Nat) (s : Net) :
    (tcp_input accept now pkt src_ip src_port seq_num ack_num flags hdr_len data_len
      s).tcp_state = s.tcp_state ∨
    (tcp_input accept now pkt src_ip src_port seq_num ack_num flags hdr_len data_len
      s).tcp_state ∈ [TCP_STATE_LISTEN, TCP_STATE_SYN_RECEIVED, TCP_STATE_ESTABLISHED,
        TCP_STATE_FIN_WAIT_2] := by
  unfold tcp_input
  split
  · left
    show (conn_queue_add _ _ _ _ s).tcp_state = _
    exact conn_queue_add_tcp_state _ _ _ _ s
  · split
    · split
      · right
        rcases tcp_back_to_listen_state accept now s.tcp_state s with h | h <;> rw [h] <;>
          decide
      · exact Or.inl rfl
    · exact tcp_dispatch_state _ _ _ _ _ _ _ _ _ _ s

theorem tcp_receive_state (accept : Nat → Nat → Nat) (now : Nat) (pkt : List Nat)
    (len src_ip : Nat) (s : Net) :
    (tcp_receive accept now pkt len src_ip s).tcp_state = s.tcp_state ∨
    (tcp_receive accept now pkt len src_ip s).tcp_state ∈
      [TCP_STATE_LISTEN, TCP_STATE_SYN_RECEIVED, TCP_STATE_ESTABLISHED,
        TCP_STATE_FIN_WAIT_2] := by
  unfold tcp_receive
  split
  · exact Or.inl rfl
  · simp only []
    split
    · exact Or.inl rfl
    · split
      · exact Or.inl rfl
      · exact tcp_input_state _ _ _ _ _ _ _ _ _ _ s

/-- Every action leaves the state as it is or puts the slot into one of the states
LISTEN, SYN_SENT, SYN_RECEIVED, ESTABLISHED, FIN_WAIT_1, FIN_WAIT_2. -/
theorem apply_action_state (accept : Nat → Nat → Nat) (a : Action) (s : Net) :
    (apply_action accept a s).tcp_state = s.tcp_state ∨
    (apply_action accept a s).tcp_state ∈ used_states := by
  cases a with
  | listen port => right; show TCP_STATE_LISTEN ∈ _; decide
  | connect ip port =>
    right
    show (tcp_send_flags TCP_SYN [] 0 _).tcp_state ∈ _
    rw [tcp_send_flags_state]
    show TCP_STATE_SYN_SENT ∈ _
    decide
  | send now data len =>
    left
    show (tcp_send now data len s).tcp_state = _
    unfold tcp_send
    split
    · rfl
    · rw [tcp_send_flags_state]
      split <;> rfl
  | close =>
    show (tcp_close s).tcp_state = _ ∨ (tcp_close s).tcp_state ∈ _
    unfold tcp_close
    split
    · right
      show (tcp_send_flags (TCP_FIN ||| TCP_ACK) [] 0 _).tcp_state ∈ _
      rw [tcp_send_flags_state]
      show TCP_STATE_FIN_WAIT_1 ∈ _
      decide
    · exact Or.inl rfl
  | tick now =>
    left
    show (tcp_check_retransmit now s).tcp_state = _
    unfold tcp_check_retransmit
    split
    · rfl
    · split
      · simp only [Net.emit]
        split
        · rfl
        · simp only [tcp_send_flags_state]
      · rfl
  | segment i =>
    rcases tcp_receive_state accept i.now i.pkt i.len i.src_ip s with h | h
    · exact Or.inl h
    · right
      simp only [List.mem_cons, List.mem_singleton, List.not_mem_nil, or_false] at h
      rcases h with h | h | h | h <;>
        (show (tcp_receive accept i.now i.pkt i.len i.src_ip s).tcp_state ∈ _
         rw [h]
         decide)

theorem run_actions_state (accept : Nat → Nat → Nat) :
    ∀ (acts : List Action) (s : Net), s.tcp_state ∈ used_states →
      (run_actions accept acts s).tcp_state ∈ used_states := by
  intro acts
  induction acts with
  | nil => intro s h; exact h
  | cons a rest ih =>
    intro s h
    apply ih
    rcases apply_action_state accept a s with h1 | h1
    · rw [h1]; exact h
    · exact h1

/-- C25: starting from the initial globals (state CLOSED), after any sequence of
application calls (listen, connect, send, close), retransmit checks and inbound segments,
whatever the application answers to `app_tcp_accept`, the state of the slot is one of
CLOSED, LISTEN, SYN_SENT, SYN_RECEIVED, ESTABLISHED, FIN_WAIT_1, FIN_WAIT_2: one of the
nine states of `network.h`, and never CLOSING or TIME_WAIT. -/
theorem tcp_state_invariant (accept : Nat → Nat → Nat) (local_ip : Nat)
    (acts : List Action) :
    (run_actions accept acts (Net.init local_ip)).tcp_state ∈ used_states ∧
    (run_actions accept acts (Net.init local_ip)).tcp_state ≤ TCP_STATE_TIME_WAIT ∧
    (run_actions accept acts (Net.init local_ip)).tcp_state ≠ TCP_STATE_CLOSING ∧
    (run_actions accept acts (Net.init local_ip)).tcp_state ≠ TCP_STATE_TIME_WAIT := by
  have h := run_actions_state accept acts (Net.init local_ip) (by
    show TCP_STATE_CLOSED ∈ used_states
    decide)
  generalize (run_actions accept acts (Net.init local_ip)).tcp_state = st at h
  simp only [used_states, List.mem_cons, List.mem_singleton, List.not_mem_nil, or_false] at h
  rcases h with h | h | h | h | h | h | h <;> subst h <;> decide

/-! ## The retransmit cell under inbound segments -/

theorem tcp_send_flags_cell (flags : Nat) (data : List Nat) (n : Nat) (s : Net) :
    retx_cell (tcp_send_flags flags data n s) = retx_cell s ∧
    (tcp_send_flags flags data n s).tcp_last_ack = s.tcp_last_ack := by
  rw [tcp_send_flags_frame]
  exact ⟨rfl, rfl⟩

/-- The loop of `conn_queue_pop` changes the backlog table and its count only. -/
theorem conn_queue_pop_loop_globals (now : Nat) :
    ∀ fuel i s, (conn_queue_pop_loop now fuel i s).2 =
      { s with
        conn_queue := (conn_queue_pop_loop now fuel i s).2.conn_queue
        conn_queue_count := (conn_queue_pop_loop now fuel i s).2.conn_queue_count } := by
  intro fuel
  induction fuel with
  | zero => intro i s; rfl
  | succ fuel ih =>
    intro i s
    simp only [conn_queue_pop_loop]
    split
    · split
      · rw [ih]
      · rfl
    · exact ih _ _

theorem tcp_process_queue_cell (accept : Nat → Nat → Nat) (now : Nat) (s : Net) :
    retx_cell (tcp_process_queue accept now s) = retx_cell s ∧
    (tcp_process_queue accept now s).tcp_last_ack = s.tcp_last_ack := by
  have hg := conn_queue_pop_loop_globals now CONN_QUEUE_SIZE 0 s
  unfold tcp_process_queue
  split
  · exact ⟨rfl, rfl⟩
  · split
    · rename_i s1 heq
      have e : s1 = (conn_queue_pop_loop now CONN_QUEUE_SIZE 0 s).2 := by
        have := congrArg (fun r : Option (Nat × Nat × Nat) × Net => r.2) heq
        exact this.symm
      rw [e, hg]
      exact ⟨rfl, rfl⟩
    · rename_i ip port seq s1 heq
      have e : s1 = (conn_queue_pop_loop now CONN_QUEUE_SIZE 0 s).2 := by
        have := congrArg (fun r : Option (Nat × Nat × Nat) × Net => r.2) heq
        exact this.symm
      have h1 : retx_cell s1 = retx_cell s ∧ s1.tcp_last_ack = s.tcp_last_ack := by
        rw [e, hg]
        exact ⟨rfl, rfl⟩
      split
      · simp only [Net.emit]
        constructor
        · show retx_cell (tcp_send_flags (TCP_SYN ||| TCP_ACK) [] 0 _) = _
          rw [(tcp_send_flags_cell _ _ _ _).1]
          exact h1.1
        · show (tcp_send_flags (TCP_SYN ||| TCP_ACK) [] 0 _).tcp_last_ack = _
          rw [(tcp_send_flags_cell _ _ _ _).2]
          exact h1.2
      · exact h1

theorem tcp_back_to_listen_cell (accept : Nat → Nat → Nat) (now old : Nat) (s : Net) :
    retx_cell (tcp_back_to_listen accept now old s) = retx_cell s ∧
    (tcp_back_to_listen accept now old s).tcp_last_ack = s.tcp_last_ack := by
  unfold tcp_back_to_listen
  simp only [Net.emit]
  rw [(tcp_process_queue_cell _ _ _).1, (tcp_process_queue_cell _ _ _).2]
  exact ⟨rfl, rfl⟩

theorem established_data_cell (pkt : List Nat) (seq_num hdr_len data_len : Nat) (s : Net) :
    retx_cell (established_data pkt seq_num hdr_len data_len s) = retx_cell s ∧
    (established_data pkt seq_num hdr_len data_len s).tcp_last_ack = s.tcp_last_ack := by
  by_cases h : 0 < data_len
  · rw [established_data_pos _ _ _ _ _ h]
    exact ⟨rfl, rfl⟩
  · unfold established_data
    rw [if_neg h]
    exact ⟨rfl, rfl⟩

/-- C27: `tcp_check_retransmit` at tick `now`. When the slot is not ESTABLISHED, or the
cell is empty, or the elapsed time (now − send time) mod 2^32 is below `RETX_TIMEOUT`,
it changes nothing. When the slot is ESTABLISHED, the cell holds between 1 and 64 bytes,
the elapsed time is at least `RETX_TIMEOUT` and the incremented attempt counter is at
most `RETX_MAX_ATTEMPTS`: after the console line exactly one datagram is emitted, whose
segment has the flags PSH|ACK, the cell's recorded sequence number and exactly the
cell's bytes as payload; the send time becomes `now`, the attempt counter is the
incremented one and the send sequence number is recorded sequence + cell length
(mod 2^32). The elapsed time is right across a wrap of the tick counter: d ticks after
a send time t (both below 2^32) the reading is (t + d) mod 2^32 and the computed
elapsed time is d. -/
theorem tcp_check_retransmit_step (now : Nat) (s : Net) :
    ((s.tcp_state ≠ TCP_STATE_ESTABLISHED ∨ s.retx_len = 0 ∨
        (now % 2 ^ 32 + 2 ^ 32 - s.retx_time % 2 ^ 32) % 2 ^ 32 < RETX_TIMEOUT) →
      tcp_check_retransmit now s = s) ∧
    (s.tcp_state = TCP_STATE_ESTABLISHED → s.retx_len ≠ 0 → s.retx_len ≤ RETX_BUF_SIZE →
      s.retx_len ≤ s.retx_buf.length →
      RETX_TIMEOUT ≤ (now % 2 ^ 32 + 2 ^ 32 - s.retx_time % 2 ^ 32) % 2 ^ 32 →
      (s.retx_attempts + 1) % 256 ≤ RETX_MAX_ATTEMPTS →
      tcp_check_retransmit now s =
        { s with
          retx_attempts := (s.retx_attempts + 1) % 256
          retx_time := now
          tcp_seq_num := (s.retx_seq + s.retx_len) % 2 ^ 32
          ip_id := (s.ip_id + 1) % 2 ^ 16
          out := s.out ++ [Event.printf_retransmit ((s.retx_attempts + 1) % 256)] ++
            (slip_send (ip_datagram s.LOCAL_IP s.ip_id s.tcp_remote_ip IP_PROTO_TCP
              (tcp_segment { s with tcp_seq_num := s.retx_seq } (TCP_PSH ||| TCP_ACK)
                s.retx_buf s.retx_len) (20 + s.retx_len))
              (40 + s.retx_len)).map Event.tx_putchar } ∧
      (tcp_segment { s with tcp_seq_num := s.retx_seq } (TCP_PSH ||| TCP_ACK)
        s.retx_buf s.retx_len).getD TCP_FLAGS 0 = TCP_PSH ||| TCP_ACK ∧
      get_u32 (tcp_segment { s with tcp_seq_num := s.retx_seq } (TCP_PSH ||| TCP_ACK)
        s.retx_buf s.retx_len) TCP_SEQ_OFF = s.retx_seq % 2 ^ 32 ∧
      ((tcp_segment { s with tcp_seq_num := s.retx_seq } (TCP_PSH ||| TCP_ACK)
        s.retx_buf s.retx_len).drop TCP_HEADER_LEN).take s.retx_len
        = s.retx_buf.take s.retx_len ∧
      ((ip_datagram s.LOCAL_IP s.ip_id s.tcp_remote_ip IP_PROTO_TCP
          (tcp_segment { s with tcp_seq_num := s.retx_seq } (TCP_PSH ||| TCP_ACK)
            s.retx_buf s.retx_len) (20 + s.retx_len)).drop IP_HEADER_LEN).take
            (20 + s.retx_len)
        = (tcp_segment { s with tcp_seq_num := s.retx_seq } (TCP_PSH ||| TCP_ACK)
            s.retx_buf s.retx_len).take (20 + s.retx_len)) ∧
    (∀ d, s.retx_time < 2 ^ 32 → d < 2 ^ 32 →
      (((s.retx_time + d) % 2 ^ 32) % 2 ^ 32 + 2 ^ 32 - s.retx_time % 2 ^ 32) % 2 ^ 32 = d) := by
  refine ⟨?_, ?_, ?_⟩
  · rintro (h | h | h)
    · unfold tcp_check_retransmit
      rw [if_pos (Or.inl h)]
    · exact tcp_check_retransmit_idle now s (Or.inl h)
    · exact tcp_check_retransmit_idle now s (Or.inr h)
  · intro hst hlen0 hlen hbuf ht ha
    simp only [RETX_BUF_SIZE] at hlen
    obtain ⟨f1, _, _, _, f5, _, f7⟩ := tcp_segment_fields { s with tcp_seq_num := s.retx_seq }
      (TCP_PSH ||| TCP_ACK) s.retx_buf s.retx_len
    have hl : 20 + s.retx_len ≤ (tcp_segment { s with tcp_seq_num := s.retx_seq }
        (TCP_PSH ||| TCP_ACK) s.retx_buf s.retx_len).length := by
      obtain ⟨c1, c2, tail, e⟩ := tcp_segment_bytes { s with tcp_seq_num := s.retx_seq }
        (TCP_PSH ||| TCP_ACK) s.retx_buf s.retx_len
      rw [e]
      simp only [List.length_append, List.length_cons, List.length_nil, List.length_map,
        List.length_range]
      omega
    refine ⟨?_, f1, f5, ?_, ?_⟩
    · have e2 : ¬ ((s.retx_attempts + 1) % 256 > RETX_MAX_ATTEMPTS) := by omega
      unfold tcp_check_retransmit
      rw [if_neg (by rintro (h | h); exact h hst; exact hlen0 h), if_pos ht]
      simp only [e2, if_false, Net.emit]
      rw [tcp_send_flags_small (TCP_PSH ||| TCP_ACK) _ _ 0 _ hlen (by decide)]
      rw [tcp_segment_congr { s with tcp_seq_num := s.retx_seq } _ _ _ _ rfl rfl rfl rfl rfl
        rfl]
      rfl
    · rw [f7, range_map_getD _ _ hbuf]
    · rw [ip_datagram_payload, range_map_getD _ _ hl]
  · intro d h1 h2
    simp only [Nat.reducePow] at h1 h2 ⊢
    omega

/-- C27 witness: five bytes sent at tick 7 after the handshake, checked at tick 9: one
retry, the send time becomes 9 and the attempt counter 1. -/
theorem tcp_check_retransmit_step_witness :
    (tcp_check_retransmit 9 (tcp_send 7 [72, 69, 76, 76, 79] 5 sample_established)).retx_time
      = 9 ∧
    (tcp_check_retransmit 9
      (tcp_send 7 [72, 69, 76, 76, 79] 5 sample_established)).retx_attempts = 1 ∧
    (tcp_check_retransmit 9
      (tcp_send 7 [72, 69, 76, 76, 79] 5 sample_established)).tcp_seq_num = 1006 ∧
    tcp_check_retransmit 8 (tcp_send 7 [72, 69, 76, 76, 79] 5 sample_established)
      = tcp_send 7 [72, 69, 76, 76, 79] 5 sample_established := by
  have h := tcp_check_retransmit_step 9 (tcp_send 7 [72, 69, 76, 76, 79] 5 sample_established)
  have h8 := (tcp_check_retransmit_step 8
    (tcp_send 7 [72, 69, 76, 76, 79] 5 sample_established)).1 (Or.inr (Or.inr (by decide)))
  have e := (h.2.1 (by decide) (by decide) (by decide) (by decide) (by decide) (by decide)).1
  exact ⟨by rw [e], by rw [e]; decide, by rw [e]; decide, h8⟩

/-! ## FIN_WAIT_1 and FIN_WAIT_2 -/

/-- The FIN_WAIT_1 case of the dispatch. -/
theorem tcp_dispatch_fin_wait_1 (accept : Nat → Nat → Nat) (now : Nat) (pkt : List Nat)
    (src_ip src_port seq_num ack_num flags hdr_len data_len : Nat) (s : Net)
    (hst : s.tcp_state = TCP_STATE_FIN_WAIT_1) :
    tcp_dispatch accept now pkt src_ip src_port seq_num ack_num flags hdr_len data_len s =
      if flags &&& TCP_FIN ≠ 0 then
        tcp_back_to_listen accept now TCP_STATE_FIN_WAIT_1
          (tcp_send_flags TCP_ACK [] 0
            { (if flags &&& TCP_ACK ≠ 0 then
                { s with tcp_last_ack := ack_num, tcp_state := TCP_STATE_FIN_WAIT_2 }
              else s) with tcp_ack_num := (seq_num + 1) % 2 ^ 32 })
      else if flags &&& TCP_ACK ≠ 0 then
        { s with tcp_last_ack := ack_num, tcp_state := TCP_STATE_FIN_WAIT_2 }
      else s := by
  have h1 : ¬ s.tcp_state = TCP_STATE_LISTEN := by rw [hst]; decide
  have h2 : ¬ s.tcp_state = TCP_STATE_SYN_SENT := by rw [hst]; decide
  have h3 : ¬ s.tcp_state = TCP_STATE_SYN_RECEIVED := by rw [hst]; decide
  have h4 : ¬ s.tcp_state = TCP_STATE_ESTABLISHED := by rw [hst]; decide
  unfold tcp_dispatch
  simp only [if_neg h1, if_neg h2, if_neg h3, if_neg h4, if_pos hst]
  rw [hst]

/-- The FIN_WAIT_2 case of the dispatch. -/
theorem tcp_dispatch_fin_wait_2 (accept : Nat → Nat → Nat) (now : Nat) (pkt : List Nat)
    (src_ip src_port seq_num ack_num flags hdr_len data_len : Nat) (s : Net)
    (hst : s.tcp_state = TCP_STATE_FIN_WAIT_2) :
    tcp_dispatch accept now pkt src_ip src_port seq_num ack_num flags hdr_len data_len s =
      if flags &&& TCP_FIN ≠ 0 then
        tcp_back_to_listen accept now TCP_STATE_FIN_WAIT_2
          (tcp_send_flags TCP_ACK [] 0 { s with tcp_ack_num := (seq_num + 1) % 2 ^ 32 })
      else s := by
  have h1 : ¬ s.tcp_state = TCP_STATE_LISTEN := by rw [hst]; decide
  have h2 : ¬ s.tcp_state = TCP_STATE_SYN_SENT := by rw [hst]; decide
  have h3 : ¬ s.tcp_state = TCP_STATE_SYN_RECEIVED := by rw [hst]; decide
  have h4 : ¬ s.tcp_state = TCP_STATE_ESTABLISHED := by rw [hst]; decide
  have h5 : ¬ s.tcp_state = TCP_STATE_FIN_WAIT_1 := by rw [hst]; decide
  unfold tcp_dispatch
  simp only [if_neg h1, if_neg h2, if_neg h3, if_neg h4, if_neg h5, if_pos hst]
  rw [hst]

/-- An accepted segment without RST that the backlog rule does not take runs the
per-state dispatch. -/
theorem tcp_receive_dispatch (accept : Nat → Nat → Nat) (now : Nat) (pkt : List Nat)
    (len src_ip : Nat) (s : Net) (hb : ∀ b ∈ pkt, b < 256)
    (ha : tcp_accepts s.tcp_local_port pkt len)
    (hrst : pkt.getD TCP_FLAGS 0 &&& TCP_RST = 0)
    (hnq : ¬(pkt.getD TCP_FLAGS 0 &&& TCP_SYN ≠ 0 ∧ pkt.getD TCP_FLAGS 0 &&& TCP_ACK = 0)) :
    tcp_receive accept now pkt len src_ip s =
      tcp_dispatch accept now pkt src_ip (get_u16 pkt TCP_SRC_PORT) (get_u32 pkt TCP_SEQ_OFF)
        (get_u32 pkt TCP_ACK_OFF) (pkt.getD TCP_FLAGS 0) (pkt.getD 12 0 / 16 * 4)
        (len - pkt.getD 12 0 / 16 * 4) s := by
  rw [tcp_receive_of_accepts accept now pkt len src_ip s hb ha]
  unfold tcp_input
  rw [if_neg (by rintro ⟨h1, h2, _⟩; exact hnq ⟨h1, h2⟩), if_neg (not_not.mpr hrst)]

/-- The step "ack the FIN, give the slot back" of the FIN_WAIT cases. -/
theorem fin_wait_close (accept : Nat → Nat → Nat) (now old ack : Nat) (u : Net) :
    tcp_back_to_listen accept now old
      (tcp_send_flags TCP_ACK [] 0 { u with tcp_ack_num := ack }) =
      tcp_process_queue accept now
        { u with
          tcp_ack_num := ack
          tcp_seq_num := u.tcp_seq_num % 2 ^ 32
          ip_id := (u.ip_id + 1) % 2 ^ 16
          tcp_state := TCP_STATE_LISTEN
          out := u.out ++ (slip_send (ip_datagram u.LOCAL_IP u.ip_id u.tcp_remote_ip
              IP_PROTO_TCP (tcp_segment { u with tcp_ack_num := ack } TCP_ACK [] 0) 20)
              40).map Event.tx_putchar ++
            [Event.app_tcp_state_changed old TCP_STATE_LISTEN u.tcp_remote_ip
              u.tcp_remote_port] } := by
  rw [tcp_send_flags_small TCP_ACK [] 0 0 _ (by decide) (by decide)]
  rfl

/-- C28 (amended): for an accepted segment without RST that is not a SYN without ACK,
with sequence number q and acknowledgement number a. In FIN_WAIT_1 with ACK and without
FIN: the slot moves to FIN_WAIT_2, last-ack becomes a, nothing is emitted. In FIN_WAIT_1
or FIN_WAIT_2 with FIN: the receive sequence number becomes q + 1 (mod 2^32, payload
bytes are not counted), one datagram with a pure ACK carrying that acknowledgement number
is emitted, the slot moves to LISTEN, `app_tcp_state_changed` is called with the state at
arrival and LISTEN, and `tcp_process_queue` runs (in FIN_WAIT_1 an ACK flag sets last-ack
to a first). In FIN_WAIT_1 without ACK and FIN, and in FIN_WAIT_2 without FIN, nothing
changes. -/
theorem tcp_receive_fin_wait (accept : Nat → Nat → Nat) (now : Nat) (pkt : List Nat)
    (len src_ip : Nat) (s : Net) (hb : ∀ b ∈ pkt, b < 256)
    (ha : tcp_accepts s.tcp_local_port pkt len)
    (hrst : pkt.getD TCP_FLAGS 0 &&& TCP_RST = 0)
    (hnq : ¬(pkt.getD TCP_FLAGS 0 &&& TCP_SYN ≠ 0 ∧ pkt.getD TCP_FLAGS 0 &&& TCP_ACK = 0)) :
    (s.tcp_state = TCP_STATE_FIN_WAIT_1 → pkt.getD TCP_FLAGS 0 &&& TCP_ACK ≠ 0 →
      pkt.getD TCP_FLAGS 0 &&& TCP_FIN = 0 →
      tcp_receive accept now pkt len src_ip s =
        { s with tcp_last_ack := get_u32 pkt TCP_ACK_OFF, tcp_state := TCP_STATE_FIN_WAIT_2 }) ∧
    (s.tcp_state = TCP_STATE_FIN_WAIT_1 → pkt.getD TCP_FLAGS 0 &&& TCP_FIN ≠ 0 →
      tcp_receive accept now pkt len src_ip s =
        tcp_process_queue accept now
          { s with
            tcp_last_ack := if pkt.getD TCP_FLAGS 0 &&& TCP_ACK ≠ 0 then get_u32 pkt TCP_ACK_OFF
              else s.tcp_last_ack
            tcp_ack_num := (get_u32 pkt TCP_SEQ_OFF + 1) % 2 ^ 32
            tcp_seq_num := s.tcp_seq_num % 2 ^ 32
            ip_id := (s.ip_id + 1) % 2 ^ 16
            tcp_state := TCP_STATE_LISTEN
            out := s.out ++ (slip_send (ip_datagram s.LOCAL_IP s.ip_id s.tcp_remote_ip
                IP_PROTO_TCP
                (tcp_segment { s with tcp_ack_num := (get_u32 pkt TCP_SEQ_OFF + 1) % 2 ^ 32 }
                  TCP_ACK [] 0) 20) 40).map Event.tx_putchar ++
              [Event.app_tcp_state_changed TCP_STATE_FIN_WAIT_1 TCP_STATE_LISTEN
                s.tcp_remote_ip s.tcp_remote_port] }) ∧
    (s.tcp_state = TCP_STATE_FIN_WAIT_2 → pkt.getD TCP_FLAGS 0 &&& TCP_FIN ≠ 0 →
      tcp_receive accept now pkt len src_ip s =
        tcp_process_queue accept now
          { s with
            tcp_ack_num := (get_u32 pkt TCP_SEQ_OFF + 1) % 2 ^ 32
            tcp_seq_num := s.tcp_seq_num % 2 ^ 32
            ip_id := (s.ip_id + 1) % 2 ^ 16
            tcp_state := TCP_STATE_LISTEN
            out := s.out ++ (slip_send (ip_datagram s.LOCAL_IP s.ip_id s.tcp_remote_ip
                IP_PROTO_TCP
                (tcp_segment { s with tcp_ack_num := (get_u32 pkt TCP_SEQ_OFF + 1) % 2 ^ 32 }
                  TCP_ACK [] 0) 20) 40).map Event.tx_putchar ++
              [Event.app_tcp_state_changed TCP_STATE_FIN_WAIT_2 TCP_STATE_LISTEN
                s.tcp_remote_ip s.tcp_remote_port] }) ∧
    (s.tcp_state = TCP_STATE_FIN_WAIT_1 → pkt.getD TCP_FLAGS 0 &&& TCP_ACK = 0 →
      pkt.getD TCP_FLAGS 0 &&& TCP_FIN = 0 → tcp_receive accept now pkt len src_ip s = s) ∧
    (s.tcp_state = TCP_STATE_FIN_WAIT_2 → pkt.getD TCP_FLAGS 0 &&& TCP_FIN = 0 →
      tcp_receive accept now pkt len src_ip s = s) ∧
    (tcp_segment { s with tcp_ack_num := (get_u32 pkt TCP_SEQ_OFF + 1) % 2 ^ 32 }
      TCP_ACK [] 0).getD TCP_FLAGS 0 = TCP_ACK ∧
    get_u32 (tcp_segment { s with tcp_ack_num := (get_u32 pkt TCP_SEQ_OFF + 1) % 2 ^ 32 }
      TCP_ACK [] 0) TCP_ACK_OFF = (get_u32 pkt TCP_SEQ_OFF + 1) % 2 ^ 32 := by
  have e := tcp_receive_dispatch accept now pkt len src_ip s hb ha hrst hnq
  obtain ⟨f1, _, _, _, _, f6, _⟩ := tcp_segment_fields
    { s with tcp_ack_num := (get_u32 pkt TCP_SEQ_OFF + 1) % 2 ^ 32 } TCP_ACK [] 0
  refine ⟨?_, ?_, ?_, ?_, ?_, f1, f6.trans (Nat.mod_mod _ _)⟩
  · intro hst hack hfin
    rw [e, tcp_dispatch_fin_wait_1 _ _ _ _ _ _ _ _ _ _ _ hst, if_neg (not_not.mpr hfin),
      if_pos hack]
  · intro hst hfin
    rw [e, tcp_dispatch_fin_wait_1 _ _ _ _ _ _ _ _ _ _ _ hst, if_pos hfin]
    by_cases hack : pkt.getD TCP_FLAGS 0 &&& TCP_ACK ≠ 0
    · rw [if_pos hack, if_pos hack, fin_wait_close]
      rw [tcp_segment_congr { s with tcp_ack_num := (get_u32 pkt TCP_SEQ_OFF + 1) % 2 ^ 32 }
        _ _ _ _ rfl rfl rfl rfl rfl rfl]
      rfl
    · rw [if_neg hack, if_neg hack, fin_wait_close]
  · intro hst hfin
    rw [e, tcp_dispatch_fin_wait_2 _ _ _ _ _ _ _ _ _ _ _ hst, if_pos hfin, fin_wait_close]
  · intro hst hack hfin
    rw [e, tcp_dispatch_fin_wait_1 _ _ _ _ _ _ _ _ _ _ _ hst, if_neg (not_not.mpr hfin),
      if_neg (not_not.mpr hack)]
  · intro hst hfin
    rw [e, tcp_dispatch_fin_wait_2 _ _ _ _ _ _ _ _ _ _ _ hst, if_neg (not_not.mpr hfin)]

/-- C28 witness: the sample server closes (FIN_WAIT_1); the peer's ACK moves it to
FIN_WAIT_2; the peer's FIN moves it to LISTEN with receive sequence number 102. -/
theorem tcp_receive_fin_wait_witness :
    (tcp_close sample_established).tcp_state = TCP_STATE_FIN_WAIT_1 ∧
    (tcp_receive (fun _ _ => 1) 8 (sample_ack.set 11 0xEA) 20 0xC0A8010A
      (tcp_close sample_established)).tcp_state = TCP_STATE_FIN_WAIT_2 ∧
    (tcp_receive (fun _ _ => 1) 8 (sample_ack.set 11 0xEA) 20 0xC0A8010A
      (tcp_close sample_established)).out = (tcp_close sample_established).out ∧
    (tcp_receive (fun _ _ => 1) 9 sample_fin 20 0xC0A8010A
      (tcp_receive (fun _ _ => 1) 8 (sample_ack.set 11 0xEA) 20 0xC0A8010A
        (tcp_close sample_established))).tcp_state = TCP_STATE_LISTEN ∧
    (tcp_receive (fun _ _ => 1) 9 sample_fin 20 0xC0A8010A
      (tcp_receive (fun _ _ => 1) 8 (sample_ack.set 11 0xEA) 20 0xC0A8010A
        (tcp_close sample_established))).tcp_ack_num = 102 := by
  have h1 := (tcp_receive_fin_wait (fun _ _ => 1) 8 (sample_ack.set 11 0xEA) 20 0xC0A8010A
    (tcp_close sample_established) (by decide) (by decide) (by decide) (by decide)).1
    (by decide) (by decide) (by decide)
  have h2 := (tcp_receive_fin_wait (fun _ _ => 1) 9 sample_fin 20 0xC0A8010A
    (tcp_receive (fun _ _ => 1) 8 (sample_ack.set 11 0xEA) 20 0xC0A8010A
      (tcp_close sample_established)) (by decide) (by decide) (by decide) (by decide)).2.2.1
    (by decide) (by decide)
  refine ⟨by decide, by rw [h1], by rw [h1], by rw [h2]; decide, by rw [h2]; decide⟩

/-- C28 counterexample: in FIN_WAIT_1 a segment with RST and ACK and without FIN is taken
by the reset rule: the slot goes to LISTEN, not to FIN_WAIT_2, and the application is
told so. -/
theorem tcp_receive_fin_wait_fails :
    (tcp_close sample_established).tcp_state = TCP_STATE_FIN_WAIT_1 ∧
    tcp_accepts (tcp_close sample_established).tcp_local_port sample_rst 20 ∧
    sample_rst.getD TCP_FLAGS 0 &&& TCP_ACK ≠ 0 ∧
    sample_rst.getD TCP_FLAGS 0 &&& TCP_FIN = 0 ∧
    (tcp_receive (fun _ _ => 1) 8 sample_rst 20 0xC0A8010A
      (tcp_close sample_established)).tcp_state = TCP_STATE_LISTEN ∧
    (tcp_receive (fun _ _ => 1) 8 sample_rst 20 0xC0A8010A
      (tcp_close sample_established)).out
      = (tcp_close sample_established).out ++
        [Event.app_tcp_state_changed TCP_STATE_FIN_WAIT_1 TCP_STATE_LISTEN 0xC0A8010A 1234] := by
  decide

/-! ## Adding to the backlog -/

/-- A table with an invalid entry has a first one. -/
theorem first_free_entry : ∀ (l : List pending_conn), (∃ e ∈ l, e.valid = 0) →
    ∃ i, i < l.length ∧ (l.getD i default).valid = 0 ∧
      ∀ j, j < i → (l.getD j default).valid ≠ 0 := by
  intro l
  induction l with
  | nil => rintro ⟨e, he, _⟩; simp at he
  | cons x l ih =>
    rintro ⟨e, he, hv⟩
    by_cases hx : x.valid = 0
    · exact ⟨0, by simp, by simpa using hx, fun j hj => by omega⟩
    · have : ∃ e ∈ l, e.valid = 0 := by
        rcases List.mem_cons.mp he with h | h
        · subst h; exact absurd hv hx
        · exact ⟨e, h, hv⟩
      obtain ⟨i, h1, h2, h3⟩ := ih this
      refine ⟨i + 1, by simp; omega, by simpa using h2, ?_⟩
      intro j hj
      cases j with
      | zero => simpa using hx
      | succ j => simpa using h3 j (by omega)

/-- C29: the backlog table has its 16 entries. When all of them are valid,
`conn_queue_add` changes nothing: every entry and the pending count are as before. When
at least one entry is free, the free entry with the lowest index receives (ip, port,
sequence number, now, valid), every other entry stays as it was, the pending count grows
by one (an `unsigned char`), and no other global changes. -/
theorem conn_queue_add_spec (ip port seq now : Nat) (s : Net)
    (hlen : s.conn_queue.length = CONN_QUEUE_SIZE) :
    ((∀ e ∈ s.conn_queue, e.valid ≠ 0) → conn_queue_add ip port seq now s = s) ∧
    ((∃ e ∈ s.conn_queue, e.valid = 0) →
      ∃ i, i < CONN_QUEUE_SIZE ∧ (s.conn_queue.getD i default).valid = 0 ∧
        (∀ j, j < i → (s.conn_queue.getD j default).valid ≠ 0) ∧
        conn_queue_add ip port seq now s =
          { s with
            conn_queue := s.conn_queue.set i
              { remote_ip := ip, remote_port := port, their_seq := seq, timestamp := now,
                valid := 1 }
            conn_queue_count := (s.conn_queue_count + 1) % 256 } ∧
        (conn_queue_add ip port seq now s).conn_queue.getD i default
          = { remote_ip := ip, remote_port := port, their_seq := seq, timestamp := now,
              valid := 1 } ∧
        (∀ j, j ≠ i → (conn_queue_add ip port seq now s).conn_queue.getD j default
          = s.conn_queue.getD j default) ∧
        (conn_queue_add ip port seq now s).conn_queue.length = CONN_QUEUE_SIZE) := by
  constructor
  · intro h
    unfold conn_queue_add
    apply conn_queue_add_loop_full
    intro j _ hj
    rw [List.getD_eq_getElem _ _ (by omega)]
    exact h _ (List.getElem_mem _)
  · intro h
    obtain ⟨i, h1, h2, h3⟩ := first_free_entry s.conn_queue h
    have e : conn_queue_add ip port seq now s =
        { s with
          conn_queue := s.conn_queue.set i
            { remote_ip := ip, remote_port := port, their_seq := seq, timestamp := now,
              valid := 1 }
          conn_queue_count := (s.conn_queue_count + 1) % 256 } := by
      unfold conn_queue_add
      exact conn_queue_add_loop_first_free ip port seq now s CONN_QUEUE_SIZE 0 i
        (Nat.zero_le _) (by omega) (fun j _ hj => h3 j hj) h2
    refine ⟨i, by omega, h2, h3, e, ?_, ?_, ?_⟩
    · rw [e]
      exact getD_set_eq _ _ _ _ h1
    · intro j hj
      rw [e]
      exact getD_set_ne _ _ _ _ _ (fun h => hj h.symm)
    · rw [e]
      show (s.conn_queue.set i _).length = _
      rw [List.length_set, hlen]

/-- C29 witness: a table whose 16 entries are valid drops the new SYN; the empty table
of the sample server takes it into entry 0. -/
theorem conn_queue_add_spec_witness :
    conn_queue_add 0xC0A8010B 1235 7 9
        { sample_established with conn_queue := List.replicate 16 ⟨1, 2, 3, 4, 1⟩,
                                  conn_queue_count := 16 }
      = { sample_established with conn_queue := List.replicate 16 ⟨1, 2, 3, 4, 1⟩,
                                  conn_queue_count := 16 } ∧
    (conn_queue_add 0xC0A8010B 1235 7 9 sample_established).conn_queue.getD 0 default
      = ⟨0xC0A8010B, 1235, 7, 9, 1⟩ ∧
    (conn_queue_add 0xC0A8010B 1235 7 9 sample_established).conn_queue_count = 1 := by
  have h1 := (conn_queue_add_spec 0xC0A8010B 1235 7 9
    { sample_established with conn_queue := List.replicate 16 ⟨1, 2, 3, 4, 1⟩,
                              conn_queue_count := 16 } (by decide)).1 (by decide)
  obtain ⟨i, _, _, _, _, _, _, _⟩ := (conn_queue_add_spec 0xC0A8010B 1235 7 9
    sample_established (by decide)).2 (by decide)
  exact ⟨h1, by decide, by decide⟩

/-! ## The size of the retransmit cell -/

/-- The per-state dispatch leaves the bytes of the cell alone and keeps or clears its
length. -/
theorem tcp_dispatch_cell (accept : Nat → Nat → Nat) (now : Nat) (pkt : List Nat)
    (src_ip src_port seq_num ack_num flags hdr_len data_len : Nat) (s : Net) :
    (tcp_dispatch accept now pkt src_ip src_port seq_num ack_num flags hdr_len data_len
      s).retx_buf = s.retx_buf ∧
    ((tcp_dispatch accept now pkt src_ip src_port seq_num ack_num flags hdr_len data_len
      s).retx_len = s.retx_len ∨
     (tcp_dispatch accept now pkt src_ip src_port seq_num ack_num flags hdr_len data_len
      s).retx_len = 0) := by
  have hc : ∀ (r : Net), retx_cell r = retx_cell s →
      r.retx_buf = s.retx_buf ∧ (r.retx_len = s.retx_len ∨ r.retx_len = 0) := by
    intro r h
    have h1 := congrArg (fun c : List Nat × Nat × Nat × Nat × Nat => c.1) h
    have h2 := congrArg (fun c : List Nat × Nat × Nat × Nat × Nat => c.2.1) h
    exact ⟨h1, Or.inl h2⟩
  by_cases h1 : s.tcp_state = TCP_STATE_LISTEN
  · unfold tcp_dispatch
    simp only [if_pos h1]
    split
    · split
      · apply hc
        simp only [Net.emit]
        show retx_cell (tcp_send_flags (TCP_SYN ||| TCP_ACK) [] 0 _) = _
        rw [(tcp_send_flags_cell _ _ _ _).1]
        rfl
      · exact hc _ rfl
    · exact hc _ rfl
  by_cases h2 : s.tcp_state = TCP_STATE_SYN_SENT
  · unfold tcp_dispatch
    simp only [if_neg h1, if_pos h2]
    split
    · apply hc
      simp only [Net.emit]
      show retx_cell (tcp_send_flags TCP_ACK [] 0 _) = _
      rw [(tcp_send_flags_cell _ _ _ _).1]
      rfl
    · exact hc _ rfl
  by_cases h3 : s.tcp_state = TCP_STATE_SYN_RECEIVED
  · unfold tcp_dispatch
    simp only [if_neg h1, if_neg h2, if_pos h3]
    split
    · exact hc _ rfl
    · exact hc _ rfl
  by_cases h4 : s.tcp_state = TCP_STATE_ESTABLISHED
  · rw [tcp_dispatch_established _ _ _ _ _ _ _ _ _ _ _ h4]
    have hea : (established_ack flags ack_num s).retx_buf = s.retx_buf ∧
        ((established_ack flags ack_num s).retx_len = s.retx_len ∨
         (established_ack flags ack_num s).retx_len = 0) := by
      unfold established_ack
      split
      · simp only []
        split
        · exact ⟨rfl, Or.inr rfl⟩
        · exact ⟨rfl, Or.inl rfl⟩
      · exact ⟨rfl, Or.inl rfl⟩
    have hd := (established_data_cell pkt seq_num hdr_len data_len
      (established_ack flags ack_num s)).1
    have hk : ∀ (r : Net), retx_cell r = retx_cell (established_ack flags ack_num s) →
        r.retx_buf = s.retx_buf ∧ (r.retx_len = s.retx_len ∨ r.retx_len = 0) := by
      intro r h
      have g1 := congrArg (fun c : List Nat × Nat × Nat × Nat × Nat => c.1) h
      have g2 := congrArg (fun c : List Nat × Nat × Nat × Nat × Nat => c.2.1) h
      simp only [retx_cell] at g1 g2
      rw [g1, g2]
      exact hea
    split
    · apply hk
      rw [(tcp_back_to_listen_cell _ _ _ _).1, (tcp_send_flags_cell _ _ _ _).1]
      exact hd
    · exact hk _ hd
  by_cases h5 : s.tcp_state = TCP_STATE_FIN_WAIT_1
  · rw [tcp_dispatch_fin_wait_1 _ _ _ _ _ _ _ _ _ _ _ h5]
    split
    · apply hc
      rw [(tcp_back_to_listen_cell _ _ _ _).1, (tcp_send_flags_cell _ _ _ _).1]
      split <;> rfl
    · split
      · exact hc _ rfl
      · exact hc _ rfl
  by_cases h6 : s.tcp_state = TCP_STATE_FIN_WAIT_2
  · rw [tcp_dispatch_fin_wait_2 _ _ _ _ _ _ _ _ _ _ _ h6]
    split
    · apply hc
      rw [(tcp_back_to_listen_cell _ _ _ _).1, (tcp_send_flags_cell _ _ _ _).1]
      rfl
    · exact hc _ rfl
  · unfold tcp_dispatch
    simp only [if_neg h1, if_neg h2, if_neg h3, if_neg h4, if_neg h5, if_neg h6]
    exact ⟨trivial, Or.inl trivial⟩

theorem tcp_receive_cell (accept : Nat → Nat → Nat) (now : Nat) (pkt : List Nat)
    (len src_ip : Nat) (s : Net) :
    (tcp_receive accept now pkt len src_ip s).retx_buf = s.retx_buf ∧
    ((tcp_receive accept now pkt len src_ip s).retx_len = s.retx_len ∨
     (tcp_receive accept now pkt len src_ip s).retx_len = 0) := by
  unfold tcp_receive
  split
  · exact ⟨rfl, Or.inl rfl⟩
  · simp only []
    split
    · exact ⟨rfl, Or.inl rfl⟩
    · split
      · exact ⟨rfl, Or.inl rfl⟩
      · unfold tcp_input
        split
        · simp only [Net.emit]
          unfold conn_queue_add
          rw [conn_queue_add_loop_frame]
          exact ⟨rfl, Or.inl rfl⟩
        · split
          · split
            · have h := (tcp_back_to_listen_cell accept now s.tcp_state s).1
              have h1 := congrArg (fun c : List Nat × Nat × Nat × Nat × Nat => c.1) h
              have h2 := congrArg (fun c : List Nat × Nat × Nat × Nat × Nat => c.2.1) h
              exact ⟨h1, Or.inl h2⟩
            · exact ⟨rfl, Or.inl rfl⟩
          · exact tcp_dispatch_cell _ _ _ _ _ _ _ _ _ _ s

/-- Every action keeps the cell within its buffer: the buffer keeps its 64 bytes and the
length stays at most 64. -/
theorem apply_action_cell (accept : Nat → Nat → Nat) (a : Action) (s : Net)
    (hbuf : s.retx_buf.length = RETX_BUF_SIZE) (hlen : s.retx_len ≤ RETX_BUF_SIZE) :
    (apply_action accept a s).retx_buf.length = RETX_BUF_SIZE ∧
    (apply_action accept a s).retx_len ≤ RETX_BUF_SIZE := by
  cases a with
  | listen port => exact ⟨hbuf, hlen⟩
  | connect ip port =>
    have h := (tcp_send_flags_cell TCP_SYN [] 0
      { s with tcp_remote_ip := ip, tcp_remote_port := port, tcp_seq_num := 1000,
               tcp_ack_num := 0, tcp_state := TCP_STATE_SYN_SENT }).1
    have h1 := congrArg (fun c : List Nat × Nat × Nat × Nat × Nat => c.1) h
    have h2 := congrArg (fun c : List Nat × Nat × Nat × Nat × Nat => c.2.1) h
    show (tcp_send_flags TCP_SYN [] 0 _).retx_buf.length = _ ∧
      (tcp_send_flags TCP_SYN [] 0 _).retx_len ≤ _
    simp only [retx_cell] at h1 h2
    rw [h1, h2]
    exact ⟨hbuf, hlen⟩
  | send now data len =>
    show (tcp_send now data len s).retx_buf.length = _ ∧ (tcp_send now data len s).retx_len ≤ _
    unfold tcp_send
    split
    · exact ⟨hbuf, hlen⟩
    · rw [tcp_send_flags_frame]
      simp only []
      split
      · rename_i h
        refine ⟨?_, h⟩
        show (memcpy s.retx_buf 0 data (len % 256)).length = _
        unfold memcpy
        simp only [List.length_append, List.length_take, List.length_map, List.length_range,
          List.length_drop, hbuf, RETX_BUF_SIZE] at h ⊢
        omega
      · exact ⟨hbuf, hlen⟩
  | close =>
    show (tcp_close s).retx_buf.length = _ ∧ (tcp_close s).retx_len ≤ _
    unfold tcp_close
    refine ⟨?_, Nat.zero_le _⟩
    show (if s.tcp_state = TCP_STATE_ESTABLISHED then _ else s).retx_buf.length = _
    split
    · rw [tcp_send_flags_frame]
      exact hbuf
    · exact hbuf
  | tick now =>
    show (tcp_check_retransmit now s).retx_buf.length = _ ∧
      (tcp_check_retransmit now s).retx_len ≤ _
    unfold tcp_check_retransmit
    split
    · exact ⟨hbuf, hlen⟩
    · split
      · simp only [Net.emit]
        split
        · exact ⟨hbuf, Nat.zero_le _⟩
        · rw [tcp_send_flags_frame]
          exact ⟨hbuf, hlen⟩
      · exact ⟨hbuf, hlen⟩
  | segment i =>
    obtain ⟨h1, h2⟩ := tcp_receive_cell accept i.now i.pkt i.len i.src_ip s
    show (tcp_receive accept i.now i.pkt i.len i.src_ip s).retx_buf.length = _ ∧
      (tcp_receive accept i.now i.pkt i.len i.src_ip s).retx_len ≤ _
    rw [h1]
    refine ⟨hbuf, ?_⟩
    rcases h2 with h | h <;> rw [h]
    · exact hlen
    · exact Nat.zero_le _

/-- In every state the stack can reach from its initial globals the cell holds at most 64
bytes in a buffer of 64 bytes. -/
theorem run_actions_cell (accept : Nat → Nat → Nat) :
    ∀ (acts : List Action) (s : Net), s.retx_buf.length = RETX_BUF_SIZE →
      s.retx_len ≤ RETX_BUF_SIZE →
      (run_actions accept acts s).retx_buf.length = RETX_BUF_SIZE ∧
      (run_actions accept acts s).retx_len ≤ RETX_BUF_SIZE := by
  intro acts
  induction acts with
  | nil => intro s h1 h2; exact ⟨h1, h2⟩
  | cons a rest ih =>
    intro s h1 h2
    obtain ⟨g1, g2⟩ := apply_action_cell accept a s h1 h2
    exact ih _ g1 g2

/-! ## LISTEN and a segment with SYN and ACK -/

/-- C34: a segment with SYN and ACK (flag byte 0x12, no RST) that `tcp_receive` accepts in
LISTEN is not dropped: the code takes it for a connection request. The accept callback is
consulted, a SYN|ACK datagram goes out, the remote endpoint and the sequence numbers are
set, and the slot ends in SYN_RECEIVED, exactly as for the plain SYN of the handshake. -/
theorem tcp_receive_listen_synack :
    sample_listen.tcp_state = TCP_STATE_LISTEN ∧
    tcp_accepts sample_listen.tcp_local_port sample_synack 20 ∧
    sample_synack.getD TCP_FLAGS 0 = TCP_SYN ||| TCP_ACK ∧
    (sample_listen.tcp_remote_ip, sample_listen.tcp_remote_port, sample_listen.tcp_seq_num,
      sample_listen.tcp_ack_num) = (0, 0, 0, 0) ∧
    accept_events (tcp_receive (fun _ _ => 1) 5 sample_synack 20 0xC0A8010A sample_listen).out
      = [(0xC0A8010A, 1234)] ∧
    (tcp_receive (fun _ _ => 1) 5 sample_synack 20 0xC0A8010A sample_listen).tcp_state
      = TCP_STATE_SYN_RECEIVED ∧
    ((tcp_receive (fun _ _ => 1) 5 sample_synack 20 0xC0A8010A sample_listen).tcp_remote_ip,
      (tcp_receive (fun _ _ => 1) 5 sample_synack 20 0xC0A8010A sample_listen).tcp_remote_port,
      (tcp_receive (fun _ _ => 1) 5 sample_synack 20 0xC0A8010A sample_listen).tcp_seq_num,
      (tcp_receive (fun _ _ => 1) 5 sample_synack 20 0xC0A8010A sample_listen).tcp_ack_num)
      = (0xC0A8010A, 1234, 1001, 101) ∧
    wire_bytes (tcp_receive (fun _ _ => 1) 5 sample_synack 20 0xC0A8010A sample_listen).out
      = [192, 69, 0, 0, 40, 0, 1, 0, 0, 64, 6, 247, 114, 219, 220, 168, 1, 2, 219, 220, 168,
         1, 10, 0, 80, 4, 210, 0, 0, 3, 232, 0, 0, 0, 101, 80, 18, 8, 0, 27, 7, 0, 0, 192] ∧
    tcp_receive (fun _ _ => 1) 5 sample_synack 20 0xC0A8010A sample_listen
      = tcp_receive (fun _ _ => 1) 5 sample_syn 20 0xC0A8010A sample_listen := by
  decide

/-! ## The payload length `ip_receive` hands upward -/

/-- C35: a datagram that passes every test of `ip_receive` and whose total-length field (0)
is smaller than its header length (20): the handler is given the length
`(0 - 20) mod 2^16 = 65516`, far more than the 28 bytes that follow the header in the 48
bytes received. In ESTABLISHED the TCP handler acknowledges 65496 payload bytes and calls
`app_tcp_data_received` with the length 65496. -/
theorem ip_receive_short_total_length :
    ip_accepts sample_established.LOCAL_IP sample_short_total 48 ∧
    sample_short_total.length = 48 ∧
    get_u16 sample_short_total IP_TOTAL_LEN = 0 ∧
    ip_receive (fun _ _ => 1) 6 sample_short_total 48 sample_established
      = (sample_short_total,
          tcp_receive (fun _ _ => 1) 6 (sample_short_total.drop 20) 65516 0xC0A8010A
            sample_established) ∧
    48 - 20 < 65516 ∧
    sample_established.tcp_ack_num = 101 ∧
    (ip_receive (fun _ _ => 1) 6 sample_short_total 48 sample_established).2.tcp_ack_num
      = 65597 ∧
    Event.app_tcp_data_received [0x47, 0x45, 0x54, 0x20, 0x2F, 0x0D, 0x0A, 0x0A] 65496 ∈
      (ip_receive (fun _ _ => 1) 6 sample_short_total 48 sample_established).2.out := by
  decide

/-! ## Retransmission and the send sequence number -/

/-- C38: after the handshake the application sends 5 bytes and then 65 bytes (tick 7). The
second send is too long for the retransmit cell, which keeps the first one (sequence
number 1001, length 5), while the send sequence number is 1071. The retransmit check at
tick 9 retransmits the 5 bytes and leaves the send sequence number at 1006: the 65 bytes
already sent are forgotten. -/
theorem tcp_check_retransmit_rewinds :
    (tcp_send 7 (List.replicate 65 0x41) 65
      (tcp_send 7 [72, 69, 76, 76, 79] 5 sample_established)).tcp_state
      = TCP_STATE_ESTABLISHED ∧
    (tcp_send 7 (List.replicate 65 0x41) 65
      (tcp_send 7 [72, 69, 76, 76, 79] 5 sample_established)).retx_seq = 1001 ∧
    (tcp_send 7 (List.replicate 65 0x41) 65
      (tcp_send 7 [72, 69, 76, 76, 79] 5 sample_established)).retx_len = 5 ∧
    (tcp_send 7 (List.replicate 65 0x41) 65
      (tcp_send 7 [72, 69, 76, 76, 79] 5 sample_established)).tcp_seq_num = 1071 ∧
    Event.printf_retransmit 1 ∈
      (tcp_check_retransmit 9 (tcp_send 7 (List.replicate 65 0x41) 65
        (tcp_send 7 [72, 69, 76, 76, 79] 5 sample_established))).out ∧
    (tcp_check_retransmit 9 (tcp_send 7 (List.replicate 65 0x41) 65
      (tcp_send 7 [72, 69, 76, 76, 79] 5 sample_established))).tcp_seq_num = 1006 := by
  decide

/-! ## ICMP messages that are dropped -/

/-- C32: an ICMP message (bytes, held by the buffer) that is shorter than 8 bytes, or whose
checksum recomputed over the whole message with the field zeroed differs from the stored
field, or whose type is not 8, is dropped by `icmp_receive`: the globals are unchanged (no
datagram is emitted, the identification counter keeps its value) and the message buffer is
returned as it was (the zeroed checksum field is restored). -/
theorem icmp_receive_drop (pkt : List Nat) (len src_ip : Nat) (s : Net)
    (hb : ∀ b ∈ pkt, b < 256) (hl : len ≤ pkt.length)
    (h : len < ICMP_HEADER_LEN ∨
      checksum (put_u16 pkt ICMP_CHECKSUM 0) len ≠ get_u16 pkt ICMP_CHECKSUM ∨
      pkt.getD ICMP_TYPE 0 ≠ ICMP_ECHO_REQUEST) :
    icmp_receive pkt len src_ip s = (pkt, s) ∧
    (icmp_receive pkt len src_ip s).2.out = s.out ∧
    (icmp_receive pkt len src_ip s).2.ip_id = s.ip_id ∧
    (icmp_receive pkt len src_ip s).1 = pkt := by
  have key : icmp_receive pkt len src_ip s = (pkt, s) := by
    unfold icmp_receive
    by_cases h8 : len < ICMP_HEADER_LEN
    · rw [if_pos h8]
    · rw [if_neg h8]
      have h3 : ICMP_CHECKSUM + 1 < pkt.length := by
        simp only [ICMP_HEADER_LEN, ICMP_CHECKSUM] at h8 ⊢
        omega
      have hr : put_u16 (put_u16 pkt ICMP_CHECKSUM 0) ICMP_CHECKSUM (get_u16 pkt ICMP_CHECKSUM)
          = pkt := by
        rw [put_u16_put_u16, put_u16_get_u16 pkt ICMP_CHECKSUM hb h3]
      simp only [hr]
      by_cases hc : checksum (put_u16 pkt ICMP_CHECKSUM 0) len = get_u16 pkt ICMP_CHECKSUM
      · have ht : pkt.getD ICMP_TYPE 0 ≠ ICMP_ECHO_REQUEST := by
          rcases h with h | h | h
          · exact absurd h h8
          · exact absurd hc h
          · exact h
        simp only [hc, ne_eq, not_true_eq_false, if_false, if_neg ht]
      · simp only [ne_eq, hc, not_false_eq_true, if_true]
  rw [key]
  exact ⟨rfl, rfl, rfl, rfl⟩

/-- An echo reply (type 0) with a valid checksum is dropped. -/
theorem icmp_receive_drop_witness :
    checksum (put_u16 [0, 0, 0x29, 0x04, 0x12, 0x34, 0, 1, 0x61, 0x62, 0x63, 0x64]
      ICMP_CHECKSUM 0) 12
      = get_u16 [0, 0, 0x29, 0x04, 0x12, 0x34, 0, 1, 0x61, 0x62, 0x63, 0x64] ICMP_CHECKSUM ∧
    icmp_receive [0, 0, 0x29, 0x04, 0x12, 0x34, 0, 1, 0x61, 0x62, 0x63, 0x64] 12 0xC0A8010A
        (Net.init 0xC0A80102)
      = ([0, 0, 0x29, 0x04, 0x12, 0x34, 0, 1, 0x61, 0x62, 0x63, 0x64], Net.init 0xC0A80102) :=
  ⟨by decide,
    (icmp_receive_drop [0, 0, 0x29, 0x04, 0x12, 0x34, 0, 1, 0x61, 0x62, 0x63, 0x64] 12
      0xC0A8010A (Net.init 0xC0A80102) (by decide) (by decide)
      (Or.inr (Or.inr (by decide)))).1⟩

/-! ## The checksum reads only the first `len` bytes -/

/-- The word loop gives the same sum on two buffers that agree below `len`. -/
theorem sum_words_congr (a b : List Nat) (len : Nat)
    (h : ∀ i, i < len → a.getD i 0 = b.getD i 0) :
    ∀ fuel i acc, sum_words a len fuel i acc = sum_words b len fuel i acc := by
  intro fuel
  induction fuel with
  | zero => intro i acc; rfl
  | succ n ih =>
    intro i acc
    simp only [sum_words]
    by_cases hi : i + 1 < len
    · rw [if_pos hi, if_pos hi]
      have hw : word_at a i = word_at b i := by
        unfold word_at
        rw [h i (by omega), h (i + 1) hi]
      rw [hw]
      exact ih _ _
    · rw [if_neg hi, if_neg hi]

/-- The odd-byte step gives the same sum on two buffers that agree below `len`. -/
theorem add_odd_byte_congr (a b : List Nat) (len sum : Nat)
    (h : ∀ i, i < len → a.getD i 0 = b.getD i 0) :
    add_odd_byte a len sum = add_odd_byte b len sum := by
  unfold add_odd_byte
  by_cases ho : len &&& 1 ≠ 0
  · rw [if_pos ho, if_pos ho]
    have hpos : 0 < len := by
      rcases Nat.eq_zero_or_pos len with h0 | h0
      · rw [h0] at ho
        exact absurd rfl ho
      · exact h0
    rw [h (len - 1) (by omega)]
  · rw [if_neg ho, if_neg ho]

/-- The function `checksum` gives the same value on two buffers that agree below `len`. -/
theorem checksum_congr (a b : List Nat) (len : Nat)
    (h : ∀ i, i < len → a.getD i 0 = b.getD i 0) :
    checksum a len = checksum b len := by
  unfold checksum checksum_sum
  rw [sum_words_congr a b len h, add_odd_byte_congr a b len _ h]

/-- The value of `checksum` is a 16-bit number. -/
theorem checksum_lt (a : List Nat) (len : Nat) : checksum a len < 65536 := by
  unfold checksum complement16
  exact Nat.mod_lt _ (by decide)

/-- Two buffers with the same first `k` bytes agree below `k`. -/
theorem getD_append_prefix (H X Y : List Nat) (i : Nat) (hi : i < H.length) :
    (H ++ X).getD i 0 = (H ++ Y).getD i 0 := by
  rw [List.getD_append _ _ _ _ hi, List.getD_append _ _ _ _ hi]

/-- The loop of `slip_send` reads only the first `len` bytes of its buffer. -/
theorem slip_send_loop_congr (a b : List Nat) (len : Nat)
    (h : ∀ i, i < len → a.getD i 0 = b.getD i 0) :
    ∀ fuel i, slip_send_loop a len fuel i = slip_send_loop b len fuel i := by
  intro fuel
  induction fuel with
  | zero => intro i; rfl
  | succ n ih =>
    intro i
    simp only [slip_send_loop]
    by_cases hi : i < len
    · rw [if_pos hi, if_pos hi, h i hi, ih]
    · rw [if_neg hi, if_neg hi]

/-- The frame `slip_send` writes for the first `k` bytes of a buffer that holds at least
`k ≤ 255` bytes: END, the escaped bytes, END. -/
theorem slip_send_take (D : List Nat) (k : Nat) (hk : k ≤ 255) (hl : k ≤ D.length) :
    slip_send D k = SLIP_END :: (slip_escape (D.take k) ++ [SLIP_END]) := by
  have hlen : (D.take k).length = k := by
    rw [List.length_take]
    omega
  have e := slip_send_eq (D.take k) (by omega)
  rw [hlen] at e
  rw [← e]
  unfold slip_send
  rw [Nat.mod_eq_of_lt (by omega : k < 256)]
  rw [slip_send_loop_congr D (D.take k) k]
  intro i hi
  rw [List.getD_eq_getElem?_getD, List.getD_eq_getElem?_getD, List.getElem?_take_of_lt hi]

/-! ## The datagram `ip_send` builds -/

/-- The datagram `ip_send` builds, with its header checksum spelled out: the checksum of
the 20 header bytes with a zero checksum field. -/
theorem ip_datagram_eq (local_ip ip_id dst_ip protocol : Nat) (payload : List Nat)
    (n : Nat) :
    ip_datagram local_ip ip_id dst_ip protocol payload n =
      put_u16
        ([0x45, 0, (((IP_HEADER_LEN + n) % 2 ^ 16) >>> 8) % 256,
          ((IP_HEADER_LEN + n) % 2 ^ 16) % 256, (ip_id >>> 8) % 256, ip_id % 256, 0, 0, 64,
          protocol, 0, 0,
          (local_ip >>> 24) % 256, (local_ip >>> 16) % 256, (local_ip >>> 8) % 256,
          local_ip % 256,
          (dst_ip >>> 24) % 256, (dst_ip >>> 16) % 256, (dst_ip >>> 8) % 256,
          dst_ip % 256] ++
          ((List.range n).map (fun i => payload.getD i 0) ++ (List.replicate 556 0).drop n))
        IP_CHECKSUM
        (checksum
          ([0x45, 0, (((IP_HEADER_LEN + n) % 2 ^ 16) >>> 8) % 256,
            ((IP_HEADER_LEN + n) % 2 ^ 16) % 256, (ip_id >>> 8) % 256, ip_id % 256, 0, 0, 64,
            protocol, 0, 0,
            (local_ip >>> 24) % 256, (local_ip >>> 16) % 256, (local_ip >>> 8) % 256,
            local_ip % 256,
            (dst_ip >>> 24) % 256, (dst_ip >>> 16) % 256, (dst_ip >>> 8) % 256,
            dst_ip % 256] ++ List.replicate 556 0)
          IP_HEADER_LEN) := by
  obtain ⟨tail, htail⟩ : ∃ t : List Nat, List.replicate 556 0 = t := ⟨_, rfl⟩
  simp only [ip_datagram, put_u16, put_u32, IP_HEADER_LEN, IP_VER_IHL, IP_TOS, IP_TOTAL_LEN,
    IP_ID, IP_FRAG, IP_TTL, IP_PROTO, IP_CHECKSUM, IP_SRC_IP, IP_DST_IP, PKT_BUF_SIZE,
    Nat.reduceAdd, memcpy]
  rw [show (576 : Nat) = 20 + 556 from rfl, List.replicate_add]
  rw [htail, Nat.add_comm 20 n]
  simp only [List.replicate, List.cons_append, List.set_cons_zero, List.set_cons_succ,
    List.nil_append, Nat.reduceShiftRight, Nat.reduceMod, List.take_succ_cons,
    List.take_zero, List.append_assoc, List.drop_succ_cons, List.drop_zero]

/-- The header checksum of the datagram `ip_send` builds passes the test of `ip_receive`:
recomputed over the 20 header bytes with the field zeroed, it equals the stored field. -/
theorem ip_datagram_checksum (local_ip ip_id dst_ip protocol : Nat) (payload : List Nat)
    (n : Nat) :
    checksum (put_u16 (ip_datagram local_ip ip_id dst_ip protocol payload n) IP_CHECKSUM 0)
        IP_HEADER_LEN
      = get_u16 (ip_datagram local_ip ip_id dst_ip protocol payload n) IP_CHECKSUM := by
  rw [ip_datagram_eq]
  generalize hC : checksum
    ([0x45, 0, (((IP_HEADER_LEN + n) % 2 ^ 16) >>> 8) % 256,
      ((IP_HEADER_LEN + n) % 2 ^ 16) % 256, (ip_id >>> 8) % 256, ip_id % 256, 0, 0, 64,
      protocol, 0, 0,
      (local_ip >>> 24) % 256, (local_ip >>> 16) % 256, (local_ip >>> 8) % 256,
      local_ip % 256,
      (dst_ip >>> 24) % 256, (dst_ip >>> 16) % 256, (dst_ip >>> 8) % 256,
      dst_ip % 256] ++ List.replicate 556 0) IP_HEADER_LEN = C
  have hlt : C < 65536 := by
    rw [← hC]
    exact checksum_lt _ _
  rw [put_u16_put_u16]
  have h1 : checksum (put_u16
      ([0x45, 0, (((IP_HEADER_LEN + n) % 2 ^ 16) >>> 8) % 256,
        ((IP_HEADER_LEN + n) % 2 ^ 16) % 256, (ip_id >>> 8) % 256, ip_id % 256, 0, 0, 64,
        protocol, 0, 0,
        (local_ip >>> 24) % 256, (local_ip >>> 16) % 256, (local_ip >>> 8) % 256,
        local_ip % 256,
        (dst_ip >>> 24) % 256, (dst_ip >>> 16) % 256, (dst_ip >>> 8) % 256,
        dst_ip % 256] ++
        ((List.range n).map (fun i => payload.getD i 0) ++ (List.replicate 556 0).drop n))
      IP_CHECKSUM 0) IP_HEADER_LEN = C := by
    rw [← hC]
    apply checksum_congr
    intro i hi
    have e : put_u16
        ([0x45, 0, (((IP_HEADER_LEN + n) % 2 ^ 16) >>> 8) % 256,
          ((IP_HEADER_LEN + n) % 2 ^ 16) % 256, (ip_id >>> 8) % 256, ip_id % 256, 0, 0, 64,
          protocol, 0, 0,
          (local_ip >>> 24) % 256, (local_ip >>> 16) % 256, (local_ip >>> 8) % 256,
          local_ip % 256,
          (dst_ip >>> 24) % 256, (dst_ip >>> 16) % 256, (dst_ip >>> 8) % 256,
          dst_ip % 256] ++
          ((List.range n).map (fun i => payload.getD i 0) ++ (List.replicate 556 0).drop n))
        IP_CHECKSUM 0
        = [0x45, 0, (((IP_HEADER_LEN + n) % 2 ^ 16) >>> 8) % 256,
          ((IP_HEADER_LEN + n) % 2 ^ 16) % 256, (ip_id >>> 8) % 256, ip_id % 256, 0, 0, 64,
          protocol, 0, 0,
          (local_ip >>> 24) % 256, (local_ip >>> 16) % 256, (local_ip >>> 8) % 256,
          local_ip % 256,
          (dst_ip >>> 24) % 256, (dst_ip >>> 16) % 256, (dst_ip >>> 8) % 256,
          dst_ip % 256] ++
          ((List.range n).map (fun i => payload.getD i 0) ++ (List.replicate 556 0).drop n) :=
      rfl
    rw [e]
    exact getD_append_prefix _ _ _ i hi
  rw [h1]
  have h2 : get_u16 (put_u16
      ([0x45, 0, (((IP_HEADER_LEN + n) % 2 ^ 16) >>> 8) % 256,
        ((IP_HEADER_LEN + n) % 2 ^ 16) % 256, (ip_id >>> 8) % 256, ip_id % 256, 0, 0, 64,
        protocol, 0, 0,
        (local_ip >>> 24) % 256, (local_ip >>> 16) % 256, (local_ip >>> 8) % 256,
        local_ip % 256,
        (dst_ip >>> 24) % 256, (dst_ip >>> 16) % 256, (dst_ip >>> 8) % 256,
        dst_ip % 256] ++
        ((List.range n).map (fun i => payload.getD i 0) ++ (List.replicate 556 0).drop n))
      IP_CHECKSUM C) IP_CHECKSUM = C % 2 ^ 16 := u16_bytes C
  rw [h2]
  exact (Nat.mod_eq_of_lt hlt).symm

/-- The datagram `ip_send` builds fills the transmit buffer of 576 bytes, for every payload
length an `unsigned char` can hold. -/
theorem ip_datagram_length (local_ip ip_id dst_ip protocol : Nat) (payload : List Nat)
    (n : Nat) (hn : n ≤ 556) :
    (ip_datagram local_ip ip_id dst_ip protocol payload n).length = PKT_BUF_SIZE := by
  rw [ip_datagram_eq, length_put_u16]
  simp only [List.length_append, List.length_cons, List.length_nil, List.length_map,
    List.length_range, List.length_drop, List.length_replicate, PKT_BUF_SIZE]
  omega

/-- The other header fields of the datagram `ip_send` builds: type of service, the
fragmentation word and the time to live. -/
theorem ip_datagram_fixed (local_ip ip_id dst_ip protocol : Nat) (payload : List Nat)
    (n : Nat) :
    (ip_datagram local_ip ip_id dst_ip protocol payload n).getD IP_TOS 0 = 0 ∧
    get_u16 (ip_datagram local_ip ip_id dst_ip protocol payload n) IP_FRAG = 0 ∧
    (ip_datagram local_ip ip_id dst_ip protocol payload n).getD IP_TTL 0 = 64 := by
  obtain ⟨c1, c2, rest, e⟩ := ip_datagram_bytes local_ip ip_id dst_ip protocol payload n
  rw [e]
  refine ⟨rfl, ?_, rfl⟩
  show (0 <<< 8 ||| 0) % 2 ^ 16 = 0
  decide

/-- C31: the datagram `ip_send(dst_ip, protocol, payload, n)` builds and hands to
`slip_send` (payload length `n` an `unsigned char`) starts with the 20-byte header: first
byte 0x45, type of service 0, total length 20 + n, fragmentation word 0, time to live 64,
the given protocol, source the local address, destination `dst_ip`, and a header checksum
that passes the test of `ip_receive` (recomputed over the 20 header bytes with the field
zeroed, it equals the stored field). The identification field holds the counter `ip_id`,
which the call increments modulo 2^16 and which starts at 1. -/
theorem ip_send_header (dst_ip protocol : Nat) (payload : List Nat) (n : Nat) (s : Net)
    (hn : n < 256) :
    (ip_send dst_ip protocol payload n s).out
      = s.out ++ (slip_send (ip_datagram s.LOCAL_IP s.ip_id dst_ip protocol payload n)
          ((IP_HEADER_LEN + n) % 256)).map Event.tx_putchar ∧
    (ip_datagram s.LOCAL_IP s.ip_id dst_ip protocol payload n).getD IP_VER_IHL 0 = 0x45 ∧
    (ip_datagram s.LOCAL_IP s.ip_id dst_ip protocol payload n).getD IP_TOS 0 = 0 ∧
    get_u16 (ip_datagram s.LOCAL_IP s.ip_id dst_ip protocol payload n) IP_TOTAL_LEN
      = 20 + n ∧
    get_u16 (ip_datagram s.LOCAL_IP s.ip_id dst_ip protocol payload n) IP_FRAG = 0 ∧
    (ip_datagram s.LOCAL_IP s.ip_id dst_ip protocol payload n).getD IP_TTL 0 = 64 ∧
    (ip_datagram s.LOCAL_IP s.ip_id dst_ip protocol payload n).getD IP_PROTO 0 = protocol ∧
    get_u32 (ip_datagram s.LOCAL_IP s.ip_id dst_ip protocol payload n) IP_SRC_IP
      = s.LOCAL_IP % 2 ^ 32 ∧
    get_u32 (ip_datagram s.LOCAL_IP s.ip_id dst_ip protocol payload n) IP_DST_IP
      = dst_ip % 2 ^ 32 ∧
    checksum (put_u16 (ip_datagram s.LOCAL_IP s.ip_id dst_ip protocol payload n)
      IP_CHECKSUM 0) IP_HEADER_LEN
      = get_u16 (ip_datagram s.LOCAL_IP s.ip_id dst_ip protocol payload n) IP_CHECKSUM ∧
    get_u16 (ip_datagram s.LOCAL_IP s.ip_id dst_ip protocol payload n) IP_ID
      = s.ip_id % 2 ^ 16 ∧
    (ip_send dst_ip protocol payload n s).ip_id = (s.ip_id + 1) % 2 ^ 16 ∧
    (Net.init s.LOCAL_IP).ip_id = 1 := by
  obtain ⟨f1, f2, f3, f4, f5, f6⟩ :=
    ip_datagram_fields s.LOCAL_IP s.ip_id dst_ip protocol payload n
  obtain ⟨g1, g2, g3⟩ := ip_datagram_fixed s.LOCAL_IP s.ip_id dst_ip protocol payload n
  have hmod : n % 256 = n := Nat.mod_eq_of_lt hn
  have htl : (IP_HEADER_LEN + n) % 2 ^ 16 = 20 + n := by
    simp only [IP_HEADER_LEN, Nat.reducePow]
    omega
  refine ⟨?_, f1, g1, ?_, g2, g3, f4, f5, f6, ?_, f3, ?_, rfl⟩
  · unfold ip_send
    simp only [hmod, htl]
  · rw [f2, htl]
  · exact ip_datagram_checksum _ _ _ _ _ _
  · rfl

/-- The first datagram of a fresh stack, carrying the 20 bytes of `sample_syn`, has
identification 1 and total length 40; the counter is 2 afterwards. -/
theorem ip_send_header_witness :
    get_u16 (ip_datagram (Net.init 0xC0A80102).LOCAL_IP (Net.init 0xC0A80102).ip_id
      0xC0A8010A IP_PROTO_TCP sample_syn 20) IP_ID = 1 ∧
    get_u16 (ip_datagram (Net.init 0xC0A80102).LOCAL_IP (Net.init 0xC0A80102).ip_id
      0xC0A8010A IP_PROTO_TCP sample_syn 20) IP_TOTAL_LEN = 40 ∧
    (ip_send 0xC0A8010A IP_PROTO_TCP sample_syn 20 (Net.init 0xC0A80102)).ip_id = 2 :=
  have h := ip_send_header 0xC0A8010A IP_PROTO_TCP sample_syn 20 (Net.init 0xC0A80102)
    (by decide)
  ⟨h.2.2.2.2.2.2.2.2.2.2.1, h.2.2.2.1, h.2.2.2.2.2.2.2.2.2.2.2.1⟩

/-! ## The number of bytes handed to the SLIP framer -/

/-- C36 as stated fails: with a payload of 236 bytes `ip_send` writes the total length 256
into the header and hands `slip_send` the length `(unsigned char)256 = 0`, so the frame on
the wire is two END bytes with nothing between them. -/
theorem ip_send_length_fails :
    get_u16 (ip_datagram (Net.init 0xC0A80102).LOCAL_IP (Net.init 0xC0A80102).ip_id
      0xC0A8010A IP_PROTO_ICMP (List.replicate 236 0x61) 236) IP_TOTAL_LEN = 256 ∧
    (ip_send 0xC0A8010A IP_PROTO_ICMP (List.replicate 236 0x61) 236
      (Net.init 0xC0A80102)).out = [Event.tx_putchar 0xC0, Event.tx_putchar 0xC0] := by
  decide

/-- C36 (amended): for a payload of `n ≤ 235` bytes `ip_send` hands the SLIP framer exactly
the first 20 + n bytes of the datagram, the 20 header bytes followed by the `n` payload
bytes, and 20 + n is the total-length field of the header; the frame is END, these bytes
escaped, END. Likewise `tcp_send_flags` with `m ≤ 64` data bytes (the room `tcp_buf` has
behind the header) hands the framer the first 40 + m bytes of a datagram whose
total-length field is 40 + m. -/
theorem ip_send_length (dst_ip protocol : Nat) (payload : List Nat) (n : Nat) (s : Net)
    (flags : Nat) (data : List Nat) (m : Nat) (hn : n ≤ 235) (hm : m ≤ 64) :
    (ip_send dst_ip protocol payload n s).out
      = s.out ++ (SLIP_END :: (slip_escape
          ((ip_datagram s.LOCAL_IP s.ip_id dst_ip protocol payload n).take (20 + n)) ++
          [SLIP_END])).map Event.tx_putchar ∧
    ((ip_datagram s.LOCAL_IP s.ip_id dst_ip protocol payload n).take (20 + n)).length
      = 20 + n ∧
    (ip_datagram s.LOCAL_IP s.ip_id dst_ip protocol payload n).take (20 + n)
      = (ip_datagram s.LOCAL_IP s.ip_id dst_ip protocol payload n).take 20 ++
        (List.range n).map (fun i => payload.getD i 0) ∧
    get_u16 (ip_datagram s.LOCAL_IP s.ip_id dst_ip protocol payload n) IP_TOTAL_LEN
      = 20 + n ∧
    (tcp_send_flags flags data m s).out
      = s.out ++ (SLIP_END :: (slip_escape
          ((ip_datagram s.LOCAL_IP s.ip_id s.tcp_remote_ip IP_PROTO_TCP
            (tcp_segment s flags data m) (20 + m)).take (40 + m)) ++
          [SLIP_END])).map Event.tx_putchar ∧
    ((ip_datagram s.LOCAL_IP s.ip_id s.tcp_remote_ip IP_PROTO_TCP
      (tcp_segment s flags data m) (20 + m)).take (40 + m)).length = 40 + m ∧
    get_u16 (ip_datagram s.LOCAL_IP s.ip_id s.tcp_remote_ip IP_PROTO_TCP
      (tcp_segment s flags data m) (20 + m)) IP_TOTAL_LEN = 40 + m := by
  have hD := ip_datagram_length s.LOCAL_IP s.ip_id dst_ip protocol payload n (by omega)
  have hT := ip_datagram_length s.LOCAL_IP s.ip_id s.tcp_remote_ip IP_PROTO_TCP
    (tcp_segment s flags data m) (20 + m) (by omega)
  have fD := (ip_datagram_fields s.LOCAL_IP s.ip_id dst_ip protocol payload n).2.1
  have fT := (ip_datagram_fields s.LOCAL_IP s.ip_id s.tcp_remote_ip IP_PROTO_TCP
    (tcp_segment s flags data m) (20 + m)).2.1
  simp only [PKT_BUF_SIZE] at hD hT
  refine ⟨?_, ?_, ?_, ?_, ?_, ?_, ?_⟩
  · unfold ip_send
    have h1 : n % 256 = n := Nat.mod_eq_of_lt (by omega)
    have h2 : (IP_HEADER_LEN + n) % 2 ^ 16 % 256 = 20 + n := by
      simp only [IP_HEADER_LEN, Nat.reducePow]
      omega
    simp only [h1, h2]
    rw [slip_send_take _ (20 + n) (by omega) (by omega)]
  · rw [List.length_take]
    omega
  · rw [List.take_add, ip_datagram_payload]
  · rw [fD]
    simp only [IP_HEADER_LEN, Nat.reducePow]
    omega
  · rw [tcp_send_flags_small flags data m _ s hm rfl]
    simp only []
    rw [slip_send_take _ (40 + m) (by omega) (by omega)]
  · rw [List.length_take]
    omega
  · rw [fT]
    simp only [IP_HEADER_LEN, Nat.reducePow]
    omega

/-- The five bytes "HELLO" sent on the sample connection: 45 bytes are framed, and the
total-length field is 45. -/
theorem ip_send_length_witness :
    ((ip_datagram sample_established.LOCAL_IP sample_established.ip_id
      sample_established.tcp_remote_ip IP_PROTO_TCP
      (tcp_segment sample_established (TCP_PSH ||| TCP_ACK) [72, 69, 76, 76, 79] 5)
      (20 + 5)).take (40 + 5)).length = 40 + 5 ∧
    get_u16 (ip_datagram sample_established.LOCAL_IP sample_established.ip_id
      sample_established.tcp_remote_ip IP_PROTO_TCP
      (tcp_segment sample_established (TCP_PSH ||| TCP_ACK) [72, 69, 76, 76, 79] 5)
      (20 + 5)) IP_TOTAL_LEN = 40 + 5 :=
  have h := ip_send_length 0xC0A8010A IP_PROTO_ICMP sample_echo 12 sample_established
    (TCP_PSH ||| TCP_ACK) [72, 69, 76, 76, 79] 5 (by decide) (by decide)
  ⟨h.2.2.2.2.2.1, h.2.2.2.2.2.2⟩

/-! ## The TCP checksum and the generic checksum -/

/-- More fuel than the word loop needs does not change its result. -/
theorem sum_words_fuel (data : List Nat) (len : Nat) :
    ∀ fuel i acc k, len ≤ i + 2 * fuel →
      sum_words data len (fuel + k) i acc = sum_words data len fuel i acc := by
  intro fuel
  induction fuel with
  | zero =>
    intro i acc k h
    cases k with
    | zero => rfl
    | succ k =>
      simp only [Nat.zero_add, sum_words]
      rw [if_neg (by omega)]
  | succ n ih =>
    intro i acc k h
    rw [show n + 1 + k = (n + k) + 1 by omega]
    simp only [sum_words]
    by_cases hi : i + 1 < len
    · rw [if_pos hi, if_pos hi]
      exact ih _ _ _ (by omega)
    · rw [if_neg hi, if_neg hi]

/-- The word loop over a buffer that starts with `P`, begun behind `P`, is the word loop
over what follows `P`. -/
theorem sum_words_append (P S : List Nat) (n : Nat) :
    ∀ fuel i acc,
      sum_words (P ++ S) (P.length + n) fuel (P.length + i) acc = sum_words S n fuel i acc := by
  intro fuel
  induction fuel with
  | zero => intro i acc; rfl
  | succ k ih =>
    intro i acc
    simp only [sum_words]
    have hw : word_at (P ++ S) (P.length + i) = word_at S i := by
      unfold word_at
      rw [List.getD_append_right _ _ _ _ (by omega),
        List.getD_append_right _ _ _ _ (by omega)]
      rw [show P.length + i - P.length = i by omega,
        show P.length + i + 1 - P.length = i + 1 by omega]
    by_cases hi : i + 1 < n
    · rw [if_pos hi, if_pos (by omega), hw]
      exact ih (i + 2) _
    · rw [if_neg hi, if_neg (by omega)]

/-- The pseudo-header `tcp_checksum` builds is the pseudo-header of the specification. -/
theorem pseudo_hdr_eq (tcp_len src_ip dst_ip : Nat) :
    put_u16 (((put_u32 (put_u32 (List.replicate 12 0) 0 src_ip) 4 dst_ip).set 8 0).set 9
      IP_PROTO_TCP) 10 tcp_len = pseudo_header src_ip dst_ip tcp_len := by
  simp only [put_u16, put_u32, List.replicate, List.set_cons_zero, List.set_cons_succ,
    Nat.reduceAdd, IP_PROTO_TCP, pseudo_header]

/-- The first six iterations of the word loop over a buffer that starts with the
pseudo-header give the sum `tcp_checksum` starts its segment loop with. -/
theorem sum_words_pseudo_header (S : List Nat) (n src_ip dst_ip fuel : Nat) :
    sum_words (pseudo_header src_ip dst_ip n ++ S) (12 + n) (fuel + 6) 0 0
      = sum_words (pseudo_header src_ip dst_ip n ++ S) (12 + n) fuel 12
          ([0, 2, 4, 6, 8, 10].foldl
            (fun sum i => (sum + word_at (pseudo_header src_ip dst_ip n) i) % 2 ^ 32) 0) := by
  have hw : ∀ i, i + 1 < 12 →
      word_at (pseudo_header src_ip dst_ip n ++ S) i
        = word_at (pseudo_header src_ip dst_ip n) i := by
    intro i hi
    unfold word_at
    rw [List.getD_append _ _ _ _ (by simp only [pseudo_header, List.length_cons, List.length_nil]; omega),
      List.getD_append _ _ _ _ (by simp only [pseudo_header, List.length_cons, List.length_nil]; omega)]
  simp only [sum_words, List.foldl_cons, List.foldl_nil, Nat.zero_add, Nat.reduceAdd]
  rw [if_pos (by omega), if_pos (by omega), if_pos (by omega), if_pos (by omega),
    if_pos (by omega), if_pos (by omega)]
  rw [hw 0 (by omega), hw 2 (by omega), hw 4 (by omega), hw 6 (by omega), hw 8 (by omega),
    hw 10 (by omega)]

/-- The odd-byte step over a buffer that starts with the 12-byte pseudo-header is the
odd-byte step over what follows it. -/
theorem add_odd_byte_append (S : List Nat) (n src_ip dst_ip sum : Nat) :
    add_odd_byte (pseudo_header src_ip dst_ip n ++ S) (12 + n) sum = add_odd_byte S n sum := by
  have hP : (pseudo_header src_ip dst_ip n).length = 12 := rfl
  unfold add_odd_byte
  have hpar : (12 + n) &&& 1 = n &&& 1 := by
    rw [Nat.and_one_is_mod, Nat.and_one_is_mod]
    omega
  rw [hpar]
  by_cases ho : n &&& 1 ≠ 0
  · rw [if_pos ho, if_pos ho]
    have hpos : 0 < n := by
      rcases Nat.eq_zero_or_pos n with h0 | h0
      · rw [h0] at ho
        exact absurd rfl ho
      · exact h0
    rw [List.getD_append_right _ _ _ _ (by rw [hP]; omega), hP,
      show 12 + n - 1 - 12 = n - 1 by omega]
  · rw [if_neg ho, if_neg ho]

/-- C33: `tcp_checksum` is the generic `checksum` over the pseudo-header followed by the
segment: for a segment buffer `S`, a length `n` (even or odd) with n + 12 ≤ 65535 (so that
12 + n is a length `checksum` can be given) and addresses `src_ip`, `dst_ip`, the value `tcp_checksum(S, n, src_ip, dst_ip)` equals
`checksum` of the buffer `pseudo_header src_ip dst_ip n ++ S` over its first 12 + n
bytes. -/
theorem tcp_checksum_refines (S : List Nat) (n src_ip dst_ip : Nat) (hn : n + 12 ≤ 65535) :
    tcp_checksum S n src_ip dst_ip
      = checksum (pseudo_header src_ip dst_ip n ++ S) (12 + n) := by
  have hP : (pseudo_header src_ip dst_ip n).length = 12 := rfl
  have h1 : sum_words (pseudo_header src_ip dst_ip n ++ S) (12 + n) (12 + n) 0 0
      = sum_words S n n 0 ([0, 2, 4, 6, 8, 10].foldl
          (fun sum i => (sum + word_at (pseudo_header src_ip dst_ip n) i) % 2 ^ 32) 0) := by
    have h0 := sum_words_pseudo_header S n src_ip dst_ip (n + 6)
    rw [show n + 6 + 6 = 12 + n by omega] at h0
    rw [h0]
    have h2 := sum_words_append (pseudo_header src_ip dst_ip n) S n (n + 6) 0
      ([0, 2, 4, 6, 8, 10].foldl
        (fun sum i => (sum + word_at (pseudo_header src_ip dst_ip n) i) % 2 ^ 32) 0)
    rw [hP] at h2
    rw [h2]
    exact sum_words_fuel S n n 0 _ 6 (by omega)
  unfold tcp_checksum checksum checksum_sum
  simp only [pseudo_hdr_eq]
  rw [h1, add_odd_byte_append]

/-- The checksum of the GET segment with its last byte cut off (27 bytes, an odd length),
computed both ways. -/
theorem tcp_checksum_refines_witness :
    tcp_checksum sample_get 27 0xC0A8010A 0xC0A80102
      = checksum (pseudo_header 0xC0A8010A 0xC0A80102 27 ++ sample_get) (12 + 27) :=
  tcp_checksum_refines sample_get 27 0xC0A8010A 0xC0A80102 (by decide)

/-! ## The backlog table: pop order and accounting -/

/-- Clearing the valid flag of an entry that is not valid changes nothing. -/
theorem invalidate_invalid (e : pending_conn) (h : e.valid = 0) : { e with valid := 0 } = e := by
  cases e
  simp only at h
  subst h
  rfl

/-- The table after `conn_queue[i].valid = 0`, entry by entry. -/
theorem getD_set_invalidate (q : List pending_conn) (i m : Nat) :
    (q.set i { q.getD i default with valid := 0 }).getD m default
      = if m = i then { q.getD m default with valid := 0 } else q.getD m default := by
  by_cases hm : m = i
  · subst hm
    rw [if_pos rfl]
    by_cases hl : m < q.length
    · exact getD_set_eq q m _ default hl
    · rw [List.set_eq_of_length_le (by omega)]
      have hd : q.getD m default = default := by
        rw [List.getD_eq_default _ _ (by omega)]
      rw [hd]
      rfl
  · rw [if_neg hm]
    exact getD_set_ne q i m _ default (fun h => hm h.symm)

/-- The number of valid entries is at most the size of the table. -/
theorem valid_count_le (q : List pending_conn) : valid_count q ≤ q.length :=
  List.countP_le_length _

/-- Clearing the valid flag of a valid entry lowers the number of valid entries by one. -/
theorem valid_count_invalidate : ∀ (q : List pending_conn) (i : Nat),
    (q.getD i default).valid ≠ 0 →
    valid_count (q.set i { q.getD i default with valid := 0 }) + 1 = valid_count q := by
  intro q
  induction q with
  | nil =>
    intro i h
    exact absurd rfl h
  | cons a l ih =>
    intro i h
    cases i with
    | zero =>
      have ha : a.valid ≠ 0 := h
      simp only [valid_count, List.set_cons_zero, List.getD_cons_zero, List.countP_cons,
        ne_eq, not_true_eq_false, decide_False, Bool.false_eq_true, if_false, ha,
        not_false_eq_true, decide_True, if_true, Nat.add_zero]
    | succ k =>
      have hk : (l.getD k default).valid ≠ 0 := h
      have e := ih k hk
      simp only [valid_count] at e ⊢
      simp only [List.set_cons_succ, List.getD_cons_succ, List.countP_cons]
      omega

/-- Writing a valid entry over an entry that is not valid raises the number of valid
entries by one. -/
theorem valid_count_fill : ∀ (q : List pending_conn) (i : Nat) (e : pending_conn),
    i < q.length → (q.getD i default).valid = 0 → e.valid ≠ 0 →
    valid_count (q.set i e) = valid_count q + 1 := by
  intro q
  induction q with
  | nil =>
    intro i e hi
    exact absurd hi (Nat.not_lt_zero _)
  | cons a l ih =>
    intro i e hi h he
    cases i with
    | zero =>
      have ha : a.valid = 0 := h
      simp only [valid_count, List.set_cons_zero, List.countP_cons, ne_eq, he,
        not_false_eq_true, decide_True, if_true, ha, not_true_eq_false, decide_False,
        Bool.false_eq_true, if_false, Nat.add_zero]
    | succ k =>
      have hk : (l.getD k default).valid = 0 := h
      have e2 := ih k e (Nat.lt_of_succ_lt_succ hi) hk he
      simp only [valid_count] at e2 ⊢
      simp only [List.set_cons_succ, List.countP_cons]
      omega

/-- The loop of `conn_queue_pop` when it returns an entry: the entry is the first one from
`i` on that is valid and not expired, the valid entries before it are expired, and the
table afterwards has the valid flag cleared at the indices `i .. j` and is otherwise
unchanged. -/
theorem conn_queue_pop_loop_found (now : Nat) :
    ∀ fuel i s r s2, conn_queue_pop_loop now fuel i s = (some r, s2) →
      ∃ j, i ≤ j ∧ j < i + fuel ∧ (s.conn_queue.getD j default).valid ≠ 0 ∧
        ¬ conn_expired now (s.conn_queue.getD j default) ∧
        r = ((s.conn_queue.getD j default).remote_ip,
          (s.conn_queue.getD j default).remote_port,
          (s.conn_queue.getD j default).their_seq) ∧
        (∀ m, i ≤ m → m < j → (s.conn_queue.getD m default).valid ≠ 0 →
          conn_expired now (s.conn_queue.getD m default)) ∧
        ∀ m, s2.conn_queue.getD m default
          = if i ≤ m ∧ m ≤ j then { s.conn_queue.getD m default with valid := 0 }
            else s.conn_queue.getD m default := by
  intro fuel
  induction fuel with
  | zero =>
    intro i s r s2 h
    simp only [conn_queue_pop_loop] at h
    exact absurd (congrArg (fun x : Option (Nat × Nat × Nat) × Net => x.1) h) (by simp)
  | succ n ih =>
    intro i s r s2 h
    simp only [conn_queue_pop_loop] at h
    by_cases hv : (s.conn_queue.getD i default).valid ≠ 0
    · rw [if_pos hv] at h
      by_cases hx : (now % 2 ^ 32 + 2 ^ 32 - (s.conn_queue.getD i default).timestamp % 2 ^ 32)
          % 2 ^ 32 > CONN_QUEUE_TIMEOUT
      · rw [if_pos hx] at h
        obtain ⟨j, h1, h2, h3, h4, h5, h6, h7⟩ := ih _ _ _ _ h
        simp only [getD_set_invalidate] at h3 h4 h5 h6 h7
        have hji : j ≠ i := by omega
        rw [if_neg hji] at h3 h4 h5
        refine ⟨j, by omega, by omega, h3, h4, h5, ?_, ?_⟩
        · intro m hm1 hm2 hm3
          by_cases hmi : m = i
          · rw [hmi]
            exact hx
          · have := h6 m (by omega) hm2
            rw [if_neg hmi] at this
            exact this hm3
        · intro m
          rw [h7 m]
          by_cases hmi : m = i
          · subst hmi
            rw [if_neg (by omega), if_pos rfl, if_pos (by omega)]
          · rw [if_neg hmi]
            by_cases hc : i + 1 ≤ m ∧ m ≤ j
            · rw [if_pos hc, if_pos (by omega)]
            · rw [if_neg hc, if_neg (by omega)]
      · rw [if_neg hx] at h
        have e1 := congrArg (fun x : Option (Nat × Nat × Nat) × Net => x.1) h
        have e2 := congrArg (fun x : Option (Nat × Nat × Nat) × Net => x.2) h
        simp only [Option.some.injEq] at e1 e2
        refine ⟨i, Nat.le_refl _, by omega, hv, hx, e1.symm, ?_, ?_⟩
        · intro m hm1 hm2
          omega
        · intro m
          rw [← e2]
          simp only [getD_set_invalidate]
          by_cases hmi : m = i
          · rw [if_pos hmi, if_pos (by omega)]
          · rw [if_neg hmi, if_neg (by omega)]
    · rw [if_neg hv] at h
      obtain ⟨j, h1, h2, h3, h4, h5, h6, h7⟩ := ih _ _ _ _ h
      refine ⟨j, by omega, by omega, h3, h4, h5, ?_, ?_⟩
      · intro m hm1 hm2 hm3
        by_cases hmi : m = i
        · rw [hmi] at hm3
          exact absurd hm3 hv
        · exact h6 m (by omega) hm2 hm3
      · intro m
        rw [h7 m]
        by_cases hmi : m = i
        · subst hmi
          rw [if_neg (by omega), if_pos (by omega)]
          exact (invalidate_invalid _ (by simpa using hv)).symm
        · by_cases hc : i + 1 ≤ m ∧ m ≤ j
          · rw [if_pos hc, if_pos (by omega)]
          · rw [if_neg hc, if_neg (by omega)]

/-- The loop of `conn_queue_pop` when it returns 0: every valid entry from `i` on is
expired, and the table afterwards has the valid flag cleared at all the indices the loop
has looked at. -/
theorem conn_queue_pop_loop_none (now : Nat) :
    ∀ fuel i s s2, conn_queue_pop_loop now fuel i s = (none, s2) →
      (∀ m, i ≤ m → m < i + fuel → (s.conn_queue.getD m default).valid ≠ 0 →
        conn_expired now (s.conn_queue.getD m default)) ∧
      ∀ m, s2.conn_queue.getD m default
        = if i ≤ m ∧ m < i + fuel then { s.conn_queue.getD m default with valid := 0 }
          else s.conn_queue.getD m default := by
  intro fuel
  induction fuel with
  | zero =>
    intro i s s2 h
    simp only [conn_queue_pop_loop] at h
    have e2 := congrArg (fun x : Option (Nat × Nat × Nat) × Net => x.2) h
    simp only at e2
    refine ⟨fun m hm1 hm2 => by omega, fun m => ?_⟩
    rw [← e2, if_neg (by omega)]
  | succ n ih =>
    intro i s s2 h
    simp only [conn_queue_pop_loop] at h
    by_cases hv : (s.conn_queue.getD i default).valid ≠ 0
    · rw [if_pos hv] at h
      by_cases hx : (now % 2 ^ 32 + 2 ^ 32 - (s.conn_queue.getD i default).timestamp % 2 ^ 32)
          % 2 ^ 32 > CONN_QUEUE_TIMEOUT
      · rw [if_pos hx] at h
        obtain ⟨h6, h7⟩ := ih _ _ _ h
        simp only [getD_set_invalidate] at h6 h7
        refine ⟨?_, ?_⟩
        · intro m hm1 hm2 hm3
          by_cases hmi : m = i
          · rw [hmi]
            exact hx
          · have := h6 m (by omega) (by omega)
            rw [if_neg hmi] at this
            exact this hm3
        · intro m
          rw [h7 m]
          by_cases hmi : m = i
          · subst hmi
            rw [if_neg (by omega), if_pos rfl, if_pos (by omega)]
          · rw [if_neg hmi]
            by_cases hc : i + 1 ≤ m ∧ m < i + 1 + n
            · rw [if_pos hc, if_pos (by omega)]
            · rw [if_neg hc, if_neg (by omega)]
      · rw [if_neg hx] at h
        exact absurd (congrArg (fun x : Option (Nat × Nat × Nat) × Net => x.1) h) (by simp)
    · rw [if_neg hv] at h
      obtain ⟨h6, h7⟩ := ih _ _ _ h
      refine ⟨?_, ?_⟩
      · intro m hm1 hm2 hm3
        by_cases hmi : m = i
        · rw [hmi] at hm3
          exact absurd hm3 hv
        · exact h6 m (by omega) (by omega) hm3
      · intro m
        rw [h7 m]
        by_cases hmi : m = i
        · subst hmi
          rw [if_neg (by omega), if_pos (by omega)]
          exact (invalidate_invalid _ (by simpa using hv)).symm
        · by_cases hc : i + 1 ≤ m ∧ m < i + 1 + n
          · rw [if_pos hc, if_pos (by omega)]
          · rw [if_neg hc, if_neg (by omega)]

/-- The loop of `conn_queue_pop` keeps the counter equal to the number of valid entries,
and keeps the size of the table. -/
theorem conn_queue_pop_loop_count (now : Nat) :
    ∀ fuel i s, s.conn_queue_count = valid_count s.conn_queue → s.conn_queue.length ≤ 255 →
      (conn_queue_pop_loop now fuel i s).2.conn_queue_count
        = valid_count (conn_queue_pop_loop now fuel i s).2.conn_queue ∧
      (conn_queue_pop_loop now fuel i s).2.conn_queue.length = s.conn_queue.length := by
  intro fuel
  induction fuel with
  | zero =>
    intro i s hc hl
    exact ⟨hc, rfl⟩
  | succ n ih =>
    intro i s hc hl
    simp only [conn_queue_pop_loop]
    by_cases hv : (s.conn_queue.getD i default).valid ≠ 0
    · rw [if_pos hv]
      have hcnt := valid_count_invalidate s.conn_queue i hv
      have hle := valid_count_le s.conn_queue
      have hnew : (s.conn_queue_count + 255) % 256
          = valid_count (s.conn_queue.set i { s.conn_queue.getD i default with valid := 0 }) := by
        rw [hc]
        omega
      by_cases hx : (now % 2 ^ 32 + 2 ^ 32 - (s.conn_queue.getD i default).timestamp % 2 ^ 32)
          % 2 ^ 32 > CONN_QUEUE_TIMEOUT
      · rw [if_pos hx]
        have := ih (i + 1)
          { s with
            conn_queue := s.conn_queue.set i { s.conn_queue.getD i default with valid := 0 }
            conn_queue_count := (s.conn_queue_count + 255) % 256 }
          hnew (by simp only [List.length_set]; exact hl)
        simp only [List.length_set] at this
        exact this
      · rw [if_neg hx]
        exact ⟨hnew, List.length_set _ _ _⟩
    · rw [if_neg hv]
      exact ih (i + 1) s hc hl

/-- The loop of `conn_queue_add` keeps the counter equal to the number of valid entries,
and keeps the size of the table. -/
theorem conn_queue_add_loop_count (ip port seq now : Nat) (s : Net)
    (hc : s.conn_queue_count = valid_count s.conn_queue) (hl : s.conn_queue.length ≤ 255) :
    ∀ fuel i, i + fuel ≤ s.conn_queue.length →
      (conn_queue_add_loop ip port seq now s fuel i).conn_queue_count
        = valid_count (conn_queue_add_loop ip port seq now s fuel i).conn_queue ∧
      (conn_queue_add_loop ip port seq now s fuel i).conn_queue.length
        = s.conn_queue.length := by
  intro fuel
  induction fuel with
  | zero =>
    intro i _
    exact ⟨hc, rfl⟩
  | succ n ih =>
    intro i hi
    simp only [conn_queue_add_loop]
    by_cases hv : (s.conn_queue.getD i default).valid = 0
    · rw [if_pos hv]
      have hcnt := valid_count_fill s.conn_queue i
        { remote_ip := ip, remote_port := port, their_seq := seq, timestamp := now, valid := 1 }
        (by omega) hv (Nat.succ_ne_zero 0)
      have hle := valid_count_le (s.conn_queue.set i
        { remote_ip := ip, remote_port := port, their_seq := seq, timestamp := now, valid := 1 })
      rw [List.length_set] at hle
      refine ⟨?_, List.length_set _ _ _⟩
      show (s.conn_queue_count + 1) % 256 = _
      rw [hcnt, hc]
      omega
    · rw [if_neg hv]
      exact ih (i + 1) (by omega)

/-- At program start the counter is the number of valid entries: both are 0, and the table
has 16 entries. -/
theorem conn_queue_count_init (local_ip : Nat) :
    (Net.init local_ip).conn_queue_count = valid_count (Net.init local_ip).conn_queue ∧
    (Net.init local_ip).conn_queue.length = CONN_QUEUE_SIZE :=
  ⟨rfl, rfl⟩

/-! ## The backlog accounting in every reachable state -/

/-- `tcp_send_flags` does not touch the backlog. -/
theorem tcp_send_flags_backlog (flags : Nat) (data : List Nat) (n : Nat) (s : Net)
    (h : backlog_counted s) : backlog_counted (tcp_send_flags flags data n s) := by
  rw [tcp_send_flags_frame]
  exact h

/-- `conn_queue_pop` keeps the backlog accounting. -/
theorem conn_queue_pop_backlog (now : Nat) (s : Net) (h : backlog_counted s) :
    backlog_counted (conn_queue_pop now s).2 := by
  obtain ⟨h1, h2⟩ := conn_queue_pop_loop_count now CONN_QUEUE_SIZE 0 s h.1
    (by rw [h.2]; decide)
  exact ⟨h1, h2.trans h.2⟩

/-- `conn_queue_add` keeps the backlog accounting. -/
theorem conn_queue_add_backlog (ip port seq now : Nat) (s : Net) (h : backlog_counted s) :
    backlog_counted (conn_queue_add ip port seq now s) := by
  obtain ⟨h1, h2⟩ := conn_queue_add_loop_count ip port seq now s h.1 (by rw [h.2]; decide)
    CONN_QUEUE_SIZE 0 (by rw [h.2]; decide)
  exact ⟨h1, h2.trans h.2⟩

/-- `tcp_process_queue` keeps the backlog accounting. -/
theorem tcp_process_queue_backlog (accept : Nat → Nat → Nat) (now : Nat) (s : Net)
    (h : backlog_counted s) : backlog_counted (tcp_process_queue accept now s) := by
  have hp := conn_queue_pop_backlog now s h
  unfold tcp_process_queue
  split
  · exact h
  · split
    · rename_i s1 heq
      have e : s1 = (conn_queue_pop now s).2 := by
        have := congrArg (fun r : Option (Nat × Nat × Nat) × Net => r.2) heq
        exact this.symm
      rw [e]
      exact hp
    · rename_i ip port seq s1 heq
      have e : s1 = (conn_queue_pop now s).2 := by
        have := congrArg (fun r : Option (Nat × Nat × Nat) × Net => r.2) heq
        exact this.symm
      have h1 : backlog_counted s1 := by
        rw [e]
        exact hp
      split
      · simp only [Net.emit]
        show backlog_counted (tcp_send_flags (TCP_SYN ||| TCP_ACK) [] 0 _)
        exact tcp_send_flags_backlog _ _ _ _ h1
      · exact h1

/-- The step back to LISTEN keeps the backlog accounting. -/
theorem tcp_back_to_listen_backlog (accept : Nat → Nat → Nat) (now old : Nat) (s : Net)
    (h : backlog_counted s) : backlog_counted (tcp_back_to_listen accept now old s) := by
  unfold tcp_back_to_listen
  simp only [Net.emit]
  exact tcp_process_queue_backlog _ _ _ h

/-- The ACK step and the data step of the ESTABLISHED case keep the backlog accounting. -/
theorem established_steps_backlog (pkt : List Nat) (seq_num ack_num flags hdr_len data_len : Nat)
    (s : Net) (h : backlog_counted s) :
    backlog_counted (established_data pkt seq_num hdr_len data_len
      (established_ack flags ack_num s)) := by
  have ha : backlog_counted (established_ack flags ack_num s) := by
    rw [established_ack_frame]
    exact h
  by_cases hd : 0 < data_len
  · rw [established_data_pos _ _ _ _ _ hd]
    exact ha
  · unfold established_data
    rw [if_neg hd]
    exact ha

/-- The per-state dispatch keeps the backlog accounting. -/
theorem tcp_dispatch_backlog (accept : Nat → Nat → Nat) (now : Nat) (pkt : List Nat)
    (src_ip src_port seq_num ack_num flags hdr_len data_len : Nat) (s : Net)
    (h : backlog_counted s) :
    backlog_counted (tcp_dispatch accept now pkt src_ip src_port seq_num ack_num flags hdr_len
      data_len s) := by
  by_cases h1 : s.tcp_state = TCP_STATE_LISTEN
  · unfold tcp_dispatch
    simp only [if_pos h1]
    split
    · split
      · simp only [Net.emit]
        show backlog_counted (tcp_send_flags (TCP_SYN ||| TCP_ACK) [] 0 _)
        exact tcp_send_flags_backlog _ _ _ _ h
      · exact h
    · exact h
  by_cases h2 : s.tcp_state = TCP_STATE_SYN_SENT
  · unfold tcp_dispatch
    simp only [if_neg h1, if_pos h2]
    split
    · simp only [Net.emit]
      show backlog_counted (tcp_send_flags TCP_ACK [] 0 _)
      exact tcp_send_flags_backlog _ _ _ _ h
    · exact h
  by_cases h3 : s.tcp_state = TCP_STATE_SYN_RECEIVED
  · unfold tcp_dispatch
    simp only [if_neg h1, if_neg h2, if_pos h3]
    split
    · exact h
    · exact h
  by_cases h4 : s.tcp_state = TCP_STATE_ESTABLISHED
  · rw [tcp_dispatch_established _ _ _ _ _ _ _ _ _ _ _ h4]
    have hs := established_steps_backlog pkt seq_num ack_num flags hdr_len data_len s h
    split
    · apply tcp_back_to_listen_backlog
      apply tcp_send_flags_backlog
      exact hs
    · exact hs
  by_cases h5 : s.tcp_state = TCP_STATE_FIN_WAIT_1
  · rw [tcp_dispatch_fin_wait_1 _ _ _ _ _ _ _ _ _ _ _ h5]
    split
    · apply tcp_back_to_listen_backlog
      apply tcp_send_flags_backlog
      split
      · exact h
      · exact h
    · split
      · exact h
      · exact h
  by_cases h6 : s.tcp_state = TCP_STATE_FIN_WAIT_2
  · rw [tcp_dispatch_fin_wait_2 _ _ _ _ _ _ _ _ _ _ _ h6]
    split
    · apply tcp_back_to_listen_backlog
      apply tcp_send_flags_backlog
      exact h
    · exact h
  · unfold tcp_dispatch
    simp only [if_neg h1, if_neg h2, if_neg h3, if_neg h4, if_neg h5, if_neg h6]
    exact h

/-- The function `tcp_receive` keeps the backlog accounting. -/
theorem tcp_receive_backlog (accept : Nat → Nat → Nat) (now : Nat) (pkt : List Nat)
    (len src_ip : Nat) (s : Net) (h : backlog_counted s) :
    backlog_counted (tcp_receive accept now pkt len src_ip s) := by
  unfold tcp_receive
  split
  · exact h
  · simp only []
    split
    · exact h
    · split
      · exact h
      · unfold tcp_input
        split
        · simp only [Net.emit]
          exact conn_queue_add_backlog _ _ _ _ _ h
        · split
          · split
            · exact tcp_back_to_listen_backlog _ _ _ _ h
            · exact h
          · exact tcp_dispatch_backlog _ _ _ _ _ _ _ _ _ _ s h

/-- Every action keeps the backlog accounting. -/
theorem apply_action_backlog (accept : Nat → Nat → Nat) (a : Action) (s : Net)
    (h : backlog_counted s) : backlog_counted (apply_action accept a s) := by
  cases a with
  | listen port => exact h
  | connect ip port =>
    show backlog_counted (tcp_send_flags TCP_SYN [] 0 _)
    exact tcp_send_flags_backlog _ _ _ _ h
  | send now data len =>
    show backlog_counted (tcp_send now data len s)
    unfold tcp_send
    split
    · exact h
    · apply tcp_send_flags_backlog
      split
      · exact h
      · exact h
  | close =>
    show backlog_counted (tcp_close s)
    unfold tcp_close
    show backlog_counted (if s.tcp_state = TCP_STATE_ESTABLISHED then _ else s)
    split
    · exact tcp_send_flags_backlog _ _ _ _ h
    · exact h
  | tick now =>
    show backlog_counted (tcp_check_retransmit now s)
    unfold tcp_check_retransmit
    split
    · exact h
    · split
      · simp only [Net.emit]
        split
        · exact h
        · rw [tcp_send_flags_frame]
          exact h
      · exact h
  | segment i => exact tcp_receive_backlog accept i.now i.pkt i.len i.src_ip s h

/-- The backlog accounting holds in every state a sequence of actions reaches from a state
in which it holds. -/
theorem run_actions_backlog (accept : Nat → Nat → Nat) :
    ∀ (acts : List Action) (s : Net), backlog_counted s →
      backlog_counted (run_actions accept acts s) := by
  intro acts
  induction acts with
  | nil => intro s h; exact h
  | cons a rest ih =>
    intro s h
    exact ih _ (apply_action_backlog accept a s h)

/-- With a data callback that makes no call into the stack, `tcp_receive_app` is
`tcp_receive`. -/
theorem tcp_receive_app_store (accept : Nat → Nat → Nat) (now : Nat) (pkt : List Nat)
    (len src_ip : Nat) (s : Net) :
    tcp_receive_app accept (fun _ _ t => t) now pkt len src_ip s
      = tcp_receive accept now pkt len src_ip s := rfl

/-- An accepted segment goes on to the backlog rule, the reset rule and the dispatch. -/
theorem tcp_receive_app_of_accepts (accept : Nat → Nat → Nat)
    (on_data : List Nat → Nat → Net → Net) (now : Nat) (pkt : List Nat)
    (len src_ip : Nat) (s : Net) (hb : ∀ b ∈ pkt, b < 256)
    (ha : tcp_accepts s.tcp_local_port pkt len) :
    tcp_receive_app accept on_data now pkt len src_ip s =
      tcp_input_app accept on_data now pkt src_ip (get_u16 pkt TCP_SRC_PORT)
        (get_u32 pkt TCP_SEQ_OFF) (get_u32 pkt TCP_ACK_OFF) (pkt.getD TCP_FLAGS 0)
        (pkt.getD 12 0 / 16 * 4) (len - pkt.getD 12 0 / 16 * 4) s := by
  obtain ⟨a1, a2, a3, a4⟩ := ha
  unfold tcp_receive_app
  simp only [tcp_hdr_len_eq pkt hb, get_u16_eq pkt TCP_DST_PORT hb, TCP_HEADER_LEN,
    TCP_DST_PORT, Nat.reduceAdd]
  rw [if_neg (by omega), if_neg (by omega), if_neg (not_not.mpr a4)]

/-- The ESTABLISHED case of the dispatch: the ACK step, the data step with the callback,
the FIN step. -/
theorem tcp_dispatch_app_established (accept : Nat → Nat → Nat)
    (on_data : List Nat → Nat → Net → Net) (now : Nat) (pkt : List Nat)
    (src_ip src_port seq_num ack_num flags hdr_len data_len : Nat) (s : Net)
    (hst : s.tcp_state = TCP_STATE_ESTABLISHED) :
    tcp_dispatch_app accept on_data now pkt src_ip src_port seq_num ack_num flags hdr_len
        data_len s =
      if flags &&& TCP_FIN ≠ 0 then
        tcp_back_to_listen accept now TCP_STATE_ESTABLISHED
          (tcp_send_flags (TCP_FIN ||| TCP_ACK) [] 0
            { established_data_app on_data pkt seq_num hdr_len data_len
                (established_ack flags ack_num s)
              with tcp_ack_num := (seq_num + data_len + 1) % 2 ^ 32 })
      else established_data_app on_data pkt seq_num hdr_len data_len
        (established_ack flags ack_num s) := by
  have h1 : ¬ (TCP_STATE_ESTABLISHED = TCP_STATE_LISTEN) := by decide
  have h2 : ¬ (TCP_STATE_ESTABLISHED = TCP_STATE_SYN_SENT) := by decide
  have h3 : ¬ (TCP_STATE_ESTABLISHED = TCP_STATE_SYN_RECEIVED) := by decide
  have hd : ∀ u : Net, established_data_app on_data pkt seq_num hdr_len data_len u =
      if data_len > 0 then
        on_data ((pkt.drop hdr_len).take data_len) data_len
          ((tcp_send_flags TCP_ACK [] 0
            { u with tcp_ack_num := (seq_num + data_len) % 2 ^ 32 }).emit
            [Event.app_tcp_data_received ((pkt.drop hdr_len).take data_len) data_len])
      else u := by
    intro u
    unfold established_data_app established_data
    by_cases h : data_len > 0
    · rw [if_pos h, if_pos h, if_pos h]
    · rw [if_neg h, if_neg h]
  unfold tcp_dispatch_app
  simp only [hd]
  unfold established_ack
  simp only [hst, h1, h2, h3, if_false, if_true]

/-- An accepted segment without RST that the backlog rule does not take, arriving in
ESTABLISHED. -/
theorem tcp_receive_app_established (accept : Nat → Nat → Nat)
    (on_data : List Nat → Nat → Net → Net) (now : Nat) (pkt : List Nat)
    (len src_ip : Nat) (s : Net) (hb : ∀ b ∈ pkt, b < 256)
    (ha : tcp_accepts s.tcp_local_port pkt len) (hst : s.tcp_state = TCP_STATE_ESTABLISHED)
    (hrst : pkt.getD TCP_FLAGS 0 &&& TCP_RST = 0)
    (hnq : ¬(pkt.getD TCP_FLAGS 0 &&& TCP_SYN ≠ 0 ∧ pkt.getD TCP_FLAGS 0 &&& TCP_ACK = 0)) :
    tcp_receive_app accept on_data now pkt len src_ip s =
      if pkt.getD TCP_FLAGS 0 &&& TCP_FIN ≠ 0 then
        tcp_back_to_listen accept now TCP_STATE_ESTABLISHED
          (tcp_send_flags (TCP_FIN ||| TCP_ACK) [] 0
            { established_data_app on_data pkt (get_u32 pkt TCP_SEQ_OFF) (tcp_hdr_len pkt)
                (len - tcp_hdr_len pkt)
                (established_ack (pkt.getD TCP_FLAGS 0) (get_u32 pkt TCP_ACK_OFF) s)
              with tcp_ack_num := (get_u32 pkt TCP_SEQ_OFF + (len - tcp_hdr_len pkt) + 1) % 2 ^ 32 })
      else established_data_app on_data pkt (get_u32 pkt TCP_SEQ_OFF) (tcp_hdr_len pkt)
        (len - tcp_hdr_len pkt)
        (established_ack (pkt.getD TCP_FLAGS 0) (get_u32 pkt TCP_ACK_OFF) s) := by
  rw [tcp_receive_app_of_accepts accept on_data now pkt len src_ip s hb ha]
  unfold tcp_input_app
  rw [if_neg (by rintro ⟨h1, h2, _⟩; exact hnq ⟨h1, h2⟩), if_neg (not_not.mpr hrst),
    tcp_dispatch_app_established _ _ _ _ _ _ _ _ _ _ _ _ hst]
  rfl

/-- The data step with the callback, for a segment with payload: the engine's part, then
the callback. -/
theorem established_data_app_pos (on_data : List Nat → Nat → Net → Net) (pkt : List Nat)
    (seq_num hdr_len data_len : Nat) (s : Net) (h : 0 < data_len) :
    established_data_app on_data pkt seq_num hdr_len data_len s =
      on_data ((pkt.drop hdr_len).take data_len) data_len
        { s with
          tcp_ack_num := (seq_num + data_len) % 2 ^ 32
          tcp_seq_num := s.tcp_seq_num % 2 ^ 32
          ip_id := (s.ip_id + 1) % 2 ^ 16
          out := s.out ++ (slip_send (ip_datagram s.LOCAL_IP s.ip_id s.tcp_remote_ip IP_PROTO_TCP
              (tcp_segment { s with tcp_ack_num := (seq_num + data_len) % 2 ^ 32 } TCP_ACK [] 0)
              20) 40).map Event.tx_putchar ++
            [Event.app_tcp_data_received ((pkt.drop hdr_len).take data_len) data_len] } := by
  unfold established_data_app
  rw [if_pos h, established_data_pos _ _ _ _ _ h]

/-- The data step with the callback, for a segment without payload: nothing happens. -/
theorem established_data_app_zero (on_data : List Nat → Nat → Net → Net) (pkt : List Nat)
    (seq_num hdr_len : Nat) (s : Net) :
    established_data_app on_data pkt seq_num hdr_len 0 s = s := by
  unfold established_data_app
  rw [if_neg (by decide)]

/-- C11 (amended): an accepted segment without FIN and RST that is not a SYN without ACK
and carries n > 0 payload bytes at sequence number s, arriving in ESTABLISHED. The engine
sets the receive sequence number to s + n (mod 2^32), emits exactly one datagram whose
segment is a pure ACK with that acknowledgement number, and calls `app_tcp_data_received`
once with exactly the n payload bytes, the slot being ESTABLISHED at the call;
`tcp_receive` returns the globals as the callback leaves them. -/
theorem tcp_receive_app_data (accept : Nat → Nat → Nat)
    (on_data : List Nat → Nat → Net → Net) (now : Nat) (pkt : List Nat)
    (len src_ip : Nat) (s : Net) (hb : ∀ b ∈ pkt, b < 256) (hlen : len ≤ pkt.length)
    (ha : tcp_accepts s.tcp_local_port pkt len) (hst : s.tcp_state = TCP_STATE_ESTABLISHED)
    (hfin : pkt.getD TCP_FLAGS 0 &&& TCP_FIN = 0) (hrst : pkt.getD TCP_FLAGS 0 &&& TCP_RST = 0)
    (hnq : ¬(pkt.getD TCP_FLAGS 0 &&& TCP_SYN ≠ 0 ∧ pkt.getD TCP_FLAGS 0 &&& TCP_ACK = 0))
    (hn : 0 < len - tcp_hdr_len pkt) :
    tcp_receive_app accept on_data now pkt len src_ip s =
      on_data ((pkt.drop (tcp_hdr_len pkt)).take (len - tcp_hdr_len pkt))
        (len - tcp_hdr_len pkt)
        (established_data pkt (get_u32 pkt TCP_SEQ_OFF) (tcp_hdr_len pkt)
          (len - tcp_hdr_len pkt)
          (established_ack (pkt.getD TCP_FLAGS 0) (get_u32 pkt TCP_ACK_OFF) s)) ∧
    established_data pkt (get_u32 pkt TCP_SEQ_OFF) (tcp_hdr_len pkt) (len - tcp_hdr_len pkt)
        (established_ack (pkt.getD TCP_FLAGS 0) (get_u32 pkt TCP_ACK_OFF) s) =
      { established_ack (pkt.getD TCP_FLAGS 0) (get_u32 pkt TCP_ACK_OFF) s with
        tcp_ack_num := (get_u32 pkt TCP_SEQ_OFF + (len - tcp_hdr_len pkt)) % 2 ^ 32
        tcp_seq_num := s.tcp_seq_num % 2 ^ 32
        ip_id := (s.ip_id + 1) % 2 ^ 16
        out := s.out ++ (slip_send (ip_datagram s.LOCAL_IP s.ip_id s.tcp_remote_ip IP_PROTO_TCP
            (tcp_segment
              { s with
                tcp_ack_num := (get_u32 pkt TCP_SEQ_OFF + (len - tcp_hdr_len pkt)) % 2 ^ 32 }
              TCP_ACK [] 0) 20) 40).map Event.tx_putchar ++
          [Event.app_tcp_data_received
            ((pkt.drop (tcp_hdr_len pkt)).take (len - tcp_hdr_len pkt))
            (len - tcp_hdr_len pkt)] } ∧
    (established_data pkt (get_u32 pkt TCP_SEQ_OFF) (tcp_hdr_len pkt) (len - tcp_hdr_len pkt)
      (established_ack (pkt.getD TCP_FLAGS 0) (get_u32 pkt TCP_ACK_OFF) s)).tcp_state
      = TCP_STATE_ESTABLISHED ∧
    (tcp_segment
        { s with tcp_ack_num := (get_u32 pkt TCP_SEQ_OFF + (len - tcp_hdr_len pkt)) % 2 ^ 32 }
        TCP_ACK [] 0).getD TCP_FLAGS 0 = TCP_ACK ∧
    get_u32 (tcp_segment
        { s with tcp_ack_num := (get_u32 pkt TCP_SEQ_OFF + (len - tcp_hdr_len pkt)) % 2 ^ 32 }
        TCP_ACK [] 0) TCP_ACK_OFF
      = (get_u32 pkt TCP_SEQ_OFF + (len - tcp_hdr_len pkt)) % 2 ^ 32 ∧
    ((pkt.drop (tcp_hdr_len pkt)).take (len - tcp_hdr_len pkt)).length
      = len - tcp_hdr_len pkt := by
  have hf := tcp_segment_fields
    { s with tcp_ack_num := (get_u32 pkt TCP_SEQ_OFF + (len - tcp_hdr_len pkt)) % 2 ^ 32 }
    TCP_ACK [] 0
  have e1 : tcp_receive_app accept on_data now pkt len src_ip s = _ :=
    tcp_receive_app_established accept on_data now pkt len src_ip s hb ha hst hrst hnq
  rw [if_neg (not_not.mpr hfin)] at e1
  have e2 : tcp_receive accept now pkt len src_ip s = _ :=
    tcp_receive_established accept now pkt len src_ip s hb ha hst hrst hnq
  rw [if_neg (not_not.mpr hfin)] at e2
  have e3 := established_data_segment accept now pkt len src_ip s hb ha hst hfin hrst hnq hn
  rw [e2] at e3
  refine ⟨?_, e3, ?_, hf.1, ?_, ?_⟩
  · rw [e1]
    unfold established_data_app
    rw [if_pos hn]
  · rw [(established_data_fields _ _ _ _ _).1, (established_ack_fields _ _ s).1, hst]
  · rw [hf.2.2.2.2.2.1]
    exact Nat.mod_mod _ _
  · rw [List.length_take, List.length_drop]
    omega

/-- C11 witness: after the handshake (receive sequence 101) the 8-byte PSH|ACK payload is
acknowledged with 109 and handed once to an application that only stores it; the slot is
still ESTABLISHED. -/
theorem tcp_receive_app_data_witness :
    (tcp_receive_app (fun _ _ => 1) sample_store 6 sample_get 28 0xC0A8010A
      sample_established).tcp_ack_num = 109 ∧
    (tcp_receive_app (fun _ _ => 1) sample_store 6 sample_get 28 0xC0A8010A
      sample_established).tcp_state = TCP_STATE_ESTABLISHED ∧
    data_events (tcp_receive_app (fun _ _ => 1) sample_store 6 sample_get 28 0xC0A8010A
      sample_established).out = [[0x47, 0x45, 0x54, 0x20, 0x2F, 0x0D, 0x0A, 0x0A]] := by
  have h := tcp_receive_app_data (fun _ _ => 1) sample_store 6 sample_get 28 0xC0A8010A
    sample_established (by decide) (by decide) (by decide) (by decide) (by decide) (by decide)
    (by decide) (by decide)
  refine ⟨by rw [h.1]; decide, by rw [h.1]; exact h.2.2.1, by rw [h.1]; decide⟩

/-- C11 counterexample. A segment with SYN only (no ACK, no FIN, no RST) and 8 payload
bytes that arrives in ESTABLISHED is put into the backlog: the receive sequence number
stays 101, nothing is emitted and `app_tcp_data_received` is not called. And the slot does
not always stay ESTABLISHED: the 19 payload bytes of a complete PUT request are
acknowledged with 120 and handed to the application, which answers with 35 bytes and
closes, so that `tcp_receive` returns in FIN_WAIT_1 with send sequence number 1037 after
three datagrams. -/
theorem tcp_receive_app_data_fails :
    tcp_accepts sample_established.tcp_local_port
      [0x04, 0xD3, 0x00, 0x50, 0, 0, 0, 7, 0, 0, 0, 0, 0x50, 0x02, 0x08, 0x00, 0, 0, 0, 0,
       0x47, 0x45, 0x54, 0x20, 0x2F, 0x0D, 0x0A, 0x0A] 28 ∧
    sample_established.tcp_state = TCP_STATE_ESTABLISHED ∧
    (tcp_receive_app (fun _ _ => 1) sample_store 6
      [0x04, 0xD3, 0x00, 0x50, 0, 0, 0, 7, 0, 0, 0, 0, 0x50, 0x02, 0x08, 0x00, 0, 0, 0, 0,
       0x47, 0x45, 0x54, 0x20, 0x2F, 0x0D, 0x0A, 0x0A] 28 0xC0A8010B
      sample_established).tcp_ack_num = 101 ∧
    (tcp_receive_app (fun _ _ => 1) sample_store 6
      [0x04, 0xD3, 0x00, 0x50, 0, 0, 0, 7, 0, 0, 0, 0, 0x50, 0x02, 0x08, 0x00, 0, 0, 0, 0,
       0x47, 0x45, 0x54, 0x20, 0x2F, 0x0D, 0x0A, 0x0A] 28 0xC0A8010B sample_established).out
      = sample_established.out ++ [Event.printf_queued 1] ∧
    tcp_accepts sample_established.tcp_local_port sample_put 39 ∧
    sample_put.getD TCP_FLAGS 0 = TCP_PSH ||| TCP_ACK ∧
    (tcp_receive_app (fun _ _ => 1) sample_refuse 6 sample_put 39 0xC0A8010A
      sample_established).tcp_ack_num = 120 ∧
    data_events (tcp_receive_app (fun _ _ => 1) sample_refuse 6 sample_put 39 0xC0A8010A
      sample_established).out
      = [[0x50, 0x55, 0x54, 0x20, 0x2F, 0x78, 0x20, 0x48, 0x54, 0x54, 0x50, 0x2F, 0x31, 0x2E,
          0x30, 0x0D, 0x0A, 0x0D, 0x0A]] ∧
    (tcp_receive_app (fun _ _ => 1) sample_refuse 6 sample_put 39 0xC0A8010A
      sample_established).tcp_state = TCP_STATE_FIN_WAIT_1 ∧
    (tcp_receive_app (fun _ _ => 1) sample_refuse 6 sample_put 39 0xC0A8010A
      sample_established).tcp_seq_num = 1037 ∧
    (tcp_receive_app (fun _ _ => 1) sample_refuse 6 sample_put 39 0xC0A8010A
      sample_established).ip_id = sample_established.ip_id + 3 := by
  decide

/-- What `tcp_send_flags` appends to the trace are bytes for the wire: no call of
`app_tcp_data_received` is among them. -/
theorem tcp_send_flags_data_events (flags : Nat) (data : List Nat) (n : Nat) (s : Net) :
    data_events (tcp_send_flags flags data n s).out = data_events s.out := by
  unfold tcp_send_flags ip_send
  simp only []
  rw [data_events_append, data_events_tx, List.append_nil]
  split <;> split <;> rfl

/-- A call of `tcp_send` leaves the state of the slot, the local port and the receive
sequence number as they are, and delivers nothing to the application. -/
theorem tcp_send_receive_side (now : Nat) (data : List Nat) (len : Nat) (t : Net) :
    (tcp_send now data len t).tcp_state = t.tcp_state ∧
    (tcp_send now data len t).tcp_local_port = t.tcp_local_port ∧
    (tcp_send now data len t).tcp_ack_num = t.tcp_ack_num ∧
    data_events (tcp_send now data len t).out = data_events t.out := by
  unfold tcp_send
  split
  · exact ⟨rfl, rfl, rfl, rfl⟩
  · refine ⟨?_, ?_, ?_, ?_⟩
    · rw [tcp_send_flags_frame]
      split <;> rfl
    · rw [tcp_send_flags_frame]
      split <;> rfl
    · rw [tcp_send_flags_frame]
      split <;> rfl
    · rw [tcp_send_flags_data_events]
      split <;> rfl

/-- C12 (amended): the ESTABLISHED case does not compare the sequence number of a segment
with the receive sequence number. For every run of data segments (accepted, without FIN
and RST, not a SYN without ACK, at least one payload byte) that arrives in ESTABLISHED,
whatever their sequence numbers, and every application whose data callback leaves the
state of the slot, the local port and the receive sequence number as they are and does not
deliver data itself (it may send): the slot stays ESTABLISHED, `app_tcp_data_received` is
called once for each segment, in order of arrival, with the payload of that segment, and
the receive sequence number ends as sequence number + payload length (mod 2^32) of the
last segment. -/
theorem tcp_receive_all_app_data (accept : Nat → Nat → Nat)
    (on_data : List Nat → Nat → Net → Net) (segs : List Inbound) (s : Net)
    (hst : s.tcp_state = TCP_STATE_ESTABLISHED)
    (hsegs : ∀ i ∈ segs, is_data_segment s.tcp_local_port i)
    (hcb : ∀ d n t, (on_data d n t).tcp_state = t.tcp_state ∧
      (on_data d n t).tcp_local_port = t.tcp_local_port ∧
      (on_data d n t).tcp_ack_num = t.tcp_ack_num ∧
      data_events (on_data d n t).out = data_events t.out) :
    (tcp_receive_all_app accept on_data segs s).tcp_state = TCP_STATE_ESTABLISHED ∧
    data_events (tcp_receive_all_app accept on_data segs s).out
      = data_events s.out ++ segs.map tcp_payload ∧
    ∀ i, segs.getLast? = some i →
      (tcp_receive_all_app accept on_data segs s).tcp_ack_num
        = (get_u32 i.pkt TCP_SEQ_OFF + (i.len - tcp_hdr_len i.pkt)) % 2 ^ 32 := by
  induction segs generalizing s with
  | nil => exact ⟨hst, by simp [tcp_receive_all_app], by simp⟩
  | cons i rest ih =>
    obtain ⟨hb, hlen, ha, hfin, hrst, hnq, hn⟩ := hsegs i (List.mem_cons_self _ _)
    have e0 : tcp_receive_app accept on_data i.now i.pkt i.len i.src_ip s = _ :=
      tcp_receive_app_established accept on_data i.now i.pkt i.len i.src_ip s hb ha hst hrst hnq
    rw [if_neg (not_not.mpr hfin)] at e0
    have e : tcp_receive_app accept on_data i.now i.pkt i.len i.src_ip s =
        on_data ((i.pkt.drop (tcp_hdr_len i.pkt)).take (i.len - tcp_hdr_len i.pkt))
          (i.len - tcp_hdr_len i.pkt)
          (tcp_receive accept i.now i.pkt i.len i.src_ip s) := by
      have e2 : tcp_receive accept i.now i.pkt i.len i.src_ip s = _ :=
        tcp_receive_established accept i.now i.pkt i.len i.src_ip s hb ha hst hrst hnq
      rw [if_neg (not_not.mpr hfin)] at e2
      rw [e0, e2]
      unfold established_data_app
      rw [if_pos hn]
    have e3 := established_data_segment accept i.now i.pkt i.len i.src_ip s hb ha hst hfin hrst
      hnq hn
    obtain ⟨f1, f2, -⟩ :=
      established_ack_fields (i.pkt.getD TCP_FLAGS 0) (get_u32 i.pkt TCP_ACK_OFF) s
    obtain ⟨c1, c2, c3, c4⟩ := hcb
      ((i.pkt.drop (tcp_hdr_len i.pkt)).take (i.len - tcp_hdr_len i.pkt))
      (i.len - tcp_hdr_len i.pkt) (tcp_receive accept i.now i.pkt i.len i.src_ip s)
    have h1 : (tcp_receive_app accept on_data i.now i.pkt i.len i.src_ip s).tcp_state
        = TCP_STATE_ESTABLISHED := by
      rw [e, c1, e3]; exact f1.trans hst
    have h2 : (tcp_receive_app accept on_data i.now i.pkt i.len i.src_ip s).tcp_local_port
        = s.tcp_local_port := by
      rw [e, c2, e3]; exact f2
    have h3 : data_events (tcp_receive_app accept on_data i.now i.pkt i.len i.src_ip s).out
        = data_events s.out ++ [tcp_payload i] := by
      rw [e, c4, e3]
      show data_events (_ ++ _ ++ _) = _
      rw [data_events_append, data_events_append, data_events_tx, List.append_nil]
      rfl
    have h4 : (tcp_receive_app accept on_data i.now i.pkt i.len i.src_ip s).tcp_ack_num
        = (get_u32 i.pkt TCP_SEQ_OFF + (i.len - tcp_hdr_len i.pkt)) % 2 ^ 32 := by
      rw [e, c3, e3]
    obtain ⟨r1, r2, r3⟩ := ih (tcp_receive_app accept on_data i.now i.pkt i.len i.src_ip s) h1
      (fun j hj => by rw [h2]; exact hsegs j (List.mem_cons_of_mem _ hj))
    refine ⟨r1, ?_, ?_⟩
    · show data_events (tcp_receive_all_app accept on_data rest _).out = _
      rw [r2, h3]
      simp
    · intro j hj
      show (tcp_receive_all_app accept on_data rest _).tcp_ack_num = _
      cases rest with
      | nil =>
        simp only [List.getLast?_singleton, Option.some.injEq] at hj
        subst hj
        exact h4
      | cons k rest2 =>
        rw [List.getLast?_cons_cons] at hj
        exact r3 j hj

/-- C12 witness: with an application that sends back what it gets, the short GET at
sequence number 101, then the same segment again (a duplicate), then a segment at sequence
number 200 (out of order): three calls of `app_tcp_data_received`, and the receive
sequence number ends at 208. -/
theorem tcp_receive_all_app_data_witness :
    data_events (tcp_receive_all_app (fun _ _ => 1) sample_echo_back
        [⟨sample_get, 28, 0xC0A8010A, 6⟩, ⟨sample_get, 28, 0xC0A8010A, 7⟩,
         ⟨(sample_get.set 7 200), 28, 0xC0A8010A, 8⟩] sample_established).out
      = [[0x47, 0x45, 0x54, 0x20, 0x2F, 0x0D, 0x0A, 0x0A],
         [0x47, 0x45, 0x54, 0x20, 0x2F, 0x0D, 0x0A, 0x0A],
         [0x47, 0x45, 0x54, 0x20, 0x2F, 0x0D, 0x0A, 0x0A]] ∧
    (tcp_receive_all_app (fun _ _ => 1) sample_echo_back
        [⟨sample_get, 28, 0xC0A8010A, 6⟩, ⟨sample_get, 28, 0xC0A8010A, 7⟩,
         ⟨(sample_get.set 7 200), 28, 0xC0A8010A, 8⟩] sample_established).tcp_ack_num
      = 208 := by
  have h := tcp_receive_all_app_data (fun _ _ => 1) sample_echo_back
    [⟨sample_get, 28, 0xC0A8010A, 6⟩, ⟨sample_get, 28, 0xC0A8010A, 7⟩,
     ⟨(sample_get.set 7 200), 28, 0xC0A8010A, 8⟩] sample_established (by decide) (by decide)
    (fun d n t => tcp_send_receive_side 6 d n t)
  exact ⟨by rw [h.2.1]; decide, by rw [h.2.2 _ rfl]; decide⟩

/-- C12 counterexample: after the short GET (sequence number 101, receive sequence number
then 109), a segment whose sequence number 200 is not the expected 109 is accepted: its
payload goes to `app_tcp_data_received` and the receive sequence number becomes 208; and
the duplicate of the GET is handed to the application a second time. The application only
stores the bytes (the requests are incomplete). -/
theorem tcp_receive_app_out_of_order :
    (tcp_receive_app (fun _ _ => 1) sample_store 6 sample_get 28 0xC0A8010A
      sample_established).tcp_ack_num = 109 ∧
    get_u32 (sample_get.set 7 200) TCP_SEQ_OFF = 200 ∧
    data_events (tcp_receive_all_app (fun _ _ => 1) sample_store
        [⟨sample_get, 28, 0xC0A8010A, 6⟩, ⟨(sample_get.set 7 200), 28, 0xC0A8010A, 7⟩]
        sample_established).out
      = [[0x47, 0x45, 0x54, 0x20, 0x2F, 0x0D, 0x0A, 0x0A],
         [0x47, 0x45, 0x54, 0x20, 0x2F, 0x0D, 0x0A, 0x0A]] ∧
    (tcp_receive_all_app (fun _ _ => 1) sample_store
        [⟨sample_get, 28, 0xC0A8010A, 6⟩, ⟨(sample_get.set 7 200), 28, 0xC0A8010A, 7⟩]
        sample_established).tcp_ack_num = 208 ∧
    data_events (tcp_receive_all_app (fun _ _ => 1) sample_store
        [⟨sample_get, 28, 0xC0A8010A, 6⟩, ⟨sample_get, 28, 0xC0A8010A, 7⟩]
        sample_established).out
      = [[0x47, 0x45, 0x54, 0x20, 0x2F, 0x0D, 0x0A, 0x0A],
         [0x47, 0x45, 0x54, 0x20, 0x2F, 0x0D, 0x0A, 0x0A]] ∧
    (tcp_receive_all_app (fun _ _ => 1) sample_store
        [⟨sample_get, 28, 0xC0A8010A, 6⟩, ⟨sample_get, 28, 0xC0A8010A, 7⟩]
        sample_established).tcp_ack_num = 109 := by
  decide

/-- C13 (amended): an accepted segment with FIN and without RST that is not a SYN without
ACK, at sequence number s with n ≥ 0 payload bytes, arriving in ESTABLISHED. Let `d` be the
globals after the ACK step and the data step (for n > 0 the engine's ACK and what the data
callback of the application does; for n = 0 the ACK step alone). The engine then sets the
receive sequence number to s + n + 1 (mod 2^32), emits one datagram whose segment has the
flags FIN|ACK and that acknowledgement number, moves to LISTEN, reports
`app_tcp_state_changed(ESTABLISHED, LISTEN, remote IP, remote port)` and then runs
`tcp_process_queue` on that state. -/
theorem tcp_receive_app_fin (accept : Nat → Nat → Nat)
    (on_data : List Nat → Nat → Net → Net) (now : Nat) (pkt : List Nat)
    (len src_ip : Nat) (s d : Net) (hb : ∀ b ∈ pkt, b < 256)
    (ha : tcp_accepts s.tcp_local_port pkt len) (hst : s.tcp_state = TCP_STATE_ESTABLISHED)
    (hfin : pkt.getD TCP_FLAGS 0 &&& TCP_FIN ≠ 0) (hrst : pkt.getD TCP_FLAGS 0 &&& TCP_RST = 0)
    (hnq : ¬(pkt.getD TCP_FLAGS 0 &&& TCP_SYN ≠ 0 ∧ pkt.getD TCP_FLAGS 0 &&& TCP_ACK = 0))
    (hd : d = established_data_app on_data pkt (get_u32 pkt TCP_SEQ_OFF) (tcp_hdr_len pkt)
      (len - tcp_hdr_len pkt)
      (established_ack (pkt.getD TCP_FLAGS 0) (get_u32 pkt TCP_ACK_OFF) s)) :
    tcp_receive_app accept on_data now pkt len src_ip s =
      tcp_process_queue accept now
        { d with
          tcp_ack_num := (get_u32 pkt TCP_SEQ_OFF + (len - tcp_hdr_len pkt) + 1) % 2 ^ 32
          tcp_seq_num := (d.tcp_seq_num + 1) % 2 ^ 32
          ip_id := (d.ip_id + 1) % 2 ^ 16
          tcp_state := TCP_STATE_LISTEN
          out := d.out ++ (slip_send (ip_datagram d.LOCAL_IP d.ip_id d.tcp_remote_ip
              IP_PROTO_TCP
              (tcp_segment
                { d with tcp_ack_num :=
                    (get_u32 pkt TCP_SEQ_OFF + (len - tcp_hdr_len pkt) + 1) % 2 ^ 32 }
                (TCP_FIN ||| TCP_ACK) [] 0) 20) 40).map Event.tx_putchar ++
            [Event.app_tcp_state_changed TCP_STATE_ESTABLISHED TCP_STATE_LISTEN
              d.tcp_remote_ip d.tcp_remote_port] } ∧
    (tcp_segment
        { d with tcp_ack_num :=
            (get_u32 pkt TCP_SEQ_OFF + (len - tcp_hdr_len pkt) + 1) % 2 ^ 32 }
        (TCP_FIN ||| TCP_ACK) [] 0).getD TCP_FLAGS 0 = TCP_FIN ||| TCP_ACK ∧
    get_u32 (tcp_segment
        { d with tcp_ack_num :=
            (get_u32 pkt TCP_SEQ_OFF + (len - tcp_hdr_len pkt) + 1) % 2 ^ 32 }
        (TCP_FIN ||| TCP_ACK) [] 0) TCP_ACK_OFF
      = (get_u32 pkt TCP_SEQ_OFF + (len - tcp_hdr_len pkt) + 1) % 2 ^ 32 ∧
    (len - tcp_hdr_len pkt = 0 →
      d = established_ack (pkt.getD TCP_FLAGS 0) (get_u32 pkt TCP_ACK_OFF) s ∧
      d.tcp_remote_ip = s.tcp_remote_ip ∧ d.tcp_remote_port = s.tcp_remote_port ∧
      d.tcp_seq_num = s.tcp_seq_num ∧ d.out = s.out) ∧
    (0 < len - tcp_hdr_len pkt →
      d = on_data ((pkt.drop (tcp_hdr_len pkt)).take (len - tcp_hdr_len pkt))
        (len - tcp_hdr_len pkt)
        (established_data pkt (get_u32 pkt TCP_SEQ_OFF) (tcp_hdr_len pkt)
          (len - tcp_hdr_len pkt)
          (established_ack (pkt.getD TCP_FLAGS 0) (get_u32 pkt TCP_ACK_OFF) s))) := by
  have hf := tcp_segment_fields
    { d with tcp_ack_num := (get_u32 pkt TCP_SEQ_OFF + (len - tcp_hdr_len pkt) + 1) % 2 ^ 32 }
    (TCP_FIN ||| TCP_ACK) [] 0
  obtain ⟨_, _, g3, g4, g5, _, _, _, g9, _, _⟩ :=
    established_ack_fields (pkt.getD TCP_FLAGS 0) (get_u32 pkt TCP_ACK_OFF) s
  have e : tcp_receive_app accept on_data now pkt len src_ip s = _ :=
    tcp_receive_app_established accept on_data now pkt len src_ip s hb ha hst hrst hnq
  rw [if_pos hfin, ← hd] at e
  refine ⟨?_, hf.1, ?_, ?_, ?_⟩
  · rw [e, tcp_send_flags_small (TCP_FIN ||| TCP_ACK) [] 0 1 _ (by decide) (by decide)]
    rfl
  · rw [hf.2.2.2.2.2.1]
    exact Nat.mod_mod _ _
  · intro h0
    have hd0 : d = established_ack (pkt.getD TCP_FLAGS 0) (get_u32 pkt TCP_ACK_OFF) s := by
      rw [hd, h0, established_data_app_zero]
    rw [hd0]
    exact ⟨rfl, g4, g3, g5, g9⟩
  · intro hn
    rw [hd]
    unfold established_data_app
    rw [if_pos hn]

/-- C13 witness: the FIN|ACK of the peer at sequence number 101 without payload, with
an empty backlog: the receive sequence number becomes 102 and the slot is in LISTEN, the
last event is the state change. -/
theorem tcp_receive_app_fin_witness :
    (tcp_receive_app (fun _ _ => 1) sample_refuse 6 sample_fin 20 0xC0A8010A
      sample_established).tcp_ack_num = 102 ∧
    (tcp_receive_app (fun _ _ => 1) sample_refuse 6 sample_fin 20 0xC0A8010A
      sample_established).tcp_state = TCP_STATE_LISTEN ∧
    (tcp_receive_app (fun _ _ => 1) sample_refuse 6 sample_fin 20 0xC0A8010A
      sample_established).out.getLast?
      = some (Event.app_tcp_state_changed TCP_STATE_ESTABLISHED TCP_STATE_LISTEN
          0xC0A8010A 1234) := by
  have h := tcp_receive_app_fin (fun _ _ => 1) sample_refuse 6 sample_fin 20 0xC0A8010A
    sample_established _ (by decide) (by decide) (by decide) (by decide) (by decide)
    (by decide) rfl
  refine ⟨by rw [h.1]; decide, by rw [h.1]; decide, by rw [h.1]; decide⟩

/-- C13 counterexample: a segment with FIN and SYN and without ACK and RST that arrives
in ESTABLISHED is put into the backlog: the slot stays ESTABLISHED, the receive
sequence number stays 101 and nothing is emitted. -/
theorem tcp_receive_app_fin_fails :
    tcp_accepts sample_established.tcp_local_port
      [0x04, 0xD3, 0x00, 0x50, 0, 0, 0, 7, 0, 0, 0, 0, 0x50, 0x03, 0x08, 0x00, 0, 0, 0, 0] 20 ∧
    sample_established.tcp_state = TCP_STATE_ESTABLISHED ∧
    (tcp_receive_app (fun _ _ => 1) sample_refuse 6
      [0x04, 0xD3, 0x00, 0x50, 0, 0, 0, 7, 0, 0, 0, 0, 0x50, 0x03, 0x08, 0x00, 0, 0, 0, 0]
      20 0xC0A8010B sample_established).tcp_state = TCP_STATE_ESTABLISHED ∧
    (tcp_receive_app (fun _ _ => 1) sample_refuse 6
      [0x04, 0xD3, 0x00, 0x50, 0, 0, 0, 7, 0, 0, 0, 0, 0x50, 0x03, 0x08, 0x00, 0, 0, 0, 0]
      20 0xC0A8010B sample_established).tcp_ack_num = 101 ∧
    (tcp_receive_app (fun _ _ => 1) sample_refuse 6
      [0x04, 0xD3, 0x00, 0x50, 0, 0, 0, 7, 0, 0, 0, 0, 0x50, 0x03, 0x08, 0x00, 0, 0, 0, 0]
      20 0xC0A8010B sample_established).out
      = sample_established.out ++ [Event.printf_queued 1] := by
  decide

/-- The ACK step of the ESTABLISHED case with ACK set: last-ack becomes the
acknowledgement number, the cell is emptied exactly when it held something and the number
reaches (recorded sequence number + cell length) mod 2^32, and nothing else of the cell
changes. -/
theorem established_ack_set (flags a : Nat) (s : Net) (h : flags &&& TCP_ACK ≠ 0) :
    (established_ack flags a s).tcp_last_ack = a ∧
    retx_cell (established_ack flags a s) =
      (s.retx_buf,
       (if s.retx_len > 0 ∧ a ≥ (s.retx_seq + s.retx_len) % 2 ^ 32 then 0 else s.retx_len),
       s.retx_seq, s.retx_time, s.retx_attempts) := by
  unfold established_ack
  rw [if_pos h]
  simp only []
  split
  · exact ⟨rfl, rfl⟩
  · exact ⟨rfl, rfl⟩

/-- The ACK step of the ESTABLISHED case without ACK: nothing changes. -/
theorem established_ack_clear (flags a : Nat) (s : Net) (h : flags &&& TCP_ACK = 0) :
    established_ack flags a s = s := by
  unfold established_ack
  rw [if_neg (not_not.mpr h)]

/-- The FIN step of the ESTABLISHED case leaves last-ack and the retransmit cell as the
data step leaves them. -/
theorem established_fin_cell (accept : Nat → Nat → Nat) (now : Nat) (flags k : Nat) (d : Net) :
    (if flags &&& TCP_FIN ≠ 0 then
        tcp_back_to_listen accept now TCP_STATE_ESTABLISHED
          (tcp_send_flags (TCP_FIN ||| TCP_ACK) [] 0 { d with tcp_ack_num := k })
      else d).tcp_last_ack = d.tcp_last_ack ∧
    retx_cell (if flags &&& TCP_FIN ≠ 0 then
        tcp_back_to_listen accept now TCP_STATE_ESTABLISHED
          (tcp_send_flags (TCP_FIN ||| TCP_ACK) [] 0 { d with tcp_ack_num := k })
      else d) = retx_cell d := by
  split
  · rw [(tcp_back_to_listen_cell _ _ _ _).1, (tcp_back_to_listen_cell _ _ _ _).2,
      (tcp_send_flags_cell _ _ _ _).1, (tcp_send_flags_cell _ _ _ _).2]
    exact ⟨rfl, rfl⟩
  · exact ⟨rfl, rfl⟩

/-- C26 (amended): for an accepted segment in ESTABLISHED with acknowledgement number a
and n payload bytes. With ACK set and RST clear the engine first does the ACK step, in
which last-ack becomes a and the cell is emptied exactly when it held something and
a ≥ (recorded sequence number + cell length) mod 2^32, compared as unsigned 32-bit
numbers, the cell's bytes, sequence number, send time and attempt counter staying as they
were; the data step and the FIN step follow, and the engine's part of them keeps last-ack
and the cell, so that this is the state in which the data callback is called and, when
there is no payload or the callback leaves last-ack and the cell alone, the state at the
return of `tcp_receive`. Without ACK (whatever the other flags) the engine leaves the
whole cell and last-ack as they were, up to the call of the data callback and, under the
same condition, at the return. -/
theorem tcp_receive_app_established_ack (accept : Nat → Nat → Nat)
    (on_data : List Nat → Nat → Net → Net) (now : Nat) (pkt : List Nat)
    (len src_ip : Nat) (s : Net) (hb : ∀ b ∈ pkt, b < 256)
    (ha : tcp_accepts s.tcp_local_port pkt len) (hst : s.tcp_state = TCP_STATE_ESTABLISHED)
    (hkeep : len - tcp_hdr_len pkt = 0 ∨
      ∀ d n t, (on_data d n t).tcp_last_ack = t.tcp_last_ack ∧
        retx_cell (on_data d n t) = retx_cell t) :
    (pkt.getD TCP_FLAGS 0 &&& TCP_ACK ≠ 0 → pkt.getD TCP_FLAGS 0 &&& TCP_RST = 0 →
      tcp_receive_app accept on_data now pkt len src_ip s =
        (if pkt.getD TCP_FLAGS 0 &&& TCP_FIN ≠ 0 then
          tcp_back_to_listen accept now TCP_STATE_ESTABLISHED
            (tcp_send_flags (TCP_FIN ||| TCP_ACK) [] 0
              { established_data_app on_data pkt (get_u32 pkt TCP_SEQ_OFF) (tcp_hdr_len pkt)
                  (len - tcp_hdr_len pkt)
                  (established_ack (pkt.getD TCP_FLAGS 0) (get_u32 pkt TCP_ACK_OFF) s)
                with tcp_ack_num :=
                  (get_u32 pkt TCP_SEQ_OFF + (len - tcp_hdr_len pkt) + 1) % 2 ^ 32 })
        else established_data_app on_data pkt (get_u32 pkt TCP_SEQ_OFF) (tcp_hdr_len pkt)
          (len - tcp_hdr_len pkt)
          (established_ack (pkt.getD TCP_FLAGS 0) (get_u32 pkt TCP_ACK_OFF) s)) ∧
      (established_data pkt (get_u32 pkt TCP_SEQ_OFF) (tcp_hdr_len pkt) (len - tcp_hdr_len pkt)
        (established_ack (pkt.getD TCP_FLAGS 0) (get_u32 pkt TCP_ACK_OFF) s)).tcp_last_ack
        = get_u32 pkt TCP_ACK_OFF ∧
      retx_cell (established_data pkt (get_u32 pkt TCP_SEQ_OFF) (tcp_hdr_len pkt)
        (len - tcp_hdr_len pkt)
        (established_ack (pkt.getD TCP_FLAGS 0) (get_u32 pkt TCP_ACK_OFF) s)) =
        (s.retx_buf,
         (if s.retx_len > 0 ∧ get_u32 pkt TCP_ACK_OFF ≥ (s.retx_seq + s.retx_len) % 2 ^ 32
          then 0 else s.retx_len),
         s.retx_seq, s.retx_time, s.retx_attempts) ∧
      (tcp_receive_app accept on_data now pkt len src_ip s).tcp_last_ack
        = get_u32 pkt TCP_ACK_OFF ∧
      retx_cell (tcp_receive_app accept on_data now pkt len src_ip s) =
        (s.retx_buf,
         (if s.retx_len > 0 ∧ get_u32 pkt TCP_ACK_OFF ≥ (s.retx_seq + s.retx_len) % 2 ^ 32
          then 0 else s.retx_len),
         s.retx_seq, s.retx_time, s.retx_attempts)) ∧
    (pkt.getD TCP_FLAGS 0 &&& TCP_ACK = 0 →
      (established_data pkt (get_u32 pkt TCP_SEQ_OFF) (tcp_hdr_len pkt) (len - tcp_hdr_len pkt)
        (established_ack (pkt.getD TCP_FLAGS 0) (get_u32 pkt TCP_ACK_OFF) s)).tcp_last_ack
        = s.tcp_last_ack ∧
      retx_cell (established_data pkt (get_u32 pkt TCP_SEQ_OFF) (tcp_hdr_len pkt)
        (len - tcp_hdr_len pkt)
        (established_ack (pkt.getD TCP_FLAGS 0) (get_u32 pkt TCP_ACK_OFF) s)) = retx_cell s ∧
      (tcp_receive_app accept on_data now pkt len src_ip s).tcp_last_ack = s.tcp_last_ack ∧
      retx_cell (tcp_receive_app accept on_data now pkt len src_ip s) = retx_cell s) := by
  have hdata : ∀ u : Net,
      (established_data_app on_data pkt (get_u32 pkt TCP_SEQ_OFF) (tcp_hdr_len pkt)
        (len - tcp_hdr_len pkt) u).tcp_last_ack = u.tcp_last_ack ∧
      retx_cell (established_data_app on_data pkt (get_u32 pkt TCP_SEQ_OFF) (tcp_hdr_len pkt)
        (len - tcp_hdr_len pkt) u) = retx_cell u := by
    intro u
    rcases hkeep with h0 | hk
    · rw [h0, established_data_app_zero]
      exact ⟨rfl, rfl⟩
    · unfold established_data_app
      obtain ⟨d1, d2⟩ := established_data_cell pkt (get_u32 pkt TCP_SEQ_OFF) (tcp_hdr_len pkt)
        (len - tcp_hdr_len pkt) u
      split
      · rw [(hk _ _ _).1, (hk _ _ _).2]
        exact ⟨d2, d1⟩
      · exact ⟨rfl, rfl⟩
  have hfinal : ∀ u : Net,
      (if pkt.getD TCP_FLAGS 0 &&& TCP_FIN ≠ 0 then
        tcp_back_to_listen accept now TCP_STATE_ESTABLISHED
          (tcp_send_flags (TCP_FIN ||| TCP_ACK) [] 0
            { established_data_app on_data pkt (get_u32 pkt TCP_SEQ_OFF) (tcp_hdr_len pkt)
                (len - tcp_hdr_len pkt) u
              with tcp_ack_num :=
                (get_u32 pkt TCP_SEQ_OFF + (len - tcp_hdr_len pkt) + 1) % 2 ^ 32 })
      else established_data_app on_data pkt (get_u32 pkt TCP_SEQ_OFF) (tcp_hdr_len pkt)
        (len - tcp_hdr_len pkt) u).tcp_last_ack = u.tcp_last_ack ∧
      retx_cell (if pkt.getD TCP_FLAGS 0 &&& TCP_FIN ≠ 0 then
        tcp_back_to_listen accept now TCP_STATE_ESTABLISHED
          (tcp_send_flags (TCP_FIN ||| TCP_ACK) [] 0
            { established_data_app on_data pkt (get_u32 pkt TCP_SEQ_OFF) (tcp_hdr_len pkt)
                (len - tcp_hdr_len pkt) u
              with tcp_ack_num :=
                (get_u32 pkt TCP_SEQ_OFF + (len - tcp_hdr_len pkt) + 1) % 2 ^ 32 })
      else established_data_app on_data pkt (get_u32 pkt TCP_SEQ_OFF) (tcp_hdr_len pkt)
        (len - tcp_hdr_len pkt) u) = retx_cell u := by
    intro u
    obtain ⟨f1, f2⟩ := established_fin_cell accept now (pkt.getD TCP_FLAGS 0)
      ((get_u32 pkt TCP_SEQ_OFF + (len - tcp_hdr_len pkt) + 1) % 2 ^ 32)
      (established_data_app on_data pkt (get_u32 pkt TCP_SEQ_OFF) (tcp_hdr_len pkt)
        (len - tcp_hdr_len pkt) u)
    obtain ⟨d1, d2⟩ := hdata u
    exact ⟨f1.trans d1, f2.trans d2⟩
  obtain ⟨c1, c2⟩ := established_data_cell pkt (get_u32 pkt TCP_SEQ_OFF) (tcp_hdr_len pkt)
    (len - tcp_hdr_len pkt)
    (established_ack (pkt.getD TCP_FLAGS 0) (get_u32 pkt TCP_ACK_OFF) s)
  constructor
  · intro hack hrst
    have e := tcp_receive_app_established accept on_data now pkt len src_ip s hb ha hst hrst
      (fun h => hack h.2)
    obtain ⟨a1, a2⟩ := established_ack_set (pkt.getD TCP_FLAGS 0) (get_u32 pkt TCP_ACK_OFF) s
      hack
    obtain ⟨h1, h2⟩ := hfinal (established_ack (pkt.getD TCP_FLAGS 0)
      (get_u32 pkt TCP_ACK_OFF) s)
    refine ⟨e, c2.trans a1, c1.trans a2, ?_, ?_⟩
    · rw [e, h1]
      exact a1
    · rw [e, h2]
      exact a2
  · intro hack
    have e0 := established_ack_clear (pkt.getD TCP_FLAGS 0) (get_u32 pkt TCP_ACK_OFF) s hack
    rw [e0] at c1 c2
    refine ⟨by rw [e0]; exact c2, by rw [e0]; exact c1, ?_⟩
    by_cases hsyn : pkt.getD TCP_FLAGS 0 &&& TCP_SYN ≠ 0
    · rw [tcp_receive_app_of_accepts accept on_data now pkt len src_ip s hb ha]
      unfold tcp_input_app
      rw [if_pos ⟨hsyn, hack, by rw [hst]; decide⟩]
      simp only [Net.emit]
      unfold conn_queue_add
      rw [conn_queue_add_loop_frame]
      exact ⟨rfl, rfl⟩
    · by_cases hrst : pkt.getD TCP_FLAGS 0 &&& TCP_RST = 0
      · rw [tcp_receive_app_established accept on_data now pkt len src_ip s hb ha hst hrst
          (fun h => hsyn h.1)]
        obtain ⟨h1, h2⟩ := hfinal (established_ack (pkt.getD TCP_FLAGS 0)
          (get_u32 pkt TCP_ACK_OFF) s)
        rw [h1, h2, e0]
        exact ⟨rfl, rfl⟩
      · rw [tcp_receive_app_of_accepts accept on_data now pkt len src_ip s hb ha]
        unfold tcp_input_app
        rw [if_neg (by rintro ⟨h, _⟩; exact hsyn h), if_pos hrst,
          if_pos ⟨by rw [hst]; decide, by rw [hst]; decide⟩]
        exact ⟨(tcp_back_to_listen_cell _ _ _ _).2, (tcp_back_to_listen_cell _ _ _ _).1⟩

/-- C26 witness: five bytes were sent at sequence number 1001; an ACK with
acknowledgement number 1003 covers part of the cell and leaves it, an ACK with 1006
covers it and empties it. The segments carry no payload. -/
theorem tcp_receive_app_established_ack_witness :
    (tcp_receive_app (fun _ _ => 1) sample_refuse 8 (sample_ack.set 11 0xEB) 20 0xC0A8010A
      (tcp_send 7 [72, 69, 76, 76, 79] 5 sample_established)).retx_len = 5 ∧
    (tcp_receive_app (fun _ _ => 1) sample_refuse 8 (sample_ack.set 11 0xEB) 20 0xC0A8010A
      (tcp_send 7 [72, 69, 76, 76, 79] 5 sample_established)).tcp_last_ack = 1003 ∧
    (tcp_receive_app (fun _ _ => 1) sample_refuse 8 (sample_ack.set 11 0xEE) 20 0xC0A8010A
      (tcp_send 7 [72, 69, 76, 76, 79] 5 sample_established)).retx_len = 0 ∧
    (tcp_receive_app (fun _ _ => 1) sample_refuse 8 (sample_ack.set 11 0xEE) 20 0xC0A8010A
      (tcp_send 7 [72, 69, 76, 76, 79] 5 sample_established)).tcp_last_ack = 1006 := by
  have h1 := (tcp_receive_app_established_ack (fun _ _ => 1) sample_refuse 8
    (sample_ack.set 11 0xEB) 20 0xC0A8010A (tcp_send 7 [72, 69, 76, 76, 79] 5 sample_established)
    (by decide) (by decide) (by decide) (Or.inl (by decide))).1 (by decide) (by decide)
  have h2 := (tcp_receive_app_established_ack (fun _ _ => 1) sample_refuse 8
    (sample_ack.set 11 0xEE) 20 0xC0A8010A (tcp_send 7 [72, 69, 76, 76, 79] 5 sample_established)
    (by decide) (by decide) (by decide) (Or.inl (by decide))).1 (by decide) (by decide)
  have g1 := congrArg (fun c : List Nat × Nat × Nat × Nat × Nat => c.2.1) h1.2.2.2.2
  have g2 := congrArg (fun c : List Nat × Nat × Nat × Nat × Nat => c.2.1) h2.2.2.2.2
  exact ⟨g1.trans (by decide), h1.2.2.2.1.trans (by decide), g2.trans (by decide),
    h2.2.2.2.1.trans (by decide)⟩

/-- C26 counterexample. A segment with RST and ACK (acknowledgement number 1006) that
arrives in ESTABLISHED while the cell holds five bytes sent at 1001: the reset rule takes
it, last-ack stays 1001 and the cell is not emptied. And a segment with ACK 1003, which
covers only part of the cell (five bytes sent at 1001 at tick 5), that carries the
complete PUT request: at the return of `tcp_receive` the cell is not as it was, because the
application has answered inside the data callback; its 35 bytes are recorded at sequence
number 1006 with send time 6, and its `tcp_close` has set the length of the cell to 0. -/
theorem tcp_receive_app_established_ack_fails :
    tcp_accepts (tcp_send 7 [72, 69, 76, 76, 79] 5 sample_established).tcp_local_port
      (sample_rst.set 11 0xEE) 20 ∧
    (sample_rst.set 11 0xEE).getD TCP_FLAGS 0 &&& TCP_ACK ≠ 0 ∧
    get_u32 (sample_rst.set 11 0xEE) TCP_ACK_OFF = 1006 ∧
    (tcp_send 7 [72, 69, 76, 76, 79] 5 sample_established).tcp_state
      = TCP_STATE_ESTABLISHED ∧
    (tcp_receive_app (fun _ _ => 1) sample_refuse 8 (sample_rst.set 11 0xEE) 20 0xC0A8010A
      (tcp_send 7 [72, 69, 76, 76, 79] 5 sample_established)).tcp_last_ack = 1001 ∧
    (tcp_receive_app (fun _ _ => 1) sample_refuse 8 (sample_rst.set 11 0xEE) 20 0xC0A8010A
      (tcp_send 7 [72, 69, 76, 76, 79] 5 sample_established)).retx_len = 5 ∧
    tcp_accepts (tcp_send 5 [72, 69, 76, 76, 79] 5 sample_established).tcp_local_port
      (sample_put.set 11 0xEB) 39 ∧
    (sample_put.set 11 0xEB).getD TCP_FLAGS 0 = TCP_PSH ||| TCP_ACK ∧
    get_u32 (sample_put.set 11 0xEB) TCP_ACK_OFF = 1003 ∧
    retx_cell (tcp_send 5 [72, 69, 76, 76, 79] 5 sample_established)
      = ([72, 69, 76, 76, 79] ++ List.replicate 59 0, 5, 1001, 5, 0) ∧
    (tcp_receive_app (fun _ _ => 1) sample_refuse 6 (sample_put.set 11 0xEB) 39 0xC0A8010A
      (tcp_send 5 [72, 69, 76, 76, 79] 5 sample_established)).tcp_last_ack = 1003 ∧
    retx_cell (tcp_receive_app (fun _ _ => 1) sample_refuse 6 (sample_put.set 11 0xEB) 39
      0xC0A8010A (tcp_send 5 [72, 69, 76, 76, 79] 5 sample_established))
      = (sample_405 ++ List.replicate 29 0, 0, 1006, 6, 0) := by
  decide

/-! ## The checksum field of an inbound segment -/

/-- A segment that fails the acceptance tests is dropped. -/
theorem tcp_receive_app_of_not_accepts (accept : Nat → Nat → Nat)
    (on_data : List Nat → Nat → Net → Net) (now : Nat) (pkt : List Nat)
    (len src_ip : Nat) (s : Net) (hb : ∀ b ∈ pkt, b < 256)
    (hna : ¬ tcp_accepts s.tcp_local_port pkt len) :
    tcp_receive_app accept on_data now pkt len src_ip s = s := by
  unfold tcp_receive_app
  simp only [tcp_hdr_len_eq pkt hb, get_u16_eq pkt TCP_DST_PORT hb, TCP_HEADER_LEN,
    TCP_DST_PORT, Nat.reduceAdd]
  split_ifs with h1 h2 h3
  · rfl
  · rfl
  · rfl
  · exact absurd ⟨by omega, by omega, by omega, not_not.mp h3⟩ hna

/-- A 16-bit field that does not overlap the checksum field reads the same after the
checksum field is overwritten. -/
theorem get_u16_put_checksum (pkt : List Nat) (c off : Nat) (h : off + 1 < TCP_CHECKSUM) :
    get_u16 (put_u16 pkt TCP_CHECKSUM c) off = get_u16 pkt off := by
  simp only [TCP_CHECKSUM] at h
  unfold get_u16
  rw [getD_put_u16_ne pkt TCP_CHECKSUM c off (by simp only [TCP_CHECKSUM]; omega)
      (by simp only [TCP_CHECKSUM]; omega),
    getD_put_u16_ne pkt TCP_CHECKSUM c (off + 1) (by simp only [TCP_CHECKSUM]; omega)
      (by simp only [TCP_CHECKSUM]; omega)]

/-- A 32-bit field that does not overlap the checksum field reads the same after the
checksum field is overwritten. -/
theorem get_u32_put_checksum (pkt : List Nat) (c off : Nat) (h : off + 3 < TCP_CHECKSUM) :
    get_u32 (put_u16 pkt TCP_CHECKSUM c) off = get_u32 pkt off := by
  simp only [TCP_CHECKSUM] at h
  unfold get_u32
  rw [getD_put_u16_ne pkt TCP_CHECKSUM c off (by simp only [TCP_CHECKSUM]; omega)
      (by simp only [TCP_CHECKSUM]; omega),
    getD_put_u16_ne pkt TCP_CHECKSUM c (off + 1) (by simp only [TCP_CHECKSUM]; omega)
      (by simp only [TCP_CHECKSUM]; omega),
    getD_put_u16_ne pkt TCP_CHECKSUM c (off + 2) (by simp only [TCP_CHECKSUM]; omega)
      (by simp only [TCP_CHECKSUM]; omega),
    getD_put_u16_ne pkt TCP_CHECKSUM c (off + 3) (by simp only [TCP_CHECKSUM]; omega)
      (by simp only [TCP_CHECKSUM]; omega)]

/-- What lies behind the header is the same after the checksum field is overwritten. -/
theorem drop_put_checksum (pkt : List Nat) (c h : Nat) (hh : TCP_HEADER_LEN ≤ h) :
    (put_u16 pkt TCP_CHECKSUM c).drop h = pkt.drop h := by
  simp only [TCP_HEADER_LEN] at hh
  unfold put_u16
  rw [List.drop_set_of_lt _ _ (by simp only [TCP_CHECKSUM]; omega),
    List.drop_set_of_lt _ _ (by simp only [TCP_CHECKSUM]; omega)]

/-- The dispatch reads of the segment only what lies behind the header. -/
theorem tcp_dispatch_app_congr (accept : Nat → Nat → Nat)
    (on_data : List Nat → Nat → Net → Net) (now : Nat) (p q : List Nat)
    (src_ip src_port seq_num ack_num flags hdr_len data_len : Nat) (s : Net)
    (h : p.drop hdr_len = q.drop hdr_len) :
    tcp_dispatch_app accept on_data now p src_ip src_port seq_num ack_num flags hdr_len
        data_len s
      = tcp_dispatch_app accept on_data now q src_ip src_port seq_num ack_num flags hdr_len
        data_len s := by
  unfold tcp_dispatch_app
  simp only [h]

/-- The function `tcp_receive` does not read the checksum field: a segment is handled in
the same way whatever the two bytes of the field are. -/
theorem tcp_receive_app_ignores_field (accept : Nat → Nat → Nat)
    (on_data : List Nat → Nat → Net → Net) (now : Nat) (pkt : List Nat)
    (len src_ip : Nat) (s : Net) (c : Nat) :
    tcp_receive_app accept on_data now (put_u16 pkt TCP_CHECKSUM c) len src_ip s
      = tcp_receive_app accept on_data now pkt len src_ip s := by
  unfold tcp_receive_app
  simp only [get_u16_put_checksum pkt c TCP_SRC_PORT (by decide),
    get_u16_put_checksum pkt c TCP_DST_PORT (by decide),
    get_u32_put_checksum pkt c TCP_SEQ_OFF (by decide),
    get_u32_put_checksum pkt c TCP_ACK_OFF (by decide),
    getD_put_u16_ne pkt TCP_CHECKSUM c TCP_DATA_OFF (by decide) (by decide),
    getD_put_u16_ne pkt TCP_CHECKSUM c TCP_FLAGS (by decide) (by decide)]
  split
  · rfl
  · split
    · rfl
    · rename_i h1 h2
      split
      · rfl
      · unfold tcp_input_app
        rw [tcp_dispatch_app_congr accept on_data now (put_u16 pkt TCP_CHECKSUM c) pkt _ _ _ _
          _ _ _ s (drop_put_checksum pkt c _ (by omega))]

/-- C23 (amended): `tcp_receive` does not verify the TCP checksum. A segment of bytes is
handled in the same way whatever its checksum field holds, in particular as the same
segment with the matching checksum (the value `tcp_checksum` gives over the pseudo-header
and the segment with the field zeroed); it is dropped without any effect when it fails the
acceptance tests (length, data offset, destination port). -/
theorem tcp_receive_app_checksum (accept : Nat → Nat → Nat)
    (on_data : List Nat → Nat → Net → Net) (now : Nat) (pkt : List Nat)
    (len src_ip : Nat) (s : Net) (hb : ∀ b ∈ pkt, b < 256) :
    (∀ c, tcp_receive_app accept on_data now (put_u16 pkt TCP_CHECKSUM c) len src_ip s
      = tcp_receive_app accept on_data now pkt len src_ip s) ∧
    tcp_receive_app accept on_data now pkt len src_ip s
      = tcp_receive_app accept on_data now
          (put_u16 pkt TCP_CHECKSUM
            (tcp_checksum (put_u16 pkt TCP_CHECKSUM 0) len src_ip s.LOCAL_IP))
          len src_ip s ∧
    (¬ tcp_accepts s.tcp_local_port pkt len →
      tcp_receive_app accept on_data now pkt len src_ip s = s) :=
  ⟨fun c => tcp_receive_app_ignores_field accept on_data now pkt len src_ip s c,
    (tcp_receive_app_ignores_field accept on_data now pkt len src_ip s _).symm,
    fun hna => tcp_receive_app_of_not_accepts accept on_data now pkt len src_ip s hb hna⟩

/-- C23 witness: the GET segment with checksum field 0 is handled as the GET segment with
the matching checksum 0x467B. -/
theorem tcp_receive_app_checksum_witness :
    tcp_checksum (put_u16 sample_get TCP_CHECKSUM 0) 28 0xC0A8010A
      sample_established.LOCAL_IP = 0x467B ∧
    tcp_receive_app (fun _ _ => 1) sample_store 6 sample_get 28 0xC0A8010A sample_established
      = tcp_receive_app (fun _ _ => 1) sample_store 6
          (put_u16 sample_get TCP_CHECKSUM
            (tcp_checksum (put_u16 sample_get TCP_CHECKSUM 0) 28 0xC0A8010A
              sample_established.LOCAL_IP))
          28 0xC0A8010A sample_established :=
  ⟨by decide,
    (tcp_receive_app_checksum (fun _ _ => 1) sample_store 6 sample_get 28 0xC0A8010A
      sample_established (by decide)).2.1⟩

/-- C23 counterexample: segments whose checksum field does not match are not dropped. The
SYN of the handshake has the checksum field 0 where the checksum over the pseudo-header
and the segment is 0x1F00: in LISTEN the application is asked, a SYN|ACK datagram goes
out and the slot moves to SYN_RECEIVED. The GET segment has the field 0 where the checksum
is 0x467B: in ESTABLISHED the receive sequence number moves from 101 to 109 and the 8
payload bytes are handed to the application. -/
theorem tcp_receive_app_bad_checksum :
    tcp_checksum (put_u16 sample_syn TCP_CHECKSUM 0) 20 0xC0A8010A sample_listen.LOCAL_IP
      = 0x1F00 ∧
    get_u16 sample_syn TCP_CHECKSUM = 0 ∧
    tcp_checksum sample_syn 20 0xC0A8010A sample_listen.LOCAL_IP ≠ 0 ∧
    sample_listen.tcp_state = TCP_STATE_LISTEN ∧
    (tcp_receive_app (fun _ _ => 1) sample_store 5 sample_syn 20 0xC0A8010A
      sample_listen).tcp_state = TCP_STATE_SYN_RECEIVED ∧
    accept_events (tcp_receive_app (fun _ _ => 1) sample_store 5 sample_syn 20 0xC0A8010A
      sample_listen).out = [(0xC0A8010A, 1234)] ∧
    (wire_bytes (tcp_receive_app (fun _ _ => 1) sample_store 5 sample_syn 20 0xC0A8010A
      sample_listen).out).length = 44 ∧
    tcp_checksum (put_u16 sample_get TCP_CHECKSUM 0) 28 0xC0A8010A
      sample_established.LOCAL_IP = 0x467B ∧
    get_u16 sample_get TCP_CHECKSUM = 0 ∧
    tcp_checksum sample_get 28 0xC0A8010A sample_established.LOCAL_IP ≠ 0 ∧
    sample_established.tcp_ack_num = 101 ∧
    (tcp_receive_app (fun _ _ => 1) sample_store 6 sample_get 28 0xC0A8010A
      sample_established).tcp_ack_num = 109 ∧
    data_events (tcp_receive_app (fun _ _ => 1) sample_store 6 sample_get 28 0xC0A8010A
      sample_established).out = [[0x47, 0x45, 0x54, 0x20, 0x2F, 0x0D, 0x0A, 0x0A]] := by
  decide

/-! ## Application calls: send in ESTABLISHED -/

/-- C15 (amended): in ESTABLISHED, a call `tcp_send(bytes, len)` with len ≤ 64 leaves the
retransmit cell holding the len sent bytes, with the send sequence number before the call,
the current tick and attempt counter 0; exactly one datagram is emitted, whose segment has
flags PSH|ACK, the pre-send sequence number and the len payload bytes; the send sequence
number has advanced by len (mod 2^32). -/
theorem tcp_send_established (now : Nat) (data : List Nat) (len : Nat) (s : Net)
    (hst : s.tcp_state = TCP_STATE_ESTABLISHED) (hdata : len ≤ data.length)
    (hlen : len ≤ RETX_BUF_SIZE) :
    tcp_send now data len s =
      { s with
        retx_buf := memcpy s.retx_buf 0 data len
        retx_len := len
        retx_seq := s.tcp_seq_num
        retx_time := now
        retx_attempts := 0
        tcp_seq_num := (s.tcp_seq_num + len) % 2 ^ 32
        ip_id := (s.ip_id + 1) % 2 ^ 16
        out := s.out ++ (slip_send (ip_datagram s.LOCAL_IP s.ip_id s.tcp_remote_ip
          IP_PROTO_TCP (tcp_segment s (TCP_PSH ||| TCP_ACK) data len) (20 + len))
            (40 + len)).map Event.tx_putchar } ∧
    (memcpy s.retx_buf 0 data len).take len = data.take len ∧
    (tcp_segment s (TCP_PSH ||| TCP_ACK) data len).getD TCP_FLAGS 0 = TCP_PSH ||| TCP_ACK ∧
    get_u32 (tcp_segment s (TCP_PSH ||| TCP_ACK) data len) TCP_SEQ_OFF
      = s.tcp_seq_num % 2 ^ 32 ∧
    ((tcp_segment s (TCP_PSH ||| TCP_ACK) data len).drop TCP_HEADER_LEN).take len
      = data.take len ∧
    ((ip_datagram s.LOCAL_IP s.ip_id s.tcp_remote_ip IP_PROTO_TCP
        (tcp_segment s (TCP_PSH ||| TCP_ACK) data len) (20 + len)).drop IP_HEADER_LEN).take
          (20 + len)
      = (tcp_segment s (TCP_PSH ||| TCP_ACK) data len).take (20 + len) := by
  simp only [RETX_BUF_SIZE] at hlen
  have hf := tcp_segment_fields s (TCP_PSH ||| TCP_ACK) data len
  have hl : 20 + len ≤ (tcp_segment s (TCP_PSH ||| TCP_ACK) data len).length := by
    obtain ⟨c1, c2, tail, e⟩ := tcp_segment_bytes s (TCP_PSH ||| TCP_ACK) data len
    rw [e]
    simp only [List.length_append, List.length_cons, List.length_nil, List.length_map,
      List.length_range]
    omega
  refine ⟨?_, memcpy_zero_take _ _ _ hdata, hf.1, hf.2.2.2.2.1, ?_, ?_⟩
  · unfold tcp_send
    have e1 : len % 256 = len := Nat.mod_eq_of_lt (by omega)
    simp only [e1, hst, ne_eq, not_true_eq_false, if_false, RETX_BUF_SIZE, hlen, if_true]
    rw [tcp_send_flags_small (TCP_PSH ||| TCP_ACK) data len 0 _ hlen (by decide)]
    rw [tcp_segment_congr s _ _ _ _ rfl rfl rfl rfl rfl rfl]
    rfl
  · rw [hf.2.2.2.2.2.2, range_map_getD data len hdata]
  · rw [ip_datagram_payload, range_map_getD _ _ hl]

/-- C15 witness: the established sample server sends the 5 bytes of HELLO at tick 7. -/
theorem tcp_send_established_witness :
    (tcp_send 7 [72, 69, 76, 76, 79] 5 sample_established).retx_len = 5 ∧
    (tcp_send 7 [72, 69, 76, 76, 79] 5 sample_established).retx_buf.take 5
      = [72, 69, 76, 76, 79] ∧
    (tcp_send 7 [72, 69, 76, 76, 79] 5 sample_established).retx_seq = 1001 ∧
    (tcp_send 7 [72, 69, 76, 76, 79] 5 sample_established).retx_time = 7 ∧
    (tcp_send 7 [72, 69, 76, 76, 79] 5 sample_established).tcp_seq_num = 1006 := by
  have h := tcp_send_established 7 [72, 69, 76, 76, 79] 5 sample_established (by decide)
    (by decide) (by decide)
  refine ⟨by rw [h.1], ?_, by rw [h.1]; decide, by rw [h.1], by rw [h.1]; decide⟩
  rw [h.1]
  exact h.2.1

/-- C15 counterexample: a send of 65 bytes at tick 7 leaves the length of the retransmit
cell of the established sample server at 0 and its send time at 0: the cell does not take
the first 64 bytes and does not record the tick. -/
theorem tcp_send_established_fails :
    sample_established.tcp_state = TCP_STATE_ESTABLISHED ∧
    sample_established.retx_len = 0 ∧
    (tcp_send 7 (List.replicate 65 0x41) 65 sample_established).retx_len = 0 ∧
    (tcp_send 7 (List.replicate 65 0x41) 65 sample_established).retx_time = 0 := by
  decide

end Httpofo
